import Mathlib

/-!
Verification of the HID report-descriptor compiler in `HidDescriptor.hpp`
(`hid::detail`): a shallow embedding of the integer codec, the encoding
tables, the name resolver `findEncoding`, the diagnostic emitter
`ErrorWriter::at` and the single-pass `compile` state machine, together
with theorems about them.

Bytes are modelled as `Nat` values `0 ≤ b ≤ 255`, pointers into the source
as offsets, 32-bit unsigned arithmetic as `Nat` arithmetic modulo `2 ^ 32`
written out explicitly, and the `int`-typed depth counters as `Int`.
-/

namespace HidDesc

/-- Byte sequence of a string literal (ASCII in all uses below). -/
def bs (s : String) : List Nat := s.toList.map Char.toNat

/-- Reads the byte at offset `i`; offsets are only read under the bounds
checks that the C++ code performs, the default is the value `0` of the
guaranteed NUL terminator. -/
def byteAt (src : List Nat) (i : Nat) : Nat := src.getD i 0

/-- `hid::detail::toLower`. -/
def toLower (val : Nat) : Nat :=
  if 65 ≤ val ∧ val ≤ 90 then val - 65 + 97 else val

/-- `hid::detail::toUpper`. -/
def toUpper (val : Nat) : Nat :=
  if 97 ≤ val ∧ val ≤ 122 then val - 97 + 65 else val

/-- `hid::detail::isComment`: `#` or `;`. -/
def isComment (val : Nat) : Bool := val = 35 ∨ val = 59

/-- `hid::detail::isWhitespace`: space, TAB, LF, VT, FF, CR. -/
def isWhitespace (val : Nat) : Bool :=
  val = 32 ∨ val = 9 ∨ val = 10 ∨ val = 11 ∨ val = 12 ∨ val = 13

/-- `hid::detail::isAlpha`. -/
def isAlpha (val : Nat) : Bool :=
  (97 ≤ val ∧ val ≤ 122) ∨ (65 ≤ val ∧ val ≤ 90)

/-- `hid::detail::isDigit`. -/
def isDigit (val : Nat) : Bool := 48 ≤ val ∧ val ≤ 57

/-- `hid::detail::isHexDigit`. -/
def isHexDigit (val : Nat) : Bool :=
  isDigit val ∨ (97 ≤ val ∧ val ≤ 102) ∨ (65 ≤ val ∧ val ≤ 70)

/-- `hid::detail::isItemChar`: `_` or a letter. -/
def isItemChar (val : Nat) : Bool := val = 95 ∨ isAlpha val

/-- `hid::detail::isArgChar`: `_`, a letter or a digit. -/
def isArgChar (val : Nat) : Bool := val = 95 ∨ isAlpha val ∨ isDigit val

/-- `hid::error::EMessage`: the closed set of compile error categories. -/
inductive EMessage where
  | E_NO_ERROR
  | E_Internal_error
  | E_Unexpected_token
  | E_Number_overflow
  | E_Parameter_value_out_of_range
  | E_Unexpected_end_of_source
  | E_Expected_valid_parameter_name_here
  | E_Invalid_item_name
  | E_Missing_argument
  | E_Missing_named_UsagePage
  | E_Missing_UsagePage
  | E_Missing_Usage_for_Collection
  | E_This_item_has_no_arguments
  | E_Unexpected_item_name_character
  | E_Invalid_argument_name
  | E_Argument_value_out_of_range
  | E_Argument_index_out_of_range
  | E_Unexpected_argument_name_character
  | E_Unexpected_unit_name_character
  | E_Invalid_unit_system_name
  | E_Invalid_unit_name
  | E_Invalid_unit_exponent
  | E_Unexpected_EndCollection
  | E_Unexpected_DelimiterClose
  | E_Unexpected_Delimiter_value
  | E_Missing_EndCollection
  | E_Missing_DelimiterClose
  | E_Missing_ReportSize
  | E_Missing_ReportCount
  | E_Invalid_hex_value
  | E_Invalid_numeric_value
  | E_Negative_numbers_are_not_allowed_in_this_context
  deriving DecidableEq, Repr

export EMessage (E_NO_ERROR E_Internal_error E_Unexpected_token E_Number_overflow
  E_Parameter_value_out_of_range E_Unexpected_end_of_source
  E_Expected_valid_parameter_name_here E_Invalid_item_name E_Missing_argument
  E_Missing_named_UsagePage E_Missing_UsagePage E_Missing_Usage_for_Collection
  E_This_item_has_no_arguments E_Unexpected_item_name_character
  E_Invalid_argument_name E_Argument_value_out_of_range
  E_Argument_index_out_of_range E_Unexpected_argument_name_character
  E_Unexpected_unit_name_character E_Invalid_unit_system_name
  E_Invalid_unit_name E_Invalid_unit_exponent E_Unexpected_EndCollection
  E_Unexpected_DelimiterClose E_Unexpected_Delimiter_value
  E_Missing_EndCollection E_Missing_DelimiterClose E_Missing_ReportSize
  E_Missing_ReportCount E_Invalid_hex_value E_Invalid_numeric_value
  E_Negative_numbers_are_not_allowed_in_this_context)

/-- `hid::error::Info`: the diagnostic record, default-constructed to
`{0, 0, 0, E_NO_ERROR}`. -/
structure Info where
  character : Nat := 0
  line : Nat := 0
  column : Nat := 0
  message : EMessage := E_NO_ERROR
  deriving DecidableEq, Repr

/-- One iteration of the position-scanning loop of `ErrorWriter::at`:
processes the byte `c` at one offset below `pos`. -/
def atStep (i : Info) (c : Nat) : Info :=
  let i1 := if c &&& 0xC0 ≠ 0x80 then { i with character := i.character + 1 } else i
  if c = 10 then { i1 with line := i1.line + 1, column := 1 }
  else if c ≠ 13 then
    (if c &&& 0xC0 ≠ 0x80 then { i1 with column := i1.column + 1 } else i1)
  else i1

/-- `hid::error::ErrorWriter::at`: fills the diagnostic for byte position
`pos` and error message `msg` (in the C++ code the member returns `false`
after storing this record through its reference). -/
def errorAt (src : List Nat) (pos : Nat) (msg : EMessage) : Info :=
  ((List.range pos).map (byteAt src)).foldl atStep
    { character := 0, line := 1, column := 1, message := msg }

/-- `hid::detail::encodedSize(uint32_t)`. -/
def encodedSize (val : Nat) : Nat :=
  if val > 0xFFFF then 4 else if val > 0xFF then 2 else 1

/-- `hid::detail::encodedSize(int32_t)`. -/
def encodedSizeS (val : Int) : Nat :=
  let absVal : Int := if val < 0 then -val - 1 else val
  if absVal > 0x7FFF then 4 else if absVal > 0x7F then 2 else 1

/-- `hid::detail::encodedSizeValue`: 4 ↦ 3, 2 ↦ 2, 1 ↦ 1, other ↦ 0. -/
def encodedSizeValue (val : Nat) : Nat :=
  if val = 4 then 3 else if val = 2 then 2 else if val = 1 then 1 else 0

/-- `hid::detail::encodeValue`: the `len` little-endian bytes of `val`
(masking and shifting by 8 bit as in the C++ code, written as `% 256` and
`/ 2 ^ 8` on `Nat`). -/
def encodeValue (val : Nat) (len : Nat) : List Nat :=
  [val % 256] ++
    (if len > 1 then
      [val / 2 ^ 8 % 256] ++
        (if len > 2 then [val / 2 ^ 16 % 256, val / 2 ^ 24 % 256] else [])
    else [])

/-- `hid::detail::encodeUnsigned`. -/
def encodeUnsigned (val : Nat) : List Nat := encodeValue val (encodedSize val)

/-- Two's-complement value of an `Int` at 32 bit, as the `Nat` that
`uint32_t(v)` holds. -/
def toUInt32n (v : Int) : Nat := (v % 2 ^ 32).toNat

/-- Value-preserving narrowing `int32_t → int16_t` as used by
`encodeSigned` (only applied when the value fits). -/
def toInt16w (v : Int) : Int := (v + 2 ^ 15) % 2 ^ 16 - 2 ^ 15

/-- Value-preserving narrowing `int32_t → int8_t` as used by
`encodeSigned` (only applied when the value fits). -/
def toInt8w (v : Int) : Int := (v + 2 ^ 7) % 2 ^ 8 - 2 ^ 7

/-- `hid::detail::encodeSigned`: chooses 4, 2 or 1 bytes by the
sign-folded magnitude and writes the two's-complement little-endian
representation at that width. -/
def encodeSigned (val : Int) : List Nat :=
  let absVal : Int := if val < 0 then -val - 1 else val
  if absVal > 0x7FFF then encodeValue (toUInt32n val) 4
  else if absVal > 0x7F then encodeValue (toUInt32n (toInt16w val)) 2
  else encodeValue (toUInt32n (toInt8w val)) 1

/-- Little-endian decoding of a byte list (specification side, for the
round-trip property). -/
def decodeLE : List Nat → Nat
  | [] => 0
  | b :: rest => b + 256 * decodeLE rest

/-- Sign extension of a `w`-bit two's-complement value to an integer
(specification side, for the round-trip property). -/
def signExtend (w : Nat) (x : Nat) : Int :=
  if x < 2 ^ (w - 1) then (x : Int) else (x : Int) - 2 ^ w

/-- `hid::detail::UsageType` flag values (stored in the `type` field of an
encoding entry; recorded by the tables but not read by the compiler). -/
def UT_NONE : Nat := 0

def UT_LC   : Nat := 1

def UT_OOC  : Nat := 2

def UT_MC   : Nat := 4

def UT_OSC  : Nat := 8

def UT_RTC  : Nat := 16

def UT_SEL  : Nat := 32

def UT_SV   : Nat := 64

def UT_SF   : Nat := 128

def UT_DV   : Nat := 256

def UT_DF   : Nat := 512

def UT_NARY : Nat := 1024

def UT_CA   : Nat := 2048

def UT_CL   : Nat := 4096

def UT_CP   : Nat := 8192

def UT_US   : Nat := 16384

def UT_UM   : Nat := 32768

def UT_BB   : Nat := 65536

/-- Child-table reference of an `Encoding` entry: the C++ code stores a pointer that
is either `NULL`, one of five sentinel tables compared by identity, or a concrete
argument map; we enumerate all of them as tags and map tags to entry lists via `tableOf`. -/
inductive ArgRef where
  | null
  | numArg
  | signedNumArg
  | clearArg
  | usageArg
  | endCol
  | colArgMap
  | inputArgMap
  | outputFeatureArgMap
  | unitExpMap
  | unitMap
  | unitSystemMap
  | delimMap
  | genDeskMap
  | simCtrlMap
  | vrCtrlMap
  | sportCtrlMap
  | gameCtrlMap
  | genDevCtrlMap
  | keyboardMap
  | ledMap
  | buttonMap
  | ordinalMap
  | telDevMap
  | consumerMap
  | digitizersMap
  | hapticsMap
  | pidMap
  | unicodeMap
  | eyeHeadMap
  | auxDisplayMap
  | sensorMap
  | medInstMap
  | brailleMap
  | lightMap
  | monitorMap
  | monitorEnumMap
  | vesaCtrlMap
  | pwrDevMap
  | barcodeMap
  | weightDevMap
  | msrMap
  | cameraCtrlMap
  | arcadeMap
  | fidoMap
  | usagePageMap
  | itemMap
  deriving DecidableEq, Repr

/-- `hid::detail::Encoding`: one table entry. `name` holds the byte values
of the C string, `value` the encoded 32-bit value, `type` the usage-type
flag set and `arg` the child-table pointer. -/
structure Encoding where
  name : List Nat
  value : Nat
  type : Nat
  arg : ArgRef
  deriving DecidableEq, Repr

/-- The default entry models the `endOfMap` terminator (NULL name). -/
instance : Inhabited Encoding := ⟨Encoding.mk [] 0 UT_NONE ArgRef.null⟩

def numArg : List Encoding := []

def signedNumArg : List Encoding := []

def clearArg : List Encoding := []

def usageArg : List Encoding := []

def endCol : List Encoding := []

def colArgMap : List Encoding := [
  Encoding.mk (bs ("Physical")) 0x00 (UT_NONE) ArgRef.null,
  Encoding.mk (bs ("Application")) 0x01 (UT_NONE) ArgRef.null,
  Encoding.mk (bs ("Logical")) 0x02 (UT_NONE) ArgRef.null,
  Encoding.mk (bs ("Report")) 0x03 (UT_NONE) ArgRef.null,
  Encoding.mk (bs ("NamedArray")) 0x04 (UT_NONE) ArgRef.null,
  Encoding.mk (bs ("UsageSwitch")) 0x05 (UT_NONE) ArgRef.null,
  Encoding.mk (bs ("UsageModifier")) 0x06 (UT_NONE) ArgRef.null
]

def inputArgMap : List Encoding := [
  Encoding.mk (bs ("Data")) 0x001 (UT_NONE) ArgRef.clearArg,
  Encoding.mk (bs ("Cnst")) 0x001 (UT_NONE) ArgRef.null,
  Encoding.mk (bs ("Ary")) 0x002 (UT_NONE) ArgRef.clearArg,
  Encoding.mk (bs ("Var")) 0x002 (UT_NONE) ArgRef.null,
  Encoding.mk (bs ("Abs")) 0x004 (UT_NONE) ArgRef.clearArg,
  Encoding.mk (bs ("Rel")) 0x004 (UT_NONE) ArgRef.null,
  Encoding.mk (bs ("NWarp")) 0x008 (UT_NONE) ArgRef.clearArg,
  Encoding.mk (bs ("Warp")) 0x008 (UT_NONE) ArgRef.null,
  Encoding.mk (bs ("Lin")) 0x010 (UT_NONE) ArgRef.clearArg,
  Encoding.mk (bs ("NLin")) 0x010 (UT_NONE) ArgRef.null,
  Encoding.mk (bs ("Prf")) 0x020 (UT_NONE) ArgRef.clearArg,
  Encoding.mk (bs ("NPrf")) 0x020 (UT_NONE) ArgRef.null,
  Encoding.mk (bs ("NNull")) 0x040 (UT_NONE) ArgRef.clearArg,
  Encoding.mk (bs ("Null")) 0x040 (UT_NONE) ArgRef.null,
  Encoding.mk (bs ("Bit")) 0x100 (UT_NONE) ArgRef.clearArg,
  Encoding.mk (bs ("Buf")) 0x100 (UT_NONE) ArgRef.null
]

def outputFeatureArgMap : List Encoding := [
  Encoding.mk (bs ("Data")) 0x001 (UT_NONE) ArgRef.clearArg,
  Encoding.mk (bs ("Cnst")) 0x001 (UT_NONE) ArgRef.null,
  Encoding.mk (bs ("Ary")) 0x002 (UT_NONE) ArgRef.clearArg,
  Encoding.mk (bs ("Var")) 0x002 (UT_NONE) ArgRef.null,
  Encoding.mk (bs ("Abs")) 0x004 (UT_NONE) ArgRef.clearArg,
  Encoding.mk (bs ("Rel")) 0x004 (UT_NONE) ArgRef.null,
  Encoding.mk (bs ("NWarp")) 0x008 (UT_NONE) ArgRef.clearArg,
  Encoding.mk (bs ("Warp")) 0x008 (UT_NONE) ArgRef.null,
  Encoding.mk (bs ("Lin")) 0x010 (UT_NONE) ArgRef.clearArg,
  Encoding.mk (bs ("NLin")) 0x010 (UT_NONE) ArgRef.null,
  Encoding.mk (bs ("Prf")) 0x020 (UT_NONE) ArgRef.clearArg,
  Encoding.mk (bs ("NPrf")) 0x020 (UT_NONE) ArgRef.null,
  Encoding.mk (bs ("NNull")) 0x040 (UT_NONE) ArgRef.clearArg,
  Encoding.mk (bs ("Null")) 0x040 (UT_NONE) ArgRef.null,
  Encoding.mk (bs ("NVol")) 0x080 (UT_NONE) ArgRef.clearArg,
  Encoding.mk (bs ("Vol")) 0x080 (UT_NONE) ArgRef.null,
  Encoding.mk (bs ("Bit")) 0x100 (UT_NONE) ArgRef.clearArg,
  Encoding.mk (bs ("Buf")) 0x100 (UT_NONE) ArgRef.null
]

def unitExpMap : List Encoding := [
  Encoding.mk (bs ("0")) 0x0 (UT_NONE) ArgRef.null,
  Encoding.mk (bs ("1")) 0x1 (UT_NONE) ArgRef.null,
  Encoding.mk (bs ("2")) 0x2 (UT_NONE) ArgRef.null,
  Encoding.mk (bs ("3")) 0x3 (UT_NONE) ArgRef.null,
  Encoding.mk (bs ("4")) 0x4 (UT_NONE) ArgRef.null,
  Encoding.mk (bs ("5")) 0x5 (UT_NONE) ArgRef.null,
  Encoding.mk (bs ("6")) 0x6 (UT_NONE) ArgRef.null,
  Encoding.mk (bs ("7")) 0x7 (UT_NONE) ArgRef.null,
  Encoding.mk (bs ("-8")) 0x8 (UT_NONE) ArgRef.null,
  Encoding.mk (bs ("-7")) 0x9 (UT_NONE) ArgRef.null,
  Encoding.mk (bs ("-6")) 0xA (UT_NONE) ArgRef.null,
  Encoding.mk (bs ("-5")) 0xB (UT_NONE) ArgRef.null,
  Encoding.mk (bs ("-4")) 0xC (UT_NONE) ArgRef.null,
  Encoding.mk (bs ("-3")) 0xD (UT_NONE) ArgRef.null,
  Encoding.mk (bs ("-2")) 0xE (UT_NONE) ArgRef.null,
  Encoding.mk (bs ("-1")) 0xF (UT_NONE) ArgRef.null
]

def unitMap : List Encoding := [
  Encoding.mk (bs ("Length")) 1 (UT_NONE) ArgRef.unitExpMap,
  Encoding.mk (bs ("Mass")) 2 (UT_NONE) ArgRef.unitExpMap,
  Encoding.mk (bs ("Time")) 3 (UT_NONE) ArgRef.unitExpMap,
  Encoding.mk (bs ("Temp")) 4 (UT_NONE) ArgRef.unitExpMap,
  Encoding.mk (bs ("Current")) 5 (UT_NONE) ArgRef.unitExpMap,
  Encoding.mk (bs ("Luminous")) 6 (UT_NONE) ArgRef.unitExpMap
]

def unitSystemMap : List Encoding := [
  Encoding.mk (bs ("None")) 0x00 (UT_NONE) ArgRef.unitMap,
  Encoding.mk (bs ("SiLin")) 0x01 (UT_NONE) ArgRef.unitMap,
  Encoding.mk (bs ("SiRot")) 0x02 (UT_NONE) ArgRef.unitMap,
  Encoding.mk (bs ("EngLin")) 0x03 (UT_NONE) ArgRef.unitMap,
  Encoding.mk (bs ("EngRot")) 0x04 (UT_NONE) ArgRef.unitMap
]

def delimMap : List Encoding := [
  Encoding.mk (bs ("Close")) 0x00 (UT_NONE) ArgRef.null,
  Encoding.mk (bs ("Open")) 0x01 (UT_NONE) ArgRef.null
]

def genDeskMap : List Encoding := [
  Encoding.mk (bs ("Pointer")) 0x01 (UT_CP) ArgRef.null,
  Encoding.mk (bs ("Mouse")) 0x02 (UT_CA) ArgRef.null,
  Encoding.mk (bs ("Joystick")) 0x04 (UT_CA) ArgRef.null,
  Encoding.mk (bs ("Gamepad")) 0x05 (UT_CA) ArgRef.null,
  Encoding.mk (bs ("Keyboard")) 0x06 (UT_CA) ArgRef.null,
  Encoding.mk (bs ("Keypad")) 0x07 (UT_CA) ArgRef.null,
  Encoding.mk (bs ("MultiAxisController")) 0x08 (UT_CA) ArgRef.null,
  Encoding.mk (bs ("TabletPcSystemControls")) 0x09 (UT_CA) ArgRef.null,
  Encoding.mk (bs ("WaterCoolingDevice")) 0x0A (UT_CA) ArgRef.null,
  Encoding.mk (bs ("ComputerChassisDevice")) 0x0B (UT_CA) ArgRef.null,
  Encoding.mk (bs ("WirelessRadioControls")) 0x0C (UT_CA) ArgRef.null,
  Encoding.mk (bs ("PortableDeviceControl")) 0x0D (UT_CA) ArgRef.null,
  Encoding.mk (bs ("SystemMultiAxisController")) 0x0E (UT_CA) ArgRef.null,
  Encoding.mk (bs ("SpatialController")) 0x0F (UT_CA) ArgRef.null,
  Encoding.mk (bs ("AssistiveControl")) 0x10 (UT_CA) ArgRef.null,
  Encoding.mk (bs ("DeviceDock")) 0x11 (UT_CA) ArgRef.null,
  Encoding.mk (bs ("DockableDevice")) 0x12 (UT_CA) ArgRef.null,
  Encoding.mk (bs ("X")) 0x30 (UT_DV) ArgRef.null,
  Encoding.mk (bs ("Y")) 0x31 (UT_DV) ArgRef.null,
  Encoding.mk (bs ("Z")) 0x32 (UT_DV) ArgRef.null,
  Encoding.mk (bs ("Rx")) 0x33 (UT_DV) ArgRef.null,
  Encoding.mk (bs ("Ry")) 0x34 (UT_DV) ArgRef.null,
  Encoding.mk (bs ("Rz")) 0x35 (UT_DV) ArgRef.null,
  Encoding.mk (bs ("Slider")) 0x36 (UT_DV) ArgRef.null,
  Encoding.mk (bs ("Dial")) 0x37 (UT_DV) ArgRef.null,
  Encoding.mk (bs ("Wheel")) 0x38 (UT_DV) ArgRef.null,
  Encoding.mk (bs ("HatSwitch")) 0x39 (UT_DV) ArgRef.null,
  Encoding.mk (bs ("CountedBuffer")) 0x3A (UT_CL) ArgRef.null,
  Encoding.mk (bs ("ByteCount")) 0x3B (UT_DV) ArgRef.null,
  Encoding.mk (bs ("MotionWakeup")) 0x3C (UT_OSC ||| UT_DF) ArgRef.null,
  Encoding.mk (bs ("Start")) 0x3D (UT_OOC) ArgRef.null,
  Encoding.mk (bs ("Select")) 0x3E (UT_OOC) ArgRef.null,
  Encoding.mk (bs ("Vx")) 0x40 (UT_DV) ArgRef.null,
  Encoding.mk (bs ("Vy")) 0x41 (UT_DV) ArgRef.null,
  Encoding.mk (bs ("Vz")) 0x42 (UT_DV) ArgRef.null,
  Encoding.mk (bs ("Vbrx")) 0x43 (UT_DV) ArgRef.null,
  Encoding.mk (bs ("Vbry")) 0x44 (UT_DV) ArgRef.null,
  Encoding.mk (bs ("Vbrz")) 0x45 (UT_DV) ArgRef.null,
  Encoding.mk (bs ("Vno")) 0x46 (UT_DV) ArgRef.null,
  Encoding.mk (bs ("FeatureNotification")) 0x47 (UT_DV ||| UT_DF) ArgRef.null,
  Encoding.mk (bs ("ResolutionMultiplier")) 0x48 (UT_DV) ArgRef.null,
  Encoding.mk (bs ("Qx")) 0x49 (UT_DV) ArgRef.null,
  Encoding.mk (bs ("Qy")) 0x4A (UT_DV) ArgRef.null,
  Encoding.mk (bs ("Qz")) 0x4B (UT_DV) ArgRef.null,
  Encoding.mk (bs ("Qw")) 0x4C (UT_DV) ArgRef.null,
  Encoding.mk (bs ("SystemControl")) 0x80 (UT_CA) ArgRef.null,
  Encoding.mk (bs ("SystemPowerDown")) 0x81 (UT_OSC) ArgRef.null,
  Encoding.mk (bs ("SystemSleep")) 0x82 (UT_OSC) ArgRef.null,
  Encoding.mk (bs ("SystemWakeUp")) 0x83 (UT_OSC) ArgRef.null,
  Encoding.mk (bs ("SystemContextMenu")) 0x84 (UT_OSC) ArgRef.null,
  Encoding.mk (bs ("SystemMainMenu")) 0x85 (UT_OSC) ArgRef.null,
  Encoding.mk (bs ("SystemAppMenu")) 0x86 (UT_OSC) ArgRef.null,
  Encoding.mk (bs ("SystemMenuHelp")) 0x87 (UT_OSC) ArgRef.null,
  Encoding.mk (bs ("SystemMenuExit")) 0x88 (UT_OSC) ArgRef.null,
  Encoding.mk (bs ("SystemMenuSelect")) 0x89 (UT_OSC) ArgRef.null,
  Encoding.mk (bs ("SystemMenuRight")) 0x8A (UT_RTC) ArgRef.null,
  Encoding.mk (bs ("SystemMenuLeft")) 0x8B (UT_RTC) ArgRef.null,
  Encoding.mk (bs ("SystemMenuUp")) 0x8C (UT_RTC) ArgRef.null,
  Encoding.mk (bs ("SystemMenuDown")) 0x8D (UT_RTC) ArgRef.null,
  Encoding.mk (bs ("SystemColdRestart")) 0x8E (UT_OSC) ArgRef.null,
  Encoding.mk (bs ("SystemWarmRestart")) 0x8F (UT_OSC) ArgRef.null,
  Encoding.mk (bs ("DpadUp")) 0x90 (UT_OOC) ArgRef.null,
  Encoding.mk (bs ("DpadDown")) 0x91 (UT_OOC) ArgRef.null,
  Encoding.mk (bs ("DpadRight")) 0x92 (UT_OOC) ArgRef.null,
  Encoding.mk (bs ("DpadLeft")) 0x93 (UT_OOC) ArgRef.null,
  Encoding.mk (bs ("IndexTrigger")) 0x94 (UT_MC ||| UT_DV) ArgRef.null,
  Encoding.mk (bs ("PalmTrigger")) 0x95 (UT_MC ||| UT_DV) ArgRef.null,
  Encoding.mk (bs ("Thumbstick")) 0x96 (UT_CP) ArgRef.null,
  Encoding.mk (bs ("SystemFunctionShift")) 0x97 (UT_MC) ArgRef.null,
  Encoding.mk (bs ("SystemFunctionShiftLock")) 0x98 (UT_OOC) ArgRef.null,
  Encoding.mk (bs ("SystemFunctionShiftLockIndicator")) 0x99 (UT_DV) ArgRef.null,
  Encoding.mk (bs ("SystemDismissNotification")) 0x9A (UT_OSC) ArgRef.null,
  Encoding.mk (bs ("SystemDoNotDisturb")) 0x9B (UT_OOC) ArgRef.null,
  Encoding.mk (bs ("SystemDock")) 0xA0 (UT_OSC) ArgRef.null,
  Encoding.mk (bs ("SystemUndock")) 0xA1 (UT_OSC) ArgRef.null,
  Encoding.mk (bs ("SystemSetup")) 0xA2 (UT_OSC) ArgRef.null,
  Encoding.mk (bs ("SystemBreak")) 0xA3 (UT_OSC) ArgRef.null,
  Encoding.mk (bs ("SystemDebuggerBreak")) 0xA4 (UT_OSC) ArgRef.null,
  Encoding.mk (bs ("ApplicationBreak")) 0xA5 (UT_OSC) ArgRef.null,
  Encoding.mk (bs ("ApplicationDebuggerBreak")) 0xA6 (UT_OSC) ArgRef.null,
  Encoding.mk (bs ("SystemSpeakerMute")) 0xA7 (UT_OSC) ArgRef.null,
  Encoding.mk (bs ("SystemHibernate")) 0xA8 (UT_OSC) ArgRef.null,
  Encoding.mk (bs ("SystemDisplayInvert")) 0xB0 (UT_OSC) ArgRef.null,
  Encoding.mk (bs ("SystemDisplayInternal")) 0xB1 (UT_OSC) ArgRef.null,
  Encoding.mk (bs ("SystemDisplayExternal")) 0xB2 (UT_OSC) ArgRef.null,
  Encoding.mk (bs ("SystemDisplayBoth")) 0xB3 (UT_OSC) ArgRef.null,
  Encoding.mk (bs ("SystemDisplayDual")) 0xB4 (UT_OSC) ArgRef.null,
  Encoding.mk (bs ("SystemDisplayToggleIntExtMode")) 0xB5 (UT_OSC) ArgRef.null,
  Encoding.mk (bs ("SystemDisplaySwapPrimarySecondary")) 0xB6 (UT_OSC) ArgRef.null,
  Encoding.mk (bs ("SystemDisplayToggleLcdAutoscale")) 0xB7 (UT_OSC) ArgRef.null,
  Encoding.mk (bs ("SensorZone")) 0xC0 (UT_CL) ArgRef.null,
  Encoding.mk (bs ("Rpm")) 0xC1 (UT_DV) ArgRef.null,
  Encoding.mk (bs ("CoolantLevel")) 0xC2 (UT_DV) ArgRef.null,
  Encoding.mk (bs ("CoolantCriticalLevel")) 0xC3 (UT_SV) ArgRef.null,
  Encoding.mk (bs ("CoolantPump")) 0xC4 (UT_US) ArgRef.null,
  Encoding.mk (bs ("ChassisEnclosure")) 0xC5 (UT_CL) ArgRef.null,
  Encoding.mk (bs ("WirelessRadioButton")) 0xC6 (UT_OOC) ArgRef.null,
  Encoding.mk (bs ("WirelessRadioLed")) 0xC7 (UT_OOC) ArgRef.null,
  Encoding.mk (bs ("WirelessRadioSliderSwitch")) 0xC8 (UT_OOC) ArgRef.null,
  Encoding.mk (bs ("SystemDisplayRotationLockButton")) 0xC9 (UT_OOC) ArgRef.null,
  Encoding.mk (bs ("SystemDisplayRotationLockSliderSwitch")) 0xCA (UT_OOC) ArgRef.null,
  Encoding.mk (bs ("ControlEnable")) 0xCB (UT_DF) ArgRef.null,
  Encoding.mk (bs ("DockableDeviceUniqueId")) 0xD0 (UT_DV) ArgRef.null,
  Encoding.mk (bs ("DockableDeviceVendorId")) 0xD1 (UT_DV) ArgRef.null,
  Encoding.mk (bs ("DockableDevicePrimaryUsagePage")) 0xD2 (UT_DV) ArgRef.null,
  Encoding.mk (bs ("DockableDevicePrimaryUsageId")) 0xD3 (UT_DV) ArgRef.null,
  Encoding.mk (bs ("DockableDeviceDockingState")) 0xD4 (UT_DF) ArgRef.null,
  Encoding.mk (bs ("DockableDeviceDisplayOcclusion")) 0xD5 (UT_CL) ArgRef.null,
  Encoding.mk (bs ("DockableDeviceObjectType")) 0xD6 (UT_DV) ArgRef.null
]

def simCtrlMap : List Encoding := [
  Encoding.mk (bs ("FlighSimulationDevice")) 0x01 (UT_CA) ArgRef.null,
  Encoding.mk (bs ("AutomobileSimulationDevice")) 0x02 (UT_CA) ArgRef.null,
  Encoding.mk (bs ("TankSimulationDevice")) 0x03 (UT_CA) ArgRef.null,
  Encoding.mk (bs ("SpaceshipSimulationDevice")) 0x04 (UT_CA) ArgRef.null,
  Encoding.mk (bs ("SubmarineSimulationDevice")) 0x05 (UT_CA) ArgRef.null,
  Encoding.mk (bs ("SailingSimulationDevice")) 0x06 (UT_CA) ArgRef.null,
  Encoding.mk (bs ("MotorcycleSimiulationDevice")) 0x07 (UT_CA) ArgRef.null,
  Encoding.mk (bs ("SportsSimulationDevice")) 0x08 (UT_CA) ArgRef.null,
  Encoding.mk (bs ("AirplaneSimulationDevice")) 0x09 (UT_CA) ArgRef.null,
  Encoding.mk (bs ("HelicopterSimulationDevice")) 0x0A (UT_CA) ArgRef.null,
  Encoding.mk (bs ("MagicCarpetSimulationDevice")) 0x0B (UT_CA) ArgRef.null,
  Encoding.mk (bs ("BicycleSimulationDevice")) 0x0C (UT_CA) ArgRef.null,
  Encoding.mk (bs ("FlightControlStick")) 0x20 (UT_CA) ArgRef.null,
  Encoding.mk (bs ("FlightStick")) 0x21 (UT_CA) ArgRef.null,
  Encoding.mk (bs ("CyclicControl")) 0x22 (UT_CP) ArgRef.null,
  Encoding.mk (bs ("CyclicTrim")) 0x23 (UT_CP) ArgRef.null,
  Encoding.mk (bs ("FlightYoke")) 0x24 (UT_CA) ArgRef.null,
  Encoding.mk (bs ("TrackControl")) 0x25 (UT_CP) ArgRef.null,
  Encoding.mk (bs ("Aileron")) 0xB0 (UT_DV) ArgRef.null,
  Encoding.mk (bs ("AileronTrim")) 0xB1 (UT_DV) ArgRef.null,
  Encoding.mk (bs ("AntiTorqueControl")) 0xB2 (UT_DV) ArgRef.null,
  Encoding.mk (bs ("AutopilotEnable")) 0xB3 (UT_OOC) ArgRef.null,
  Encoding.mk (bs ("ChaffRelease")) 0xB4 (UT_OSC) ArgRef.null,
  Encoding.mk (bs ("CollectiveControl")) 0xB5 (UT_DV) ArgRef.null,
  Encoding.mk (bs ("DiveBrake")) 0xB6 (UT_DV) ArgRef.null,
  Encoding.mk (bs ("ElectronicCountermeasures")) 0xB7 (UT_OOC) ArgRef.null,
  Encoding.mk (bs ("Elevator")) 0xB8 (UT_DV) ArgRef.null,
  Encoding.mk (bs ("ElevatorTrim")) 0xB9 (UT_DV) ArgRef.null,
  Encoding.mk (bs ("Rudder")) 0xBA (UT_DV) ArgRef.null,
  Encoding.mk (bs ("Throttle")) 0xBB (UT_DV) ArgRef.null,
  Encoding.mk (bs ("FlightCommunications")) 0xBC (UT_OOC) ArgRef.null,
  Encoding.mk (bs ("FlareRelease")) 0xBD (UT_OSC) ArgRef.null,
  Encoding.mk (bs ("LandingGear")) 0xBE (UT_OOC) ArgRef.null,
  Encoding.mk (bs ("ToeBrake")) 0xBF (UT_DV) ArgRef.null,
  Encoding.mk (bs ("Trigger")) 0xC0 (UT_MC) ArgRef.null,
  Encoding.mk (bs ("WeaponsArm")) 0xC1 (UT_OOC) ArgRef.null,
  Encoding.mk (bs ("WeaponsSelect")) 0xC2 (UT_OSC) ArgRef.null,
  Encoding.mk (bs ("WingFlaps")) 0xC3 (UT_DV) ArgRef.null,
  Encoding.mk (bs ("Accelerator")) 0xC4 (UT_DV) ArgRef.null,
  Encoding.mk (bs ("Brake")) 0xC5 (UT_DV) ArgRef.null,
  Encoding.mk (bs ("Clutch")) 0xC6 (UT_DV) ArgRef.null,
  Encoding.mk (bs ("Shifter")) 0xC7 (UT_DV) ArgRef.null,
  Encoding.mk (bs ("Steering")) 0xC8 (UT_DV) ArgRef.null,
  Encoding.mk (bs ("TurretDirection")) 0xC9 (UT_DV) ArgRef.null,
  Encoding.mk (bs ("BarrelElevation")) 0xCA (UT_DV) ArgRef.null,
  Encoding.mk (bs ("DivePlane")) 0xCB (UT_DV) ArgRef.null,
  Encoding.mk (bs ("Ballast")) 0xCC (UT_DV) ArgRef.null,
  Encoding.mk (bs ("BicycleCrank")) 0xCD (UT_DV) ArgRef.null,
  Encoding.mk (bs ("HandleBars")) 0xCE (UT_DV) ArgRef.null,
  Encoding.mk (bs ("FrontBrake")) 0xCF (UT_DV) ArgRef.null,
  Encoding.mk (bs ("RearBrake")) 0xD0 (UT_DV) ArgRef.null
]

def vrCtrlMap : List Encoding := [
  Encoding.mk (bs ("Belt")) 0x01 (UT_CA) ArgRef.null,
  Encoding.mk (bs ("BodySuit")) 0x02 (UT_CA) ArgRef.null,
  Encoding.mk (bs ("Flexor")) 0x03 (UT_CP) ArgRef.null,
  Encoding.mk (bs ("Grove")) 0x04 (UT_CA) ArgRef.null,
  Encoding.mk (bs ("HeadTracker")) 0x05 (UT_CP) ArgRef.null,
  Encoding.mk (bs ("HeadMountedDisplay")) 0x06 (UT_CA) ArgRef.null,
  Encoding.mk (bs ("HandTracker")) 0x07 (UT_CA) ArgRef.null,
  Encoding.mk (bs ("Oculometer")) 0x08 (UT_CA) ArgRef.null,
  Encoding.mk (bs ("Vest")) 0x09 (UT_CA) ArgRef.null,
  Encoding.mk (bs ("AnimatronicDevice")) 0x0A (UT_CA) ArgRef.null,
  Encoding.mk (bs ("StereoEnable")) 0x20 (UT_OOC) ArgRef.null,
  Encoding.mk (bs ("DisplayEnable")) 0x21 (UT_OOC) ArgRef.null
]

def sportCtrlMap : List Encoding := [
  Encoding.mk (bs ("BaseballBat")) 0x01 (UT_CA) ArgRef.null,
  Encoding.mk (bs ("GolfBat")) 0x02 (UT_CA) ArgRef.null,
  Encoding.mk (bs ("RowingMachine")) 0x03 (UT_CA) ArgRef.null,
  Encoding.mk (bs ("Treadmill")) 0x04 (UT_CA) ArgRef.null,
  Encoding.mk (bs ("Oar")) 0x30 (UT_DV) ArgRef.null,
  Encoding.mk (bs ("Slope")) 0x31 (UT_DV) ArgRef.null,
  Encoding.mk (bs ("Rate")) 0x32 (UT_DV) ArgRef.null,
  Encoding.mk (bs ("StickSpeed")) 0x33 (UT_DV) ArgRef.null,
  Encoding.mk (bs ("StickFaceAngle")) 0x34 (UT_DV) ArgRef.null,
  Encoding.mk (bs ("StickHeelToe")) 0x35 (UT_DV) ArgRef.null,
  Encoding.mk (bs ("StickFollowThrough")) 0x36 (UT_DV) ArgRef.null,
  Encoding.mk (bs ("StickTempo")) 0x37 (UT_DV) ArgRef.null,
  Encoding.mk (bs ("StickType")) 0x38 (UT_NARY) ArgRef.null,
  Encoding.mk (bs ("StickHeight")) 0x39 (UT_DV) ArgRef.null,
  Encoding.mk (bs ("Putter")) 0x50 (UT_SEL) ArgRef.null,
  Encoding.mk (bs ("Iron1")) 0x51 (UT_SEL) ArgRef.null,
  Encoding.mk (bs ("Iron2")) 0x52 (UT_SEL) ArgRef.null,
  Encoding.mk (bs ("Iron3")) 0x53 (UT_SEL) ArgRef.null,
  Encoding.mk (bs ("Iron4")) 0x54 (UT_SEL) ArgRef.null,
  Encoding.mk (bs ("Iron5")) 0x55 (UT_SEL) ArgRef.null,
  Encoding.mk (bs ("Iron6")) 0x56 (UT_SEL) ArgRef.null,
  Encoding.mk (bs ("Iron7")) 0x57 (UT_SEL) ArgRef.null,
  Encoding.mk (bs ("Iron8")) 0x58 (UT_SEL) ArgRef.null,
  Encoding.mk (bs ("Iron9")) 0x59 (UT_SEL) ArgRef.null,
  Encoding.mk (bs ("Iron10")) 0x5A (UT_SEL) ArgRef.null,
  Encoding.mk (bs ("Iron11")) 0x5B (UT_SEL) ArgRef.null,
  Encoding.mk (bs ("SandWedge")) 0x5C (UT_SEL) ArgRef.null,
  Encoding.mk (bs ("LoftWedge")) 0x5D (UT_SEL) ArgRef.null,
  Encoding.mk (bs ("PowerWedge")) 0x5E (UT_SEL) ArgRef.null,
  Encoding.mk (bs ("Wood1")) 0x5F (UT_SEL) ArgRef.null,
  Encoding.mk (bs ("Wood3")) 0x60 (UT_SEL) ArgRef.null,
  Encoding.mk (bs ("Wood5")) 0x61 (UT_SEL) ArgRef.null,
  Encoding.mk (bs ("Wood7")) 0x62 (UT_SEL) ArgRef.null,
  Encoding.mk (bs ("Wood9")) 0x63 (UT_SEL) ArgRef.null
]

def gameCtrlMap : List Encoding := [
  Encoding.mk (bs ("3dGameController")) 0x01 (UT_CA) ArgRef.null,
  Encoding.mk (bs ("PinballDevice")) 0x02 (UT_CA) ArgRef.null,
  Encoding.mk (bs ("GunDevice")) 0x03 (UT_CA) ArgRef.null,
  Encoding.mk (bs ("PointOfView")) 0x20 (UT_CP) ArgRef.null,
  Encoding.mk (bs ("TurnRightLeft")) 0x21 (UT_DV) ArgRef.null,
  Encoding.mk (bs ("PitchForwardBackward")) 0x22 (UT_DV) ArgRef.null,
  Encoding.mk (bs ("RollRightLeft")) 0x23 (UT_DV) ArgRef.null,
  Encoding.mk (bs ("MoveRightLeft")) 0x24 (UT_DV) ArgRef.null,
  Encoding.mk (bs ("MoveForwardBackward")) 0x25 (UT_DV) ArgRef.null,
  Encoding.mk (bs ("MoveUpDown")) 0x26 (UT_DV) ArgRef.null,
  Encoding.mk (bs ("LeanRightLeft")) 0x27 (UT_DV) ArgRef.null,
  Encoding.mk (bs ("LeanForwardBackward")) 0x28 (UT_DV) ArgRef.null,
  Encoding.mk (bs ("HeightOfPov")) 0x29 (UT_DV) ArgRef.null,
  Encoding.mk (bs ("Flipper")) 0x2A (UT_MC) ArgRef.null,
  Encoding.mk (bs ("SecondaryFlipper")) 0x2B (UT_MC) ArgRef.null,
  Encoding.mk (bs ("Bump")) 0x2C (UT_MC) ArgRef.null,
  Encoding.mk (bs ("NewGame")) 0x2D (UT_OSC) ArgRef.null,
  Encoding.mk (bs ("ShootBall")) 0x2E (UT_OSC) ArgRef.null,
  Encoding.mk (bs ("Player")) 0x2F (UT_OSC) ArgRef.null,
  Encoding.mk (bs ("GunBolt")) 0x30 (UT_OOC) ArgRef.null,
  Encoding.mk (bs ("GunClip")) 0x31 (UT_OOC) ArgRef.null,
  Encoding.mk (bs ("GunSelector")) 0x32 (UT_NARY) ArgRef.null,
  Encoding.mk (bs ("GunSingleShot")) 0x33 (UT_SEL) ArgRef.null,
  Encoding.mk (bs ("GunBurst")) 0x34 (UT_SEL) ArgRef.null,
  Encoding.mk (bs ("GunAutomatic")) 0x35 (UT_SEL) ArgRef.null,
  Encoding.mk (bs ("GunSafety")) 0x36 (UT_OOC) ArgRef.null,
  Encoding.mk (bs ("GamepadFireJump")) 0x37 (UT_CL) ArgRef.null,
  Encoding.mk (bs ("GamepadTrigger")) 0x39 (UT_CL) ArgRef.null,
  Encoding.mk (bs ("FormFittingGamepad")) 0x3A (UT_SF) ArgRef.null
]

def genDevCtrlMap : List Encoding := [
  Encoding.mk (bs ("BackgroundNonuserControls")) 0x06 (UT_CA) ArgRef.null,
  Encoding.mk (bs ("BatteryStrength")) 0x20 (UT_DV) ArgRef.null,
  Encoding.mk (bs ("WirelessChannel")) 0x21 (UT_DV) ArgRef.null,
  Encoding.mk (bs ("WirelessId")) 0x22 (UT_DV) ArgRef.null,
  Encoding.mk (bs ("DiscoverWirelessControl")) 0x23 (UT_OSC) ArgRef.null,
  Encoding.mk (bs ("SecurityCodeCharacterEntered")) 0x24 (UT_OSC) ArgRef.null,
  Encoding.mk (bs ("SecurityCodeCharacterErased")) 0x25 (UT_OSC) ArgRef.null,
  Encoding.mk (bs ("SecurityCodeCleared")) 0x26 (UT_OSC) ArgRef.null,
  Encoding.mk (bs ("SequenceId")) 0x27 (UT_DV) ArgRef.null,
  Encoding.mk (bs ("SequenceIdReset")) 0x28 (UT_DF) ArgRef.null,
  Encoding.mk (bs ("RfSignalStrength")) 0x29 (UT_DV) ArgRef.null,
  Encoding.mk (bs ("SofwareVersion")) 0x2A (UT_CL) ArgRef.null,
  Encoding.mk (bs ("ProtocolVersion")) 0x2B (UT_CL) ArgRef.null,
  Encoding.mk (bs ("HardwareVersion")) 0x2C (UT_CL) ArgRef.null,
  Encoding.mk (bs ("Major")) 0x2D (UT_SV) ArgRef.null,
  Encoding.mk (bs ("Minor")) 0x2E (UT_SV) ArgRef.null,
  Encoding.mk (bs ("Revision")) 0x2F (UT_SV) ArgRef.null,
  Encoding.mk (bs ("Handedness")) 0x30 (UT_NARY) ArgRef.null,
  Encoding.mk (bs ("EitherHand")) 0x31 (UT_SEL) ArgRef.null,
  Encoding.mk (bs ("LeftHand")) 0x32 (UT_SEL) ArgRef.null,
  Encoding.mk (bs ("RightHand")) 0x33 (UT_SEL) ArgRef.null,
  Encoding.mk (bs ("BothHands")) 0x34 (UT_SEL) ArgRef.null,
  Encoding.mk (bs ("GripPoseOffset")) 0x40 (UT_CP) ArgRef.null,
  Encoding.mk (bs ("PointerPoseOffset")) 0x41 (UT_CP) ArgRef.null
]

def keyboardMap : List Encoding := [
  Encoding.mk (bs ("NoEventIndicated")) 0x00 (UT_SEL) ArgRef.null,
  Encoding.mk (bs ("KeyboardErrorRollOver")) 0x01 (UT_SEL) ArgRef.null,
  Encoding.mk (bs ("KeyboardPostFail")) 0x02 (UT_SEL) ArgRef.null,
  Encoding.mk (bs ("KeyboardErrorUndefined")) 0x03 (UT_SEL) ArgRef.null,
  Encoding.mk (bs ("KeyboardA")) 0x04 (UT_SEL) ArgRef.null,
  Encoding.mk (bs ("KeyboardB")) 0x05 (UT_SEL) ArgRef.null,
  Encoding.mk (bs ("KeyboardC")) 0x06 (UT_SEL) ArgRef.null,
  Encoding.mk (bs ("KeyboardD")) 0x07 (UT_SEL) ArgRef.null,
  Encoding.mk (bs ("KeyboardE")) 0x08 (UT_SEL) ArgRef.null,
  Encoding.mk (bs ("KeyboardF")) 0x09 (UT_SEL) ArgRef.null,
  Encoding.mk (bs ("KeyboardG")) 0x0A (UT_SEL) ArgRef.null,
  Encoding.mk (bs ("KeyboardH")) 0x0B (UT_SEL) ArgRef.null,
  Encoding.mk (bs ("KeyboardI")) 0x0C (UT_SEL) ArgRef.null,
  Encoding.mk (bs ("KeyboardJ")) 0x0D (UT_SEL) ArgRef.null,
  Encoding.mk (bs ("KeyboardK")) 0x0E (UT_SEL) ArgRef.null,
  Encoding.mk (bs ("KeyboardL")) 0x0F (UT_SEL) ArgRef.null,
  Encoding.mk (bs ("KeyboardM")) 0x10 (UT_SEL) ArgRef.null,
  Encoding.mk (bs ("KeyboardN")) 0x11 (UT_SEL) ArgRef.null,
  Encoding.mk (bs ("KeyboardO")) 0x12 (UT_SEL) ArgRef.null,
  Encoding.mk (bs ("KeyboardP")) 0x13 (UT_SEL) ArgRef.null,
  Encoding.mk (bs ("KeyboardQ")) 0x14 (UT_SEL) ArgRef.null,
  Encoding.mk (bs ("KeyboardR")) 0x15 (UT_SEL) ArgRef.null,
  Encoding.mk (bs ("KeyboardS")) 0x16 (UT_SEL) ArgRef.null,
  Encoding.mk (bs ("KeyboardT")) 0x17 (UT_SEL) ArgRef.null,
  Encoding.mk (bs ("KeyboardU")) 0x18 (UT_SEL) ArgRef.null,
  Encoding.mk (bs ("KeyboardV")) 0x19 (UT_SEL) ArgRef.null,
  Encoding.mk (bs ("KeyboardW")) 0x1A (UT_SEL) ArgRef.null,
  Encoding.mk (bs ("KeyboardX")) 0x1B (UT_SEL) ArgRef.null,
  Encoding.mk (bs ("KeyboardY")) 0x1C (UT_SEL) ArgRef.null,
  Encoding.mk (bs ("KeyboardZ")) 0x1D (UT_SEL) ArgRef.null,
  Encoding.mk (bs ("Keyboard1")) 0x1E (UT_SEL) ArgRef.null,
  Encoding.mk (bs ("Keyboard2")) 0x1F (UT_SEL) ArgRef.null,
  Encoding.mk (bs ("Keyboard3")) 0x20 (UT_SEL) ArgRef.null,
  Encoding.mk (bs ("Keyboard4")) 0x21 (UT_SEL) ArgRef.null,
  Encoding.mk (bs ("Keyboard5")) 0x22 (UT_SEL) ArgRef.null,
  Encoding.mk (bs ("Keyboard6")) 0x23 (UT_SEL) ArgRef.null,
  Encoding.mk (bs ("Keyboard7")) 0x24 (UT_SEL) ArgRef.null,
  Encoding.mk (bs ("Keyboard8")) 0x25 (UT_SEL) ArgRef.null,
  Encoding.mk (bs ("Keyboard9")) 0x26 (UT_SEL) ArgRef.null,
  Encoding.mk (bs ("Keyboard0")) 0x27 (UT_SEL) ArgRef.null,
  Encoding.mk (bs ("KeyboardEnter")) 0x28 (UT_SEL) ArgRef.null,
  Encoding.mk (bs ("KeyboardEscape")) 0x29 (UT_SEL) ArgRef.null,
  Encoding.mk (bs ("KeyboardDelete")) 0x2A (UT_SEL) ArgRef.null,
  Encoding.mk (bs ("KeyboardTab")) 0x2B (UT_SEL) ArgRef.null,
  Encoding.mk (bs ("KeyboardSpacebar")) 0x2C (UT_SEL) ArgRef.null,
  Encoding.mk (bs ("KeyboardMinus")) 0x2D (UT_SEL) ArgRef.null,
  Encoding.mk (bs ("KeyboardEqual")) 0x2E (UT_SEL) ArgRef.null,
  Encoding.mk (bs ("KeyboardCurlyBracketOpen")) 0x2F (UT_SEL) ArgRef.null,
  Encoding.mk (bs ("KeyboardCurlyBracketClose")) 0x30 (UT_SEL) ArgRef.null,
  Encoding.mk (bs ("KeyboardBackslash")) 0x31 (UT_SEL) ArgRef.null,
  Encoding.mk (bs ("KeyboardNonUsHash")) 0x32 (UT_SEL) ArgRef.null,
  Encoding.mk (bs ("KeyboardColon")) 0x33 (UT_SEL) ArgRef.null,
  Encoding.mk (bs ("KeyboardApostrophe")) 0x34 (UT_SEL) ArgRef.null,
  Encoding.mk (bs ("KeyboardGraveAccentAndTilde")) 0x35 (UT_SEL) ArgRef.null,
  Encoding.mk (bs ("KeyboardComma")) 0x36 (UT_SEL) ArgRef.null,
  Encoding.mk (bs ("KeyboardPoint")) 0x37 (UT_SEL) ArgRef.null,
  Encoding.mk (bs ("KeyboardSlash")) 0x38 (UT_SEL) ArgRef.null,
  Encoding.mk (bs ("KeyboardCapsLock")) 0x39 (UT_SEL) ArgRef.null,
  Encoding.mk (bs ("KeyboardF1")) 0x3A (UT_SEL) ArgRef.null,
  Encoding.mk (bs ("KeyboardF2")) 0x3B (UT_SEL) ArgRef.null,
  Encoding.mk (bs ("KeyboardF3")) 0x3C (UT_SEL) ArgRef.null,
  Encoding.mk (bs ("KeyboardF4")) 0x3D (UT_SEL) ArgRef.null,
  Encoding.mk (bs ("KeyboardF5")) 0x3E (UT_SEL) ArgRef.null,
  Encoding.mk (bs ("KeyboardF6")) 0x3F (UT_SEL) ArgRef.null,
  Encoding.mk (bs ("KeyboardF7")) 0x40 (UT_SEL) ArgRef.null,
  Encoding.mk (bs ("KeyboardF8")) 0x41 (UT_SEL) ArgRef.null,
  Encoding.mk (bs ("KeyboardF9")) 0x42 (UT_SEL) ArgRef.null,
  Encoding.mk (bs ("KeyboardF10")) 0x43 (UT_SEL) ArgRef.null,
  Encoding.mk (bs ("KeyboardF11")) 0x44 (UT_SEL) ArgRef.null,
  Encoding.mk (bs ("KeyboardF12")) 0x45 (UT_SEL) ArgRef.null,
  Encoding.mk (bs ("KeyboardPrintScreen")) 0x46 (UT_SEL) ArgRef.null,
  Encoding.mk (bs ("KeyboardScrollLock")) 0x47 (UT_SEL) ArgRef.null,
  Encoding.mk (bs ("KeyboardPause")) 0x48 (UT_SEL) ArgRef.null,
  Encoding.mk (bs ("KeyboardInsert")) 0x49 (UT_SEL) ArgRef.null,
  Encoding.mk (bs ("KeyboardHome")) 0x4A (UT_SEL) ArgRef.null,
  Encoding.mk (bs ("KeyboardPageUp")) 0x4B (UT_SEL) ArgRef.null,
  Encoding.mk (bs ("KeyboardDeleteForward")) 0x4C (UT_SEL) ArgRef.null,
  Encoding.mk (bs ("KeyboardEnd")) 0x4D (UT_SEL) ArgRef.null,
  Encoding.mk (bs ("KeyboardPageDown")) 0x4E (UT_SEL) ArgRef.null,
  Encoding.mk (bs ("KeyboardRightArrow")) 0x4F (UT_SEL) ArgRef.null,
  Encoding.mk (bs ("KeyboardLeftArrow")) 0x50 (UT_SEL) ArgRef.null,
  Encoding.mk (bs ("KeyboardDownArrow")) 0x51 (UT_SEL) ArgRef.null,
  Encoding.mk (bs ("KeyboardUpArrow")) 0x52 (UT_SEL) ArgRef.null,
  Encoding.mk (bs ("KeypadNumLockAndClear")) 0x53 (UT_SEL) ArgRef.null,
  Encoding.mk (bs ("KeypadDivide")) 0x54 (UT_SEL) ArgRef.null,
  Encoding.mk (bs ("KeypadMultiply")) 0x55 (UT_SEL) ArgRef.null,
  Encoding.mk (bs ("KeypadMinus")) 0x56 (UT_SEL) ArgRef.null,
  Encoding.mk (bs ("KeypadPlus")) 0x57 (UT_SEL) ArgRef.null,
  Encoding.mk (bs ("KeypadEnter")) 0x58 (UT_SEL) ArgRef.null,
  Encoding.mk (bs ("Keypad1")) 0x59 (UT_SEL) ArgRef.null,
  Encoding.mk (bs ("Keypad2")) 0x5A (UT_SEL) ArgRef.null,
  Encoding.mk (bs ("Keypad3")) 0x5B (UT_SEL) ArgRef.null,
  Encoding.mk (bs ("Keypad4")) 0x5C (UT_SEL) ArgRef.null,
  Encoding.mk (bs ("Keypad5")) 0x5D (UT_SEL) ArgRef.null,
  Encoding.mk (bs ("Keypad6")) 0x5E (UT_SEL) ArgRef.null,
  Encoding.mk (bs ("Keypad7")) 0x5F (UT_SEL) ArgRef.null,
  Encoding.mk (bs ("Keypad8")) 0x60 (UT_SEL) ArgRef.null,
  Encoding.mk (bs ("Keypad9")) 0x61 (UT_SEL) ArgRef.null,
  Encoding.mk (bs ("Keypad0")) 0x62 (UT_SEL) ArgRef.null,
  Encoding.mk (bs ("KeypadPoint")) 0x63 (UT_SEL) ArgRef.null,
  Encoding.mk (bs ("KeyboardNonUsBackslash")) 0x64 (UT_SEL) ArgRef.null,
  Encoding.mk (bs ("KeyboardApplication")) 0x65 (UT_SEL) ArgRef.null,
  Encoding.mk (bs ("KeyboardPower")) 0x66 (UT_SEL) ArgRef.null,
  Encoding.mk (bs ("KeyboardEqual")) 0x67 (UT_SEL) ArgRef.null,
  Encoding.mk (bs ("KeyboardF13")) 0x68 (UT_SEL) ArgRef.null,
  Encoding.mk (bs ("KeyboardF14")) 0x69 (UT_SEL) ArgRef.null,
  Encoding.mk (bs ("KeyboardF15")) 0x6A (UT_SEL) ArgRef.null,
  Encoding.mk (bs ("KeyboardF16")) 0x6B (UT_SEL) ArgRef.null,
  Encoding.mk (bs ("KeyboardF17")) 0x6C (UT_SEL) ArgRef.null,
  Encoding.mk (bs ("KeyboardF18")) 0x6D (UT_SEL) ArgRef.null,
  Encoding.mk (bs ("KeyboardF19")) 0x6E (UT_SEL) ArgRef.null,
  Encoding.mk (bs ("KeyboardF20")) 0x6F (UT_SEL) ArgRef.null,
  Encoding.mk (bs ("KeyboardF21")) 0x70 (UT_SEL) ArgRef.null,
  Encoding.mk (bs ("KeyboardF22")) 0x71 (UT_SEL) ArgRef.null,
  Encoding.mk (bs ("KeyboardF23")) 0x72 (UT_SEL) ArgRef.null,
  Encoding.mk (bs ("KeyboardF24")) 0x73 (UT_SEL) ArgRef.null,
  Encoding.mk (bs ("KeyboardExecute")) 0x74 (UT_SEL) ArgRef.null,
  Encoding.mk (bs ("KeyboardHelp")) 0x75 (UT_SEL) ArgRef.null,
  Encoding.mk (bs ("KeyboardMenu")) 0x76 (UT_SEL) ArgRef.null,
  Encoding.mk (bs ("KeyboardSelect")) 0x77 (UT_SEL) ArgRef.null,
  Encoding.mk (bs ("KeyboardStop")) 0x78 (UT_SEL) ArgRef.null,
  Encoding.mk (bs ("KeyboardAgain")) 0x79 (UT_SEL) ArgRef.null,
  Encoding.mk (bs ("KeyboardUndo")) 0x7A (UT_SEL) ArgRef.null,
  Encoding.mk (bs ("KeyboardCut")) 0x7B (UT_SEL) ArgRef.null,
  Encoding.mk (bs ("KeyboardCopy")) 0x7C (UT_SEL) ArgRef.null,
  Encoding.mk (bs ("KeyboardPaste")) 0x7D (UT_SEL) ArgRef.null,
  Encoding.mk (bs ("KeyboardFind")) 0x7E (UT_SEL) ArgRef.null,
  Encoding.mk (bs ("KeyboardMute")) 0x7F (UT_SEL) ArgRef.null,
  Encoding.mk (bs ("KeyboardVolumeUp")) 0x80 (UT_SEL) ArgRef.null,
  Encoding.mk (bs ("KeyboardVolumeDown")) 0x81 (UT_SEL) ArgRef.null,
  Encoding.mk (bs ("KeyboardLockingCapsLock")) 0x82 (UT_SEL) ArgRef.null,
  Encoding.mk (bs ("KeyboardLockingNumLock")) 0x83 (UT_SEL) ArgRef.null,
  Encoding.mk (bs ("KeyboardLockingScrollLock")) 0x84 (UT_SEL) ArgRef.null,
  Encoding.mk (bs ("KeypadComma")) 0x85 (UT_SEL) ArgRef.null,
  Encoding.mk (bs ("KeypadEqual")) 0x86 (UT_SEL) ArgRef.null,
  Encoding.mk (bs ("KeyboardInternational1")) 0x87 (UT_SEL) ArgRef.null,
  Encoding.mk (bs ("KeyboardInternational2")) 0x88 (UT_SEL) ArgRef.null,
  Encoding.mk (bs ("KeyboardInternational3")) 0x89 (UT_SEL) ArgRef.null,
  Encoding.mk (bs ("KeyboardInternational4")) 0x8A (UT_SEL) ArgRef.null,
  Encoding.mk (bs ("KeyboardInternational5")) 0x8B (UT_SEL) ArgRef.null,
  Encoding.mk (bs ("KeyboardInternational6")) 0x8C (UT_SEL) ArgRef.null,
  Encoding.mk (bs ("KeyboardInternational7")) 0x8D (UT_SEL) ArgRef.null,
  Encoding.mk (bs ("KeyboardInternational8")) 0x8E (UT_SEL) ArgRef.null,
  Encoding.mk (bs ("KeyboardInternational9")) 0x8F (UT_SEL) ArgRef.null,
  Encoding.mk (bs ("KeyboardLang1")) 0x90 (UT_SEL) ArgRef.null,
  Encoding.mk (bs ("KeyboardLang2")) 0x91 (UT_SEL) ArgRef.null,
  Encoding.mk (bs ("KeyboardLang3")) 0x92 (UT_SEL) ArgRef.null,
  Encoding.mk (bs ("KeyboardLang4")) 0x93 (UT_SEL) ArgRef.null,
  Encoding.mk (bs ("KeyboardLang5")) 0x94 (UT_SEL) ArgRef.null,
  Encoding.mk (bs ("KeyboardLang6")) 0x95 (UT_SEL) ArgRef.null,
  Encoding.mk (bs ("KeyboardLang7")) 0x96 (UT_SEL) ArgRef.null,
  Encoding.mk (bs ("KeyboardLang8")) 0x97 (UT_SEL) ArgRef.null,
  Encoding.mk (bs ("KeyboardLang9")) 0x98 (UT_SEL) ArgRef.null,
  Encoding.mk (bs ("KeyboardAlternateErase")) 0x99 (UT_SEL) ArgRef.null,
  Encoding.mk (bs ("KeyboardSysReqAttention")) 0x9A (UT_SEL) ArgRef.null,
  Encoding.mk (bs ("KeyboardCancel")) 0x9B (UT_SEL) ArgRef.null,
  Encoding.mk (bs ("KeyboardClear")) 0x9C (UT_SEL) ArgRef.null,
  Encoding.mk (bs ("KeyboardPrior")) 0x9D (UT_SEL) ArgRef.null,
  Encoding.mk (bs ("KeyboardReturn")) 0x9E (UT_SEL) ArgRef.null,
  Encoding.mk (bs ("KeyboardSeparator")) 0x9F (UT_SEL) ArgRef.null,
  Encoding.mk (bs ("KeyboardOut")) 0xA0 (UT_SEL) ArgRef.null,
  Encoding.mk (bs ("KeyboardOper")) 0xA1 (UT_SEL) ArgRef.null,
  Encoding.mk (bs ("KeyboardClearAgain")) 0xA2 (UT_SEL) ArgRef.null,
  Encoding.mk (bs ("KeyboardCrSelProps")) 0xA3 (UT_SEL) ArgRef.null,
  Encoding.mk (bs ("KeyboardExSel")) 0xA4 (UT_SEL) ArgRef.null,
  Encoding.mk (bs ("Keypad00")) 0xB0 (UT_SEL) ArgRef.null,
  Encoding.mk (bs ("Keypad000")) 0xB1 (UT_SEL) ArgRef.null,
  Encoding.mk (bs ("ThausendsSeparator")) 0xB2 (UT_SEL) ArgRef.null,
  Encoding.mk (bs ("DecimalSeparator")) 0xB3 (UT_SEL) ArgRef.null,
  Encoding.mk (bs ("CurrencyUnit")) 0xB4 (UT_SEL) ArgRef.null,
  Encoding.mk (bs ("CurrencySubUnit")) 0xB5 (UT_SEL) ArgRef.null,
  Encoding.mk (bs ("KeypadBracketOpen")) 0xB6 (UT_SEL) ArgRef.null,
  Encoding.mk (bs ("KeypadBracketClose")) 0xB7 (UT_SEL) ArgRef.null,
  Encoding.mk (bs ("KeypadCurlyBracketOpen")) 0xB8 (UT_SEL) ArgRef.null,
  Encoding.mk (bs ("KeypadCurlyBracketClose")) 0xB9 (UT_SEL) ArgRef.null,
  Encoding.mk (bs ("KeypadTab")) 0xBA (UT_SEL) ArgRef.null,
  Encoding.mk (bs ("KeypadBackspace")) 0xBB (UT_SEL) ArgRef.null,
  Encoding.mk (bs ("KeypadA")) 0xBC (UT_SEL) ArgRef.null,
  Encoding.mk (bs ("KeypadB")) 0xBD (UT_SEL) ArgRef.null,
  Encoding.mk (bs ("KeypadC")) 0xBE (UT_SEL) ArgRef.null,
  Encoding.mk (bs ("KeypadD")) 0xBF (UT_SEL) ArgRef.null,
  Encoding.mk (bs ("KeypadE")) 0xC0 (UT_SEL) ArgRef.null,
  Encoding.mk (bs ("KeypadF")) 0xC1 (UT_SEL) ArgRef.null,
  Encoding.mk (bs ("KeypadXor")) 0xC2 (UT_SEL) ArgRef.null,
  Encoding.mk (bs ("KeypadCircumflex")) 0xC3 (UT_SEL) ArgRef.null,
  Encoding.mk (bs ("KeypadPercent")) 0xC4 (UT_SEL) ArgRef.null,
  Encoding.mk (bs ("KeypadLessThan")) 0xC5 (UT_SEL) ArgRef.null,
  Encoding.mk (bs ("KeypadGreaterThan")) 0xC6 (UT_SEL) ArgRef.null,
  Encoding.mk (bs ("KeypadAmpersand")) 0xC7 (UT_SEL) ArgRef.null,
  Encoding.mk (bs ("KeypadDoubleAmpersand")) 0xC8 (UT_SEL) ArgRef.null,
  Encoding.mk (bs ("KeypadVerticalBar")) 0xC9 (UT_SEL) ArgRef.null,
  Encoding.mk (bs ("KeypadDoubleVerticalBar")) 0xCA (UT_SEL) ArgRef.null,
  Encoding.mk (bs ("KeypadColon")) 0xCB (UT_SEL) ArgRef.null,
  Encoding.mk (bs ("KeypadHash")) 0xCC (UT_SEL) ArgRef.null,
  Encoding.mk (bs ("KeypadSpace")) 0xCD (UT_SEL) ArgRef.null,
  Encoding.mk (bs ("KeypadAtSign")) 0xCE (UT_SEL) ArgRef.null,
  Encoding.mk (bs ("KeypadExclamationMark")) 0xCF (UT_SEL) ArgRef.null,
  Encoding.mk (bs ("KeypadMemoryStore")) 0xD0 (UT_SEL) ArgRef.null,
  Encoding.mk (bs ("KeypadMemoryRecall")) 0xD1 (UT_SEL) ArgRef.null,
  Encoding.mk (bs ("KeypadMemoryClear")) 0xD2 (UT_SEL) ArgRef.null,
  Encoding.mk (bs ("KeypadMemoryAdd")) 0xD3 (UT_SEL) ArgRef.null,
  Encoding.mk (bs ("KeypadMemorySubtract")) 0xD4 (UT_SEL) ArgRef.null,
  Encoding.mk (bs ("KeypadMemoryMultiply")) 0xD5 (UT_SEL) ArgRef.null,
  Encoding.mk (bs ("KeypadMemoryDivide")) 0xD6 (UT_SEL) ArgRef.null,
  Encoding.mk (bs ("KeypadPlusMinus")) 0xD7 (UT_SEL) ArgRef.null,
  Encoding.mk (bs ("KeypadClear")) 0xD8 (UT_SEL) ArgRef.null,
  Encoding.mk (bs ("KeypadClearEntry")) 0xD9 (UT_SEL) ArgRef.null,
  Encoding.mk (bs ("KeypadBinary")) 0xDA (UT_SEL) ArgRef.null,
  Encoding.mk (bs ("KeypadOctal")) 0xDB (UT_SEL) ArgRef.null,
  Encoding.mk (bs ("KeypadDecimal")) 0xDC (UT_SEL) ArgRef.null,
  Encoding.mk (bs ("KeypadHexadecimal")) 0xDD (UT_SEL) ArgRef.null,
  Encoding.mk (bs ("KeyboardLeftControl")) 0xE0 (UT_DV) ArgRef.null,
  Encoding.mk (bs ("KeyboardLeftShift")) 0xE1 (UT_DV) ArgRef.null,
  Encoding.mk (bs ("KeyboardLeftAlt")) 0xE2 (UT_DV) ArgRef.null,
  Encoding.mk (bs ("KeyboardLeftGui")) 0xE3 (UT_DV) ArgRef.null,
  Encoding.mk (bs ("KeyboardRightControl")) 0xE4 (UT_DV) ArgRef.null,
  Encoding.mk (bs ("KeyboardRightShift")) 0xE5 (UT_DV) ArgRef.null,
  Encoding.mk (bs ("KeyboardRightAlt")) 0xE6 (UT_DV) ArgRef.null,
  Encoding.mk (bs ("KeyboardRightGui")) 0xE7 (UT_DV) ArgRef.null
]

def ledMap : List Encoding := [
  Encoding.mk (bs ("NumLock")) 0x01 (UT_OOC) ArgRef.null,
  Encoding.mk (bs ("CapsLock")) 0x02 (UT_OOC) ArgRef.null,
  Encoding.mk (bs ("ScrollLock")) 0x03 (UT_OOC) ArgRef.null,
  Encoding.mk (bs ("Compose")) 0x04 (UT_OOC) ArgRef.null,
  Encoding.mk (bs ("Kana")) 0x05 (UT_OOC) ArgRef.null,
  Encoding.mk (bs ("Power")) 0x06 (UT_OOC) ArgRef.null,
  Encoding.mk (bs ("Shift")) 0x07 (UT_OOC) ArgRef.null,
  Encoding.mk (bs ("DoNotDisturb")) 0x08 (UT_OOC) ArgRef.null,
  Encoding.mk (bs ("Mute")) 0x09 (UT_OOC) ArgRef.null,
  Encoding.mk (bs ("ToneEnable")) 0x0A (UT_OOC) ArgRef.null,
  Encoding.mk (bs ("HighCutFilter")) 0x0B (UT_OOC) ArgRef.null,
  Encoding.mk (bs ("LowCutFitler")) 0x0C (UT_OOC) ArgRef.null,
  Encoding.mk (bs ("EqualizerEnable")) 0x0D (UT_OOC) ArgRef.null,
  Encoding.mk (bs ("SoundFieldOn")) 0x0E (UT_OOC) ArgRef.null,
  Encoding.mk (bs ("SurroundOn")) 0x0F (UT_OOC) ArgRef.null,
  Encoding.mk (bs ("Repeat")) 0x10 (UT_OOC) ArgRef.null,
  Encoding.mk (bs ("Stereo")) 0x11 (UT_OOC) ArgRef.null,
  Encoding.mk (bs ("SamplingRateDetect")) 0x12 (UT_OOC) ArgRef.null,
  Encoding.mk (bs ("Spinning")) 0x13 (UT_OOC) ArgRef.null,
  Encoding.mk (bs ("Cav")) 0x14 (UT_OOC) ArgRef.null,
  Encoding.mk (bs ("Clv")) 0x15 (UT_OOC) ArgRef.null,
  Encoding.mk (bs ("RecordingFormatDetect")) 0x16 (UT_OOC) ArgRef.null,
  Encoding.mk (bs ("OffHook")) 0x17 (UT_OOC) ArgRef.null,
  Encoding.mk (bs ("Ring")) 0x18 (UT_OOC) ArgRef.null,
  Encoding.mk (bs ("MessageWaiting")) 0x19 (UT_OOC) ArgRef.null,
  Encoding.mk (bs ("DataMode")) 0x1A (UT_OOC) ArgRef.null,
  Encoding.mk (bs ("BatteryOperation")) 0x1B (UT_OOC) ArgRef.null,
  Encoding.mk (bs ("BatteryOk")) 0x1C (UT_OOC) ArgRef.null,
  Encoding.mk (bs ("BatteryLow")) 0x1D (UT_OOC) ArgRef.null,
  Encoding.mk (bs ("Speaker")) 0x1E (UT_OOC) ArgRef.null,
  Encoding.mk (bs ("HeadSet")) 0x1F (UT_OOC) ArgRef.null,
  Encoding.mk (bs ("Hold")) 0x20 (UT_OOC) ArgRef.null,
  Encoding.mk (bs ("Microphone")) 0x21 (UT_OOC) ArgRef.null,
  Encoding.mk (bs ("Coverage")) 0x22 (UT_OOC) ArgRef.null,
  Encoding.mk (bs ("NightMode")) 0x23 (UT_OOC) ArgRef.null,
  Encoding.mk (bs ("SendCalls")) 0x24 (UT_OOC) ArgRef.null,
  Encoding.mk (bs ("CallPickup")) 0x25 (UT_OOC) ArgRef.null,
  Encoding.mk (bs ("Conference")) 0x26 (UT_OOC) ArgRef.null,
  Encoding.mk (bs ("Standby")) 0x27 (UT_OOC) ArgRef.null,
  Encoding.mk (bs ("CameraOn")) 0x28 (UT_OOC) ArgRef.null,
  Encoding.mk (bs ("CameraOff")) 0x29 (UT_OOC) ArgRef.null,
  Encoding.mk (bs ("OnLine")) 0x2A (UT_OOC) ArgRef.null,
  Encoding.mk (bs ("OffLine")) 0x2B (UT_OOC) ArgRef.null,
  Encoding.mk (bs ("Busy")) 0x2C (UT_OOC) ArgRef.null,
  Encoding.mk (bs ("Ready")) 0x2D (UT_OOC) ArgRef.null,
  Encoding.mk (bs ("PaperOut")) 0x2E (UT_OOC) ArgRef.null,
  Encoding.mk (bs ("PaperJam")) 0x2F (UT_OOC) ArgRef.null,
  Encoding.mk (bs ("Remote")) 0x30 (UT_OOC) ArgRef.null,
  Encoding.mk (bs ("Forward")) 0x31 (UT_OOC) ArgRef.null,
  Encoding.mk (bs ("Reverse")) 0x32 (UT_OOC) ArgRef.null,
  Encoding.mk (bs ("Stop")) 0x33 (UT_OOC) ArgRef.null,
  Encoding.mk (bs ("Rewind")) 0x34 (UT_OOC) ArgRef.null,
  Encoding.mk (bs ("FastForward")) 0x35 (UT_OOC) ArgRef.null,
  Encoding.mk (bs ("Play")) 0x36 (UT_OOC) ArgRef.null,
  Encoding.mk (bs ("Pause")) 0x37 (UT_OOC) ArgRef.null,
  Encoding.mk (bs ("Record")) 0x38 (UT_OOC) ArgRef.null,
  Encoding.mk (bs ("Error")) 0x39 (UT_OOC) ArgRef.null,
  Encoding.mk (bs ("UsageSelectedIndicator")) 0x3A (UT_US) ArgRef.null,
  Encoding.mk (bs ("UsageInUseIndicator")) 0x3B (UT_US) ArgRef.null,
  Encoding.mk (bs ("UsageMultiModeIndicator")) 0x3C (UT_UM) ArgRef.null,
  Encoding.mk (bs ("IndicatorOn")) 0x3D (UT_SEL) ArgRef.null,
  Encoding.mk (bs ("IndicatorFlash")) 0x3E (UT_SEL) ArgRef.null,
  Encoding.mk (bs ("IndicatorSlowBlink")) 0x3F (UT_SEL) ArgRef.null,
  Encoding.mk (bs ("IndicatorFastBlink")) 0x40 (UT_SEL) ArgRef.null,
  Encoding.mk (bs ("IndicatorOff")) 0x41 (UT_SEL) ArgRef.null,
  Encoding.mk (bs ("FlashOnTime")) 0x42 (UT_DV) ArgRef.null,
  Encoding.mk (bs ("SlowBlinkOnTime")) 0x43 (UT_DV) ArgRef.null,
  Encoding.mk (bs ("SlowBlinkOffTime")) 0x44 (UT_DV) ArgRef.null,
  Encoding.mk (bs ("FastBlinkOnTime")) 0x45 (UT_DV) ArgRef.null,
  Encoding.mk (bs ("FastBlinkOffTime")) 0x46 (UT_DV) ArgRef.null,
  Encoding.mk (bs ("UsageIndicatorColor")) 0x47 (UT_UM) ArgRef.null,
  Encoding.mk (bs ("IndicatorRed")) 0x48 (UT_SEL) ArgRef.null,
  Encoding.mk (bs ("IndicatorGreen")) 0x49 (UT_SEL) ArgRef.null,
  Encoding.mk (bs ("IndicatorAmber")) 0x4A (UT_SEL) ArgRef.null,
  Encoding.mk (bs ("GenericIndicator")) 0x4B (UT_OOC) ArgRef.null,
  Encoding.mk (bs ("SystemSyspend")) 0x4C (UT_OOC) ArgRef.null,
  Encoding.mk (bs ("ExternalPowerConnected")) 0x4D (UT_OOC) ArgRef.null,
  Encoding.mk (bs ("IndicatorBlue")) 0x4E (UT_SEL) ArgRef.null,
  Encoding.mk (bs ("IndicatorOrange")) 0x4F (UT_SEL) ArgRef.null,
  Encoding.mk (bs ("GoodStatus")) 0x50 (UT_OOC) ArgRef.null,
  Encoding.mk (bs ("WarningStatus")) 0x51 (UT_OOC) ArgRef.null,
  Encoding.mk (bs ("RgbLed")) 0x52 (UT_CL) ArgRef.null,
  Encoding.mk (bs ("RedLedChannel")) 0x53 (UT_DV) ArgRef.null,
  Encoding.mk (bs ("BlueLedChannel")) 0x54 (UT_DV) ArgRef.null,
  Encoding.mk (bs ("GreenLedChannel")) 0x55 (UT_DV) ArgRef.null,
  Encoding.mk (bs ("LedIntensity")) 0x56 (UT_DV) ArgRef.null,
  Encoding.mk (bs ("PlayerIndicator")) 0x60 (UT_NARY) ArgRef.null,
  Encoding.mk (bs ("Player1")) 0x61 (UT_SEL) ArgRef.null,
  Encoding.mk (bs ("Player2")) 0x62 (UT_SEL) ArgRef.null,
  Encoding.mk (bs ("Player3")) 0x63 (UT_SEL) ArgRef.null,
  Encoding.mk (bs ("Player4")) 0x64 (UT_SEL) ArgRef.null,
  Encoding.mk (bs ("Player5")) 0x65 (UT_SEL) ArgRef.null,
  Encoding.mk (bs ("Player6")) 0x66 (UT_SEL) ArgRef.null,
  Encoding.mk (bs ("Player7")) 0x67 (UT_SEL) ArgRef.null,
  Encoding.mk (bs ("Player8")) 0x68 (UT_SEL) ArgRef.null
]

def buttonMap : List Encoding := [
  Encoding.mk (bs ("NoButtonPressed")) 0x00 (UT_SEL ||| UT_OOC ||| UT_MC ||| UT_OSC) ArgRef.null,
  Encoding.mk (bs ("Button#")) 0x01 (UT_SEL ||| UT_OOC ||| UT_MC ||| UT_OSC) ArgRef.null,
  Encoding.mk (bs ("Button#")) 0xFFFF (UT_SEL ||| UT_OOC ||| UT_MC ||| UT_OSC) ArgRef.null
]

def ordinalMap : List Encoding := [
  Encoding.mk (bs ("Instance#")) 0x01 (UT_UM) ArgRef.null,
  Encoding.mk (bs ("Instance#")) 0xFFFF (UT_UM) ArgRef.null
]

def telDevMap : List Encoding := [
  Encoding.mk (bs ("Phone")) 0x01 (UT_CA) ArgRef.null,
  Encoding.mk (bs ("AnsweringMachine")) 0x02 (UT_CA) ArgRef.null,
  Encoding.mk (bs ("MessageControls")) 0x03 (UT_CL) ArgRef.null,
  Encoding.mk (bs ("Handset")) 0x04 (UT_CL) ArgRef.null,
  Encoding.mk (bs ("Headset")) 0x05 (UT_CL) ArgRef.null,
  Encoding.mk (bs ("TelephonyKeyPad")) 0x06 (UT_NARY) ArgRef.null,
  Encoding.mk (bs ("ProgrammableButton")) 0x07 (UT_NARY) ArgRef.null,
  Encoding.mk (bs ("HookSwitch")) 0x20 (UT_OOC) ArgRef.null,
  Encoding.mk (bs ("Flash")) 0x21 (UT_MC) ArgRef.null,
  Encoding.mk (bs ("Feature")) 0x22 (UT_OSC) ArgRef.null,
  Encoding.mk (bs ("Hold")) 0x23 (UT_OOC) ArgRef.null,
  Encoding.mk (bs ("Radial")) 0x24 (UT_OSC) ArgRef.null,
  Encoding.mk (bs ("Transfer")) 0x25 (UT_OSC) ArgRef.null,
  Encoding.mk (bs ("Drop")) 0x26 (UT_OSC) ArgRef.null,
  Encoding.mk (bs ("Park")) 0x27 (UT_OOC) ArgRef.null,
  Encoding.mk (bs ("ForwardCalls")) 0x28 (UT_OOC) ArgRef.null,
  Encoding.mk (bs ("AlternateFunction")) 0x29 (UT_MC) ArgRef.null,
  Encoding.mk (bs ("Line")) 0x2A (UT_OSC ||| UT_NARY) ArgRef.null,
  Encoding.mk (bs ("SpeakerPhone")) 0x2B (UT_OOC) ArgRef.null,
  Encoding.mk (bs ("Conference")) 0x2C (UT_OOC) ArgRef.null,
  Encoding.mk (bs ("RingEnable")) 0x2D (UT_OOC) ArgRef.null,
  Encoding.mk (bs ("RingSelect")) 0x2E (UT_OSC) ArgRef.null,
  Encoding.mk (bs ("PhoneMute")) 0x2F (UT_OOC) ArgRef.null,
  Encoding.mk (bs ("CallerId")) 0x30 (UT_MC) ArgRef.null,
  Encoding.mk (bs ("Send")) 0x31 (UT_OOC) ArgRef.null,
  Encoding.mk (bs ("SpeedDial")) 0x50 (UT_OSC) ArgRef.null,
  Encoding.mk (bs ("StoreNumber")) 0x51 (UT_OSC) ArgRef.null,
  Encoding.mk (bs ("RecallNumber")) 0x52 (UT_OSC) ArgRef.null,
  Encoding.mk (bs ("PhoneDirectory")) 0x53 (UT_OOC) ArgRef.null,
  Encoding.mk (bs ("VoiceMail")) 0x70 (UT_OOC) ArgRef.null,
  Encoding.mk (bs ("ScreenCalls")) 0x71 (UT_OOC) ArgRef.null,
  Encoding.mk (bs ("DoNotDisturb")) 0x72 (UT_OOC) ArgRef.null,
  Encoding.mk (bs ("Message")) 0x73 (UT_OSC) ArgRef.null,
  Encoding.mk (bs ("AnswerOnOff")) 0x74 (UT_OOC) ArgRef.null,
  Encoding.mk (bs ("InsideDialTone")) 0x90 (UT_MC) ArgRef.null,
  Encoding.mk (bs ("OutsideDialTone")) 0x91 (UT_MC) ArgRef.null,
  Encoding.mk (bs ("InsideRingTone")) 0x92 (UT_MC) ArgRef.null,
  Encoding.mk (bs ("OutsideRingTone")) 0x93 (UT_MC) ArgRef.null,
  Encoding.mk (bs ("PriorityRingTone")) 0x94 (UT_MC) ArgRef.null,
  Encoding.mk (bs ("InsideRingback")) 0x95 (UT_MC) ArgRef.null,
  Encoding.mk (bs ("PriorityRingback")) 0x96 (UT_MC) ArgRef.null,
  Encoding.mk (bs ("LineBusyTone")) 0x97 (UT_MC) ArgRef.null,
  Encoding.mk (bs ("ReorderTone")) 0x98 (UT_MC) ArgRef.null,
  Encoding.mk (bs ("CallWaitingTone")) 0x99 (UT_MC) ArgRef.null,
  Encoding.mk (bs ("ConfirmationTone1")) 0x9A (UT_MC) ArgRef.null,
  Encoding.mk (bs ("ConfirmationTone2")) 0x9B (UT_MC) ArgRef.null,
  Encoding.mk (bs ("TonesOff")) 0x9C (UT_OOC) ArgRef.null,
  Encoding.mk (bs ("OutsideRingback")) 0x9D (UT_MC) ArgRef.null,
  Encoding.mk (bs ("Ringer")) 0x9E (UT_OOC) ArgRef.null,
  Encoding.mk (bs ("PhoneKey0")) 0xB0 (UT_SEL) ArgRef.null,
  Encoding.mk (bs ("PhoneKey1")) 0xB1 (UT_SEL) ArgRef.null,
  Encoding.mk (bs ("PhoneKey2")) 0xB2 (UT_SEL) ArgRef.null,
  Encoding.mk (bs ("PhoneKey3")) 0xB3 (UT_SEL) ArgRef.null,
  Encoding.mk (bs ("PhoneKey4")) 0xB4 (UT_SEL) ArgRef.null,
  Encoding.mk (bs ("PhoneKey5")) 0xB5 (UT_SEL) ArgRef.null,
  Encoding.mk (bs ("PhoneKey6")) 0xB6 (UT_SEL) ArgRef.null,
  Encoding.mk (bs ("PhoneKey7")) 0xB7 (UT_SEL) ArgRef.null,
  Encoding.mk (bs ("PhoneKey8")) 0xB8 (UT_SEL) ArgRef.null,
  Encoding.mk (bs ("PhoneKey9")) 0xB9 (UT_SEL) ArgRef.null,
  Encoding.mk (bs ("PhoneKeyStar")) 0xBA (UT_SEL) ArgRef.null,
  Encoding.mk (bs ("PhoneKeyPound")) 0xBB (UT_SEL) ArgRef.null,
  Encoding.mk (bs ("PhoneKeyA")) 0xBC (UT_SEL) ArgRef.null,
  Encoding.mk (bs ("PhoneKeyB")) 0xBD (UT_SEL) ArgRef.null,
  Encoding.mk (bs ("PhoneKeyC")) 0xBE (UT_SEL) ArgRef.null,
  Encoding.mk (bs ("PhoneKeyD")) 0xBF (UT_SEL) ArgRef.null,
  Encoding.mk (bs ("PhoneCallHistoryKey")) 0xC0 (UT_SEL) ArgRef.null,
  Encoding.mk (bs ("PhoneCallerIdKey")) 0xC1 (UT_SEL) ArgRef.null,
  Encoding.mk (bs ("PhoneSettingsKey")) 0xC2 (UT_SEL) ArgRef.null,
  Encoding.mk (bs ("HostControl")) 0xF0 (UT_OOC) ArgRef.null,
  Encoding.mk (bs ("HostAvailable")) 0xF1 (UT_OOC) ArgRef.null,
  Encoding.mk (bs ("HostCallActive")) 0xF2 (UT_OOC) ArgRef.null,
  Encoding.mk (bs ("ActivateHandsetAudio")) 0xF3 (UT_OOC) ArgRef.null,
  Encoding.mk (bs ("RingType")) 0xF4 (UT_NARY) ArgRef.null,
  Encoding.mk (bs ("RediablePhoneNumber")) 0xF5 (UT_OOC) ArgRef.null,
  Encoding.mk (bs ("StopRingTone")) 0xF8 (UT_SEL) ArgRef.null,
  Encoding.mk (bs ("PstnRingTone")) 0xF9 (UT_SEL) ArgRef.null,
  Encoding.mk (bs ("HostRingTone")) 0xFA (UT_SEL) ArgRef.null,
  Encoding.mk (bs ("AlertSoundError")) 0xFB (UT_SEL) ArgRef.null,
  Encoding.mk (bs ("AlertSoundConfirm")) 0xFC (UT_SEL) ArgRef.null,
  Encoding.mk (bs ("AlertSoundNotification")) 0xFD (UT_SEL) ArgRef.null,
  Encoding.mk (bs ("SilentRing")) 0xFE (UT_SEL) ArgRef.null,
  Encoding.mk (bs ("EmailMessageWaiting")) 0x108 (UT_OOC) ArgRef.null,
  Encoding.mk (bs ("VoicemailMessageWaiting")) 0x109 (UT_OOC) ArgRef.null,
  Encoding.mk (bs ("HostHold")) 0x10A (UT_OOC) ArgRef.null,
  Encoding.mk (bs ("IncomingCallHistoryCount")) 0x110 (UT_DV) ArgRef.null,
  Encoding.mk (bs ("OutgoingCallHistoryCount")) 0x111 (UT_DV) ArgRef.null,
  Encoding.mk (bs ("IncomingCallHistory")) 0x112 (UT_CL) ArgRef.null,
  Encoding.mk (bs ("OutgoingCallHistory")) 0x113 (UT_CL) ArgRef.null,
  Encoding.mk (bs ("PhoneLocale")) 0x114 (UT_DV) ArgRef.null,
  Encoding.mk (bs ("PhoneTimeSecond")) 0x140 (UT_DV) ArgRef.null,
  Encoding.mk (bs ("PhoneTimeMinute")) 0x141 (UT_DV) ArgRef.null,
  Encoding.mk (bs ("PhoneTimeHour")) 0x142 (UT_DV) ArgRef.null,
  Encoding.mk (bs ("PhoneTimeDay")) 0x143 (UT_DV) ArgRef.null,
  Encoding.mk (bs ("PhoneTimeMonth")) 0x144 (UT_DV) ArgRef.null,
  Encoding.mk (bs ("PhoneTimeYear")) 0x145 (UT_DV) ArgRef.null,
  Encoding.mk (bs ("HandsetNickname")) 0x146 (UT_DV) ArgRef.null,
  Encoding.mk (bs ("AddressBookId")) 0x147 (UT_DV) ArgRef.null,
  Encoding.mk (bs ("CallDuration")) 0x14A (UT_DV) ArgRef.null,
  Encoding.mk (bs ("DualModePhone")) 0x14B (UT_CA) ArgRef.null
]

def consumerMap : List Encoding := [
  Encoding.mk (bs ("ConsumerControl")) 0x01 (UT_CA) ArgRef.null,
  Encoding.mk (bs ("NumericKeyPad")) 0x02 (UT_NARY) ArgRef.null,
  Encoding.mk (bs ("ProgrammableButtons")) 0x03 (UT_NARY) ArgRef.null,
  Encoding.mk (bs ("Microphone")) 0x04 (UT_CA) ArgRef.null,
  Encoding.mk (bs ("Headphone")) 0x05 (UT_CA) ArgRef.null,
  Encoding.mk (bs ("GraphicEqualizer")) 0x06 (UT_CA) ArgRef.null,
  Encoding.mk (bs ("Plus10")) 0x20 (UT_OSC) ArgRef.null,
  Encoding.mk (bs ("Plus100")) 0x21 (UT_OSC) ArgRef.null,
  Encoding.mk (bs ("AmPm")) 0x22 (UT_OSC) ArgRef.null,
  Encoding.mk (bs ("Power")) 0x30 (UT_OOC) ArgRef.null,
  Encoding.mk (bs ("Reset")) 0x31 (UT_OSC) ArgRef.null,
  Encoding.mk (bs ("Sleep")) 0x32 (UT_OSC) ArgRef.null,
  Encoding.mk (bs ("SleepAfter")) 0x33 (UT_OSC) ArgRef.null,
  Encoding.mk (bs ("SleepMode")) 0x34 (UT_RTC) ArgRef.null,
  Encoding.mk (bs ("Illumination")) 0x35 (UT_OOC) ArgRef.null,
  Encoding.mk (bs ("FunctionButtons")) 0x36 (UT_NARY) ArgRef.null,
  Encoding.mk (bs ("Menu")) 0x40 (UT_OOC) ArgRef.null,
  Encoding.mk (bs ("MenuPick")) 0x41 (UT_OSC) ArgRef.null,
  Encoding.mk (bs ("MenuUp")) 0x42 (UT_OSC) ArgRef.null,
  Encoding.mk (bs ("MenuDown")) 0x43 (UT_OSC) ArgRef.null,
  Encoding.mk (bs ("MenuLeft")) 0x44 (UT_OSC) ArgRef.null,
  Encoding.mk (bs ("MenuRight")) 0x45 (UT_OSC) ArgRef.null,
  Encoding.mk (bs ("MenuEscape")) 0x46 (UT_OSC) ArgRef.null,
  Encoding.mk (bs ("MenuValueIncrease")) 0x47 (UT_OSC) ArgRef.null,
  Encoding.mk (bs ("MenuValueDecrease")) 0x48 (UT_OSC) ArgRef.null,
  Encoding.mk (bs ("DataOnScreen")) 0x60 (UT_OOC) ArgRef.null,
  Encoding.mk (bs ("ClosedCaption")) 0x61 (UT_OOC) ArgRef.null,
  Encoding.mk (bs ("ClosedCaptionSelect")) 0x62 (UT_OSC) ArgRef.null,
  Encoding.mk (bs ("VcrTv")) 0x63 (UT_OOC) ArgRef.null,
  Encoding.mk (bs ("BroadcastMode")) 0x64 (UT_OSC) ArgRef.null,
  Encoding.mk (bs ("Snapshot")) 0x65 (UT_OSC) ArgRef.null,
  Encoding.mk (bs ("Still")) 0x66 (UT_OSC) ArgRef.null,
  Encoding.mk (bs ("PictureInPictureToggle")) 0x67 (UT_OSC) ArgRef.null,
  Encoding.mk (bs ("PictureInPictureSwap")) 0x68 (UT_OSC) ArgRef.null,
  Encoding.mk (bs ("RedMenuButton")) 0x69 (UT_MC) ArgRef.null,
  Encoding.mk (bs ("GreenMenuButton")) 0x6A (UT_MC) ArgRef.null,
  Encoding.mk (bs ("BlueMenuButton")) 0x6B (UT_MC) ArgRef.null,
  Encoding.mk (bs ("YellowMenuButton")) 0x6C (UT_MC) ArgRef.null,
  Encoding.mk (bs ("Aspect")) 0x6D (UT_OSC) ArgRef.null,
  Encoding.mk (bs ("Mode3dSelect")) 0x6E (UT_OSC) ArgRef.null,
  Encoding.mk (bs ("DisplayBrightnessIncrement")) 0x6F (UT_RTC) ArgRef.null,
  Encoding.mk (bs ("DisplayBrightnessDecrement")) 0x70 (UT_RTC) ArgRef.null,
  Encoding.mk (bs ("DisplayBrightness")) 0x71 (UT_LC) ArgRef.null,
  Encoding.mk (bs ("DisplayBacklightToggle")) 0x72 (UT_OOC) ArgRef.null,
  Encoding.mk (bs ("DisplaySetBrightnessToMinimum")) 0x73 (UT_OSC) ArgRef.null,
  Encoding.mk (bs ("DisplaySetBrightnessToMaximum")) 0x74 (UT_OSC) ArgRef.null,
  Encoding.mk (bs ("DisplaySetAutoBrightness")) 0x75 (UT_OOC) ArgRef.null,
  Encoding.mk (bs ("CameraAccessEnabled")) 0x76 (UT_OOC) ArgRef.null,
  Encoding.mk (bs ("CameraAccessDisabled")) 0x77 (UT_OOC) ArgRef.null,
  Encoding.mk (bs ("CameraAccessToggle")) 0x78 (UT_OOC) ArgRef.null,
  Encoding.mk (bs ("KeyboardBrightnessIncrement")) 0x79 (UT_OSC) ArgRef.null,
  Encoding.mk (bs ("KeyboardBrightnessDecrement")) 0x7A (UT_OSC) ArgRef.null,
  Encoding.mk (bs ("KeyboardBacklightSetLevel")) 0x7B (UT_LC) ArgRef.null,
  Encoding.mk (bs ("KeyboardBacklightOoc")) 0x7C (UT_OOC) ArgRef.null,
  Encoding.mk (bs ("KeyboardBacklightSetMinimum")) 0x7D (UT_OSC) ArgRef.null,
  Encoding.mk (bs ("KeyboardBacklightSetMaximum")) 0x7E (UT_OSC) ArgRef.null,
  Encoding.mk (bs ("KeyboardBacklightAuto")) 0x7F (UT_OOC) ArgRef.null,
  Encoding.mk (bs ("Selection")) 0x80 (UT_NARY) ArgRef.null,
  Encoding.mk (bs ("AssignSelection")) 0x81 (UT_OSC) ArgRef.null,
  Encoding.mk (bs ("ModeStep")) 0x82 (UT_OSC) ArgRef.null,
  Encoding.mk (bs ("RecallLast")) 0x83 (UT_OSC) ArgRef.null,
  Encoding.mk (bs ("EnterChannel")) 0x84 (UT_OSC) ArgRef.null,
  Encoding.mk (bs ("OrderMovie")) 0x85 (UT_OSC) ArgRef.null,
  Encoding.mk (bs ("Channel")) 0x86 (UT_LC) ArgRef.null,
  Encoding.mk (bs ("MediaSelection")) 0x87 (UT_NARY) ArgRef.null,
  Encoding.mk (bs ("MediaSelectComputer")) 0x88 (UT_SEL) ArgRef.null,
  Encoding.mk (bs ("MediaSelectTv")) 0x89 (UT_SEL) ArgRef.null,
  Encoding.mk (bs ("MediaSelectWww")) 0x8A (UT_SEL) ArgRef.null,
  Encoding.mk (bs ("MediaSelectDvd")) 0x8B (UT_SEL) ArgRef.null,
  Encoding.mk (bs ("MediaSelectTelephone")) 0x8C (UT_SEL) ArgRef.null,
  Encoding.mk (bs ("MediaSelectProgramGuide")) 0x8D (UT_SEL) ArgRef.null,
  Encoding.mk (bs ("MediaSelectVideoPhone")) 0x8E (UT_SEL) ArgRef.null,
  Encoding.mk (bs ("MediaSelectGames")) 0x8F (UT_SEL) ArgRef.null,
  Encoding.mk (bs ("MediaSelectMessages")) 0x90 (UT_SEL) ArgRef.null,
  Encoding.mk (bs ("MediaSelectCd")) 0x91 (UT_SEL) ArgRef.null,
  Encoding.mk (bs ("MediaSelectVcr")) 0x92 (UT_SEL) ArgRef.null,
  Encoding.mk (bs ("MediaSelectTuner")) 0x93 (UT_SEL) ArgRef.null,
  Encoding.mk (bs ("Quit")) 0x94 (UT_OSC) ArgRef.null,
  Encoding.mk (bs ("Help")) 0x95 (UT_OOC) ArgRef.null,
  Encoding.mk (bs ("MediaSelectTape")) 0x96 (UT_SEL) ArgRef.null,
  Encoding.mk (bs ("MediaSelectCable")) 0x97 (UT_SEL) ArgRef.null,
  Encoding.mk (bs ("MediaSelectSatellite")) 0x98 (UT_SEL) ArgRef.null,
  Encoding.mk (bs ("MediaSelectSecurity")) 0x99 (UT_SEL) ArgRef.null,
  Encoding.mk (bs ("MediaSelectHome")) 0x9A (UT_SEL) ArgRef.null,
  Encoding.mk (bs ("MediaSelectCall")) 0x9B (UT_SEL) ArgRef.null,
  Encoding.mk (bs ("ChannelIncrement")) 0x9C (UT_OSC) ArgRef.null,
  Encoding.mk (bs ("ChannelDecrement")) 0x9D (UT_OSC) ArgRef.null,
  Encoding.mk (bs ("MediaSelectSap")) 0x9E (UT_SEL) ArgRef.null,
  Encoding.mk (bs ("VcrPlus")) 0xA0 (UT_OSC) ArgRef.null,
  Encoding.mk (bs ("Once")) 0xA1 (UT_OSC) ArgRef.null,
  Encoding.mk (bs ("Daily")) 0xA2 (UT_OSC) ArgRef.null,
  Encoding.mk (bs ("Weekly")) 0xA3 (UT_OSC) ArgRef.null,
  Encoding.mk (bs ("Monthly")) 0xA4 (UT_OSC) ArgRef.null,
  Encoding.mk (bs ("Play")) 0xB0 (UT_OOC) ArgRef.null,
  Encoding.mk (bs ("Pause")) 0xB1 (UT_OOC) ArgRef.null,
  Encoding.mk (bs ("Record")) 0xB2 (UT_OOC) ArgRef.null,
  Encoding.mk (bs ("FastForward")) 0xB3 (UT_OOC) ArgRef.null,
  Encoding.mk (bs ("Rewind")) 0xB4 (UT_OOC) ArgRef.null,
  Encoding.mk (bs ("ScanNextTrack")) 0xB5 (UT_OSC) ArgRef.null,
  Encoding.mk (bs ("ScanPreviousTrack")) 0xB6 (UT_OSC) ArgRef.null,
  Encoding.mk (bs ("Stop")) 0xB7 (UT_OSC) ArgRef.null,
  Encoding.mk (bs ("Eject")) 0xB8 (UT_OSC) ArgRef.null,
  Encoding.mk (bs ("RandomPlay")) 0xB9 (UT_OOC) ArgRef.null,
  Encoding.mk (bs ("SelectDisc")) 0xBA (UT_NARY) ArgRef.null,
  Encoding.mk (bs ("EnterDisc")) 0xBB (UT_MC) ArgRef.null,
  Encoding.mk (bs ("Repeat")) 0xBC (UT_OSC) ArgRef.null,
  Encoding.mk (bs ("Tracking")) 0xBD (UT_LC) ArgRef.null,
  Encoding.mk (bs ("TrackNormal")) 0xBE (UT_OSC) ArgRef.null,
  Encoding.mk (bs ("SlowTracking")) 0xBF (UT_LC) ArgRef.null,
  Encoding.mk (bs ("FrameForward")) 0xC0 (UT_RTC) ArgRef.null,
  Encoding.mk (bs ("FrameBack")) 0xC1 (UT_RTC) ArgRef.null,
  Encoding.mk (bs ("Mark")) 0xC2 (UT_OSC) ArgRef.null,
  Encoding.mk (bs ("ClearMark")) 0xC3 (UT_OSC) ArgRef.null,
  Encoding.mk (bs ("RepeatFromMark")) 0xC4 (UT_OOC) ArgRef.null,
  Encoding.mk (bs ("ReturnToMark")) 0xC5 (UT_OSC) ArgRef.null,
  Encoding.mk (bs ("SearchMarkForward")) 0xC6 (UT_OSC) ArgRef.null,
  Encoding.mk (bs ("SearchMarkBackwards")) 0xC7 (UT_OSC) ArgRef.null,
  Encoding.mk (bs ("CounterReset")) 0xC8 (UT_OSC) ArgRef.null,
  Encoding.mk (bs ("ShowCounter")) 0xC9 (UT_OSC) ArgRef.null,
  Encoding.mk (bs ("TrackingIncrement")) 0xCA (UT_RTC) ArgRef.null,
  Encoding.mk (bs ("TrackingDecrement")) 0xCB (UT_RTC) ArgRef.null,
  Encoding.mk (bs ("StopEject")) 0xCC (UT_OSC) ArgRef.null,
  Encoding.mk (bs ("PlayPause")) 0xCD (UT_OSC) ArgRef.null,
  Encoding.mk (bs ("PlaySkip")) 0xCE (UT_OSC) ArgRef.null,
  Encoding.mk (bs ("VoiceCommand")) 0xCF (UT_OSC) ArgRef.null,
  Encoding.mk (bs ("InvokeCaptureInterface")) 0xD0 (UT_SEL) ArgRef.null,
  Encoding.mk (bs ("StartOrStopGameRecording")) 0xD1 (UT_SEL) ArgRef.null,
  Encoding.mk (bs ("HistoricalGameCapture")) 0xD2 (UT_SEL) ArgRef.null,
  Encoding.mk (bs ("CaptureGameScreenshot")) 0xD3 (UT_SEL) ArgRef.null,
  Encoding.mk (bs ("ShowOrHideRecordingIndicator")) 0xD4 (UT_SEL) ArgRef.null,
  Encoding.mk (bs ("StartOrStopMicrophoneCapture")) 0xD5 (UT_SEL) ArgRef.null,
  Encoding.mk (bs ("StartOrStopCameraCapture")) 0xD6 (UT_SEL) ArgRef.null,
  Encoding.mk (bs ("StartOrStopGameBroadcast")) 0xD7 (UT_SEL) ArgRef.null,
  Encoding.mk (bs ("Volume")) 0xE0 (UT_LC) ArgRef.null,
  Encoding.mk (bs ("Balance")) 0xE1 (UT_LC) ArgRef.null,
  Encoding.mk (bs ("Mute")) 0xE2 (UT_OOC) ArgRef.null,
  Encoding.mk (bs ("Bass")) 0xE3 (UT_LC) ArgRef.null,
  Encoding.mk (bs ("Treble")) 0xE4 (UT_LC) ArgRef.null,
  Encoding.mk (bs ("BassBoost")) 0xE5 (UT_OOC) ArgRef.null,
  Encoding.mk (bs ("SurroundMode")) 0xE6 (UT_OSC) ArgRef.null,
  Encoding.mk (bs ("Loudness")) 0xE7 (UT_OOC) ArgRef.null,
  Encoding.mk (bs ("Mpx")) 0xE8 (UT_OOC) ArgRef.null,
  Encoding.mk (bs ("VolumeIncrement")) 0xE9 (UT_RTC) ArgRef.null,
  Encoding.mk (bs ("VolumeDecrement")) 0xEA (UT_RTC) ArgRef.null,
  Encoding.mk (bs ("SpeedSelect")) 0xF0 (UT_OSC) ArgRef.null,
  Encoding.mk (bs ("PlaybackSpeed")) 0xF1 (UT_NARY) ArgRef.null,
  Encoding.mk (bs ("StandardPlay")) 0xF2 (UT_SEL) ArgRef.null,
  Encoding.mk (bs ("LongPlay")) 0xF3 (UT_SEL) ArgRef.null,
  Encoding.mk (bs ("ExtendedPlay")) 0xF4 (UT_SEL) ArgRef.null,
  Encoding.mk (bs ("Slow")) 0xF5 (UT_OSC) ArgRef.null,
  Encoding.mk (bs ("FanEnable")) 0x100 (UT_OOC) ArgRef.null,
  Encoding.mk (bs ("FanSpeed")) 0x101 (UT_LC) ArgRef.null,
  Encoding.mk (bs ("LightEnable")) 0x102 (UT_OOC) ArgRef.null,
  Encoding.mk (bs ("LightIlluminationLevel")) 0x103 (UT_LC) ArgRef.null,
  Encoding.mk (bs ("ClimateControlEnable")) 0x104 (UT_OOC) ArgRef.null,
  Encoding.mk (bs ("RoomTemperature")) 0x105 (UT_LC) ArgRef.null,
  Encoding.mk (bs ("SecurityEnalbe")) 0x106 (UT_OOC) ArgRef.null,
  Encoding.mk (bs ("FireAlarm")) 0x107 (UT_OSC) ArgRef.null,
  Encoding.mk (bs ("PoliceAlarm")) 0x108 (UT_OSC) ArgRef.null,
  Encoding.mk (bs ("Proximity")) 0x109 (UT_LC) ArgRef.null,
  Encoding.mk (bs ("Motion")) 0x10A (UT_OSC) ArgRef.null,
  Encoding.mk (bs ("DuressAlarm")) 0x10B (UT_OSC) ArgRef.null,
  Encoding.mk (bs ("HoldupAlarm")) 0x10C (UT_OSC) ArgRef.null,
  Encoding.mk (bs ("MedicalAlarm")) 0x10D (UT_OSC) ArgRef.null,
  Encoding.mk (bs ("BalanceRight")) 0x150 (UT_RTC) ArgRef.null,
  Encoding.mk (bs ("BalanceLeft")) 0x151 (UT_RTC) ArgRef.null,
  Encoding.mk (bs ("BassIncrement")) 0x152 (UT_RTC) ArgRef.null,
  Encoding.mk (bs ("BassDecrement")) 0x153 (UT_RTC) ArgRef.null,
  Encoding.mk (bs ("TrebleIncrement")) 0x154 (UT_RTC) ArgRef.null,
  Encoding.mk (bs ("TrebleDecrement")) 0x155 (UT_RTC) ArgRef.null,
  Encoding.mk (bs ("SpeakerSystem")) 0x160 (UT_CL) ArgRef.null,
  Encoding.mk (bs ("ChannelLeft")) 0x161 (UT_CL) ArgRef.null,
  Encoding.mk (bs ("ChannelRight")) 0x162 (UT_CL) ArgRef.null,
  Encoding.mk (bs ("ChannelCenter")) 0x163 (UT_CL) ArgRef.null,
  Encoding.mk (bs ("ChannelFront")) 0x164 (UT_CL) ArgRef.null,
  Encoding.mk (bs ("ChannelCenterFront")) 0x165 (UT_CL) ArgRef.null,
  Encoding.mk (bs ("ChannelSide")) 0x166 (UT_CL) ArgRef.null,
  Encoding.mk (bs ("ChannelSurround")) 0x167 (UT_CL) ArgRef.null,
  Encoding.mk (bs ("ChannelLowFrequencyEnhancement")) 0x168 (UT_CL) ArgRef.null,
  Encoding.mk (bs ("ChannelTop")) 0x169 (UT_CL) ArgRef.null,
  Encoding.mk (bs ("ChannelUnknown")) 0x16A (UT_CL) ArgRef.null,
  Encoding.mk (bs ("SubChannel")) 0x170 (UT_LC) ArgRef.null,
  Encoding.mk (bs ("SubChannelIncrement")) 0x171 (UT_OSC) ArgRef.null,
  Encoding.mk (bs ("SubChannelDecrement")) 0x172 (UT_OSC) ArgRef.null,
  Encoding.mk (bs ("AlternateAudioIncrement")) 0x173 (UT_OSC) ArgRef.null,
  Encoding.mk (bs ("AlternateAudioDecrement")) 0x174 (UT_OSC) ArgRef.null,
  Encoding.mk (bs ("ApplicationLaunchButtons")) 0x180 (UT_NARY) ArgRef.null,
  Encoding.mk (bs ("AlLaunchButtonConfigurationTool")) 0x181 (UT_SEL) ArgRef.null,
  Encoding.mk (bs ("AlProgrammableButtonConfiguration")) 0x182 (UT_SEL) ArgRef.null,
  Encoding.mk (bs ("AlConsumerControlConfiguration")) 0x183 (UT_SEL) ArgRef.null,
  Encoding.mk (bs ("AlWordProcessor")) 0x184 (UT_SEL) ArgRef.null,
  Encoding.mk (bs ("AlTextEditor")) 0x185 (UT_SEL) ArgRef.null,
  Encoding.mk (bs ("AlSpreadsheet")) 0x186 (UT_SEL) ArgRef.null,
  Encoding.mk (bs ("AlGraphicsEditor")) 0x187 (UT_SEL) ArgRef.null,
  Encoding.mk (bs ("AlPresentationApp")) 0x188 (UT_SEL) ArgRef.null,
  Encoding.mk (bs ("AlDatabaseApp")) 0x189 (UT_SEL) ArgRef.null,
  Encoding.mk (bs ("AlEmailReader")) 0x18A (UT_SEL) ArgRef.null,
  Encoding.mk (bs ("AlNewsreader")) 0x18B (UT_SEL) ArgRef.null,
  Encoding.mk (bs ("AlVoicemail")) 0x18C (UT_SEL) ArgRef.null,
  Encoding.mk (bs ("AlContactsAddressBook")) 0x18D (UT_SEL) ArgRef.null,
  Encoding.mk (bs ("AlCalenderSchedule")) 0x18E (UT_SEL) ArgRef.null,
  Encoding.mk (bs ("AlTaskProjectManager")) 0x18F (UT_SEL) ArgRef.null,
  Encoding.mk (bs ("AlLogJournalTimecard")) 0x190 (UT_SEL) ArgRef.null,
  Encoding.mk (bs ("AlCheckbookFinance")) 0x191 (UT_SEL) ArgRef.null,
  Encoding.mk (bs ("AlCalculator")) 0x192 (UT_SEL) ArgRef.null,
  Encoding.mk (bs ("AlAvCapturePlayback")) 0x193 (UT_SEL) ArgRef.null,
  Encoding.mk (bs ("AlLocalMachineBrowser")) 0x194 (UT_SEL) ArgRef.null,
  Encoding.mk (bs ("AlLanWanBrowser")) 0x195 (UT_SEL) ArgRef.null,
  Encoding.mk (bs ("AlInternetBrowser")) 0x196 (UT_SEL) ArgRef.null,
  Encoding.mk (bs ("AlRemoteNetworkingIspConnect")) 0x197 (UT_SEL) ArgRef.null,
  Encoding.mk (bs ("AlNetworkConference")) 0x198 (UT_SEL) ArgRef.null,
  Encoding.mk (bs ("AlNetworkChat")) 0x199 (UT_SEL) ArgRef.null,
  Encoding.mk (bs ("AlTelephonyDialer")) 0x19A (UT_SEL) ArgRef.null,
  Encoding.mk (bs ("AlLogon")) 0x19B (UT_SEL) ArgRef.null,
  Encoding.mk (bs ("AlLogoff")) 0x19C (UT_SEL) ArgRef.null,
  Encoding.mk (bs ("AlLogonLogoff")) 0x19D (UT_SEL) ArgRef.null,
  Encoding.mk (bs ("AlTerminalLockScreensaver")) 0x19E (UT_SEL) ArgRef.null,
  Encoding.mk (bs ("AlControlPanel")) 0x19F (UT_SEL) ArgRef.null,
  Encoding.mk (bs ("AlCommandLineProcessorRun")) 0x1A0 (UT_SEL) ArgRef.null,
  Encoding.mk (bs ("AlProcessTaskManager")) 0x1A1 (UT_SEL) ArgRef.null,
  Encoding.mk (bs ("AlSelectTaskApplication")) 0x1A2 (UT_SEL) ArgRef.null,
  Encoding.mk (bs ("AlNextTaskApplication")) 0x1A3 (UT_SEL) ArgRef.null,
  Encoding.mk (bs ("AlPreviousTaskApplication")) 0x1A4 (UT_SEL) ArgRef.null,
  Encoding.mk (bs ("AlPreemptiveHaltTaskApplication")) 0x1A5 (UT_SEL) ArgRef.null,
  Encoding.mk (bs ("AlIntegratedHelpCenter")) 0x1A6 (UT_SEL) ArgRef.null,
  Encoding.mk (bs ("AlDocuments")) 0x1A7 (UT_SEL) ArgRef.null,
  Encoding.mk (bs ("AlThesaurus")) 0x1A8 (UT_SEL) ArgRef.null,
  Encoding.mk (bs ("AlDictionary")) 0x1A9 (UT_SEL) ArgRef.null,
  Encoding.mk (bs ("AlDesktop")) 0x1AA (UT_SEL) ArgRef.null,
  Encoding.mk (bs ("AlSpellCheck")) 0x1AB (UT_SEL) ArgRef.null,
  Encoding.mk (bs ("AlGrammarCheck")) 0x1AC (UT_SEL) ArgRef.null,
  Encoding.mk (bs ("AlWirelessStatus")) 0x1AD (UT_SEL) ArgRef.null,
  Encoding.mk (bs ("AlKeyboardLayout")) 0x1AE (UT_SEL) ArgRef.null,
  Encoding.mk (bs ("AlVirusProtection")) 0x1AF (UT_SEL) ArgRef.null,
  Encoding.mk (bs ("AlEncryption")) 0x1B0 (UT_SEL) ArgRef.null,
  Encoding.mk (bs ("AlScreenSaver")) 0x1B1 (UT_SEL) ArgRef.null,
  Encoding.mk (bs ("AlAlarms")) 0x1B2 (UT_SEL) ArgRef.null,
  Encoding.mk (bs ("AlClock")) 0x1B3 (UT_SEL) ArgRef.null,
  Encoding.mk (bs ("AlFileBrowser")) 0x1B4 (UT_SEL) ArgRef.null,
  Encoding.mk (bs ("AlPowerStatus")) 0x1B5 (UT_SEL) ArgRef.null,
  Encoding.mk (bs ("AlImageBrowser")) 0x1B6 (UT_SEL) ArgRef.null,
  Encoding.mk (bs ("AlAudioBrowser")) 0x1B7 (UT_SEL) ArgRef.null,
  Encoding.mk (bs ("AlMovieBrowser")) 0x1B8 (UT_SEL) ArgRef.null,
  Encoding.mk (bs ("AlDigitalRightsManager")) 0x1B9 (UT_SEL) ArgRef.null,
  Encoding.mk (bs ("AlDigitalWallet")) 0x1BA (UT_SEL) ArgRef.null,
  Encoding.mk (bs ("AlInstantMessaging")) 0x1BC (UT_SEL) ArgRef.null,
  Encoding.mk (bs ("AlOemFeatureTipsTutorialBrowser")) 0x1BD (UT_SEL) ArgRef.null,
  Encoding.mk (bs ("AlOemHelp")) 0x1BE (UT_SEL) ArgRef.null,
  Encoding.mk (bs ("AlOnlineCommunity")) 0x1BF (UT_SEL) ArgRef.null,
  Encoding.mk (bs ("AlEntertainmentContentBrowser")) 0x1C0 (UT_SEL) ArgRef.null,
  Encoding.mk (bs ("AlOnlineShoppingBrowser")) 0x1C1 (UT_SEL) ArgRef.null,
  Encoding.mk (bs ("AlSmartCardInformationHelp")) 0x1C2 (UT_SEL) ArgRef.null,
  Encoding.mk (bs ("AlMarketMonitorFinanceBrowser")) 0x1C3 (UT_SEL) ArgRef.null,
  Encoding.mk (bs ("AlCustomizedCorporateNewsBrowser")) 0x1C4 (UT_SEL) ArgRef.null,
  Encoding.mk (bs ("AlOnlineActivityBrowser")) 0x1C5 (UT_SEL) ArgRef.null,
  Encoding.mk (bs ("AlResearchSearchBrowser")) 0x1C6 (UT_SEL) ArgRef.null,
  Encoding.mk (bs ("AlAudioPlayer")) 0x1C7 (UT_SEL) ArgRef.null,
  Encoding.mk (bs ("AlMessageStatus")) 0x1C8 (UT_SEL) ArgRef.null,
  Encoding.mk (bs ("AlContactSync")) 0x1C9 (UT_SEL) ArgRef.null,
  Encoding.mk (bs ("AlNavigation")) 0x1CA (UT_SEL) ArgRef.null,
  Encoding.mk (bs ("AlContextAwareDesktopAssistant")) 0x1CB (UT_SEL) ArgRef.null,
  Encoding.mk (bs ("GenericGuiApplicationControls")) 0x200 (UT_NARY) ArgRef.null,
  Encoding.mk (bs ("AcNew")) 0x201 (UT_SEL) ArgRef.null,
  Encoding.mk (bs ("AcOpen")) 0x202 (UT_SEL) ArgRef.null,
  Encoding.mk (bs ("AcClose")) 0x203 (UT_SEL) ArgRef.null,
  Encoding.mk (bs ("AcExit")) 0x204 (UT_SEL) ArgRef.null,
  Encoding.mk (bs ("AcMaximize")) 0x205 (UT_SEL) ArgRef.null,
  Encoding.mk (bs ("AcMinimize")) 0x206 (UT_SEL) ArgRef.null,
  Encoding.mk (bs ("AcSave")) 0x207 (UT_SEL) ArgRef.null,
  Encoding.mk (bs ("AcPrint")) 0x208 (UT_SEL) ArgRef.null,
  Encoding.mk (bs ("AcProperties")) 0x209 (UT_SEL) ArgRef.null,
  Encoding.mk (bs ("AcUndo")) 0x21A (UT_SEL) ArgRef.null,
  Encoding.mk (bs ("AcCopy")) 0x21B (UT_SEL) ArgRef.null,
  Encoding.mk (bs ("AcCut")) 0x21C (UT_SEL) ArgRef.null,
  Encoding.mk (bs ("AcPaste")) 0x21D (UT_SEL) ArgRef.null,
  Encoding.mk (bs ("AcSelectAll")) 0x21E (UT_SEL) ArgRef.null,
  Encoding.mk (bs ("AcFind")) 0x21F (UT_SEL) ArgRef.null,
  Encoding.mk (bs ("AcFindAndReplace")) 0x220 (UT_SEL) ArgRef.null,
  Encoding.mk (bs ("AcSearch")) 0x221 (UT_SEL) ArgRef.null,
  Encoding.mk (bs ("AcGoTo")) 0x222 (UT_SEL) ArgRef.null,
  Encoding.mk (bs ("AcHome")) 0x223 (UT_SEL) ArgRef.null,
  Encoding.mk (bs ("AcBack")) 0x224 (UT_SEL) ArgRef.null,
  Encoding.mk (bs ("AcForward")) 0x225 (UT_SEL) ArgRef.null,
  Encoding.mk (bs ("AcStop")) 0x226 (UT_SEL) ArgRef.null,
  Encoding.mk (bs ("AcRefresh")) 0x227 (UT_SEL) ArgRef.null,
  Encoding.mk (bs ("AcPreviousLink")) 0x228 (UT_SEL) ArgRef.null,
  Encoding.mk (bs ("AcNextLink")) 0x229 (UT_SEL) ArgRef.null,
  Encoding.mk (bs ("AcBookmarks")) 0x22A (UT_SEL) ArgRef.null,
  Encoding.mk (bs ("AcHistory")) 0x22B (UT_SEL) ArgRef.null,
  Encoding.mk (bs ("AcSubscriptions")) 0x22C (UT_SEL) ArgRef.null,
  Encoding.mk (bs ("AcZoomIn")) 0x22D (UT_SEL) ArgRef.null,
  Encoding.mk (bs ("AcZoomOut")) 0x22E (UT_SEL) ArgRef.null,
  Encoding.mk (bs ("AcZoom")) 0x22F (UT_LC) ArgRef.null,
  Encoding.mk (bs ("AcFullScreenView")) 0x230 (UT_SEL) ArgRef.null,
  Encoding.mk (bs ("AcNormalView")) 0x231 (UT_SEL) ArgRef.null,
  Encoding.mk (bs ("AcViewToggle")) 0x232 (UT_SEL) ArgRef.null,
  Encoding.mk (bs ("AcScrollUp")) 0x233 (UT_SEL) ArgRef.null,
  Encoding.mk (bs ("AcScrollDown")) 0x234 (UT_SEL) ArgRef.null,
  Encoding.mk (bs ("AcScroll")) 0x235 (UT_LC) ArgRef.null,
  Encoding.mk (bs ("AcPanLeft")) 0x236 (UT_SEL) ArgRef.null,
  Encoding.mk (bs ("AcPanRight")) 0x237 (UT_SEL) ArgRef.null,
  Encoding.mk (bs ("AcPan")) 0x238 (UT_LC) ArgRef.null,
  Encoding.mk (bs ("AcNewWindow")) 0x239 (UT_SEL) ArgRef.null,
  Encoding.mk (bs ("AcTileHorizontally")) 0x23A (UT_SEL) ArgRef.null,
  Encoding.mk (bs ("AcTileVertically")) 0x23B (UT_SEL) ArgRef.null,
  Encoding.mk (bs ("AcFormat")) 0x23C (UT_SEL) ArgRef.null,
  Encoding.mk (bs ("AcEdit")) 0x23D (UT_SEL) ArgRef.null,
  Encoding.mk (bs ("AcBold")) 0x23E (UT_SEL) ArgRef.null,
  Encoding.mk (bs ("AcItalics")) 0x23F (UT_SEL) ArgRef.null,
  Encoding.mk (bs ("AcUnderline")) 0x240 (UT_SEL) ArgRef.null,
  Encoding.mk (bs ("AcStrikethrough")) 0x241 (UT_SEL) ArgRef.null,
  Encoding.mk (bs ("AcSubscript")) 0x242 (UT_SEL) ArgRef.null,
  Encoding.mk (bs ("AcSuperscript")) 0x243 (UT_SEL) ArgRef.null,
  Encoding.mk (bs ("AcAllCaps")) 0x244 (UT_SEL) ArgRef.null,
  Encoding.mk (bs ("AcRemote")) 0x245 (UT_SEL) ArgRef.null,
  Encoding.mk (bs ("AcResize")) 0x246 (UT_SEL) ArgRef.null,
  Encoding.mk (bs ("AcFlipHorizontal")) 0x247 (UT_SEL) ArgRef.null,
  Encoding.mk (bs ("AcFlipVertical")) 0x248 (UT_SEL) ArgRef.null,
  Encoding.mk (bs ("AcMirrorHorizontal")) 0x249 (UT_SEL) ArgRef.null,
  Encoding.mk (bs ("AcMirrorVertical")) 0x24A (UT_SEL) ArgRef.null,
  Encoding.mk (bs ("AcFontSelect")) 0x24B (UT_SEL) ArgRef.null,
  Encoding.mk (bs ("AcFontColor")) 0x24C (UT_SEL) ArgRef.null,
  Encoding.mk (bs ("AcFontSize")) 0x24D (UT_SEL) ArgRef.null,
  Encoding.mk (bs ("AcJustifyLeft")) 0x24E (UT_SEL) ArgRef.null,
  Encoding.mk (bs ("AcJustifyCenterH")) 0x24F (UT_SEL) ArgRef.null,
  Encoding.mk (bs ("AcJustifyRight")) 0x250 (UT_SEL) ArgRef.null,
  Encoding.mk (bs ("AcJustifyBlockH")) 0x251 (UT_SEL) ArgRef.null,
  Encoding.mk (bs ("AcJustifyTop")) 0x252 (UT_SEL) ArgRef.null,
  Encoding.mk (bs ("AcJustifyCenterV")) 0x253 (UT_SEL) ArgRef.null,
  Encoding.mk (bs ("AcJustifyBottom")) 0x254 (UT_SEL) ArgRef.null,
  Encoding.mk (bs ("AcJustifyBlockV")) 0x255 (UT_SEL) ArgRef.null,
  Encoding.mk (bs ("AcIndentDecrease")) 0x256 (UT_SEL) ArgRef.null,
  Encoding.mk (bs ("AcIndentIncrease")) 0x257 (UT_SEL) ArgRef.null,
  Encoding.mk (bs ("AcNumberedList")) 0x258 (UT_SEL) ArgRef.null,
  Encoding.mk (bs ("AcRestartNumbering")) 0x259 (UT_SEL) ArgRef.null,
  Encoding.mk (bs ("AcBulletedList")) 0x25A (UT_SEL) ArgRef.null,
  Encoding.mk (bs ("AcPromote")) 0x25B (UT_SEL) ArgRef.null,
  Encoding.mk (bs ("AcDemote")) 0x25C (UT_SEL) ArgRef.null,
  Encoding.mk (bs ("AcYes")) 0x25D (UT_SEL) ArgRef.null,
  Encoding.mk (bs ("AcNo")) 0x25E (UT_SEL) ArgRef.null,
  Encoding.mk (bs ("AcCancel")) 0x25F (UT_SEL) ArgRef.null,
  Encoding.mk (bs ("AcCatalog")) 0x260 (UT_SEL) ArgRef.null,
  Encoding.mk (bs ("AcBuyCheckout")) 0x261 (UT_SEL) ArgRef.null,
  Encoding.mk (bs ("AcAddToChart")) 0x262 (UT_SEL) ArgRef.null,
  Encoding.mk (bs ("AcExpand")) 0x263 (UT_SEL) ArgRef.null,
  Encoding.mk (bs ("AcExpandAll")) 0x264 (UT_SEL) ArgRef.null,
  Encoding.mk (bs ("AcCollapse")) 0x265 (UT_SEL) ArgRef.null,
  Encoding.mk (bs ("AcCollapseAll")) 0x266 (UT_SEL) ArgRef.null,
  Encoding.mk (bs ("AcPrintPreview")) 0x267 (UT_SEL) ArgRef.null,
  Encoding.mk (bs ("AcPasteSpecial")) 0x268 (UT_SEL) ArgRef.null,
  Encoding.mk (bs ("AcInsertMode")) 0x269 (UT_SEL) ArgRef.null,
  Encoding.mk (bs ("AcDelete")) 0x26A (UT_SEL) ArgRef.null,
  Encoding.mk (bs ("AcLock")) 0x26B (UT_SEL) ArgRef.null,
  Encoding.mk (bs ("AcUnlock")) 0x26C (UT_SEL) ArgRef.null,
  Encoding.mk (bs ("AcProtect")) 0x26D (UT_SEL) ArgRef.null,
  Encoding.mk (bs ("AcUnprotect")) 0x26E (UT_SEL) ArgRef.null,
  Encoding.mk (bs ("AcAttachComment")) 0x26F (UT_SEL) ArgRef.null,
  Encoding.mk (bs ("AcDeleteComment")) 0x270 (UT_SEL) ArgRef.null,
  Encoding.mk (bs ("AcViewComment")) 0x271 (UT_SEL) ArgRef.null,
  Encoding.mk (bs ("AcSelectWord")) 0x272 (UT_SEL) ArgRef.null,
  Encoding.mk (bs ("AcSelectSentence")) 0x273 (UT_SEL) ArgRef.null,
  Encoding.mk (bs ("AcSelectPragraph")) 0x274 (UT_SEL) ArgRef.null,
  Encoding.mk (bs ("AcSelectColumn")) 0x275 (UT_SEL) ArgRef.null,
  Encoding.mk (bs ("AcSelectRow")) 0x276 (UT_SEL) ArgRef.null,
  Encoding.mk (bs ("AcSelectTable")) 0x277 (UT_SEL) ArgRef.null,
  Encoding.mk (bs ("AcSelectObject")) 0x278 (UT_SEL) ArgRef.null,
  Encoding.mk (bs ("AcRedoRepeat")) 0x279 (UT_SEL) ArgRef.null,
  Encoding.mk (bs ("AcSort")) 0x27A (UT_SEL) ArgRef.null,
  Encoding.mk (bs ("AcSortAscending")) 0x27B (UT_SEL) ArgRef.null,
  Encoding.mk (bs ("AcSortDescending")) 0x27C (UT_SEL) ArgRef.null,
  Encoding.mk (bs ("AcFilter")) 0x27D (UT_SEL) ArgRef.null,
  Encoding.mk (bs ("AcSetClock")) 0x27E (UT_SEL) ArgRef.null,
  Encoding.mk (bs ("AcViewClock")) 0x27F (UT_SEL) ArgRef.null,
  Encoding.mk (bs ("AcSelectTimeZone")) 0x280 (UT_SEL) ArgRef.null,
  Encoding.mk (bs ("AcEditTimeZones")) 0x281 (UT_SEL) ArgRef.null,
  Encoding.mk (bs ("AcSetAlarm")) 0x282 (UT_SEL) ArgRef.null,
  Encoding.mk (bs ("AcClearAlarm")) 0x283 (UT_SEL) ArgRef.null,
  Encoding.mk (bs ("AcSnoozeAlarm")) 0x284 (UT_SEL) ArgRef.null,
  Encoding.mk (bs ("AcResetAlarm")) 0x285 (UT_SEL) ArgRef.null,
  Encoding.mk (bs ("AcSynchronize")) 0x286 (UT_SEL) ArgRef.null,
  Encoding.mk (bs ("AcSendReceive")) 0x287 (UT_SEL) ArgRef.null,
  Encoding.mk (bs ("AcSendTo")) 0x288 (UT_SEL) ArgRef.null,
  Encoding.mk (bs ("AcReply")) 0x289 (UT_SEL) ArgRef.null,
  Encoding.mk (bs ("AcReplyAll")) 0x28A (UT_SEL) ArgRef.null,
  Encoding.mk (bs ("AcForwardMsg")) 0x28B (UT_SEL) ArgRef.null,
  Encoding.mk (bs ("AcSend")) 0x28C (UT_SEL) ArgRef.null,
  Encoding.mk (bs ("AcAttachFile")) 0x28D (UT_SEL) ArgRef.null,
  Encoding.mk (bs ("AcUpload")) 0x28E (UT_SEL) ArgRef.null,
  Encoding.mk (bs ("AcDownload")) 0x28F (UT_SEL) ArgRef.null,
  Encoding.mk (bs ("AcSetBoarders")) 0x290 (UT_SEL) ArgRef.null,
  Encoding.mk (bs ("AcInsertRow")) 0x291 (UT_SEL) ArgRef.null,
  Encoding.mk (bs ("AcInsertColumn")) 0x292 (UT_SEL) ArgRef.null,
  Encoding.mk (bs ("AcInsertFile")) 0x293 (UT_SEL) ArgRef.null,
  Encoding.mk (bs ("AcInsertPicture")) 0x294 (UT_SEL) ArgRef.null,
  Encoding.mk (bs ("AcInsertObject")) 0x295 (UT_SEL) ArgRef.null,
  Encoding.mk (bs ("AcInsertSymbol")) 0x296 (UT_SEL) ArgRef.null,
  Encoding.mk (bs ("AcSaveAndClose")) 0x297 (UT_SEL) ArgRef.null,
  Encoding.mk (bs ("AcRename")) 0x298 (UT_SEL) ArgRef.null,
  Encoding.mk (bs ("AcMerge")) 0x299 (UT_SEL) ArgRef.null,
  Encoding.mk (bs ("AcSplit")) 0x29A (UT_SEL) ArgRef.null,
  Encoding.mk (bs ("AcDistributeHorizontally")) 0x29B (UT_SEL) ArgRef.null,
  Encoding.mk (bs ("AcDistributeVertically")) 0x29C (UT_SEL) ArgRef.null,
  Encoding.mk (bs ("AcNextKeyboardLayoutSelect")) 0x29D (UT_SEL) ArgRef.null,
  Encoding.mk (bs ("AcNavigateGuidance")) 0x29E (UT_SEL) ArgRef.null,
  Encoding.mk (bs ("AcDesktopShowAllWindows")) 0x29F (UT_SEL) ArgRef.null,
  Encoding.mk (bs ("AcSoftKeyLeft")) 0x2A0 (UT_SEL) ArgRef.null,
  Encoding.mk (bs ("AcSoftKeyRight")) 0x2A1 (UT_SEL) ArgRef.null,
  Encoding.mk (bs ("AcDesktopShowAllApplications")) 0x2A2 (UT_SEL) ArgRef.null,
  Encoding.mk (bs ("AcIdleKeepAlive")) 0x2B0 (UT_SEL) ArgRef.null,
  Encoding.mk (bs ("ExtendedKeyboardAttributesCollection")) 0x2C0 (UT_CL) ArgRef.null,
  Encoding.mk (bs ("KeyboardFormFactor")) 0x2C1 (UT_SV) ArgRef.null,
  Encoding.mk (bs ("KeyboardKeyType")) 0x2C2 (UT_SV) ArgRef.null,
  Encoding.mk (bs ("KeyboardPhysicalLayout")) 0x2C3 (UT_SV) ArgRef.null,
  Encoding.mk (bs ("VendorSpecificKeyboardPhysicalLayout")) 0x2C4 (UT_SV) ArgRef.null,
  Encoding.mk (bs ("KeyboardIetfLanguageTagIndex")) 0x2C5 (UT_SV) ArgRef.null,
  Encoding.mk (bs ("ImplementedKeyboardInputAssistControls")) 0x2C6 (UT_SV) ArgRef.null,
  Encoding.mk (bs ("KeyboardInputAssistPrevious")) 0x2C7 (UT_SEL) ArgRef.null,
  Encoding.mk (bs ("KeyboardInputAssistNext")) 0x2C8 (UT_SEL) ArgRef.null,
  Encoding.mk (bs ("KeyboardInputAssistPreviousGroup")) 0x2C9 (UT_SEL) ArgRef.null,
  Encoding.mk (bs ("KeyboardInputAssistNextGroup")) 0x2CA (UT_SEL) ArgRef.null,
  Encoding.mk (bs ("KeyboardInputAssistAccept")) 0x2CB (UT_SEL) ArgRef.null,
  Encoding.mk (bs ("KeyboardInputAssistCancel")) 0x2CC (UT_SEL) ArgRef.null,
  Encoding.mk (bs ("PrivacyScreenToggle")) 0x2D0 (UT_OOC) ArgRef.null,
  Encoding.mk (bs ("PrivacyScreenLevelDecrement")) 0x2D1 (UT_RTC) ArgRef.null,
  Encoding.mk (bs ("PrivacyScreenLevelIncrement")) 0x2D2 (UT_RTC) ArgRef.null,
  Encoding.mk (bs ("PrivacyScreenLevelMinimum")) 0x2D3 (UT_OSC) ArgRef.null,
  Encoding.mk (bs ("PrivacyScreenLevelMaximum")) 0x2D4 (UT_OSC) ArgRef.null,
  Encoding.mk (bs ("ContactEdited")) 0x500 (UT_OOC) ArgRef.null,
  Encoding.mk (bs ("ContactAdded")) 0x501 (UT_OOC) ArgRef.null,
  Encoding.mk (bs ("ContactRecordedActive")) 0x502 (UT_OOC) ArgRef.null,
  Encoding.mk (bs ("ContactIndex")) 0x503 (UT_DV) ArgRef.null,
  Encoding.mk (bs ("ContactNickname")) 0x504 (UT_DV) ArgRef.null,
  Encoding.mk (bs ("ContactFirstName")) 0x505 (UT_DV) ArgRef.null,
  Encoding.mk (bs ("ContactLastName")) 0x506 (UT_DV) ArgRef.null,
  Encoding.mk (bs ("ContactFullName")) 0x507 (UT_DV) ArgRef.null,
  Encoding.mk (bs ("ContactPhoneNumberPersonal")) 0x508 (UT_DV) ArgRef.null,
  Encoding.mk (bs ("ContactPhoneNumberBusiness")) 0x509 (UT_DV) ArgRef.null,
  Encoding.mk (bs ("ContactPhoneNumberMobile")) 0x50A (UT_DV) ArgRef.null,
  Encoding.mk (bs ("ContactPhoneNumberPager")) 0x50B (UT_DV) ArgRef.null,
  Encoding.mk (bs ("ContactPhoneNumberFax")) 0x50C (UT_DV) ArgRef.null,
  Encoding.mk (bs ("ContactPhoneNumberOther")) 0x50D (UT_DV) ArgRef.null,
  Encoding.mk (bs ("ContactEmailPersonal")) 0x50E (UT_DV) ArgRef.null,
  Encoding.mk (bs ("ContactEmailBusiness")) 0x50F (UT_DV) ArgRef.null,
  Encoding.mk (bs ("ContactEmailOther")) 0x510 (UT_DV) ArgRef.null,
  Encoding.mk (bs ("ContactEmailMain")) 0x511 (UT_DV) ArgRef.null,
  Encoding.mk (bs ("ContactSpeedDialNumber")) 0x512 (UT_DV) ArgRef.null,
  Encoding.mk (bs ("ContactStatusFlag")) 0x513 (UT_DV) ArgRef.null,
  Encoding.mk (bs ("ContactMisc")) 0x514 (UT_DV) ArgRef.null
]

def digitizersMap : List Encoding := [
  Encoding.mk (bs ("Digitizer")) 0x01 (UT_CA) ArgRef.null,
  Encoding.mk (bs ("Pen")) 0x02 (UT_CA) ArgRef.null,
  Encoding.mk (bs ("LightPen")) 0x03 (UT_CA) ArgRef.null,
  Encoding.mk (bs ("TouchScreen")) 0x04 (UT_CA) ArgRef.null,
  Encoding.mk (bs ("TouchPad")) 0x05 (UT_CA) ArgRef.null,
  Encoding.mk (bs ("Whiteboard")) 0x06 (UT_CA) ArgRef.null,
  Encoding.mk (bs ("CoordinateMeasuringMachine")) 0x07 (UT_CA) ArgRef.null,
  Encoding.mk (bs ("Digitizer3d")) 0x08 (UT_CA) ArgRef.null,
  Encoding.mk (bs ("StereoPlotter")) 0x09 (UT_CA) ArgRef.null,
  Encoding.mk (bs ("ArticulatedArm")) 0x0A (UT_CA) ArgRef.null,
  Encoding.mk (bs ("Armature")) 0x0B (UT_CA) ArgRef.null,
  Encoding.mk (bs ("MultiplePointDigitizer")) 0x0C (UT_CA) ArgRef.null,
  Encoding.mk (bs ("FreeSpaceWand")) 0x0D (UT_CA) ArgRef.null,
  Encoding.mk (bs ("DeviceConfiguration")) 0x0E (UT_CA) ArgRef.null,
  Encoding.mk (bs ("CapacitiveHeatMapDigitizer")) 0x0F (UT_CA) ArgRef.null,
  Encoding.mk (bs ("Stylus")) 0x20 (UT_CA ||| UT_CL) ArgRef.null,
  Encoding.mk (bs ("Puck")) 0x21 (UT_CL) ArgRef.null,
  Encoding.mk (bs ("Finger")) 0x22 (UT_CL) ArgRef.null,
  Encoding.mk (bs ("DeviceSettings")) 0x23 (UT_CL) ArgRef.null,
  Encoding.mk (bs ("CharacterGesture")) 0x24 (UT_CL) ArgRef.null,
  Encoding.mk (bs ("TipPressure")) 0x30 (UT_DV) ArgRef.null,
  Encoding.mk (bs ("BarrelPressure")) 0x31 (UT_DV) ArgRef.null,
  Encoding.mk (bs ("InRange")) 0x32 (UT_MC) ArgRef.null,
  Encoding.mk (bs ("Touch")) 0x33 (UT_MC) ArgRef.null,
  Encoding.mk (bs ("Untouch")) 0x34 (UT_OSC) ArgRef.null,
  Encoding.mk (bs ("Tap")) 0x35 (UT_OSC) ArgRef.null,
  Encoding.mk (bs ("Quality")) 0x36 (UT_DV) ArgRef.null,
  Encoding.mk (bs ("DataValid")) 0x37 (UT_MC) ArgRef.null,
  Encoding.mk (bs ("TransducerIndex")) 0x38 (UT_DV) ArgRef.null,
  Encoding.mk (bs ("TabletFunctionKeys")) 0x39 (UT_CL) ArgRef.null,
  Encoding.mk (bs ("ProgramChangeKeys")) 0x3A (UT_CL) ArgRef.null,
  Encoding.mk (bs ("BatteryStrength")) 0x3B (UT_DV) ArgRef.null,
  Encoding.mk (bs ("Invert")) 0x3C (UT_MC) ArgRef.null,
  Encoding.mk (bs ("XTilt")) 0x3D (UT_DV) ArgRef.null,
  Encoding.mk (bs ("YTilt")) 0x3E (UT_DV) ArgRef.null,
  Encoding.mk (bs ("Azimuth")) 0x3F (UT_DV) ArgRef.null,
  Encoding.mk (bs ("Altitude")) 0x40 (UT_DV) ArgRef.null,
  Encoding.mk (bs ("Twist")) 0x41 (UT_DV) ArgRef.null,
  Encoding.mk (bs ("TipSwitch")) 0x42 (UT_MC) ArgRef.null,
  Encoding.mk (bs ("SecondaryTipSwitch")) 0x43 (UT_MC) ArgRef.null,
  Encoding.mk (bs ("BarrelSwitch")) 0x44 (UT_MC) ArgRef.null,
  Encoding.mk (bs ("Eraser")) 0x45 (UT_MC) ArgRef.null,
  Encoding.mk (bs ("TabletPick")) 0x46 (UT_MC) ArgRef.null,
  Encoding.mk (bs ("TouchValid")) 0x47 (UT_MC) ArgRef.null,
  Encoding.mk (bs ("Width")) 0x48 (UT_DV) ArgRef.null,
  Encoding.mk (bs ("Height")) 0x49 (UT_DV) ArgRef.null,
  Encoding.mk (bs ("ContactIdentifier")) 0x51 (UT_DV) ArgRef.null,
  Encoding.mk (bs ("DeviceMode")) 0x52 (UT_DV) ArgRef.null,
  Encoding.mk (bs ("DeviceIdentifier")) 0x53 (UT_DV ||| UT_SV) ArgRef.null,
  Encoding.mk (bs ("ContactCount")) 0x54 (UT_DV) ArgRef.null,
  Encoding.mk (bs ("ContactCountMaximum")) 0x55 (UT_SV) ArgRef.null,
  Encoding.mk (bs ("ScanTime")) 0x56 (UT_DV) ArgRef.null,
  Encoding.mk (bs ("SurfaceSwitch")) 0x57 (UT_DF) ArgRef.null,
  Encoding.mk (bs ("ButtonSwitch")) 0x58 (UT_DF) ArgRef.null,
  Encoding.mk (bs ("PadType")) 0x59 (UT_SF) ArgRef.null,
  Encoding.mk (bs ("SecondaryBarrelSwitch")) 0x5A (UT_MC) ArgRef.null,
  Encoding.mk (bs ("TransducerSerialNumber")) 0x5B (UT_SV) ArgRef.null,
  Encoding.mk (bs ("PreferredColor")) 0x5C (UT_DV) ArgRef.null,
  Encoding.mk (bs ("PreferredColorIsLocked")) 0x5D (UT_MC) ArgRef.null,
  Encoding.mk (bs ("PreferredLineWidth")) 0x5E (UT_DV) ArgRef.null,
  Encoding.mk (bs ("PreferredLineWidthIsLocked")) 0x5F (UT_MC) ArgRef.null,
  Encoding.mk (bs ("LatencyMode")) 0x60 (UT_DF) ArgRef.null,
  Encoding.mk (bs ("GestureCharacterQuality")) 0x61 (UT_DV) ArgRef.null,
  Encoding.mk (bs ("CharacterGestureDataLength")) 0x62 (UT_DV) ArgRef.null,
  Encoding.mk (bs ("CharacterGestureData")) 0x63 (UT_DV) ArgRef.null,
  Encoding.mk (bs ("GestureCharacterEncoding")) 0x64 (UT_NARY) ArgRef.null,
  Encoding.mk (bs ("Utf8CharacterGestureEncoding")) 0x65 (UT_SEL) ArgRef.null,
  Encoding.mk (bs ("Utf16LittleEndianCharacterGestureEncoding")) 0x66 (UT_SEL) ArgRef.null,
  Encoding.mk (bs ("Utf16BigEndianCharacterGestureEncoding")) 0x67 (UT_SEL) ArgRef.null,
  Encoding.mk (bs ("Utf32LittleEndianCharacterGestureEncoding")) 0x68 (UT_SEL) ArgRef.null,
  Encoding.mk (bs ("Utf32BigEndianCharacterGestureEncoding")) 0x69 (UT_SEL) ArgRef.null,
  Encoding.mk (bs ("CapacitiveHeatMapProtocolVendorId")) 0x6A (UT_SV) ArgRef.null,
  Encoding.mk (bs ("CapacitiveHeatMapProtocolVersion")) 0x6B (UT_SV) ArgRef.null,
  Encoding.mk (bs ("CapacitiveHeatMapFrameData")) 0x6C (UT_DV) ArgRef.null,
  Encoding.mk (bs ("GestureCharacterEnable")) 0x6D (UT_DF) ArgRef.null,
  Encoding.mk (bs ("PreferredLineStyle")) 0x70 (UT_NARY) ArgRef.null,
  Encoding.mk (bs ("PreferredLineStyleIsLocked")) 0x71 (UT_MC) ArgRef.null,
  Encoding.mk (bs ("Ink")) 0x72 (UT_SEL) ArgRef.null,
  Encoding.mk (bs ("Pencil")) 0x73 (UT_SEL) ArgRef.null,
  Encoding.mk (bs ("Highlighter")) 0x74 (UT_SEL) ArgRef.null,
  Encoding.mk (bs ("ChiselMarker")) 0x75 (UT_SEL) ArgRef.null,
  Encoding.mk (bs ("Brush")) 0x76 (UT_SEL) ArgRef.null,
  Encoding.mk (bs ("NoPreference")) 0x77 (UT_SEL) ArgRef.null,
  Encoding.mk (bs ("DigitizerDiagnostic")) 0x80 (UT_CL) ArgRef.null,
  Encoding.mk (bs ("DigitizerError")) 0x81 (UT_NARY) ArgRef.null,
  Encoding.mk (bs ("ErrNormalStatus")) 0x82 (UT_SEL) ArgRef.null,
  Encoding.mk (bs ("ErrTransducersExceeded")) 0x83 (UT_SEL) ArgRef.null,
  Encoding.mk (bs ("ErrFullTransFeaturesUnavailable")) 0x84 (UT_SEL) ArgRef.null,
  Encoding.mk (bs ("ErrChargeLow")) 0x85 (UT_SEL) ArgRef.null,
  Encoding.mk (bs ("TransducerSoftwareInfo")) 0x90 (UT_CL) ArgRef.null,
  Encoding.mk (bs ("TransducerVendorId")) 0x91 (UT_SV) ArgRef.null,
  Encoding.mk (bs ("TransducerProductId")) 0x92 (UT_SV) ArgRef.null,
  Encoding.mk (bs ("DeviceSupportedProtocols")) 0x93 (UT_NARY ||| UT_CL) ArgRef.null,
  Encoding.mk (bs ("TransducerSupportedProtocols")) 0x94 (UT_NARY ||| UT_CL) ArgRef.null,
  Encoding.mk (bs ("NoProtocol")) 0x95 (UT_SEL) ArgRef.null,
  Encoding.mk (bs ("WacomAesProtocol")) 0x96 (UT_SEL) ArgRef.null,
  Encoding.mk (bs ("UsiProtocol")) 0x97 (UT_SEL) ArgRef.null,
  Encoding.mk (bs ("MicrosoftPenProtocol")) 0x98 (UT_SEL) ArgRef.null,
  Encoding.mk (bs ("SupportedReportRates")) 0xA0 (UT_SV ||| UT_CL) ArgRef.null,
  Encoding.mk (bs ("ReportRate")) 0xA1 (UT_DV) ArgRef.null,
  Encoding.mk (bs ("TransducerConnected")) 0xA2 (UT_SF) ArgRef.null,
  Encoding.mk (bs ("SwitchDisabled")) 0xA3 (UT_SEL) ArgRef.null,
  Encoding.mk (bs ("SwitchUnimplemented")) 0xA4 (UT_SEL) ArgRef.null,
  Encoding.mk (bs ("TransducerSwitches")) 0xA5 (UT_SEL) ArgRef.null
]

def hapticsMap : List Encoding := [
  Encoding.mk (bs ("SimpleHapticController")) 0x01 (UT_CA ||| UT_CL) ArgRef.null,
  Encoding.mk (bs ("WaveformList")) 0x10 (UT_NARY) ArgRef.null,
  Encoding.mk (bs ("DurationList")) 0x11 (UT_NARY) ArgRef.null,
  Encoding.mk (bs ("AutoTrigger")) 0x20 (UT_DV) ArgRef.null,
  Encoding.mk (bs ("ManualTrigger")) 0x21 (UT_DV) ArgRef.null,
  Encoding.mk (bs ("AutoTriggerAssociatedControl")) 0x22 (UT_SV) ArgRef.null,
  Encoding.mk (bs ("Intensity")) 0x23 (UT_DV) ArgRef.null,
  Encoding.mk (bs ("RepeatCount")) 0x24 (UT_DV) ArgRef.null,
  Encoding.mk (bs ("RetriggerPeriod")) 0x25 (UT_DV) ArgRef.null,
  Encoding.mk (bs ("WaveformVendorPage")) 0x26 (UT_SV) ArgRef.null,
  Encoding.mk (bs ("WaveformVendorId")) 0x27 (UT_SV) ArgRef.null,
  Encoding.mk (bs ("WaveformCutoffTime")) 0x28 (UT_SV) ArgRef.null,
  Encoding.mk (bs ("WaveformNone")) 0x1001 (UT_SV) ArgRef.null,
  Encoding.mk (bs ("WaveformStop")) 0x1002 (UT_SV) ArgRef.null,
  Encoding.mk (bs ("WaveformClick")) 0x1003 (UT_SV) ArgRef.null,
  Encoding.mk (bs ("WaveformBuzzContinuous")) 0x1004 (UT_SV) ArgRef.null,
  Encoding.mk (bs ("WaveformRumbleContinuous")) 0x1005 (UT_SV) ArgRef.null,
  Encoding.mk (bs ("WaveformPress")) 0x1006 (UT_SV) ArgRef.null,
  Encoding.mk (bs ("WaveformRelease")) 0x1007 (UT_SV) ArgRef.null
]

def pidMap : List Encoding := [
  Encoding.mk (bs ("PhysicalInterfaceDevice")) 0x01 (UT_CA) ArgRef.null,
  Encoding.mk (bs ("Normal")) 0x20 (UT_DV) ArgRef.null,
  Encoding.mk (bs ("SetEffectReport")) 0x21 (UT_CL ||| UT_LC ||| UT_SV) ArgRef.null,
  Encoding.mk (bs ("EffectBlockIndex")) 0x22 (UT_DV) ArgRef.null,
  Encoding.mk (bs ("ParameterBlockOffset")) 0x23 (UT_DV) ArgRef.null,
  Encoding.mk (bs ("RomFlag")) 0x24 (UT_DV) ArgRef.null,
  Encoding.mk (bs ("EffectType")) 0x25 (UT_NARY) ArgRef.null,
  Encoding.mk (bs ("EtConstantForce")) 0x26 (UT_SEL) ArgRef.null,
  Encoding.mk (bs ("EtRamp")) 0x27 (UT_SEL) ArgRef.null,
  Encoding.mk (bs ("EtCustomForceData")) 0x28 (UT_SEL) ArgRef.null,
  Encoding.mk (bs ("EtSquare")) 0x30 (UT_SEL) ArgRef.null,
  Encoding.mk (bs ("EtSine")) 0x31 (UT_SEL) ArgRef.null,
  Encoding.mk (bs ("EtTriangle")) 0x32 (UT_SEL) ArgRef.null,
  Encoding.mk (bs ("EtSawtoothUp")) 0x33 (UT_SEL) ArgRef.null,
  Encoding.mk (bs ("EtSawtoothDown")) 0x34 (UT_SEL) ArgRef.null,
  Encoding.mk (bs ("EtSpring")) 0x40 (UT_SEL) ArgRef.null,
  Encoding.mk (bs ("EtDamper")) 0x41 (UT_SEL) ArgRef.null,
  Encoding.mk (bs ("EtInertia")) 0x42 (UT_SEL) ArgRef.null,
  Encoding.mk (bs ("EtFriction")) 0x43 (UT_SEL) ArgRef.null,
  Encoding.mk (bs ("Duration")) 0x50 (UT_DV) ArgRef.null,
  Encoding.mk (bs ("SamplePeriod")) 0x51 (UT_DV) ArgRef.null,
  Encoding.mk (bs ("Gain")) 0x52 (UT_DV) ArgRef.null,
  Encoding.mk (bs ("TriggerButton")) 0x53 (UT_DV) ArgRef.null,
  Encoding.mk (bs ("TriggerRepeatInterval")) 0x54 (UT_DV) ArgRef.null,
  Encoding.mk (bs ("AxesEnable")) 0x55 (UT_US) ArgRef.null,
  Encoding.mk (bs ("DirectionEnable")) 0x56 (UT_DF) ArgRef.null,
  Encoding.mk (bs ("Direction")) 0x57 (UT_CL ||| UT_DV) ArgRef.null,
  Encoding.mk (bs ("TypeSpecificBlockOffset")) 0x58 (UT_CL) ArgRef.null,
  Encoding.mk (bs ("BlockType")) 0x59 (UT_NARY) ArgRef.null,
  Encoding.mk (bs ("SetEnvelopeReport")) 0x5A (UT_CL ||| UT_LC ||| UT_SV) ArgRef.null,
  Encoding.mk (bs ("AttackLevel")) 0x5B (UT_DV) ArgRef.null,
  Encoding.mk (bs ("AttackTime")) 0x5C (UT_DV) ArgRef.null,
  Encoding.mk (bs ("FadeLevel")) 0x5D (UT_DV) ArgRef.null,
  Encoding.mk (bs ("FadeTime")) 0x5E (UT_DV) ArgRef.null,
  Encoding.mk (bs ("SetConditionReport")) 0x5F (UT_CL ||| UT_LC ||| UT_SV) ArgRef.null,
  Encoding.mk (bs ("CpOffset")) 0x60 (UT_DV) ArgRef.null,
  Encoding.mk (bs ("PositiveCoefficient")) 0x61 (UT_DV) ArgRef.null,
  Encoding.mk (bs ("NegativeCoefficient")) 0x62 (UT_DV) ArgRef.null,
  Encoding.mk (bs ("PositiveSaturation")) 0x63 (UT_DV) ArgRef.null,
  Encoding.mk (bs ("NegativeSaturation")) 0x64 (UT_DV) ArgRef.null,
  Encoding.mk (bs ("DeadBand")) 0x65 (UT_DV) ArgRef.null,
  Encoding.mk (bs ("DownloadForceSample")) 0x66 (UT_CL) ArgRef.null,
  Encoding.mk (bs ("IsochCustomForceEnable")) 0x67 (UT_DF) ArgRef.null,
  Encoding.mk (bs ("CustomForceDataReport")) 0x68 (UT_CL) ArgRef.null,
  Encoding.mk (bs ("CustomForceData")) 0x69 (UT_DV) ArgRef.null,
  Encoding.mk (bs ("CustomForceVendorDefinedData")) 0x6A (UT_DV) ArgRef.null,
  Encoding.mk (bs ("SetCustomForceReport")) 0x6B (UT_CL ||| UT_LC ||| UT_SV) ArgRef.null,
  Encoding.mk (bs ("CustomForceDataOffset")) 0x6C (UT_DV) ArgRef.null,
  Encoding.mk (bs ("SampleCount")) 0x6D (UT_DV) ArgRef.null,
  Encoding.mk (bs ("SetPeriodicReport")) 0x6E (UT_CL ||| UT_LC ||| UT_SV) ArgRef.null,
  Encoding.mk (bs ("Offset")) 0x6F (UT_DV) ArgRef.null,
  Encoding.mk (bs ("Magnitude")) 0x70 (UT_DV) ArgRef.null,
  Encoding.mk (bs ("Phase")) 0x71 (UT_DV) ArgRef.null,
  Encoding.mk (bs ("Period")) 0x72 (UT_DV) ArgRef.null,
  Encoding.mk (bs ("SetConstantForceReport")) 0x73 (UT_CL ||| UT_LC ||| UT_SV) ArgRef.null,
  Encoding.mk (bs ("SetRampForceReport")) 0x74 (UT_CL ||| UT_LC ||| UT_SV) ArgRef.null,
  Encoding.mk (bs ("RampStart")) 0x75 (UT_DV) ArgRef.null,
  Encoding.mk (bs ("RampEnd")) 0x76 (UT_DV) ArgRef.null,
  Encoding.mk (bs ("EffectOperationReport")) 0x77 (UT_CL) ArgRef.null,
  Encoding.mk (bs ("EffectOperation")) 0x78 (UT_NARY) ArgRef.null,
  Encoding.mk (bs ("OpEffectStart")) 0x79 (UT_SEL) ArgRef.null,
  Encoding.mk (bs ("OpEffectStartSolo")) 0x7A (UT_SEL) ArgRef.null,
  Encoding.mk (bs ("OpEffectStop")) 0x7B (UT_SEL) ArgRef.null,
  Encoding.mk (bs ("LoopCount")) 0x7C (UT_DV) ArgRef.null,
  Encoding.mk (bs ("DeviceGainReport")) 0x7D (UT_CL) ArgRef.null,
  Encoding.mk (bs ("DeviceGain")) 0x7E (UT_DV) ArgRef.null,
  Encoding.mk (bs ("PidPoolReport")) 0x7F (UT_CL) ArgRef.null,
  Encoding.mk (bs ("RamPoolSize")) 0x80 (UT_DV) ArgRef.null,
  Encoding.mk (bs ("RomPoolSize")) 0x81 (UT_SV) ArgRef.null,
  Encoding.mk (bs ("RomEffectBlockCount")) 0x82 (UT_SV) ArgRef.null,
  Encoding.mk (bs ("SimultaneousEffectsMax")) 0x83 (UT_SV) ArgRef.null,
  Encoding.mk (bs ("PoolAlignment")) 0x84 (UT_SV) ArgRef.null,
  Encoding.mk (bs ("PidPoolMoveReport")) 0x85 (UT_CL) ArgRef.null,
  Encoding.mk (bs ("MoveSource")) 0x86 (UT_DV) ArgRef.null,
  Encoding.mk (bs ("MoveDestination")) 0x87 (UT_DV) ArgRef.null,
  Encoding.mk (bs ("MoveLength")) 0x88 (UT_DV) ArgRef.null,
  Encoding.mk (bs ("PidBlockLoadReport")) 0x89 (UT_CL) ArgRef.null,
  Encoding.mk (bs ("BlockLoadStatus")) 0x8B (UT_NARY) ArgRef.null,
  Encoding.mk (bs ("BlockLoadSuccess")) 0x8C (UT_SEL) ArgRef.null,
  Encoding.mk (bs ("BlockLoadFull")) 0x8D (UT_SEL) ArgRef.null,
  Encoding.mk (bs ("BlockLoadError")) 0x8E (UT_SEL) ArgRef.null,
  Encoding.mk (bs ("BlockHandle")) 0x8F (UT_DV) ArgRef.null,
  Encoding.mk (bs ("PidBlockFreeReport")) 0x90 (UT_CL) ArgRef.null,
  Encoding.mk (bs ("TypeSpecificBlockHandle")) 0x91 (UT_CL) ArgRef.null,
  Encoding.mk (bs ("PidStateReport")) 0x92 (UT_CL) ArgRef.null,
  Encoding.mk (bs ("EffectPlaying")) 0x94 (UT_DF) ArgRef.null,
  Encoding.mk (bs ("PidDeviceControlReport")) 0x95 (UT_CL) ArgRef.null,
  Encoding.mk (bs ("PidDeviceControl")) 0x96 (UT_NARY) ArgRef.null,
  Encoding.mk (bs ("DcEnableActuators")) 0x97 (UT_SEL) ArgRef.null,
  Encoding.mk (bs ("DcDisableActuators")) 0x98 (UT_SEL) ArgRef.null,
  Encoding.mk (bs ("DcStopAllEffects")) 0x99 (UT_SEL) ArgRef.null,
  Encoding.mk (bs ("DcDeviceReset")) 0x9A (UT_SEL) ArgRef.null,
  Encoding.mk (bs ("DcDevicePause")) 0x9B (UT_SEL) ArgRef.null,
  Encoding.mk (bs ("DcDeviceContinue")) 0x9C (UT_SEL) ArgRef.null,
  Encoding.mk (bs ("DevicePaused")) 0x9F (UT_DF) ArgRef.null,
  Encoding.mk (bs ("ActuatorsEnabled")) 0xA0 (UT_DF) ArgRef.null,
  Encoding.mk (bs ("SafetySwitch")) 0xA4 (UT_DF) ArgRef.null,
  Encoding.mk (bs ("ActuatorOverrideSwitch")) 0xA5 (UT_DF) ArgRef.null,
  Encoding.mk (bs ("ActuatorPower")) 0xA6 (UT_OOC) ArgRef.null,
  Encoding.mk (bs ("StartDelay")) 0xA7 (UT_DV) ArgRef.null,
  Encoding.mk (bs ("ParameterBlockSize")) 0xA8 (UT_CL) ArgRef.null,
  Encoding.mk (bs ("DeviceManagedPool")) 0xA9 (UT_SF) ArgRef.null,
  Encoding.mk (bs ("SharedParameterBlocks")) 0xAA (UT_SF) ArgRef.null,
  Encoding.mk (bs ("CreateNewEffectReport")) 0xAB (UT_CL) ArgRef.null,
  Encoding.mk (bs ("RamPoolAvailable")) 0xAC (UT_DV) ArgRef.null
]

def unicodeMap : List Encoding := [
  Encoding.mk (bs ("Ucs#")) 0x0000 (UT_NONE) ArgRef.null,
  Encoding.mk (bs ("Ucs#")) 0xFFFF (UT_NONE) ArgRef.null
]

def eyeHeadMap : List Encoding := [
  Encoding.mk (bs ("EyeTracker")) 0x01 (UT_CA) ArgRef.null,
  Encoding.mk (bs ("HeadTracker")) 0x02 (UT_CA) ArgRef.null,
  Encoding.mk (bs ("TrackingData")) 0x10 (UT_CP) ArgRef.null,
  Encoding.mk (bs ("Capabilities")) 0x11 (UT_CL) ArgRef.null,
  Encoding.mk (bs ("Configuration")) 0x12 (UT_CL) ArgRef.null,
  Encoding.mk (bs ("Status")) 0x13 (UT_CL) ArgRef.null,
  Encoding.mk (bs ("Control")) 0x14 (UT_CL) ArgRef.null,
  Encoding.mk (bs ("SensorTimestamp")) 0x20 (UT_DV) ArgRef.null,
  Encoding.mk (bs ("PositionX")) 0x21 (UT_DV) ArgRef.null,
  Encoding.mk (bs ("PositionY")) 0x22 (UT_DV) ArgRef.null,
  Encoding.mk (bs ("PositionZ")) 0x23 (UT_DV) ArgRef.null,
  Encoding.mk (bs ("GazePoint")) 0x24 (UT_CP) ArgRef.null,
  Encoding.mk (bs ("LeftEyePosition")) 0x25 (UT_CP) ArgRef.null,
  Encoding.mk (bs ("RightEyePosition")) 0x26 (UT_CP) ArgRef.null,
  Encoding.mk (bs ("HeadPosition")) 0x27 (UT_CP) ArgRef.null,
  Encoding.mk (bs ("HeadDirectionPoint")) 0x28 (UT_CP) ArgRef.null,
  Encoding.mk (bs ("RotationAboutXAxis")) 0x29 (UT_DV) ArgRef.null,
  Encoding.mk (bs ("RotationAboutYAxis")) 0x2A (UT_DV) ArgRef.null,
  Encoding.mk (bs ("RotationAboutZAxis")) 0x2B (UT_DV) ArgRef.null,
  Encoding.mk (bs ("TrackerQuality")) 0x100 (UT_SV) ArgRef.null,
  Encoding.mk (bs ("MinimumTrackingDistance")) 0x101 (UT_SV) ArgRef.null,
  Encoding.mk (bs ("OptimumTrackingDistance")) 0x102 (UT_SV) ArgRef.null,
  Encoding.mk (bs ("MaximumTrackingDistance")) 0x103 (UT_SV) ArgRef.null,
  Encoding.mk (bs ("MaximumScreenPlaneWidth")) 0x104 (UT_SV) ArgRef.null,
  Encoding.mk (bs ("MaximumScreenPlaneHeight")) 0x105 (UT_SV) ArgRef.null,
  Encoding.mk (bs ("DisplayManufacturerId")) 0x200 (UT_SV) ArgRef.null,
  Encoding.mk (bs ("DisplayProductId")) 0x201 (UT_SV) ArgRef.null,
  Encoding.mk (bs ("DisplaySerialNumber")) 0x202 (UT_SV) ArgRef.null,
  Encoding.mk (bs ("DisplayManufacturerDate")) 0x203 (UT_SV) ArgRef.null,
  Encoding.mk (bs ("CalibratedScreenWidth")) 0x204 (UT_SV) ArgRef.null,
  Encoding.mk (bs ("CalibratedScreenHeight")) 0x205 (UT_SV) ArgRef.null,
  Encoding.mk (bs ("SamplingFrequency")) 0x300 (UT_DV) ArgRef.null,
  Encoding.mk (bs ("ConfigurationStatus")) 0x301 (UT_DV) ArgRef.null,
  Encoding.mk (bs ("DeviceModeRequest")) 0x400 (UT_DV) ArgRef.null
]

def auxDisplayMap : List Encoding := [
  Encoding.mk (bs ("AlphanumericDisplay")) 0x01 (UT_CA) ArgRef.null,
  Encoding.mk (bs ("AuxiliaryDisplay")) 0x02 (UT_CA) ArgRef.null,
  Encoding.mk (bs ("DisplayAttributesReport")) 0x20 (UT_CL) ArgRef.null,
  Encoding.mk (bs ("AsciiCharacterSet")) 0x21 (UT_SF) ArgRef.null,
  Encoding.mk (bs ("DataReadBack")) 0x22 (UT_SF) ArgRef.null,
  Encoding.mk (bs ("FontReadBack")) 0x23 (UT_SF) ArgRef.null,
  Encoding.mk (bs ("DisplayControlReport")) 0x24 (UT_CL) ArgRef.null,
  Encoding.mk (bs ("ClearDisplay")) 0x25 (UT_DF) ArgRef.null,
  Encoding.mk (bs ("DisplayEnable")) 0x26 (UT_DF) ArgRef.null,
  Encoding.mk (bs ("ScreenSaverDelay")) 0x27 (UT_SV ||| UT_DV) ArgRef.null,
  Encoding.mk (bs ("ScreenSaverEnable")) 0x28 (UT_DF) ArgRef.null,
  Encoding.mk (bs ("VerticalScroll")) 0x29 (UT_SF ||| UT_DF) ArgRef.null,
  Encoding.mk (bs ("HorizontalScroll")) 0x2A (UT_SF ||| UT_DF) ArgRef.null,
  Encoding.mk (bs ("CharacterReport")) 0x2B (UT_CL) ArgRef.null,
  Encoding.mk (bs ("DisplayData")) 0x2C (UT_DV) ArgRef.null,
  Encoding.mk (bs ("DisplayStatus")) 0x2D (UT_CL) ArgRef.null,
  Encoding.mk (bs ("StatNotReady")) 0x2E (UT_SEL) ArgRef.null,
  Encoding.mk (bs ("StatReady")) 0x2F (UT_SEL) ArgRef.null,
  Encoding.mk (bs ("ErrNotALoadableCharacter")) 0x30 (UT_SEL) ArgRef.null,
  Encoding.mk (bs ("ErrFontDataCannotBeRead")) 0x31 (UT_SEL) ArgRef.null,
  Encoding.mk (bs ("CursorPositionReport")) 0x32 (UT_SEL) ArgRef.null,
  Encoding.mk (bs ("Row")) 0x33 (UT_DV) ArgRef.null,
  Encoding.mk (bs ("Column")) 0x34 (UT_DV) ArgRef.null,
  Encoding.mk (bs ("Rows")) 0x35 (UT_SV) ArgRef.null,
  Encoding.mk (bs ("Columns")) 0x36 (UT_SV) ArgRef.null,
  Encoding.mk (bs ("CursorPixelPosition")) 0x37 (UT_SF) ArgRef.null,
  Encoding.mk (bs ("CursorMode")) 0x38 (UT_DF) ArgRef.null,
  Encoding.mk (bs ("CursorEnable")) 0x39 (UT_DF) ArgRef.null,
  Encoding.mk (bs ("CursorBlink")) 0x3A (UT_DF) ArgRef.null,
  Encoding.mk (bs ("FontReport")) 0x3B (UT_CL) ArgRef.null,
  Encoding.mk (bs ("FontData")) 0x3C (UT_BB) ArgRef.null,
  Encoding.mk (bs ("CharacterWidth")) 0x3D (UT_SV) ArgRef.null,
  Encoding.mk (bs ("CharacterHeight")) 0x3E (UT_SV) ArgRef.null,
  Encoding.mk (bs ("CharacterSpacingHorizontal")) 0x3F (UT_SV) ArgRef.null,
  Encoding.mk (bs ("CharacterSpacingVertical")) 0x40 (UT_SV) ArgRef.null,
  Encoding.mk (bs ("UnicodeCharacterSet")) 0x41 (UT_SF) ArgRef.null,
  Encoding.mk (bs ("Font7Segment")) 0x42 (UT_SF) ArgRef.null,
  Encoding.mk (bs ("DirectMap7Segment")) 0x43 (UT_SF) ArgRef.null,
  Encoding.mk (bs ("Font14Segment")) 0x44 (UT_SF) ArgRef.null,
  Encoding.mk (bs ("DirectMap14Segment")) 0x45 (UT_SF) ArgRef.null,
  Encoding.mk (bs ("DisplayBrightness")) 0x46 (UT_DV) ArgRef.null,
  Encoding.mk (bs ("DisplayContrast")) 0x47 (UT_DV) ArgRef.null,
  Encoding.mk (bs ("CharacterAttribute")) 0x48 (UT_CL) ArgRef.null,
  Encoding.mk (bs ("AtributeReadback")) 0x49 (UT_SF) ArgRef.null,
  Encoding.mk (bs ("AttributeData")) 0x4A (UT_DV) ArgRef.null,
  Encoding.mk (bs ("CharAttrEnhance")) 0x4B (UT_OOC) ArgRef.null,
  Encoding.mk (bs ("CharAttrUnderline")) 0x4C (UT_OOC) ArgRef.null,
  Encoding.mk (bs ("CharAttrBlink")) 0x4D (UT_OOC) ArgRef.null,
  Encoding.mk (bs ("BitmapSizeX")) 0x80 (UT_SV) ArgRef.null,
  Encoding.mk (bs ("BitmapSizeY")) 0x81 (UT_SV) ArgRef.null,
  Encoding.mk (bs ("MaxBlitSize")) 0x82 (UT_SV) ArgRef.null,
  Encoding.mk (bs ("BitDepthFormat")) 0x83 (UT_SV) ArgRef.null,
  Encoding.mk (bs ("DisplayOrientation")) 0x84 (UT_DV) ArgRef.null,
  Encoding.mk (bs ("PaletteReport")) 0x85 (UT_CL) ArgRef.null,
  Encoding.mk (bs ("PaletteDataSize")) 0x86 (UT_SV) ArgRef.null,
  Encoding.mk (bs ("PaletteDataOffset")) 0x87 (UT_SV) ArgRef.null,
  Encoding.mk (bs ("PaletteData")) 0x88 (UT_BB) ArgRef.null,
  Encoding.mk (bs ("BlitReport")) 0x8A (UT_CL) ArgRef.null,
  Encoding.mk (bs ("BlitRectangleX1")) 0x8B (UT_SV) ArgRef.null,
  Encoding.mk (bs ("BlitRectangleY1")) 0x8C (UT_SV) ArgRef.null,
  Encoding.mk (bs ("BlitRectangleX2")) 0x8D (UT_SV) ArgRef.null,
  Encoding.mk (bs ("BlitRectangleY2")) 0x8E (UT_SV) ArgRef.null,
  Encoding.mk (bs ("BlitData")) 0x8F (UT_BB) ArgRef.null,
  Encoding.mk (bs ("SoftButton")) 0x90 (UT_CL) ArgRef.null,
  Encoding.mk (bs ("SoftButtonId")) 0x91 (UT_SV) ArgRef.null,
  Encoding.mk (bs ("SoftButtonSide")) 0x92 (UT_SV) ArgRef.null,
  Encoding.mk (bs ("SoftButtonOffset1")) 0x93 (UT_SV) ArgRef.null,
  Encoding.mk (bs ("SoftButtonOffset2")) 0x94 (UT_SV) ArgRef.null,
  Encoding.mk (bs ("SoftButtonReport")) 0x95 (UT_SV) ArgRef.null,
  Encoding.mk (bs ("SoftKeys")) 0xC2 (UT_SV) ArgRef.null,
  Encoding.mk (bs ("DisplayDataExtensions")) 0xCC (UT_SF) ArgRef.null,
  Encoding.mk (bs ("CharacterMapping")) 0xCF (UT_SV) ArgRef.null,
  Encoding.mk (bs ("UnicodeEquivalent")) 0xDD (UT_SV) ArgRef.null,
  Encoding.mk (bs ("CharacterPageMapping")) 0xDF (UT_SV) ArgRef.null,
  Encoding.mk (bs ("RequestReport")) 0xFF (UT_DV) ArgRef.null
]

def sensorMap : List Encoding := [
  Encoding.mk (bs ("Sensor")) 0x01 (UT_CA ||| UT_CP) ArgRef.null,
  Encoding.mk (bs ("Biometric")) 0x10 (UT_CA ||| UT_CP) ArgRef.null,
  Encoding.mk (bs ("BiometricHumanPresence")) 0x11 (UT_CA ||| UT_CP) ArgRef.null,
  Encoding.mk (bs ("BiometricHumanProximity")) 0x12 (UT_CA ||| UT_CP) ArgRef.null,
  Encoding.mk (bs ("BiometricHumanTouch")) 0x13 (UT_CA ||| UT_CP) ArgRef.null,
  Encoding.mk (bs ("BiometricBloodPressure")) 0x14 (UT_CA ||| UT_CP) ArgRef.null,
  Encoding.mk (bs ("BiometricBodyTemperature")) 0x15 (UT_CA ||| UT_CP) ArgRef.null,
  Encoding.mk (bs ("BiometricHeartRate")) 0x16 (UT_CA ||| UT_CP) ArgRef.null,
  Encoding.mk (bs ("BiometricHeartRateVariability")) 0x17 (UT_CA ||| UT_CP) ArgRef.null,
  Encoding.mk (bs ("BiometricPeripheralOxygenSaturation")) 0x18 (UT_CA ||| UT_CP) ArgRef.null,
  Encoding.mk (bs ("BiometricRespiratoryRate")) 0x19 (UT_CA ||| UT_CP) ArgRef.null,
  Encoding.mk (bs ("Electrical")) 0x20 (UT_CA ||| UT_CP) ArgRef.null,
  Encoding.mk (bs ("ElectricalCapacitance")) 0x21 (UT_CA ||| UT_CP) ArgRef.null,
  Encoding.mk (bs ("ElectricalCurrent")) 0x22 (UT_CA ||| UT_CP) ArgRef.null,
  Encoding.mk (bs ("ElectricalPower")) 0x23 (UT_CA ||| UT_CP) ArgRef.null,
  Encoding.mk (bs ("ElectricalInductance")) 0x24 (UT_CA ||| UT_CP) ArgRef.null,
  Encoding.mk (bs ("ElectricalResistance")) 0x25 (UT_CA ||| UT_CP) ArgRef.null,
  Encoding.mk (bs ("ElectricalVoltage")) 0x26 (UT_CA ||| UT_CP) ArgRef.null,
  Encoding.mk (bs ("ElectricalPotentiometer")) 0x27 (UT_CA ||| UT_CP) ArgRef.null,
  Encoding.mk (bs ("ElectricalFrequency")) 0x28 (UT_CA ||| UT_CP) ArgRef.null,
  Encoding.mk (bs ("ElectricalPeriod")) 0x29 (UT_CA ||| UT_CP) ArgRef.null,
  Encoding.mk (bs ("Environmental")) 0x30 (UT_CA ||| UT_CP) ArgRef.null,
  Encoding.mk (bs ("EnvironmentalAtmosphericPressure")) 0x31 (UT_CA ||| UT_CP) ArgRef.null,
  Encoding.mk (bs ("EnvironmentalHumidity")) 0x32 (UT_CA ||| UT_CP) ArgRef.null,
  Encoding.mk (bs ("EnvironmentalTemperature")) 0x33 (UT_CA ||| UT_CP) ArgRef.null,
  Encoding.mk (bs ("EnvironmentalWindDirection")) 0x34 (UT_CA ||| UT_CP) ArgRef.null,
  Encoding.mk (bs ("EnvironmentalWindSpeed")) 0x35 (UT_CA ||| UT_CP) ArgRef.null,
  Encoding.mk (bs ("EnvironmentalAirQuality")) 0x36 (UT_CA ||| UT_CP) ArgRef.null,
  Encoding.mk (bs ("EnvironmentalHeatIndex")) 0x37 (UT_CA ||| UT_CP) ArgRef.null,
  Encoding.mk (bs ("EnvironmentalSurfaceTemperature")) 0x38 (UT_CA ||| UT_CP) ArgRef.null,
  Encoding.mk (bs ("EnvironmentalVolatileOrganicCompounds")) 0x39 (UT_CA ||| UT_CP) ArgRef.null,
  Encoding.mk (bs ("EnvironmentalObjectPresence")) 0x3A (UT_CA ||| UT_CP) ArgRef.null,
  Encoding.mk (bs ("EnvironmentalObjectProximity")) 0x3B (UT_CA ||| UT_CP) ArgRef.null,
  Encoding.mk (bs ("Light")) 0x40 (UT_CA ||| UT_CP) ArgRef.null,
  Encoding.mk (bs ("LightAmbientLight")) 0x41 (UT_CA ||| UT_CP) ArgRef.null,
  Encoding.mk (bs ("LightConsumerInfrared")) 0x42 (UT_CA ||| UT_CP) ArgRef.null,
  Encoding.mk (bs ("LightInfraredLight")) 0x43 (UT_CA ||| UT_CP) ArgRef.null,
  Encoding.mk (bs ("LightVisibleLight")) 0x44 (UT_CA ||| UT_CP) ArgRef.null,
  Encoding.mk (bs ("LightUltravioletLight")) 0x45 (UT_CA ||| UT_CP) ArgRef.null,
  Encoding.mk (bs ("Location")) 0x50 (UT_CA ||| UT_CP) ArgRef.null,
  Encoding.mk (bs ("LocationBroadcast")) 0x51 (UT_CA ||| UT_CP) ArgRef.null,
  Encoding.mk (bs ("LocationDeadReckoning")) 0x52 (UT_CA ||| UT_CP) ArgRef.null,
  Encoding.mk (bs ("LocationGps")) 0x53 (UT_CA ||| UT_CP) ArgRef.null,
  Encoding.mk (bs ("LocationLookup")) 0x54 (UT_CA ||| UT_CP) ArgRef.null,
  Encoding.mk (bs ("LocationOther")) 0x55 (UT_CA ||| UT_CP) ArgRef.null,
  Encoding.mk (bs ("LocationStatic")) 0x56 (UT_CA ||| UT_CP) ArgRef.null,
  Encoding.mk (bs ("LocationTriangulation")) 0x57 (UT_CA ||| UT_CP) ArgRef.null,
  Encoding.mk (bs ("Mechanical")) 0x60 (UT_CA ||| UT_CP) ArgRef.null,
  Encoding.mk (bs ("MechanicalBooleanSwitch")) 0x61 (UT_CA ||| UT_CP) ArgRef.null,
  Encoding.mk (bs ("MechanicalBooleanSwitchArray")) 0x62 (UT_CA ||| UT_CP) ArgRef.null,
  Encoding.mk (bs ("MechanicalMultivalueSwitch")) 0x63 (UT_CA ||| UT_CP) ArgRef.null,
  Encoding.mk (bs ("MechanicalForce")) 0x64 (UT_CA ||| UT_CP) ArgRef.null,
  Encoding.mk (bs ("MechanicalPressure")) 0x65 (UT_CA ||| UT_CP) ArgRef.null,
  Encoding.mk (bs ("MechanicalStrain")) 0x66 (UT_CA ||| UT_CP) ArgRef.null,
  Encoding.mk (bs ("MechanicalWeight")) 0x67 (UT_CA ||| UT_CP) ArgRef.null,
  Encoding.mk (bs ("MechanicalHapticVibrator")) 0x68 (UT_CA ||| UT_CP) ArgRef.null,
  Encoding.mk (bs ("MechanicalHallEffectSwitch")) 0x69 (UT_CA ||| UT_CP) ArgRef.null,
  Encoding.mk (bs ("Motion")) 0x70 (UT_CA ||| UT_CP) ArgRef.null,
  Encoding.mk (bs ("MotionAccelerometer1d")) 0x71 (UT_CA ||| UT_CP) ArgRef.null,
  Encoding.mk (bs ("MotionAccelerometer2d")) 0x72 (UT_CA ||| UT_CP) ArgRef.null,
  Encoding.mk (bs ("MotionAccelerometer3d")) 0x73 (UT_CA ||| UT_CP) ArgRef.null,
  Encoding.mk (bs ("MotionGyrometer1d")) 0x74 (UT_CA ||| UT_CP) ArgRef.null,
  Encoding.mk (bs ("MotionGyrometer2d")) 0x75 (UT_CA ||| UT_CP) ArgRef.null,
  Encoding.mk (bs ("MotionGyrometer3d")) 0x76 (UT_CA ||| UT_CP) ArgRef.null,
  Encoding.mk (bs ("MotionMotionDetector")) 0x77 (UT_CA ||| UT_CP) ArgRef.null,
  Encoding.mk (bs ("MotionSpeedometer")) 0x78 (UT_CA ||| UT_CP) ArgRef.null,
  Encoding.mk (bs ("MotionAccelerometer")) 0x79 (UT_CA ||| UT_CP) ArgRef.null,
  Encoding.mk (bs ("MotionGyrometer")) 0x7A (UT_CA ||| UT_CP) ArgRef.null,
  Encoding.mk (bs ("MotionGraviyVector")) 0x7B (UT_CA ||| UT_CP) ArgRef.null,
  Encoding.mk (bs ("MotionLinearAccelerometer")) 0x7C (UT_CA ||| UT_CP) ArgRef.null,
  Encoding.mk (bs ("Orientation")) 0x80 (UT_CA ||| UT_CP) ArgRef.null,
  Encoding.mk (bs ("OrientationCompass1d")) 0x81 (UT_CA ||| UT_CP) ArgRef.null,
  Encoding.mk (bs ("OrientationCompass2d")) 0x82 (UT_CA ||| UT_CP) ArgRef.null,
  Encoding.mk (bs ("OrientationCompass3d")) 0x83 (UT_CA ||| UT_CP) ArgRef.null,
  Encoding.mk (bs ("OrientationInclinometer1d")) 0x84 (UT_CA ||| UT_CP) ArgRef.null,
  Encoding.mk (bs ("OrientationInclinometer2d")) 0x85 (UT_CA ||| UT_CP) ArgRef.null,
  Encoding.mk (bs ("OrientationInclinometer3d")) 0x86 (UT_CA ||| UT_CP) ArgRef.null,
  Encoding.mk (bs ("OrientationDistance1d")) 0x87 (UT_CA ||| UT_CP) ArgRef.null,
  Encoding.mk (bs ("OrientationDistance2d")) 0x88 (UT_CA ||| UT_CP) ArgRef.null,
  Encoding.mk (bs ("OrientationDistance3d")) 0x89 (UT_CA ||| UT_CP) ArgRef.null,
  Encoding.mk (bs ("OrientationDeviceOrientation")) 0x8A (UT_CA ||| UT_CP) ArgRef.null,
  Encoding.mk (bs ("OrientationCompass")) 0x8B (UT_CA ||| UT_CP) ArgRef.null,
  Encoding.mk (bs ("OrientationInclinometer")) 0x8C (UT_CA ||| UT_CP) ArgRef.null,
  Encoding.mk (bs ("OrientationDistance")) 0x8D (UT_CA ||| UT_CP) ArgRef.null,
  Encoding.mk (bs ("OrientationRelativeOrientation")) 0x8E (UT_CA ||| UT_CP) ArgRef.null,
  Encoding.mk (bs ("OrientationSimpleOrientation")) 0x8F (UT_CA ||| UT_CP) ArgRef.null,
  Encoding.mk (bs ("Scanner")) 0x90 (UT_CA ||| UT_CP) ArgRef.null,
  Encoding.mk (bs ("ScannerBarcode")) 0x91 (UT_CA ||| UT_CP) ArgRef.null,
  Encoding.mk (bs ("ScannerRfid")) 0x92 (UT_CA ||| UT_CP) ArgRef.null,
  Encoding.mk (bs ("ScannerNfc")) 0x93 (UT_CA ||| UT_CP) ArgRef.null,
  Encoding.mk (bs ("Time")) 0xA0 (UT_CA ||| UT_CP) ArgRef.null,
  Encoding.mk (bs ("TimeAlarmTimer")) 0xA1 (UT_CA ||| UT_CP) ArgRef.null,
  Encoding.mk (bs ("TimeRealTimeClock")) 0xA2 (UT_CA ||| UT_CP) ArgRef.null,
  Encoding.mk (bs ("PersonalActivity")) 0xB0 (UT_CA ||| UT_CP) ArgRef.null,
  Encoding.mk (bs ("PersonalActivityActivityDetection")) 0xB1 (UT_CA ||| UT_CP) ArgRef.null,
  Encoding.mk (bs ("PersonalActivityDevicePosition")) 0xB2 (UT_CA ||| UT_CP) ArgRef.null,
  Encoding.mk (bs ("PersonalActivityPedometer")) 0xB3 (UT_CA ||| UT_CP) ArgRef.null,
  Encoding.mk (bs ("PersonalActivityStepDetection")) 0xB4 (UT_CA ||| UT_CP) ArgRef.null,
  Encoding.mk (bs ("OrientationExtended")) 0xC0 (UT_CA ||| UT_CP) ArgRef.null,
  Encoding.mk (bs ("OrientationExtendedGeomagneticOrientation")) 0xC1 (UT_CA ||| UT_CP) ArgRef.null,
  Encoding.mk (bs ("OrientationExtendedMagnetometer")) 0xC2 (UT_CA ||| UT_CP) ArgRef.null,
  Encoding.mk (bs ("Gesture")) 0xD0 (UT_CA ||| UT_CP) ArgRef.null,
  Encoding.mk (bs ("GestureChassisFlipGesture")) 0xD1 (UT_CA ||| UT_CP) ArgRef.null,
  Encoding.mk (bs ("GestureHingeFoldGesture")) 0xD2 (UT_CA ||| UT_CP) ArgRef.null,
  Encoding.mk (bs ("Other")) 0xE0 (UT_CA ||| UT_CP) ArgRef.null,
  Encoding.mk (bs ("OtherCustom")) 0xE1 (UT_CA ||| UT_CP) ArgRef.null,
  Encoding.mk (bs ("OtherGeneric")) 0xE2 (UT_CA ||| UT_CP) ArgRef.null,
  Encoding.mk (bs ("OtherGenericEnumerator")) 0xE3 (UT_CA ||| UT_CP) ArgRef.null,
  Encoding.mk (bs ("OtherHingeAngle")) 0xE4 (UT_CA ||| UT_CP) ArgRef.null,
  Encoding.mk (bs ("VendorReserved1")) 0xF0 (UT_CA ||| UT_CP) ArgRef.null,
  Encoding.mk (bs ("VendorReserved2")) 0xF1 (UT_CA ||| UT_CP) ArgRef.null,
  Encoding.mk (bs ("VendorReserved3")) 0xF2 (UT_CA ||| UT_CP) ArgRef.null,
  Encoding.mk (bs ("VendorReserved4")) 0xF3 (UT_CA ||| UT_CP) ArgRef.null,
  Encoding.mk (bs ("VendorReserved5")) 0xF4 (UT_CA ||| UT_CP) ArgRef.null,
  Encoding.mk (bs ("VendorReserved6")) 0xF5 (UT_CA ||| UT_CP) ArgRef.null,
  Encoding.mk (bs ("VendorReserved7")) 0xF6 (UT_CA ||| UT_CP) ArgRef.null,
  Encoding.mk (bs ("VendorReserved8")) 0xF7 (UT_CA ||| UT_CP) ArgRef.null,
  Encoding.mk (bs ("VendorReserved9")) 0xF8 (UT_CA ||| UT_CP) ArgRef.null,
  Encoding.mk (bs ("VendorReserved10")) 0xF9 (UT_CA ||| UT_CP) ArgRef.null,
  Encoding.mk (bs ("VendorReserved11")) 0xFA (UT_CA ||| UT_CP) ArgRef.null,
  Encoding.mk (bs ("VendorReserved12")) 0xFB (UT_CA ||| UT_CP) ArgRef.null,
  Encoding.mk (bs ("VendorReserved13")) 0xFC (UT_CA ||| UT_CP) ArgRef.null,
  Encoding.mk (bs ("VendorReserved14")) 0xFD (UT_CA ||| UT_CP) ArgRef.null,
  Encoding.mk (bs ("VendorReserved15")) 0xFE (UT_CA ||| UT_CP) ArgRef.null,
  Encoding.mk (bs ("VendorReserved16")) 0xFF (UT_CA ||| UT_CP) ArgRef.null,
  Encoding.mk (bs ("Event")) 0x200 (UT_DV) ArgRef.null,
  Encoding.mk (bs ("EventSensorState")) 0x201 (UT_NARY) ArgRef.null,
  Encoding.mk (bs ("EventSensorEvent")) 0x202 (UT_NARY) ArgRef.null,
  Encoding.mk (bs ("Property")) 0x300 (UT_DV) ArgRef.null,
  Encoding.mk (bs ("PropertyFriendlyName")) 0x301 (UT_SV) ArgRef.null,
  Encoding.mk (bs ("PropertyPersistentUniqueId")) 0x302 (UT_DV) ArgRef.null,
  Encoding.mk (bs ("PropertySensorStatus")) 0x303 (UT_DV) ArgRef.null,
  Encoding.mk (bs ("PropertyMinimumReportInterval")) 0x304 (UT_SV) ArgRef.null,
  Encoding.mk (bs ("PropertySensorManufacturer")) 0x305 (UT_SV) ArgRef.null,
  Encoding.mk (bs ("PropertySensorModel")) 0x306 (UT_SV) ArgRef.null,
  Encoding.mk (bs ("PropertySensorSerialNumber")) 0x307 (UT_SV) ArgRef.null,
  Encoding.mk (bs ("PropertySensorDescription")) 0x308 (UT_SV) ArgRef.null,
  Encoding.mk (bs ("PropertySensorConnectionType")) 0x309 (UT_NARY) ArgRef.null,
  Encoding.mk (bs ("PropertySensorDevicePath")) 0x30A (UT_DV) ArgRef.null,
  Encoding.mk (bs ("PropertyHardwareRevision")) 0x30B (UT_SV) ArgRef.null,
  Encoding.mk (bs ("PropertyFirmwareVersion")) 0x30C (UT_SV) ArgRef.null,
  Encoding.mk (bs ("PropertyReleaseDate")) 0x30D (UT_SV) ArgRef.null,
  Encoding.mk (bs ("PropertyReportInterval")) 0x30E (UT_DV) ArgRef.null,
  Encoding.mk (bs ("PropertyChangeSensitivityAbsolute")) 0x30F (UT_DV) ArgRef.null,
  Encoding.mk (bs ("PropertyChangeSensitivityPercentOfRange")) 0x310 (UT_DV) ArgRef.null,
  Encoding.mk (bs ("PropertyChangeSensitivityPercentRelative")) 0x311 (UT_DV) ArgRef.null,
  Encoding.mk (bs ("PropertyAccuracy")) 0x312 (UT_DV) ArgRef.null,
  Encoding.mk (bs ("PropertyResolution")) 0x313 (UT_DV) ArgRef.null,
  Encoding.mk (bs ("PropertyMaximum")) 0x314 (UT_DV) ArgRef.null,
  Encoding.mk (bs ("PropertyMinimum")) 0x315 (UT_DV) ArgRef.null,
  Encoding.mk (bs ("PropertyReportingState")) 0x316 (UT_NARY) ArgRef.null,
  Encoding.mk (bs ("PropertySamplingRate")) 0x317 (UT_DV) ArgRef.null,
  Encoding.mk (bs ("PropertyResponseCurve")) 0x318 (UT_DV) ArgRef.null,
  Encoding.mk (bs ("PropertyPowerState")) 0x319 (UT_NARY) ArgRef.null,
  Encoding.mk (bs ("PropertyMaximumFifoEvents")) 0x31A (UT_SV) ArgRef.null,
  Encoding.mk (bs ("PropertyReportLatency")) 0x31B (UT_DV) ArgRef.null,
  Encoding.mk (bs ("PropertyFlushFifoEvents")) 0x31C (UT_DF) ArgRef.null,
  Encoding.mk (bs ("PropertyMaximumPowerConsumption")) 0x31D (UT_DV) ArgRef.null,
  Encoding.mk (bs ("PropertyIsPrimary")) 0x31E (UT_DF) ArgRef.null,
  Encoding.mk (bs ("DataFieldLocation")) 0x400 (UT_DV) ArgRef.null,
  Encoding.mk (bs ("DataFieldAltitudeAntennaSeaLevel")) 0x402 (UT_SV) ArgRef.null,
  Encoding.mk (bs ("DataFieldDifferentialReferenceStationId")) 0x403 (UT_SV) ArgRef.null,
  Encoding.mk (bs ("DataFieldAltitudeEllipsoidError")) 0x404 (UT_SV) ArgRef.null,
  Encoding.mk (bs ("DataFieldAltitudeEllipsoid")) 0x405 (UT_SV) ArgRef.null,
  Encoding.mk (bs ("DataFieldAltitudeSeaLevelError")) 0x406 (UT_SV) ArgRef.null,
  Encoding.mk (bs ("DataFieldAltitudeSeaLevel")) 0x407 (UT_SV) ArgRef.null,
  Encoding.mk (bs ("DataFieldDifferentialGpsDataAge")) 0x408 (UT_SV) ArgRef.null,
  Encoding.mk (bs ("DataFieldErrorRadius")) 0x409 (UT_SV) ArgRef.null,
  Encoding.mk (bs ("DataFieldFixQuality")) 0x40A (UT_NARY) ArgRef.null,
  Encoding.mk (bs ("DataFieldFixType")) 0x40B (UT_NARY) ArgRef.null,
  Encoding.mk (bs ("DataFieldGeoidalSeparation")) 0x40C (UT_SV) ArgRef.null,
  Encoding.mk (bs ("DataFieldGpsOperationMode")) 0x40D (UT_NARY) ArgRef.null,
  Encoding.mk (bs ("DataFieldGpsSelectionMode")) 0x40E (UT_NARY) ArgRef.null,
  Encoding.mk (bs ("DataFieldGpsStatus")) 0x40F (UT_NARY) ArgRef.null,
  Encoding.mk (bs ("DataFieldPositionDilutionOfPrecision")) 0x410 (UT_SV) ArgRef.null,
  Encoding.mk (bs ("DataFieldHorizontalDilutionOfPrecision")) 0x411 (UT_SV) ArgRef.null,
  Encoding.mk (bs ("DataFieldVerticalDilutionOfPrecision")) 0x412 (UT_SV) ArgRef.null,
  Encoding.mk (bs ("DataFieldLatitude")) 0x413 (UT_SV) ArgRef.null,
  Encoding.mk (bs ("DataFieldLongitude")) 0x414 (UT_SV) ArgRef.null,
  Encoding.mk (bs ("DataFieldTrueHeading")) 0x415 (UT_SV) ArgRef.null,
  Encoding.mk (bs ("DataFieldMagneticHeading")) 0x416 (UT_SV) ArgRef.null,
  Encoding.mk (bs ("DataFieldMagneticVariation")) 0x417 (UT_SV) ArgRef.null,
  Encoding.mk (bs ("DataFieldSpeed")) 0x418 (UT_SV) ArgRef.null,
  Encoding.mk (bs ("DataFieldSatellitesInView")) 0x419 (UT_SV) ArgRef.null,
  Encoding.mk (bs ("DataFieldSatellitesInViewAzimuth")) 0x41A (UT_SV) ArgRef.null,
  Encoding.mk (bs ("DataFieldSatellitesInViewElevation")) 0x41B (UT_SV) ArgRef.null,
  Encoding.mk (bs ("DataFieldSatellitesInViewIds")) 0x41C (UT_SV) ArgRef.null,
  Encoding.mk (bs ("DataFieldSatellitesInViewPrns")) 0x41D (UT_SV) ArgRef.null,
  Encoding.mk (bs ("DataFieldSatellitesInViewSnRatio")) 0x41E (UT_SV) ArgRef.null,
  Encoding.mk (bs ("DataFieldSatellitesUsedCount")) 0x41F (UT_SV) ArgRef.null,
  Encoding.mk (bs ("DataFieldSatellitesUsedPrns")) 0x420 (UT_SV) ArgRef.null,
  Encoding.mk (bs ("DataFieldNmeaSentence")) 0x421 (UT_SV) ArgRef.null,
  Encoding.mk (bs ("DataFieldAddressLine1")) 0x422 (UT_SV) ArgRef.null,
  Encoding.mk (bs ("DataFieldAddressLine2")) 0x423 (UT_SV) ArgRef.null,
  Encoding.mk (bs ("DataFieldCity")) 0x424 (UT_SV) ArgRef.null,
  Encoding.mk (bs ("DataFieldStateOrProvince")) 0x425 (UT_SV) ArgRef.null,
  Encoding.mk (bs ("DataFieldCountryOrRegion")) 0x426 (UT_SV) ArgRef.null,
  Encoding.mk (bs ("DataFieldPostalCode")) 0x427 (UT_SV) ArgRef.null,
  Encoding.mk (bs ("PropertyLocation")) 0x42A (UT_DV) ArgRef.null,
  Encoding.mk (bs ("PropertyLocationDesiredAccuracy")) 0x42B (UT_NARY) ArgRef.null,
  Encoding.mk (bs ("DataFieldEnvironmental")) 0x430 (UT_SV) ArgRef.null,
  Encoding.mk (bs ("DataFieldAtmosphericPressure")) 0x431 (UT_SV) ArgRef.null,
  Encoding.mk (bs ("DataFieldRelativeHumidity")) 0x433 (UT_SV) ArgRef.null,
  Encoding.mk (bs ("DataFieldTemperature")) 0x434 (UT_SV) ArgRef.null,
  Encoding.mk (bs ("DataFieldWindDirection")) 0x435 (UT_SV) ArgRef.null,
  Encoding.mk (bs ("DataFieldWindSpeed")) 0x436 (UT_SV) ArgRef.null,
  Encoding.mk (bs ("DataFieldAirQualityIndex")) 0x437 (UT_SV) ArgRef.null,
  Encoding.mk (bs ("DataFieldEquivalentCo2")) 0x438 (UT_SV) ArgRef.null,
  Encoding.mk (bs ("DataFieldVolatileOrganicCompoundConcentration")) 0x439 (UT_SV) ArgRef.null,
  Encoding.mk (bs ("DataFieldObjectPresence")) 0x43A (UT_SF) ArgRef.null,
  Encoding.mk (bs ("DataFieldObjectProximityRange")) 0x43B (UT_SV) ArgRef.null,
  Encoding.mk (bs ("DataFieldObjectProximityOutOfRange")) 0x43C (UT_SF) ArgRef.null,
  Encoding.mk (bs ("PropertyEnvironmental")) 0x440 (UT_SV) ArgRef.null,
  Encoding.mk (bs ("PropertyReferencePressure")) 0x441 (UT_SV) ArgRef.null,
  Encoding.mk (bs ("DataFieldMotion")) 0x450 (UT_DV) ArgRef.null,
  Encoding.mk (bs ("DataFieldMotionState")) 0x451 (UT_SF) ArgRef.null,
  Encoding.mk (bs ("DataFieldAcceleration")) 0x452 (UT_SV) ArgRef.null,
  Encoding.mk (bs ("DataFieldAccelerationAxisX")) 0x453 (UT_SV) ArgRef.null,
  Encoding.mk (bs ("DataFieldAccelerationAxisY")) 0x454 (UT_SV) ArgRef.null,
  Encoding.mk (bs ("DataFieldAccelerationAxisZ")) 0x455 (UT_SV) ArgRef.null,
  Encoding.mk (bs ("DataFieldAngularVelocity")) 0x456 (UT_SV) ArgRef.null,
  Encoding.mk (bs ("DataFieldAngularVelocityAboutXAxis")) 0x457 (UT_SV) ArgRef.null,
  Encoding.mk (bs ("DataFieldAngularVelocityAboutYAxis")) 0x458 (UT_SV) ArgRef.null,
  Encoding.mk (bs ("DataFieldAngularVelocityAboutZAxis")) 0x459 (UT_SV) ArgRef.null,
  Encoding.mk (bs ("DataFieldAngularPosition")) 0x45A (UT_SV) ArgRef.null,
  Encoding.mk (bs ("DataFieldAngularPositionAboutXAxis")) 0x45B (UT_SV) ArgRef.null,
  Encoding.mk (bs ("DataFieldAngularPositionAboutYAxis")) 0x45C (UT_SV) ArgRef.null,
  Encoding.mk (bs ("DataFieldAngularPositionAboutZAxis")) 0x45D (UT_SV) ArgRef.null,
  Encoding.mk (bs ("DataFieldMotionSpeed")) 0x45E (UT_SV) ArgRef.null,
  Encoding.mk (bs ("DataFieldMotionIntensity")) 0x45F (UT_SV) ArgRef.null,
  Encoding.mk (bs ("DataFieldOrientation")) 0x470 (UT_DV) ArgRef.null,
  Encoding.mk (bs ("DataFieldHeading")) 0x471 (UT_SV) ArgRef.null,
  Encoding.mk (bs ("DataFieldHeadingXAxis")) 0x472 (UT_SV) ArgRef.null,
  Encoding.mk (bs ("DataFieldHeadingYAxis")) 0x473 (UT_SV) ArgRef.null,
  Encoding.mk (bs ("DataFieldHeadingZAxis")) 0x474 (UT_SV) ArgRef.null,
  Encoding.mk (bs ("DataFieldHeadingCompensatedMagneticNorth")) 0x475 (UT_SV) ArgRef.null,
  Encoding.mk (bs ("DataFieldHeadingCompensatedTrueNorth")) 0x476 (UT_SV) ArgRef.null,
  Encoding.mk (bs ("DataFieldHeadingMagneticNorth")) 0x477 (UT_SV) ArgRef.null,
  Encoding.mk (bs ("DataFieldHeadingTrueNorth")) 0x478 (UT_SV) ArgRef.null,
  Encoding.mk (bs ("DataFieldDistance")) 0x479 (UT_SV) ArgRef.null,
  Encoding.mk (bs ("DataFieldDistanceXAxis")) 0x47A (UT_SV) ArgRef.null,
  Encoding.mk (bs ("DataFieldDistanceYAxis")) 0x47B (UT_SV) ArgRef.null,
  Encoding.mk (bs ("DataFieldDistanceZAxis")) 0x47C (UT_SV) ArgRef.null,
  Encoding.mk (bs ("DataFieldDistanceOutOfRange")) 0x47D (UT_SF) ArgRef.null,
  Encoding.mk (bs ("DataFieldTilt")) 0x47E (UT_SV) ArgRef.null,
  Encoding.mk (bs ("DataFieldTiltXAxis")) 0x47F (UT_SV) ArgRef.null,
  Encoding.mk (bs ("DataFieldTiltYAxis")) 0x480 (UT_SV) ArgRef.null,
  Encoding.mk (bs ("DataFieldTiltZAxis")) 0x481 (UT_SV) ArgRef.null,
  Encoding.mk (bs ("DataFieldRotationMatrix")) 0x482 (UT_SV) ArgRef.null,
  Encoding.mk (bs ("DataFieldQuaternion")) 0x483 (UT_SV) ArgRef.null,
  Encoding.mk (bs ("DataFieldMagneticFlux")) 0x484 (UT_SV) ArgRef.null,
  Encoding.mk (bs ("DataFieldMagneticFluxXAxis")) 0x485 (UT_SV) ArgRef.null,
  Encoding.mk (bs ("DataFieldMagneticFluxYAxis")) 0x486 (UT_SV) ArgRef.null,
  Encoding.mk (bs ("DataFieldMagneticFluxZAxis")) 0x487 (UT_SV) ArgRef.null,
  Encoding.mk (bs ("DataFieldMagnetometerAccuracy")) 0x488 (UT_NARY) ArgRef.null,
  Encoding.mk (bs ("DataFieldSimpleOrientationDirection")) 0x489 (UT_NARY) ArgRef.null,
  Encoding.mk (bs ("DataFieldMechanical")) 0x490 (UT_DV) ArgRef.null,
  Encoding.mk (bs ("DataFieldBooleanSwitchState")) 0x491 (UT_SF) ArgRef.null,
  Encoding.mk (bs ("DataFieldBooleanSwitchArrayStates")) 0x492 (UT_SV) ArgRef.null,
  Encoding.mk (bs ("DataFieldMultivalueSwitchValue")) 0x493 (UT_SV) ArgRef.null,
  Encoding.mk (bs ("DataFieldField")) 0x494 (UT_SV) ArgRef.null,
  Encoding.mk (bs ("DataFieldAbsolutePressure")) 0x495 (UT_SV) ArgRef.null,
  Encoding.mk (bs ("DataFieldGaugePressure")) 0x496 (UT_SV) ArgRef.null,
  Encoding.mk (bs ("DataFieldStrain")) 0x497 (UT_SV) ArgRef.null,
  Encoding.mk (bs ("DataFieldWeight")) 0x498 (UT_SV) ArgRef.null,
  Encoding.mk (bs ("PropertyMechanical")) 0x4A0 (UT_DV) ArgRef.null,
  Encoding.mk (bs ("PropertyVibrationState")) 0x4A1 (UT_DF) ArgRef.null,
  Encoding.mk (bs ("PropertyForwardVibrationSpeed")) 0x4A2 (UT_DV) ArgRef.null,
  Encoding.mk (bs ("PropertyBackwardVibrationSpeed")) 0x4A3 (UT_DV) ArgRef.null,
  Encoding.mk (bs ("DataFieldBiometric")) 0x4B0 (UT_DV) ArgRef.null,
  Encoding.mk (bs ("DataFieldHumanPresence")) 0x4B1 (UT_SF) ArgRef.null,
  Encoding.mk (bs ("DataFieldHumanProximityRange")) 0x4B2 (UT_SV) ArgRef.null,
  Encoding.mk (bs ("DataFieldHumanProximityOutOfRange")) 0x4B3 (UT_SF) ArgRef.null,
  Encoding.mk (bs ("DataFieldHumanTouchState")) 0x4B4 (UT_SF) ArgRef.null,
  Encoding.mk (bs ("DataFieldBloodPressure")) 0x4B5 (UT_SV) ArgRef.null,
  Encoding.mk (bs ("DataFieldBloodPressureDiastolic")) 0x4B6 (UT_SV) ArgRef.null,
  Encoding.mk (bs ("DataFieldBloodPressureSystolic")) 0x4B7 (UT_SV) ArgRef.null,
  Encoding.mk (bs ("DataFieldHeartRate")) 0x4B8 (UT_SV) ArgRef.null,
  Encoding.mk (bs ("DataFieldRestingHeartRate")) 0x4B9 (UT_SV) ArgRef.null,
  Encoding.mk (bs ("DataFieldHeartbeatInterval")) 0x4BA (UT_SV) ArgRef.null,
  Encoding.mk (bs ("DataFieldRespiratoryRate")) 0x4BB (UT_SV) ArgRef.null,
  Encoding.mk (bs ("DataFieldSpo2")) 0x4BC (UT_SV) ArgRef.null,
  Encoding.mk (bs ("DataFieldLight")) 0x4D0 (UT_DV) ArgRef.null,
  Encoding.mk (bs ("DataFieldIlluminance")) 0x4D1 (UT_SV) ArgRef.null,
  Encoding.mk (bs ("DataFieldColorTemperature")) 0x4D2 (UT_SV) ArgRef.null,
  Encoding.mk (bs ("DataFieldChromaticity")) 0x4D3 (UT_SV) ArgRef.null,
  Encoding.mk (bs ("DataFieldChromaticityX")) 0x4D4 (UT_SV) ArgRef.null,
  Encoding.mk (bs ("DataFieldChromaticityY")) 0x4D5 (UT_SV) ArgRef.null,
  Encoding.mk (bs ("DataFieldConsumerIrSentenceReceive")) 0x4D6 (UT_SV) ArgRef.null,
  Encoding.mk (bs ("DataFieldInfraredLight")) 0x4D7 (UT_SV) ArgRef.null,
  Encoding.mk (bs ("DataFieldRedLight")) 0x4D8 (UT_SV) ArgRef.null,
  Encoding.mk (bs ("DataFieldGreenLight")) 0x4D9 (UT_SV) ArgRef.null,
  Encoding.mk (bs ("DataFieldBlueLight")) 0x4DA (UT_SV) ArgRef.null,
  Encoding.mk (bs ("DataFieldUltravioletALight")) 0x4DB (UT_SV) ArgRef.null,
  Encoding.mk (bs ("DataFieldUltravioletBLight")) 0x4DC (UT_SV) ArgRef.null,
  Encoding.mk (bs ("DataFieldUltravioletIndex")) 0x4DD (UT_SV) ArgRef.null,
  Encoding.mk (bs ("DataFieldNearInfraredLight")) 0x4DE (UT_SV) ArgRef.null,
  Encoding.mk (bs ("PropertyLight")) 0x4DF (UT_DV) ArgRef.null,
  Encoding.mk (bs ("PropertyConsumerIrSentenceSend")) 0x4E0 (UT_DV) ArgRef.null,
  Encoding.mk (bs ("PropertyAutoBrightnessPreferred")) 0x4E2 (UT_DF) ArgRef.null,
  Encoding.mk (bs ("PropertyAutoColorPreferred")) 0x4E3 (UT_DF) ArgRef.null,
  Encoding.mk (bs ("DataFieldScanner")) 0x4F0 (UT_DV) ArgRef.null,
  Encoding.mk (bs ("DataFieldRfidTag40Bit")) 0x4F1 (UT_SV) ArgRef.null,
  Encoding.mk (bs ("DataFieldNfcSentenceReceive")) 0x4F2 (UT_SV) ArgRef.null,
  Encoding.mk (bs ("PropertyScanner")) 0x4F8 (UT_DV) ArgRef.null,
  Encoding.mk (bs ("PropertyNfcSentenceSend")) 0x4F9 (UT_SV) ArgRef.null,
  Encoding.mk (bs ("DataFieldElectrical")) 0x500 (UT_SV) ArgRef.null,
  Encoding.mk (bs ("DataFieldCapacitance")) 0x501 (UT_SV) ArgRef.null,
  Encoding.mk (bs ("DataFieldCurrent")) 0x502 (UT_SV) ArgRef.null,
  Encoding.mk (bs ("DataFieldElectricalPower")) 0x503 (UT_SV) ArgRef.null,
  Encoding.mk (bs ("DataFieldInductance")) 0x504 (UT_SV) ArgRef.null,
  Encoding.mk (bs ("DataFieldResistance")) 0x505 (UT_SV) ArgRef.null,
  Encoding.mk (bs ("DataFieldVoltage")) 0x506 (UT_SV) ArgRef.null,
  Encoding.mk (bs ("DataFieldFrequency")) 0x507 (UT_SV) ArgRef.null,
  Encoding.mk (bs ("DataFieldPeriod")) 0x508 (UT_SV) ArgRef.null,
  Encoding.mk (bs ("DataFieldPercentOfRange")) 0x509 (UT_SV) ArgRef.null,
  Encoding.mk (bs ("DataFieldTime")) 0x520 (UT_DV) ArgRef.null,
  Encoding.mk (bs ("DataFieldYear")) 0x521 (UT_SV) ArgRef.null,
  Encoding.mk (bs ("DataFieldMonth")) 0x522 (UT_SV) ArgRef.null,
  Encoding.mk (bs ("DataFieldDay")) 0x523 (UT_SV) ArgRef.null,
  Encoding.mk (bs ("DataFieldDayOfWeek")) 0x524 (UT_NARY) ArgRef.null,
  Encoding.mk (bs ("DataFieldHour")) 0x525 (UT_SV) ArgRef.null,
  Encoding.mk (bs ("DataFieldMinute")) 0x526 (UT_SV) ArgRef.null,
  Encoding.mk (bs ("DataFieldSecond")) 0x527 (UT_SV) ArgRef.null,
  Encoding.mk (bs ("DataFieldMillisecond")) 0x528 (UT_SV) ArgRef.null,
  Encoding.mk (bs ("DataFieldTimestamp")) 0x529 (UT_SV) ArgRef.null,
  Encoding.mk (bs ("DataFieldJulianDayOfYear")) 0x52A (UT_SV) ArgRef.null,
  Encoding.mk (bs ("DataFieldTimeSinceSystemBoot")) 0x52B (UT_SV) ArgRef.null,
  Encoding.mk (bs ("PropertyTime")) 0x530 (UT_DV) ArgRef.null,
  Encoding.mk (bs ("PropertyTimeZoneOffsetFromUtc")) 0x531 (UT_DV) ArgRef.null,
  Encoding.mk (bs ("PropertyTimeZoneName")) 0x532 (UT_DV) ArgRef.null,
  Encoding.mk (bs ("PropertyDaylightSavingsTimeObserved")) 0x533 (UT_DF) ArgRef.null,
  Encoding.mk (bs ("PropertyTimeTrimAdjustment")) 0x534 (UT_DV) ArgRef.null,
  Encoding.mk (bs ("PropertyArmAlarm")) 0x535 (UT_DF) ArgRef.null,
  Encoding.mk (bs ("DataFieldCustom")) 0x540 (UT_DV) ArgRef.null,
  Encoding.mk (bs ("DataFieldCustomUsage")) 0x541 (UT_SV) ArgRef.null,
  Encoding.mk (bs ("DataFieldCustomBooleanArray")) 0x542 (UT_SV) ArgRef.null,
  Encoding.mk (bs ("DataFieldCustomValue")) 0x543 (UT_SV) ArgRef.null,
  Encoding.mk (bs ("DataFieldCustomValue1")) 0x544 (UT_SV) ArgRef.null,
  Encoding.mk (bs ("DataFieldCustomValue2")) 0x545 (UT_SV) ArgRef.null,
  Encoding.mk (bs ("DataFieldCustomValue3")) 0x546 (UT_SV) ArgRef.null,
  Encoding.mk (bs ("DataFieldCustomValue4")) 0x547 (UT_SV) ArgRef.null,
  Encoding.mk (bs ("DataFieldCustomValue5")) 0x548 (UT_SV) ArgRef.null,
  Encoding.mk (bs ("DataFieldCustomValue6")) 0x549 (UT_SV) ArgRef.null,
  Encoding.mk (bs ("DataFieldCustomValue7")) 0x54A (UT_SV) ArgRef.null,
  Encoding.mk (bs ("DataFieldCustomValue8")) 0x54B (UT_SV) ArgRef.null,
  Encoding.mk (bs ("DataFieldCustomValue9")) 0x54C (UT_SV) ArgRef.null,
  Encoding.mk (bs ("DataFieldCustomValue10")) 0x54D (UT_SV) ArgRef.null,
  Encoding.mk (bs ("DataFieldCustomValue11")) 0x54E (UT_SV) ArgRef.null,
  Encoding.mk (bs ("DataFieldCustomValue12")) 0x54F (UT_SV) ArgRef.null,
  Encoding.mk (bs ("DataFieldCustomValue13")) 0x550 (UT_SV) ArgRef.null,
  Encoding.mk (bs ("DataFieldCustomValue14")) 0x551 (UT_SV) ArgRef.null,
  Encoding.mk (bs ("DataFieldCustomValue15")) 0x552 (UT_SV) ArgRef.null,
  Encoding.mk (bs ("DataFieldCustomValue16")) 0x553 (UT_SV) ArgRef.null,
  Encoding.mk (bs ("DataFieldCustomValue17")) 0x554 (UT_SV) ArgRef.null,
  Encoding.mk (bs ("DataFieldCustomValue18")) 0x555 (UT_SV) ArgRef.null,
  Encoding.mk (bs ("DataFieldCustomValue19")) 0x556 (UT_SV) ArgRef.null,
  Encoding.mk (bs ("DataFieldCustomValue20")) 0x557 (UT_SV) ArgRef.null,
  Encoding.mk (bs ("DataFieldCustomValue21")) 0x558 (UT_SV) ArgRef.null,
  Encoding.mk (bs ("DataFieldCustomValue22")) 0x559 (UT_SV) ArgRef.null,
  Encoding.mk (bs ("DataFieldCustomValue23")) 0x55A (UT_SV) ArgRef.null,
  Encoding.mk (bs ("DataFieldCustomValue24")) 0x55B (UT_SV) ArgRef.null,
  Encoding.mk (bs ("DataFieldCustomValue25")) 0x55C (UT_SV) ArgRef.null,
  Encoding.mk (bs ("DataFieldCustomValue26")) 0x55D (UT_SV) ArgRef.null,
  Encoding.mk (bs ("DataFieldCustomValue27")) 0x55E (UT_SV) ArgRef.null,
  Encoding.mk (bs ("DataFieldCustomValue28")) 0x55F (UT_SV) ArgRef.null,
  Encoding.mk (bs ("DataFieldGeneric")) 0x560 (UT_DV) ArgRef.null,
  Encoding.mk (bs ("DataFieldGenericGuidOrPropertykey")) 0x561 (UT_SV) ArgRef.null,
  Encoding.mk (bs ("DataFieldGenericCategoryGuid")) 0x562 (UT_SV) ArgRef.null,
  Encoding.mk (bs ("DataFieldGenericTypeGuid")) 0x563 (UT_SV) ArgRef.null,
  Encoding.mk (bs ("DataFieldGenericEventPropertykey")) 0x564 (UT_SV) ArgRef.null,
  Encoding.mk (bs ("DataFieldGenericPropertyPropertykey")) 0x565 (UT_SV) ArgRef.null,
  Encoding.mk (bs ("DataFieldGenericDataFieldPropertykey")) 0x566 (UT_SV) ArgRef.null,
  Encoding.mk (bs ("DataFieldGenericEvent")) 0x567 (UT_SV) ArgRef.null,
  Encoding.mk (bs ("DataFieldGenericProperty")) 0x568 (UT_SV) ArgRef.null,
  Encoding.mk (bs ("DataFieldGenericDataField")) 0x569 (UT_SV) ArgRef.null,
  Encoding.mk (bs ("DataFieldEnumeratorTableRowIndex")) 0x56A (UT_SV) ArgRef.null,
  Encoding.mk (bs ("DataFieldEnumeratorTableRowCount")) 0x56B (UT_SV) ArgRef.null,
  Encoding.mk (bs ("DataFieldGenericGuidOrPropertykeyKind")) 0x56C (UT_NARY) ArgRef.null,
  Encoding.mk (bs ("DataFieldGenericGuid")) 0x56D (UT_SV) ArgRef.null,
  Encoding.mk (bs ("DataFieldGenericPropertykey")) 0x56E (UT_SV) ArgRef.null,
  Encoding.mk (bs ("DataFieldGenericTopLevelCollectionId")) 0x56F (UT_SV) ArgRef.null,
  Encoding.mk (bs ("DataFieldGenericReportId")) 0x570 (UT_SV) ArgRef.null,
  Encoding.mk (bs ("DataFieldGenericReportItemPositionIndex")) 0x571 (UT_SV) ArgRef.null,
  Encoding.mk (bs ("DataFieldGenericFirmwareVartype")) 0x572 (UT_NARY) ArgRef.null,
  Encoding.mk (bs ("DataFieldGenericUnitOfMessure")) 0x573 (UT_NARY) ArgRef.null,
  Encoding.mk (bs ("DataFieldGenericUnitExponent")) 0x574 (UT_NARY) ArgRef.null,
  Encoding.mk (bs ("DataFieldGenericReportSize")) 0x575 (UT_SV) ArgRef.null,
  Encoding.mk (bs ("DataFieldGenericReportCount")) 0x576 (UT_SV) ArgRef.null,
  Encoding.mk (bs ("PropertyGeneric")) 0x580 (UT_DV) ArgRef.null,
  Encoding.mk (bs ("PropertyEnumeratorTableRowIndex")) 0x581 (UT_DV) ArgRef.null,
  Encoding.mk (bs ("PropertyEnumeratorTableRowCount")) 0x582 (UT_SV) ArgRef.null,
  Encoding.mk (bs ("DataFieldPersonalActivity")) 0x590 (UT_DV) ArgRef.null,
  Encoding.mk (bs ("DataFieldActivityType")) 0x591 (UT_NARY) ArgRef.null,
  Encoding.mk (bs ("DataFieldActivityState")) 0x592 (UT_NARY) ArgRef.null,
  Encoding.mk (bs ("DataFieldDevicePosition")) 0x593 (UT_NARY) ArgRef.null,
  Encoding.mk (bs ("DataFieldStepCount")) 0x594 (UT_SV) ArgRef.null,
  Encoding.mk (bs ("DataFieldStepCountReset")) 0x595 (UT_DF) ArgRef.null,
  Encoding.mk (bs ("DataFieldStepDuration")) 0x596 (UT_SV) ArgRef.null,
  Encoding.mk (bs ("DataFieldStepType")) 0x597 (UT_NARY) ArgRef.null,
  Encoding.mk (bs ("PropertyMinimumActivityDetectionInterval")) 0x5A0 (UT_DV) ArgRef.null,
  Encoding.mk (bs ("PropertySupportedActivityTypes")) 0x5A1 (UT_NARY) ArgRef.null,
  Encoding.mk (bs ("PropertySubscribedActivityTypes")) 0x5A2 (UT_NARY) ArgRef.null,
  Encoding.mk (bs ("PropertySupportedStepTypes")) 0x5A3 (UT_NARY) ArgRef.null,
  Encoding.mk (bs ("PropertySubscribedStepTypes")) 0x5A4 (UT_NARY) ArgRef.null,
  Encoding.mk (bs ("PropertyFloorHeight")) 0x5A5 (UT_DV) ArgRef.null,
  Encoding.mk (bs ("DataFieldCustomTypeId")) 0x5B0 (UT_SV) ArgRef.null,
  Encoding.mk (bs ("PropertyCustom")) 0x5C0 (UT_DV) ArgRef.null,
  Encoding.mk (bs ("PropertyCustomValue1")) 0x5C1 (UT_DV) ArgRef.null,
  Encoding.mk (bs ("PropertyCustomValue2")) 0x5C2 (UT_DV) ArgRef.null,
  Encoding.mk (bs ("PropertyCustomValue3")) 0x5C3 (UT_DV) ArgRef.null,
  Encoding.mk (bs ("PropertyCustomValue4")) 0x5C4 (UT_DV) ArgRef.null,
  Encoding.mk (bs ("PropertyCustomValue5")) 0x5C5 (UT_DV) ArgRef.null,
  Encoding.mk (bs ("PropertyCustomValue6")) 0x5C6 (UT_DV) ArgRef.null,
  Encoding.mk (bs ("PropertyCustomValue7")) 0x5C7 (UT_DV) ArgRef.null,
  Encoding.mk (bs ("PropertyCustomValue8")) 0x5C8 (UT_DV) ArgRef.null,
  Encoding.mk (bs ("PropertyCustomValue9")) 0x5C9 (UT_DV) ArgRef.null,
  Encoding.mk (bs ("PropertyCustomValue10")) 0x5CA (UT_DV) ArgRef.null,
  Encoding.mk (bs ("PropertyCustomValue11")) 0x5CB (UT_DV) ArgRef.null,
  Encoding.mk (bs ("PropertyCustomValue12")) 0x5CC (UT_DV) ArgRef.null,
  Encoding.mk (bs ("PropertyCustomValue13")) 0x5CD (UT_DV) ArgRef.null,
  Encoding.mk (bs ("PropertyCustomValue14")) 0x5CE (UT_DV) ArgRef.null,
  Encoding.mk (bs ("PropertyCustomValue15")) 0x5CF (UT_DV) ArgRef.null,
  Encoding.mk (bs ("PropertyCustomValue16")) 0x5D0 (UT_DV) ArgRef.null,
  Encoding.mk (bs ("DataFieldHinge")) 0x5E0 (UT_SV ||| UT_DV) ArgRef.null,
  Encoding.mk (bs ("DataFieldHingeAngle")) 0x5E1 (UT_SV ||| UT_DV) ArgRef.null,
  Encoding.mk (bs ("DataFieldGestureSensor")) 0x5F0 (UT_DV) ArgRef.null,
  Encoding.mk (bs ("DataFieldGestureState")) 0x5F1 (UT_NARY) ArgRef.null,
  Encoding.mk (bs ("DataFieldHingeFoldInitialAngle")) 0x5F2 (UT_SV) ArgRef.null,
  Encoding.mk (bs ("DataFieldHingeFoldFinalAngle")) 0x5F3 (UT_SV) ArgRef.null,
  Encoding.mk (bs ("DataFieldHingeFoldContributionPanel")) 0x5F4 (UT_NARY) ArgRef.null,
  Encoding.mk (bs ("DataFieldHingeFoldType")) 0x5F5 (UT_NARY) ArgRef.null,
  Encoding.mk (bs ("SensorStateUndefined")) 0x800 (UT_SEL) ArgRef.null,
  Encoding.mk (bs ("SensorStateReady")) 0x801 (UT_SEL) ArgRef.null,
  Encoding.mk (bs ("SensorStateNotAvailable")) 0x802 (UT_SEL) ArgRef.null,
  Encoding.mk (bs ("SensorStateNoData")) 0x803 (UT_SEL) ArgRef.null,
  Encoding.mk (bs ("SensorStateInitializing")) 0x804 (UT_SEL) ArgRef.null,
  Encoding.mk (bs ("SensorStateAccessDenied")) 0x805 (UT_SEL) ArgRef.null,
  Encoding.mk (bs ("SensorStateError")) 0x806 (UT_SEL) ArgRef.null,
  Encoding.mk (bs ("SensorEventUnknown")) 0x810 (UT_SEL) ArgRef.null,
  Encoding.mk (bs ("SensorEventStateChanged")) 0x811 (UT_SEL) ArgRef.null,
  Encoding.mk (bs ("SensorEventPropertyChanged")) 0x812 (UT_SEL) ArgRef.null,
  Encoding.mk (bs ("SensorEventDataUploaded")) 0x813 (UT_SEL) ArgRef.null,
  Encoding.mk (bs ("SensorEventPollResponse")) 0x814 (UT_SEL) ArgRef.null,
  Encoding.mk (bs ("SensorEventChangeSensitivity")) 0x815 (UT_SEL) ArgRef.null,
  Encoding.mk (bs ("SensorEventRangeMaximumReached")) 0x816 (UT_SEL) ArgRef.null,
  Encoding.mk (bs ("SensorEventRangeMinimumReached")) 0x817 (UT_SEL) ArgRef.null,
  Encoding.mk (bs ("SensorEventHighThresholdCrossUpward")) 0x818 (UT_SEL) ArgRef.null,
  Encoding.mk (bs ("SensorEventHighThresholdCrossDownward")) 0x819 (UT_SEL) ArgRef.null,
  Encoding.mk (bs ("SensorEventLowThresholdCrossUpward")) 0x81A (UT_SEL) ArgRef.null,
  Encoding.mk (bs ("SensorEventLowThresholdCrossDownward")) 0x81B (UT_SEL) ArgRef.null,
  Encoding.mk (bs ("SensorEventZeroThresholdCrossUpward")) 0x81C (UT_SEL) ArgRef.null,
  Encoding.mk (bs ("SensorEventZeroThresholdCrossDownward")) 0x81D (UT_SEL) ArgRef.null,
  Encoding.mk (bs ("SensorEventPeriodExceeded")) 0x81E (UT_SEL) ArgRef.null,
  Encoding.mk (bs ("SensorEventFrequencyExceeded")) 0x81F (UT_SEL) ArgRef.null,
  Encoding.mk (bs ("SensorEventComplexTrigger")) 0x820 (UT_SEL) ArgRef.null,
  Encoding.mk (bs ("ConnectionTypePcIntegrated")) 0x830 (UT_SEL) ArgRef.null,
  Encoding.mk (bs ("ConnectionTypePcAttached")) 0x831 (UT_SEL) ArgRef.null,
  Encoding.mk (bs ("ConnectionTypePcExternal")) 0x832 (UT_SEL) ArgRef.null,
  Encoding.mk (bs ("ReportingStateReportNoEvents")) 0x840 (UT_SEL) ArgRef.null,
  Encoding.mk (bs ("ReportingStateReportAllEvents")) 0x841 (UT_SEL) ArgRef.null,
  Encoding.mk (bs ("ReportingStateReportThresholdEvents")) 0x842 (UT_SEL) ArgRef.null,
  Encoding.mk (bs ("ReportingStateWakeOnNoEvents")) 0x843 (UT_SEL) ArgRef.null,
  Encoding.mk (bs ("ReportingStateWakeOnAllEvents")) 0x844 (UT_SEL) ArgRef.null,
  Encoding.mk (bs ("ReportingStateWakeOnThresholdEvents")) 0x845 (UT_SEL) ArgRef.null,
  Encoding.mk (bs ("PowerStateUndefined")) 0x850 (UT_SEL) ArgRef.null,
  Encoding.mk (bs ("PowerStateD0FullPower")) 0x851 (UT_SEL) ArgRef.null,
  Encoding.mk (bs ("PowerStateD1LowPower")) 0x852 (UT_SEL) ArgRef.null,
  Encoding.mk (bs ("PowerStateD2StandbyPowerWithWakeup")) 0x853 (UT_SEL) ArgRef.null,
  Encoding.mk (bs ("PowerStateD3SleepWithWakeup")) 0x854 (UT_SEL) ArgRef.null,
  Encoding.mk (bs ("PowerStateD4PowerOff")) 0x855 (UT_SEL) ArgRef.null,
  Encoding.mk (bs ("FixQualityNoFix")) 0x870 (UT_SEL) ArgRef.null,
  Encoding.mk (bs ("FixQualityGps")) 0x871 (UT_SEL) ArgRef.null,
  Encoding.mk (bs ("FixQualityDgps")) 0x872 (UT_SEL) ArgRef.null,
  Encoding.mk (bs ("FixTypeNoFix")) 0x880 (UT_SEL) ArgRef.null,
  Encoding.mk (bs ("FixTypeGpsSpsModeFixValid")) 0x881 (UT_SEL) ArgRef.null,
  Encoding.mk (bs ("FixTypeDgpsSpsModeFixValid")) 0x882 (UT_SEL) ArgRef.null,
  Encoding.mk (bs ("FixTypeGpsPpsModeFixValid")) 0x883 (UT_SEL) ArgRef.null,
  Encoding.mk (bs ("FixTypeRealTimeKinematic")) 0x884 (UT_SEL) ArgRef.null,
  Encoding.mk (bs ("FixTypeFloatRtk")) 0x885 (UT_SEL) ArgRef.null,
  Encoding.mk (bs ("FixTypeEstimatedDeadReckoned")) 0x886 (UT_SEL) ArgRef.null,
  Encoding.mk (bs ("FixTypeManualInputMode")) 0x887 (UT_SEL) ArgRef.null,
  Encoding.mk (bs ("FixTypeSimulatorMode")) 0x888 (UT_SEL) ArgRef.null,
  Encoding.mk (bs ("GpsOperationModeManual")) 0x890 (UT_SEL) ArgRef.null,
  Encoding.mk (bs ("GpsOperationModeAutomatic")) 0x891 (UT_SEL) ArgRef.null,
  Encoding.mk (bs ("GpsSelectionModeAutonomous")) 0x8A0 (UT_SEL) ArgRef.null,
  Encoding.mk (bs ("GpsSelectionModeDgps")) 0x8A1 (UT_SEL) ArgRef.null,
  Encoding.mk (bs ("GpsSelectionModeEstimatedDeadReckoned")) 0x8A2 (UT_SEL) ArgRef.null,
  Encoding.mk (bs ("GpsSelectionModeManualInput")) 0x8A3 (UT_SEL) ArgRef.null,
  Encoding.mk (bs ("GpsSelectionModeSimulator")) 0x8A4 (UT_SEL) ArgRef.null,
  Encoding.mk (bs ("GpsSelectionModeDataNotValid")) 0x8A5 (UT_SEL) ArgRef.null,
  Encoding.mk (bs ("GpsStatusDataValid")) 0x8B0 (UT_SEL) ArgRef.null,
  Encoding.mk (bs ("GpsStatusDataNotValid")) 0x8B1 (UT_SEL) ArgRef.null,
  Encoding.mk (bs ("AccuracyDefault")) 0x860 (UT_SEL) ArgRef.null,
  Encoding.mk (bs ("AccuracyHigh")) 0x861 (UT_SEL) ArgRef.null,
  Encoding.mk (bs ("AccuracyMedium")) 0x862 (UT_SEL) ArgRef.null,
  Encoding.mk (bs ("AccuracyLow")) 0x863 (UT_SEL) ArgRef.null,
  Encoding.mk (bs ("DayOfWeekSunday")) 0x8C0 (UT_SEL) ArgRef.null,
  Encoding.mk (bs ("DayOfWeekMonday")) 0x8C1 (UT_SEL) ArgRef.null,
  Encoding.mk (bs ("DayOfWeekTuesday")) 0x8C2 (UT_SEL) ArgRef.null,
  Encoding.mk (bs ("DayOfWeekWednesday")) 0x8C3 (UT_SEL) ArgRef.null,
  Encoding.mk (bs ("DayOfWeekThursday")) 0x8C4 (UT_SEL) ArgRef.null,
  Encoding.mk (bs ("DayOfWeekFriday")) 0x8C5 (UT_SEL) ArgRef.null,
  Encoding.mk (bs ("DayOfWeekSaturday")) 0x8C6 (UT_SEL) ArgRef.null,
  Encoding.mk (bs ("KindCategory")) 0x8D0 (UT_SEL) ArgRef.null,
  Encoding.mk (bs ("KindType")) 0x8D1 (UT_SEL) ArgRef.null,
  Encoding.mk (bs ("KindEvent")) 0x8D2 (UT_SEL) ArgRef.null,
  Encoding.mk (bs ("KindProperty")) 0x8D3 (UT_SEL) ArgRef.null,
  Encoding.mk (bs ("KindDataField")) 0x8D4 (UT_SEL) ArgRef.null,
  Encoding.mk (bs ("MagnetometerAccuracyLow")) 0x8E0 (UT_SEL) ArgRef.null,
  Encoding.mk (bs ("MagnetometerAccuracyMedium")) 0x8E1 (UT_SEL) ArgRef.null,
  Encoding.mk (bs ("MagnetometerAccuracyHigh")) 0x8E2 (UT_SEL) ArgRef.null,
  Encoding.mk (bs ("SimpleOrientationDirectionNotRotated")) 0x8F0 (UT_SEL) ArgRef.null,
  Encoding.mk (bs ("SimpleOrientationDirectionRotated90DegreesCcw")) 0x8F1 (UT_SEL) ArgRef.null,
  Encoding.mk (bs ("SimpleOrientationDirectionRotated180DegreesCcw")) 0x8F2 (UT_SEL) ArgRef.null,
  Encoding.mk (bs ("SimpleOrientationDirectionRotated270DegreesCcw")) 0x8F3 (UT_SEL) ArgRef.null,
  Encoding.mk (bs ("SimpleOrientationDirectionFaceUp")) 0x8F4 (UT_SEL) ArgRef.null,
  Encoding.mk (bs ("SimpleOrientationDirectionFaceDown")) 0x8F5 (UT_SEL) ArgRef.null,
  Encoding.mk (bs ("VtNull")) 0x900 (UT_SEL) ArgRef.null,
  Encoding.mk (bs ("VtBool")) 0x901 (UT_SEL) ArgRef.null,
  Encoding.mk (bs ("VtUi1")) 0x902 (UT_SEL) ArgRef.null,
  Encoding.mk (bs ("VtI1")) 0x903 (UT_SEL) ArgRef.null,
  Encoding.mk (bs ("VtUi2")) 0x904 (UT_SEL) ArgRef.null,
  Encoding.mk (bs ("VtI2")) 0x905 (UT_SEL) ArgRef.null,
  Encoding.mk (bs ("VtUi4")) 0x906 (UT_SEL) ArgRef.null,
  Encoding.mk (bs ("VtI4")) 0x907 (UT_SEL) ArgRef.null,
  Encoding.mk (bs ("VtUi8")) 0x908 (UT_SEL) ArgRef.null,
  Encoding.mk (bs ("VtI8")) 0x909 (UT_SEL) ArgRef.null,
  Encoding.mk (bs ("VtR4")) 0x90A (UT_SEL) ArgRef.null,
  Encoding.mk (bs ("VtR8")) 0x90B (UT_SEL) ArgRef.null,
  Encoding.mk (bs ("VtWstr")) 0x90C (UT_SEL) ArgRef.null,
  Encoding.mk (bs ("VtStr")) 0x90D (UT_SEL) ArgRef.null,
  Encoding.mk (bs ("VtClsid")) 0x90E (UT_SEL) ArgRef.null,
  Encoding.mk (bs ("VtVectorVtUi1")) 0x90F (UT_SEL) ArgRef.null,
  Encoding.mk (bs ("VtF16E0")) 0x910 (UT_SEL) ArgRef.null,
  Encoding.mk (bs ("VtF16E1")) 0x911 (UT_SEL) ArgRef.null,
  Encoding.mk (bs ("VtF16E2")) 0x912 (UT_SEL) ArgRef.null,
  Encoding.mk (bs ("VtF16E3")) 0x913 (UT_SEL) ArgRef.null,
  Encoding.mk (bs ("VtF16E4")) 0x914 (UT_SEL) ArgRef.null,
  Encoding.mk (bs ("VtF16E5")) 0x915 (UT_SEL) ArgRef.null,
  Encoding.mk (bs ("VtF16E6")) 0x916 (UT_SEL) ArgRef.null,
  Encoding.mk (bs ("VtF16E7")) 0x917 (UT_SEL) ArgRef.null,
  Encoding.mk (bs ("VtF16E8")) 0x918 (UT_SEL) ArgRef.null,
  Encoding.mk (bs ("VtF16E9")) 0x919 (UT_SEL) ArgRef.null,
  Encoding.mk (bs ("VtF16EA")) 0x91A (UT_SEL) ArgRef.null,
  Encoding.mk (bs ("VtF16EB")) 0x91B (UT_SEL) ArgRef.null,
  Encoding.mk (bs ("VtF16EC")) 0x91C (UT_SEL) ArgRef.null,
  Encoding.mk (bs ("VtF16ED")) 0x91D (UT_SEL) ArgRef.null,
  Encoding.mk (bs ("VtF16EE")) 0x91E (UT_SEL) ArgRef.null,
  Encoding.mk (bs ("VtF16EF")) 0x91F (UT_SEL) ArgRef.null,
  Encoding.mk (bs ("VtF32E0")) 0x920 (UT_SEL) ArgRef.null,
  Encoding.mk (bs ("VtF32E1")) 0x921 (UT_SEL) ArgRef.null,
  Encoding.mk (bs ("VtF32E2")) 0x922 (UT_SEL) ArgRef.null,
  Encoding.mk (bs ("VtF32E3")) 0x923 (UT_SEL) ArgRef.null,
  Encoding.mk (bs ("VtF32E4")) 0x924 (UT_SEL) ArgRef.null,
  Encoding.mk (bs ("VtF32E5")) 0x925 (UT_SEL) ArgRef.null,
  Encoding.mk (bs ("VtF32E6")) 0x926 (UT_SEL) ArgRef.null,
  Encoding.mk (bs ("VtF32E7")) 0x927 (UT_SEL) ArgRef.null,
  Encoding.mk (bs ("VtF32E8")) 0x928 (UT_SEL) ArgRef.null,
  Encoding.mk (bs ("VtF32E9")) 0x929 (UT_SEL) ArgRef.null,
  Encoding.mk (bs ("VtF32EA")) 0x92A (UT_SEL) ArgRef.null,
  Encoding.mk (bs ("VtF32EB")) 0x92B (UT_SEL) ArgRef.null,
  Encoding.mk (bs ("VtF32EC")) 0x92C (UT_SEL) ArgRef.null,
  Encoding.mk (bs ("VtF32ED")) 0x92D (UT_SEL) ArgRef.null,
  Encoding.mk (bs ("VtF32EE")) 0x92E (UT_SEL) ArgRef.null,
  Encoding.mk (bs ("VtF32EF")) 0x92F (UT_SEL) ArgRef.null,
  Encoding.mk (bs ("ActivityTypeUnknown")) 0x930 (UT_SEL) ArgRef.null,
  Encoding.mk (bs ("ActivityTypeStationary")) 0x931 (UT_SEL) ArgRef.null,
  Encoding.mk (bs ("ActivityTypeFidgeting")) 0x932 (UT_SEL) ArgRef.null,
  Encoding.mk (bs ("ActivityTypeWalking")) 0x933 (UT_SEL) ArgRef.null,
  Encoding.mk (bs ("ActivityTypeRunning")) 0x934 (UT_SEL) ArgRef.null,
  Encoding.mk (bs ("ActivityTypeInVehicle")) 0x935 (UT_SEL) ArgRef.null,
  Encoding.mk (bs ("ActivityTypeBiking")) 0x936 (UT_SEL) ArgRef.null,
  Encoding.mk (bs ("ActivityTypeIdle")) 0x937 (UT_SEL) ArgRef.null,
  Encoding.mk (bs ("UnitNotSpecified")) 0x940 (UT_SEL) ArgRef.null,
  Encoding.mk (bs ("UnitLux")) 0x941 (UT_SEL) ArgRef.null,
  Encoding.mk (bs ("UnitDegreesKelvin")) 0x942 (UT_SEL) ArgRef.null,
  Encoding.mk (bs ("UnitDegreesCelsius")) 0x943 (UT_SEL) ArgRef.null,
  Encoding.mk (bs ("UnitPascal")) 0x944 (UT_SEL) ArgRef.null,
  Encoding.mk (bs ("UnitNewton")) 0x945 (UT_SEL) ArgRef.null,
  Encoding.mk (bs ("UnitMetersPerSecond")) 0x946 (UT_SEL) ArgRef.null,
  Encoding.mk (bs ("UnitKilogram")) 0x947 (UT_SEL) ArgRef.null,
  Encoding.mk (bs ("UnitMeter")) 0x948 (UT_SEL) ArgRef.null,
  Encoding.mk (bs ("UnitMetersPerSecondSquared")) 0x949 (UT_SEL) ArgRef.null,
  Encoding.mk (bs ("UnitFarad")) 0x94A (UT_SEL) ArgRef.null,
  Encoding.mk (bs ("UnitAmpere")) 0x94B (UT_SEL) ArgRef.null,
  Encoding.mk (bs ("UnitWatt")) 0x94C (UT_SEL) ArgRef.null,
  Encoding.mk (bs ("UnitHenry")) 0x94D (UT_SEL) ArgRef.null,
  Encoding.mk (bs ("UnitOhm")) 0x94E (UT_SEL) ArgRef.null,
  Encoding.mk (bs ("UnitVolt")) 0x94F (UT_SEL) ArgRef.null,
  Encoding.mk (bs ("UnitHerz")) 0x950 (UT_SEL) ArgRef.null,
  Encoding.mk (bs ("UnitBar")) 0x951 (UT_SEL) ArgRef.null,
  Encoding.mk (bs ("UnitDegreesAntiClockwise")) 0x952 (UT_SEL) ArgRef.null,
  Encoding.mk (bs ("UnitDegreesClockwise")) 0x953 (UT_SEL) ArgRef.null,
  Encoding.mk (bs ("UnitDegrees")) 0x954 (UT_SEL) ArgRef.null,
  Encoding.mk (bs ("UnitDegreesPerSecond")) 0x955 (UT_SEL) ArgRef.null,
  Encoding.mk (bs ("UnitDegreesPerSecondSquared")) 0x956 (UT_SEL) ArgRef.null,
  Encoding.mk (bs ("UnitKnot")) 0x957 (UT_SEL) ArgRef.null,
  Encoding.mk (bs ("UnitPercent")) 0x958 (UT_SEL) ArgRef.null,
  Encoding.mk (bs ("UnitSecond")) 0x959 (UT_SEL) ArgRef.null,
  Encoding.mk (bs ("UnitMillisecond")) 0x95A (UT_SEL) ArgRef.null,
  Encoding.mk (bs ("UnitG")) 0x95B (UT_SEL) ArgRef.null,
  Encoding.mk (bs ("UnitBytes")) 0x95C (UT_SEL) ArgRef.null,
  Encoding.mk (bs ("UnitMilligauss")) 0x95D (UT_SEL) ArgRef.null,
  Encoding.mk (bs ("UnitBits")) 0x95E (UT_SEL) ArgRef.null,
  Encoding.mk (bs ("ActivityStateNoStateChange")) 0x960 (UT_SEL) ArgRef.null,
  Encoding.mk (bs ("ActivityStateStartActivity")) 0x961 (UT_SEL) ArgRef.null,
  Encoding.mk (bs ("ActivityStateEndActivity")) 0x962 (UT_SEL) ArgRef.null,
  Encoding.mk (bs ("Exponent0")) 0x970 (UT_SEL) ArgRef.null,
  Encoding.mk (bs ("Exponent1")) 0x971 (UT_SEL) ArgRef.null,
  Encoding.mk (bs ("Exponent2")) 0x972 (UT_SEL) ArgRef.null,
  Encoding.mk (bs ("Exponent3")) 0x973 (UT_SEL) ArgRef.null,
  Encoding.mk (bs ("Exponent4")) 0x974 (UT_SEL) ArgRef.null,
  Encoding.mk (bs ("Exponent5")) 0x975 (UT_SEL) ArgRef.null,
  Encoding.mk (bs ("Exponent6")) 0x976 (UT_SEL) ArgRef.null,
  Encoding.mk (bs ("Exponent7")) 0x977 (UT_SEL) ArgRef.null,
  Encoding.mk (bs ("Exponent8")) 0x978 (UT_SEL) ArgRef.null,
  Encoding.mk (bs ("Exponent9")) 0x979 (UT_SEL) ArgRef.null,
  Encoding.mk (bs ("ExponentA")) 0x97A (UT_SEL) ArgRef.null,
  Encoding.mk (bs ("ExponentB")) 0x97B (UT_SEL) ArgRef.null,
  Encoding.mk (bs ("ExponentC")) 0x97C (UT_SEL) ArgRef.null,
  Encoding.mk (bs ("ExponentD")) 0x97D (UT_SEL) ArgRef.null,
  Encoding.mk (bs ("ExponentE")) 0x97E (UT_SEL) ArgRef.null,
  Encoding.mk (bs ("ExponentF")) 0x97F (UT_SEL) ArgRef.null,
  Encoding.mk (bs ("DevicePositionUnknown")) 0x980 (UT_SEL) ArgRef.null,
  Encoding.mk (bs ("DevicePositionUnchanged")) 0x981 (UT_SEL) ArgRef.null,
  Encoding.mk (bs ("DevicePositionOnDesk")) 0x982 (UT_SEL) ArgRef.null,
  Encoding.mk (bs ("DevicePositionInHand")) 0x983 (UT_SEL) ArgRef.null,
  Encoding.mk (bs ("DevicePositionMovingInBag")) 0x984 (UT_SEL) ArgRef.null,
  Encoding.mk (bs ("DevicePositionStationaryInBag")) 0x985 (UT_SEL) ArgRef.null,
  Encoding.mk (bs ("StepTypeUnknown")) 0x990 (UT_SEL) ArgRef.null,
  Encoding.mk (bs ("StepTypeRunning")) 0x991 (UT_SEL) ArgRef.null,
  Encoding.mk (bs ("StepTypeWalking")) 0x992 (UT_SEL) ArgRef.null,
  Encoding.mk (bs ("GestureStateUnknown")) 0x9A0 (UT_SEL) ArgRef.null,
  Encoding.mk (bs ("GestureStateStarted")) 0x9A1 (UT_SEL) ArgRef.null,
  Encoding.mk (bs ("GestureStateCompleted")) 0x9A2 (UT_SEL) ArgRef.null,
  Encoding.mk (bs ("GestureStateCancelled")) 0x9A3 (UT_SEL) ArgRef.null,
  Encoding.mk (bs ("HingeFoldContributionPanelUnknown")) 0x9B0 (UT_SEL) ArgRef.null,
  Encoding.mk (bs ("HingeFoldContributionPanelPanel1")) 0x9B1 (UT_SEL) ArgRef.null,
  Encoding.mk (bs ("HingeFoldContributionPanelPanel2")) 0x9B2 (UT_SEL) ArgRef.null,
  Encoding.mk (bs ("HingeFoldContributionPanelBoth")) 0x9B3 (UT_SEL) ArgRef.null,
  Encoding.mk (bs ("HingeFoldTypeUnknown")) 0x9B4 (UT_SEL) ArgRef.null,
  Encoding.mk (bs ("HingeFoldTypeIncreasing")) 0x9B5 (UT_SEL) ArgRef.null,
  Encoding.mk (bs ("HingeFoldTypeDecreasing")) 0x9B6 (UT_SEL) ArgRef.null,
  Encoding.mk (bs ("ModifierChangeSensitivityAbsolute")) 0x1000 (UT_US) ArgRef.null,
  Encoding.mk (bs ("ModifierMaximum")) 0x2000 (UT_US) ArgRef.null,
  Encoding.mk (bs ("ModifierMinimum")) 0x3000 (UT_US) ArgRef.null,
  Encoding.mk (bs ("ModifierAccuracy")) 0x4000 (UT_US) ArgRef.null,
  Encoding.mk (bs ("ModifierResolution")) 0x5000 (UT_US) ArgRef.null,
  Encoding.mk (bs ("ModifierThresholdHigh")) 0x6000 (UT_US) ArgRef.null,
  Encoding.mk (bs ("ModifierThresholdLow")) 0x7000 (UT_US) ArgRef.null,
  Encoding.mk (bs ("ModifierCalibrationOffset")) 0x8000 (UT_US) ArgRef.null,
  Encoding.mk (bs ("ModifierCalibrationMultiplier")) 0x9000 (UT_US) ArgRef.null,
  Encoding.mk (bs ("ModifierReportInterval")) 0xA000 (UT_US) ArgRef.null,
  Encoding.mk (bs ("ModifierFrequencyMax")) 0xB000 (UT_US) ArgRef.null,
  Encoding.mk (bs ("ModifierPeriodMax")) 0xC000 (UT_US) ArgRef.null,
  Encoding.mk (bs ("ModifierChangeSensitivityPercentOfRange")) 0xD000 (UT_US) ArgRef.null,
  Encoding.mk (bs ("ModifierChangeSensitivityPercentRelative")) 0xE000 (UT_US) ArgRef.null,
  Encoding.mk (bs ("ModifierVendorReserved")) 0xF000 (UT_US) ArgRef.null
]

def medInstMap : List Encoding := [
  Encoding.mk (bs ("MedicalUlrasound")) 0x01 (UT_CA) ArgRef.null,
  Encoding.mk (bs ("VcrAcquisition")) 0x20 (UT_OOC) ArgRef.null,
  Encoding.mk (bs ("FreezeThaw")) 0x21 (UT_OOC) ArgRef.null,
  Encoding.mk (bs ("ClipStore")) 0x22 (UT_OSC) ArgRef.null,
  Encoding.mk (bs ("Update")) 0x23 (UT_OSC) ArgRef.null,
  Encoding.mk (bs ("Next")) 0x24 (UT_OSC) ArgRef.null,
  Encoding.mk (bs ("Save")) 0x25 (UT_OSC) ArgRef.null,
  Encoding.mk (bs ("Print")) 0x26 (UT_OSC) ArgRef.null,
  Encoding.mk (bs ("MicrophoneEnable")) 0x27 (UT_OSC) ArgRef.null,
  Encoding.mk (bs ("Cine")) 0x40 (UT_LC) ArgRef.null,
  Encoding.mk (bs ("TransmitPower")) 0x41 (UT_LC) ArgRef.null,
  Encoding.mk (bs ("Volume")) 0x42 (UT_LC) ArgRef.null,
  Encoding.mk (bs ("Focus")) 0x43 (UT_LC) ArgRef.null,
  Encoding.mk (bs ("Depth")) 0x44 (UT_LC) ArgRef.null,
  Encoding.mk (bs ("SoftStepPrimary")) 0x60 (UT_LC) ArgRef.null,
  Encoding.mk (bs ("SoftStepSecondary")) 0x61 (UT_LC) ArgRef.null,
  Encoding.mk (bs ("DepthGainCompensation")) 0x70 (UT_LC) ArgRef.null,
  Encoding.mk (bs ("ZoomSelect")) 0x80 (UT_OSC) ArgRef.null,
  Encoding.mk (bs ("ZoomAdjust")) 0x81 (UT_LC) ArgRef.null,
  Encoding.mk (bs ("SpectralDopplerModeSelect")) 0x82 (UT_OSC) ArgRef.null,
  Encoding.mk (bs ("SpectralDopplerAdjust")) 0x83 (UT_LC) ArgRef.null,
  Encoding.mk (bs ("ColorDopplerModeSelect")) 0x84 (UT_OSC) ArgRef.null,
  Encoding.mk (bs ("ColorDopplerAdjust")) 0x85 (UT_LC) ArgRef.null,
  Encoding.mk (bs ("MotionModeSelect")) 0x86 (UT_OSC) ArgRef.null,
  Encoding.mk (bs ("MotionModeAdjust")) 0x87 (UT_LC) ArgRef.null,
  Encoding.mk (bs ("Mode2dSelect")) 0x88 (UT_OSC) ArgRef.null,
  Encoding.mk (bs ("Mode2dAdjust")) 0x89 (UT_LC) ArgRef.null,
  Encoding.mk (bs ("SoftControlSelect")) 0xA0 (UT_OSC) ArgRef.null,
  Encoding.mk (bs ("SoftControlAdjust")) 0xA1 (UT_LC) ArgRef.null
]

def brailleMap : List Encoding := [
  Encoding.mk (bs ("BrailleDisplay")) 0x01 (UT_CA) ArgRef.null,
  Encoding.mk (bs ("BrailleRow")) 0x02 (UT_NARY) ArgRef.null,
  Encoding.mk (bs ("Dot8BrailleCell")) 0x03 (UT_DV) ArgRef.null,
  Encoding.mk (bs ("Dot6BrailleCell")) 0x04 (UT_DV) ArgRef.null,
  Encoding.mk (bs ("NumberOfBrailleCells")) 0x05 (UT_DV) ArgRef.null,
  Encoding.mk (bs ("ScreenReaderControl")) 0x06 (UT_NARY) ArgRef.null,
  Encoding.mk (bs ("ScreenReaderIdentifier")) 0x07 (UT_DV) ArgRef.null,
  Encoding.mk (bs ("RouterSet1")) 0xFA (UT_NARY) ArgRef.null,
  Encoding.mk (bs ("RouterSet2")) 0xFB (UT_NARY) ArgRef.null,
  Encoding.mk (bs ("RouterSet3")) 0xFC (UT_NARY) ArgRef.null,
  Encoding.mk (bs ("RouterKey")) 0x100 (UT_SEL) ArgRef.null,
  Encoding.mk (bs ("RowRouterKey")) 0x101 (UT_SEL) ArgRef.null,
  Encoding.mk (bs ("BrailleButtons")) 0x200 (UT_NARY) ArgRef.null,
  Encoding.mk (bs ("BrailleKeyboardDot1")) 0x201 (UT_SEL) ArgRef.null,
  Encoding.mk (bs ("BrailleKeyboardDot2")) 0x202 (UT_SEL) ArgRef.null,
  Encoding.mk (bs ("BrailleKeyboardDot3")) 0x203 (UT_SEL) ArgRef.null,
  Encoding.mk (bs ("BrailleKeyboardDot4")) 0x204 (UT_SEL) ArgRef.null,
  Encoding.mk (bs ("BrailleKeyboardDot5")) 0x205 (UT_SEL) ArgRef.null,
  Encoding.mk (bs ("BrailleKeyboardDot6")) 0x206 (UT_SEL) ArgRef.null,
  Encoding.mk (bs ("BrailleKeyboardDot7")) 0x207 (UT_SEL) ArgRef.null,
  Encoding.mk (bs ("BrailleKeyboardDot8")) 0x208 (UT_SEL) ArgRef.null,
  Encoding.mk (bs ("BrailleKeyboardSpace")) 0x209 (UT_SEL) ArgRef.null,
  Encoding.mk (bs ("BrailleKeyboardLeftSpace")) 0x20A (UT_SEL) ArgRef.null,
  Encoding.mk (bs ("BrailleKeyboardRightSpace")) 0x20B (UT_SEL) ArgRef.null,
  Encoding.mk (bs ("BrailleFaceConrols")) 0x20C (UT_NARY) ArgRef.null,
  Encoding.mk (bs ("BrailleLeftControls")) 0x20D (UT_NARY) ArgRef.null,
  Encoding.mk (bs ("BrailleRightControls")) 0x20E (UT_NARY) ArgRef.null,
  Encoding.mk (bs ("BrailleTopControls")) 0x20F (UT_NARY) ArgRef.null,
  Encoding.mk (bs ("BrailleJoystickCenter")) 0x210 (UT_SEL) ArgRef.null,
  Encoding.mk (bs ("BrailleJoystickUp")) 0x211 (UT_SEL) ArgRef.null,
  Encoding.mk (bs ("BrailleJoystickDown")) 0x212 (UT_SEL) ArgRef.null,
  Encoding.mk (bs ("BrailleJoystickLeft")) 0x213 (UT_SEL) ArgRef.null,
  Encoding.mk (bs ("BrailleJoystickRight")) 0x214 (UT_SEL) ArgRef.null,
  Encoding.mk (bs ("BrailleDPadCenter")) 0x215 (UT_SEL) ArgRef.null,
  Encoding.mk (bs ("BrailleDPadUp")) 0x216 (UT_SEL) ArgRef.null,
  Encoding.mk (bs ("BrailleDPadDown")) 0x217 (UT_SEL) ArgRef.null,
  Encoding.mk (bs ("BrailleDPadLeft")) 0x218 (UT_SEL) ArgRef.null,
  Encoding.mk (bs ("BrailleDPadRight")) 0x219 (UT_SEL) ArgRef.null,
  Encoding.mk (bs ("BraillePanLeft")) 0x21A (UT_SEL) ArgRef.null,
  Encoding.mk (bs ("BraillePanRight")) 0x21B (UT_SEL) ArgRef.null,
  Encoding.mk (bs ("BrailleRockerUp")) 0x21C (UT_SEL) ArgRef.null,
  Encoding.mk (bs ("BrailleRockerDown")) 0x21D (UT_SEL) ArgRef.null,
  Encoding.mk (bs ("BrailleRockerPress")) 0x21E (UT_SEL) ArgRef.null
]

def lightMap : List Encoding := [
  Encoding.mk (bs ("LampArray")) 0x01 (UT_CA) ArgRef.null,
  Encoding.mk (bs ("LampArrayAttributesReport")) 0x02 (UT_CL) ArgRef.null,
  Encoding.mk (bs ("LampCount")) 0x03 (UT_SV ||| UT_DV) ArgRef.null,
  Encoding.mk (bs ("BoundingBoxWidthInMicrometers")) 0x04 (UT_SV) ArgRef.null,
  Encoding.mk (bs ("BoundingBoxHeightInMicrometers")) 0x05 (UT_SV) ArgRef.null,
  Encoding.mk (bs ("BoundingBoxDepthInMicrometers")) 0x06 (UT_SV) ArgRef.null,
  Encoding.mk (bs ("LampArrayKind")) 0x07 (UT_SV) ArgRef.null,
  Encoding.mk (bs ("MinUpdateIntervalInMicroseconds")) 0x08 (UT_SV) ArgRef.null,
  Encoding.mk (bs ("LampAtributesRequestReport")) 0x20 (UT_CL) ArgRef.null,
  Encoding.mk (bs ("LampId")) 0x21 (UT_SV ||| UT_DV) ArgRef.null,
  Encoding.mk (bs ("LampAtributesResponseReport")) 0x22 (UT_CL) ArgRef.null,
  Encoding.mk (bs ("PositionXInMicrometers")) 0x23 (UT_DV) ArgRef.null,
  Encoding.mk (bs ("PositionYInMicrometers")) 0x24 (UT_DV) ArgRef.null,
  Encoding.mk (bs ("PositionZInMicrometers")) 0x25 (UT_DV) ArgRef.null,
  Encoding.mk (bs ("LampPurposes")) 0x26 (UT_DV) ArgRef.null,
  Encoding.mk (bs ("UpdateLatencyInMicroseconds")) 0x27 (UT_DV) ArgRef.null,
  Encoding.mk (bs ("RedLevelCount")) 0x28 (UT_DV) ArgRef.null,
  Encoding.mk (bs ("GreenLevelCount")) 0x29 (UT_DV) ArgRef.null,
  Encoding.mk (bs ("BlueLevelCount")) 0x2A (UT_DV) ArgRef.null,
  Encoding.mk (bs ("IntensityLevelCount")) 0x2B (UT_DV) ArgRef.null,
  Encoding.mk (bs ("IsProgrammable")) 0x2C (UT_DV) ArgRef.null,
  Encoding.mk (bs ("InputBinding")) 0x2D (UT_DV) ArgRef.null,
  Encoding.mk (bs ("LampMultiUpdateReport")) 0x50 (UT_CL) ArgRef.null,
  Encoding.mk (bs ("RedUpdateChannel")) 0x51 (UT_DV) ArgRef.null,
  Encoding.mk (bs ("GreenUpdateChannel")) 0x52 (UT_DV) ArgRef.null,
  Encoding.mk (bs ("BlueUpdateChannel")) 0x53 (UT_DV) ArgRef.null,
  Encoding.mk (bs ("IntensityUpdateChannel")) 0x54 (UT_DV) ArgRef.null,
  Encoding.mk (bs ("LampUpdateFlags")) 0x55 (UT_DV) ArgRef.null,
  Encoding.mk (bs ("LampRangeUpdateReport")) 0x60 (UT_CL) ArgRef.null,
  Encoding.mk (bs ("LampIdStart")) 0x61 (UT_DV) ArgRef.null,
  Encoding.mk (bs ("LampIdEnd")) 0x62 (UT_DV) ArgRef.null,
  Encoding.mk (bs ("LampArrayControlReport")) 0x70 (UT_CL) ArgRef.null,
  Encoding.mk (bs ("AutonomousMode")) 0x71 (UT_DV) ArgRef.null
]

def monitorMap : List Encoding := [
  Encoding.mk (bs ("MonitorControl")) 0x01 (UT_NONE) ArgRef.null,
  Encoding.mk (bs ("EdidInformation")) 0x02 (UT_NONE) ArgRef.null,
  Encoding.mk (bs ("VdifInformation")) 0x03 (UT_NONE) ArgRef.null,
  Encoding.mk (bs ("VesaVersion")) 0x04 (UT_NONE) ArgRef.null
]

def monitorEnumMap : List Encoding := [
  Encoding.mk (bs ("Enum#")) 0x00 (UT_NONE) ArgRef.null,
  Encoding.mk (bs ("Enum#")) 0x3E (UT_NONE) ArgRef.null
]

def vesaCtrlMap : List Encoding := [
  Encoding.mk (bs ("Brightness")) 0x10 (UT_NONE) ArgRef.null,
  Encoding.mk (bs ("Contrast")) 0x12 (UT_NONE) ArgRef.null,
  Encoding.mk (bs ("RedVideoGain")) 0x16 (UT_NONE) ArgRef.null,
  Encoding.mk (bs ("GreenVideoGain")) 0x18 (UT_NONE) ArgRef.null,
  Encoding.mk (bs ("BlueVideoGain")) 0x1A (UT_NONE) ArgRef.null,
  Encoding.mk (bs ("Focus")) 0x1C (UT_NONE) ArgRef.null,
  Encoding.mk (bs ("HorizontalPosition")) 0x20 (UT_NONE) ArgRef.null,
  Encoding.mk (bs ("HorizontalSize")) 0x22 (UT_NONE) ArgRef.null,
  Encoding.mk (bs ("HorizontalPincushion")) 0x24 (UT_NONE) ArgRef.null,
  Encoding.mk (bs ("HorizontalPincushionBalance")) 0x26 (UT_NONE) ArgRef.null,
  Encoding.mk (bs ("HorizontalMisconvergence")) 0x28 (UT_NONE) ArgRef.null,
  Encoding.mk (bs ("HorizontalLinearity")) 0x2A (UT_NONE) ArgRef.null,
  Encoding.mk (bs ("HorizontalLinearityBalance")) 0x2C (UT_NONE) ArgRef.null,
  Encoding.mk (bs ("VerticalPosition")) 0x30 (UT_NONE) ArgRef.null,
  Encoding.mk (bs ("VerticalSize")) 0x32 (UT_NONE) ArgRef.null,
  Encoding.mk (bs ("VerticalPincushion")) 0x34 (UT_NONE) ArgRef.null,
  Encoding.mk (bs ("VerticalPincushionBalance")) 0x36 (UT_NONE) ArgRef.null,
  Encoding.mk (bs ("VerticalMisconvergence")) 0x38 (UT_NONE) ArgRef.null,
  Encoding.mk (bs ("VerticalLinearity")) 0x3A (UT_NONE) ArgRef.null,
  Encoding.mk (bs ("VerticalLinearityBalance")) 0x3C (UT_NONE) ArgRef.null,
  Encoding.mk (bs ("ParallelogramDistortionKeyBalance")) 0x40 (UT_NONE) ArgRef.null,
  Encoding.mk (bs ("TrapezoidalDistortionKey")) 0x42 (UT_NONE) ArgRef.null,
  Encoding.mk (bs ("TiltRotation")) 0x44 (UT_NONE) ArgRef.null,
  Encoding.mk (bs ("TopCornerDistortionControl")) 0x46 (UT_NONE) ArgRef.null,
  Encoding.mk (bs ("TopCornerDistortionBalance")) 0x48 (UT_NONE) ArgRef.null,
  Encoding.mk (bs ("BottomCornerDistortionControl")) 0x4A (UT_NONE) ArgRef.null,
  Encoding.mk (bs ("BottomCornerDistortionBalance")) 0x4C (UT_NONE) ArgRef.null,
  Encoding.mk (bs ("HorizontalMoire")) 0x56 (UT_NONE) ArgRef.null,
  Encoding.mk (bs ("VerticalMoire")) 0x58 (UT_NONE) ArgRef.null,
  Encoding.mk (bs ("RedVideoBlackLevel")) 0x6C (UT_NONE) ArgRef.null,
  Encoding.mk (bs ("GreenVideoBlackLevel")) 0x6E (UT_NONE) ArgRef.null,
  Encoding.mk (bs ("BlueVideoBlackLevel")) 0x70 (UT_NONE) ArgRef.null,
  Encoding.mk (bs ("InputLevelSelect")) 0x5E (UT_NONE) ArgRef.null,
  Encoding.mk (bs ("InputSourceSelect")) 0x60 (UT_NONE) ArgRef.null,
  Encoding.mk (bs ("OnScreenDisplay")) 0xCA (UT_NONE) ArgRef.null,
  Encoding.mk (bs ("StereoMode")) 0xD4 (UT_NONE) ArgRef.null,
  Encoding.mk (bs ("AutoSizeCenter")) 0xA2 (UT_NONE) ArgRef.null,
  Encoding.mk (bs ("PolarityHorizontalSynchronization")) 0xA4 (UT_NONE) ArgRef.null,
  Encoding.mk (bs ("PolarityVerticalSynchronization")) 0xA6 (UT_NONE) ArgRef.null,
  Encoding.mk (bs ("SynchronizationType")) 0xA8 (UT_NONE) ArgRef.null,
  Encoding.mk (bs ("ScreenOrientation")) 0xAA (UT_NONE) ArgRef.null,
  Encoding.mk (bs ("HorizontalFrequency")) 0xAC (UT_NONE) ArgRef.null,
  Encoding.mk (bs ("VerticalFrequency")) 0xAE (UT_NONE) ArgRef.null,
  Encoding.mk (bs ("Degauss")) 0x01 (UT_NONE) ArgRef.null,
  Encoding.mk (bs ("Settings")) 0xB0 (UT_NONE) ArgRef.null
]

def pwrDevMap : List Encoding := [
  Encoding.mk (bs ("IName")) 0x01 (UT_SV) ArgRef.null,
  Encoding.mk (bs ("PresentStatus")) 0x02 (UT_CL) ArgRef.null,
  Encoding.mk (bs ("ChangedStatus")) 0x03 (UT_CL) ArgRef.null,
  Encoding.mk (bs ("Ups")) 0x04 (UT_CA) ArgRef.null,
  Encoding.mk (bs ("PowerSupply")) 0x05 (UT_CA) ArgRef.null,
  Encoding.mk (bs ("BatterySystem")) 0x10 (UT_CP) ArgRef.null,
  Encoding.mk (bs ("BatterySystemId")) 0x11 (UT_SV) ArgRef.null,
  Encoding.mk (bs ("Battery")) 0x12 (UT_CP) ArgRef.null,
  Encoding.mk (bs ("BatteryId")) 0x13 (UT_SV) ArgRef.null,
  Encoding.mk (bs ("Charger")) 0x14 (UT_CP) ArgRef.null,
  Encoding.mk (bs ("ChargerId")) 0x15 (UT_SV) ArgRef.null,
  Encoding.mk (bs ("PowerConverer")) 0x16 (UT_CP) ArgRef.null,
  Encoding.mk (bs ("PowerConvererId")) 0x17 (UT_SV) ArgRef.null,
  Encoding.mk (bs ("OutletSystem")) 0x18 (UT_CP) ArgRef.null,
  Encoding.mk (bs ("OutletSystemId")) 0x19 (UT_SV) ArgRef.null,
  Encoding.mk (bs ("Input")) 0x1A (UT_CP) ArgRef.null,
  Encoding.mk (bs ("InputId")) 0x1B (UT_SV) ArgRef.null,
  Encoding.mk (bs ("Output")) 0x1C (UT_CP) ArgRef.null,
  Encoding.mk (bs ("OutputId")) 0x1D (UT_SV) ArgRef.null,
  Encoding.mk (bs ("Flow")) 0x1E (UT_CP) ArgRef.null,
  Encoding.mk (bs ("FlowId")) 0x1F (UT_SV) ArgRef.null,
  Encoding.mk (bs ("Outlet")) 0x20 (UT_CP) ArgRef.null,
  Encoding.mk (bs ("OutletId")) 0x21 (UT_SV) ArgRef.null,
  Encoding.mk (bs ("Gang")) 0x22 (UT_CL ||| UT_CP) ArgRef.null,
  Encoding.mk (bs ("GangId")) 0x23 (UT_SV) ArgRef.null,
  Encoding.mk (bs ("PowerSummary")) 0x24 (UT_CL ||| UT_CP) ArgRef.null,
  Encoding.mk (bs ("PowerSummaryId")) 0x25 (UT_SV) ArgRef.null,
  Encoding.mk (bs ("Voltage")) 0x30 (UT_DV) ArgRef.null,
  Encoding.mk (bs ("Current")) 0x31 (UT_DV) ArgRef.null,
  Encoding.mk (bs ("Frequency")) 0x32 (UT_DV) ArgRef.null,
  Encoding.mk (bs ("ApparentPower")) 0x33 (UT_DV) ArgRef.null,
  Encoding.mk (bs ("ActivePower")) 0x34 (UT_DV) ArgRef.null,
  Encoding.mk (bs ("PercentLoad")) 0x35 (UT_DV) ArgRef.null,
  Encoding.mk (bs ("Temperature")) 0x36 (UT_DV) ArgRef.null,
  Encoding.mk (bs ("Humidity")) 0x37 (UT_DV) ArgRef.null,
  Encoding.mk (bs ("BadCount")) 0x38 (UT_DV) ArgRef.null,
  Encoding.mk (bs ("ConfigVoltage")) 0x40 (UT_SV ||| UT_DV) ArgRef.null,
  Encoding.mk (bs ("ConfigCurrent")) 0x41 (UT_SV ||| UT_DV) ArgRef.null,
  Encoding.mk (bs ("ConfigFrequency")) 0x42 (UT_SV ||| UT_DV) ArgRef.null,
  Encoding.mk (bs ("ConfigApparentPower")) 0x43 (UT_SV ||| UT_DV) ArgRef.null,
  Encoding.mk (bs ("ConfigActivePower")) 0x44 (UT_SV ||| UT_DV) ArgRef.null,
  Encoding.mk (bs ("ConfigPercentLoad")) 0x45 (UT_SV ||| UT_DV) ArgRef.null,
  Encoding.mk (bs ("ConfigTemperature")) 0x46 (UT_SV ||| UT_DV) ArgRef.null,
  Encoding.mk (bs ("ConfigHumidity")) 0x47 (UT_SV ||| UT_DV) ArgRef.null,
  Encoding.mk (bs ("SwitchOnControl")) 0x50 (UT_DV) ArgRef.null,
  Encoding.mk (bs ("SwitchOffControl")) 0x51 (UT_DV) ArgRef.null,
  Encoding.mk (bs ("ToggleControl")) 0x52 (UT_DV) ArgRef.null,
  Encoding.mk (bs ("LowVoltageTransfer")) 0x53 (UT_DV) ArgRef.null,
  Encoding.mk (bs ("HighVoltageTransfer")) 0x54 (UT_DV) ArgRef.null,
  Encoding.mk (bs ("DelayBeforeReboot")) 0x55 (UT_DV) ArgRef.null,
  Encoding.mk (bs ("DelayBeforeStartup")) 0x56 (UT_DV) ArgRef.null,
  Encoding.mk (bs ("DelayBeforeShutdown")) 0x57 (UT_DV) ArgRef.null,
  Encoding.mk (bs ("Test")) 0x58 (UT_DV) ArgRef.null,
  Encoding.mk (bs ("ModuleReset")) 0x59 (UT_DV) ArgRef.null,
  Encoding.mk (bs ("AudibleAlarmControl")) 0x5A (UT_DV) ArgRef.null,
  Encoding.mk (bs ("Present")) 0x60 (UT_DF) ArgRef.null,
  Encoding.mk (bs ("Good")) 0x61 (UT_DF) ArgRef.null,
  Encoding.mk (bs ("InternalFailure")) 0x62 (UT_DF) ArgRef.null,
  Encoding.mk (bs ("VoltageOutOfRange")) 0x63 (UT_DF) ArgRef.null,
  Encoding.mk (bs ("FrequencyOutOfRange")) 0x64 (UT_DF) ArgRef.null,
  Encoding.mk (bs ("Overload")) 0x65 (UT_DF) ArgRef.null,
  Encoding.mk (bs ("OverCharged")) 0x66 (UT_DF) ArgRef.null,
  Encoding.mk (bs ("OverTemperature")) 0x67 (UT_DF) ArgRef.null,
  Encoding.mk (bs ("ShutdownRequested")) 0x68 (UT_DF) ArgRef.null,
  Encoding.mk (bs ("ShutdownImminent")) 0x69 (UT_DF) ArgRef.null,
  Encoding.mk (bs ("SwitchOnOff")) 0x6B (UT_DF) ArgRef.null,
  Encoding.mk (bs ("Switchable")) 0x6C (UT_DF) ArgRef.null,
  Encoding.mk (bs ("Used")) 0x6D (UT_DF) ArgRef.null,
  Encoding.mk (bs ("Boost")) 0x6E (UT_DF) ArgRef.null,
  Encoding.mk (bs ("Buck")) 0x6F (UT_DF) ArgRef.null,
  Encoding.mk (bs ("Initialized")) 0x70 (UT_DF) ArgRef.null,
  Encoding.mk (bs ("Tested")) 0x71 (UT_DF) ArgRef.null,
  Encoding.mk (bs ("AwaitingPower")) 0x72 (UT_DF) ArgRef.null,
  Encoding.mk (bs ("CommunicationLost")) 0x73 (UT_DF) ArgRef.null,
  Encoding.mk (bs ("IManufacturer")) 0xFD (UT_SV) ArgRef.null,
  Encoding.mk (bs ("IProduct")) 0xFE (UT_SV) ArgRef.null,
  Encoding.mk (bs ("ISerialNumber")) 0xFF (UT_SV) ArgRef.null
]

def barcodeMap : List Encoding := [
  Encoding.mk (bs ("BarCodeBadgeReader")) 0x01 (UT_CA) ArgRef.null,
  Encoding.mk (bs ("BarCodeScanner")) 0x02 (UT_CA) ArgRef.null,
  Encoding.mk (bs ("DumbBarCodeScanner")) 0x03 (UT_CA) ArgRef.null,
  Encoding.mk (bs ("CordlessScannerBase")) 0x04 (UT_CA) ArgRef.null,
  Encoding.mk (bs ("BarCodeScannerCradle")) 0x05 (UT_CA) ArgRef.null,
  Encoding.mk (bs ("AttributeReport")) 0x10 (UT_CL) ArgRef.null,
  Encoding.mk (bs ("SettingsReport")) 0x11 (UT_CL) ArgRef.null,
  Encoding.mk (bs ("ScannedDataReport")) 0x12 (UT_CL) ArgRef.null,
  Encoding.mk (bs ("RawScannedDataReport")) 0x13 (UT_CL) ArgRef.null,
  Encoding.mk (bs ("TriggerReport")) 0x14 (UT_CL) ArgRef.null,
  Encoding.mk (bs ("StatusReport")) 0x15 (UT_CL) ArgRef.null,
  Encoding.mk (bs ("UpsEanControlReport")) 0x16 (UT_CL) ArgRef.null,
  Encoding.mk (bs ("Ean23LabelControlReport")) 0x17 (UT_CL) ArgRef.null,
  Encoding.mk (bs ("Code39ControlReport")) 0x18 (UT_CL) ArgRef.null,
  Encoding.mk (bs ("Interleaved2Of5ControlReport")) 0x19 (UT_CL) ArgRef.null,
  Encoding.mk (bs ("Standard2Of5ConrolReport")) 0x1A (UT_CL) ArgRef.null,
  Encoding.mk (bs ("MsiPlesseyControlReport")) 0x1B (UT_CL) ArgRef.null,
  Encoding.mk (bs ("CodabarControlReport")) 0x1C (UT_CL) ArgRef.null,
  Encoding.mk (bs ("Code128ControlReport")) 0x1D (UT_CL) ArgRef.null,
  Encoding.mk (bs ("Misc2dConrolReport")) 0x1E (UT_CL) ArgRef.null,
  Encoding.mk (bs ("Control2dReport")) 0x1F (UT_CL) ArgRef.null,
  Encoding.mk (bs ("AimingPoinerMode")) 0x30 (UT_SF) ArgRef.null,
  Encoding.mk (bs ("BarCodePresentSensor")) 0x31 (UT_SF) ArgRef.null,
  Encoding.mk (bs ("Class1aLaser")) 0x32 (UT_SF) ArgRef.null,
  Encoding.mk (bs ("Class2Laser")) 0x33 (UT_SF) ArgRef.null,
  Encoding.mk (bs ("HeaterPresent")) 0x34 (UT_SF) ArgRef.null,
  Encoding.mk (bs ("ContactScanner")) 0x35 (UT_SF) ArgRef.null,
  Encoding.mk (bs ("ElectronicArticleSurveillanceNotification")) 0x36 (UT_SF) ArgRef.null,
  Encoding.mk (bs ("ConstantElectronicArticleSurveillance")) 0x37 (UT_SF) ArgRef.null,
  Encoding.mk (bs ("ErrorIndication")) 0x38 (UT_SF) ArgRef.null,
  Encoding.mk (bs ("FixedBeeper")) 0x39 (UT_SF) ArgRef.null,
  Encoding.mk (bs ("GoodDecoderIndication")) 0x3A (UT_SF) ArgRef.null,
  Encoding.mk (bs ("HandsFreeScanning")) 0x3B (UT_SF) ArgRef.null,
  Encoding.mk (bs ("IntrinsicallySafe")) 0x3C (UT_SF) ArgRef.null,
  Encoding.mk (bs ("KlasseEinsLaser")) 0x3D (UT_SF) ArgRef.null,
  Encoding.mk (bs ("LongRangeScanner")) 0x3E (UT_SF) ArgRef.null,
  Encoding.mk (bs ("MirrorSpeedControl")) 0x3F (UT_SF) ArgRef.null,
  Encoding.mk (bs ("NotOnFileIndication")) 0x40 (UT_SF) ArgRef.null,
  Encoding.mk (bs ("ProgrammableBeeper")) 0x41 (UT_SF) ArgRef.null,
  Encoding.mk (bs ("Triggerless")) 0x42 (UT_SF) ArgRef.null,
  Encoding.mk (bs ("Wand")) 0x43 (UT_SF) ArgRef.null,
  Encoding.mk (bs ("WaterResistant")) 0x44 (UT_SF) ArgRef.null,
  Encoding.mk (bs ("MultiRangeScanner")) 0x45 (UT_SF) ArgRef.null,
  Encoding.mk (bs ("ProximitySensor")) 0x46 (UT_SF) ArgRef.null,
  Encoding.mk (bs ("FragmentDecoder")) 0x4D (UT_DF) ArgRef.null,
  Encoding.mk (bs ("ScannerReadConfidence")) 0x4E (UT_DV) ArgRef.null,
  Encoding.mk (bs ("DataPrefix")) 0x4F (UT_NARY) ArgRef.null,
  Encoding.mk (bs ("PrefixAimi")) 0x50 (UT_SEL) ArgRef.null,
  Encoding.mk (bs ("PrefixNone")) 0x51 (UT_SEL) ArgRef.null,
  Encoding.mk (bs ("PrefixProprietary")) 0x52 (UT_SEL) ArgRef.null,
  Encoding.mk (bs ("ActiveTime")) 0x55 (UT_DV) ArgRef.null,
  Encoding.mk (bs ("AimingLaserPattern")) 0x56 (UT_DF) ArgRef.null,
  Encoding.mk (bs ("BarCodePresent")) 0x57 (UT_OOC) ArgRef.null,
  Encoding.mk (bs ("BeeperState")) 0x58 (UT_OOC) ArgRef.null,
  Encoding.mk (bs ("LaserOnTime")) 0x59 (UT_DV) ArgRef.null,
  Encoding.mk (bs ("LaserState")) 0x5A (UT_OOC) ArgRef.null,
  Encoding.mk (bs ("LockoutTime")) 0x5B (UT_DV) ArgRef.null,
  Encoding.mk (bs ("MotorState")) 0x5C (UT_OOC) ArgRef.null,
  Encoding.mk (bs ("MotorTimeout")) 0x5D (UT_DV) ArgRef.null,
  Encoding.mk (bs ("PowerOnResetScanner")) 0x5E (UT_DF) ArgRef.null,
  Encoding.mk (bs ("PreventReadOfBarcodes")) 0x5F (UT_DF) ArgRef.null,
  Encoding.mk (bs ("InitiateBarcodeRead")) 0x60 (UT_DF) ArgRef.null,
  Encoding.mk (bs ("TriggerState")) 0x61 (UT_OOC) ArgRef.null,
  Encoding.mk (bs ("TriggerMode")) 0x62 (UT_NARY) ArgRef.null,
  Encoding.mk (bs ("TriggerModeBlinkingLaserOn")) 0x63 (UT_SEL) ArgRef.null,
  Encoding.mk (bs ("TriggerModeContinuousLaserOn")) 0x64 (UT_SEL) ArgRef.null,
  Encoding.mk (bs ("TriggerModeLaserOnWhilePulled")) 0x65 (UT_SEL) ArgRef.null,
  Encoding.mk (bs ("TriggerModeLaserStaysOnAfterTriggerRelease")) 0x66 (UT_SEL) ArgRef.null,
  Encoding.mk (bs ("CommitParametersToNvm")) 0x6D (UT_DF) ArgRef.null,
  Encoding.mk (bs ("ParameterScanning")) 0x6E (UT_DF) ArgRef.null,
  Encoding.mk (bs ("ParametersChanged")) 0x6F (UT_OOC) ArgRef.null,
  Encoding.mk (bs ("SetParameterDefaultValues")) 0x70 (UT_DF) ArgRef.null,
  Encoding.mk (bs ("ScannerInCradle")) 0x75 (UT_OOC) ArgRef.null,
  Encoding.mk (bs ("ScannerInRange")) 0x76 (UT_OOC) ArgRef.null,
  Encoding.mk (bs ("AimDuration")) 0x7A (UT_DV) ArgRef.null,
  Encoding.mk (bs ("GoodReadLampDuration")) 0x7B (UT_DV) ArgRef.null,
  Encoding.mk (bs ("GoodReadLampIntensity")) 0x7C (UT_DV) ArgRef.null,
  Encoding.mk (bs ("GoodReadLed")) 0x7D (UT_DF) ArgRef.null,
  Encoding.mk (bs ("GoodReadToneFrequency")) 0x7E (UT_DV) ArgRef.null,
  Encoding.mk (bs ("GoodReadToneLength")) 0x7F (UT_DV) ArgRef.null,
  Encoding.mk (bs ("GoodReadToneVolume")) 0x80 (UT_DV) ArgRef.null,
  Encoding.mk (bs ("NoReadMessage")) 0x82 (UT_DF) ArgRef.null,
  Encoding.mk (bs ("NotOnFileVolume")) 0x83 (UT_DV) ArgRef.null,
  Encoding.mk (bs ("PowerupBeep")) 0x84 (UT_DF) ArgRef.null,
  Encoding.mk (bs ("SoundErrorBeep")) 0x85 (UT_DF) ArgRef.null,
  Encoding.mk (bs ("SoundGoodReadBeep")) 0x86 (UT_DF) ArgRef.null,
  Encoding.mk (bs ("SoundNotOnFileBeep")) 0x87 (UT_DF) ArgRef.null,
  Encoding.mk (bs ("GoodReadWhenToWrite")) 0x88 (UT_NARY) ArgRef.null,
  Encoding.mk (bs ("GrwtiAfterDecode")) 0x89 (UT_SEL) ArgRef.null,
  Encoding.mk (bs ("GrwtiBeepLampAferTransmit")) 0x8A (UT_SEL) ArgRef.null,
  Encoding.mk (bs ("GrwtiNoBeepLampUseAtAll")) 0x8B (UT_SEL) ArgRef.null,
  Encoding.mk (bs ("BooklandEan")) 0x91 (UT_DF) ArgRef.null,
  Encoding.mk (bs ("ConvertEan8To13Type")) 0x92 (UT_DF) ArgRef.null,
  Encoding.mk (bs ("ConvertUpcAToEan13")) 0x93 (UT_DF) ArgRef.null,
  Encoding.mk (bs ("ConvertUpcEToA")) 0x94 (UT_DF) ArgRef.null,
  Encoding.mk (bs ("Ean13")) 0x95 (UT_DF) ArgRef.null,
  Encoding.mk (bs ("Ean8")) 0x96 (UT_DF) ArgRef.null,
  Encoding.mk (bs ("Ean99128Mandatory")) 0x97 (UT_DF) ArgRef.null,
  Encoding.mk (bs ("Ean99P5128Optional")) 0x98 (UT_DF) ArgRef.null,
  Encoding.mk (bs ("UpcEan")) 0x9A (UT_DF) ArgRef.null,
  Encoding.mk (bs ("UpcEanCouponCode")) 0x9B (UT_DF) ArgRef.null,
  Encoding.mk (bs ("UpcEanPeriodicals")) 0x9C (UT_DV) ArgRef.null,
  Encoding.mk (bs ("UpcA")) 0x9D (UT_DF) ArgRef.null,
  Encoding.mk (bs ("UpcAWith128Mandatory")) 0x9E (UT_DF) ArgRef.null,
  Encoding.mk (bs ("UpcAWith128Optional")) 0x9F (UT_DF) ArgRef.null,
  Encoding.mk (bs ("UpcAWithP5Optional")) 0xA0 (UT_DF) ArgRef.null,
  Encoding.mk (bs ("UpcE")) 0xA1 (UT_DF) ArgRef.null,
  Encoding.mk (bs ("UpcE1")) 0xA2 (UT_DF) ArgRef.null,
  Encoding.mk (bs ("Periodical")) 0xA9 (UT_NARY) ArgRef.null,
  Encoding.mk (bs ("PeriodicalAutoDiscriminatePlus2")) 0xAA (UT_SEL) ArgRef.null,
  Encoding.mk (bs ("PeriodicalOnlyDecodeWidthPlus2")) 0xAB (UT_SEL) ArgRef.null,
  Encoding.mk (bs ("PeriodicalIgnorePlus2")) 0xAC (UT_SEL) ArgRef.null,
  Encoding.mk (bs ("PeriodicalAutoDiscriminatePlus5")) 0xAD (UT_SEL) ArgRef.null,
  Encoding.mk (bs ("PeriodicalOnlyDecodeWidthPlus5")) 0xAE (UT_SEL) ArgRef.null,
  Encoding.mk (bs ("PeriodicalIgnorePlus5")) 0xAF (UT_SEL) ArgRef.null,
  Encoding.mk (bs ("Check")) 0xB0 (UT_NARY) ArgRef.null,
  Encoding.mk (bs ("CheckDisablePrice")) 0xB1 (UT_SEL) ArgRef.null,
  Encoding.mk (bs ("CheckEnable4DigitPrice")) 0xB2 (UT_SEL) ArgRef.null,
  Encoding.mk (bs ("CheckEnable5DigitPrice")) 0xB3 (UT_SEL) ArgRef.null,
  Encoding.mk (bs ("CheckEnableEuropean4DigitPrice")) 0xB4 (UT_SEL) ArgRef.null,
  Encoding.mk (bs ("CheckEnableEuropean5DigitPrice")) 0xB5 (UT_SEL) ArgRef.null,
  Encoding.mk (bs ("EanTwoLabel")) 0xB7 (UT_DF) ArgRef.null,
  Encoding.mk (bs ("EanThreeLabel")) 0xB8 (UT_DF) ArgRef.null,
  Encoding.mk (bs ("Ean8FlagDigit1")) 0xB9 (UT_DV) ArgRef.null,
  Encoding.mk (bs ("Ean8FlagDigit2")) 0xBA (UT_DV) ArgRef.null,
  Encoding.mk (bs ("Ean8FlagDigit3")) 0xBB (UT_DV) ArgRef.null,
  Encoding.mk (bs ("Ean13FlagDigit1")) 0xBC (UT_DV) ArgRef.null,
  Encoding.mk (bs ("Ean13FlagDigit2")) 0xBD (UT_DV) ArgRef.null,
  Encoding.mk (bs ("Ean13FlagDigit3")) 0xBE (UT_DV) ArgRef.null,
  Encoding.mk (bs ("AddEan23LabelDefinition")) 0xBF (UT_DF) ArgRef.null,
  Encoding.mk (bs ("ClearAllEan23LabelDefinitions")) 0xC0 (UT_DF) ArgRef.null,
  Encoding.mk (bs ("Codabar")) 0xC3 (UT_DF) ArgRef.null,
  Encoding.mk (bs ("Code128")) 0xC4 (UT_DF) ArgRef.null,
  Encoding.mk (bs ("Code39")) 0xC7 (UT_DF) ArgRef.null,
  Encoding.mk (bs ("Code93")) 0xC8 (UT_DF) ArgRef.null,
  Encoding.mk (bs ("FullAsciiConversion")) 0xC9 (UT_DF) ArgRef.null,
  Encoding.mk (bs ("Interleaved2Of5")) 0xCA (UT_DF) ArgRef.null,
  Encoding.mk (bs ("ItalianPharmacyCode")) 0xCB (UT_DF) ArgRef.null,
  Encoding.mk (bs ("MsiPlessey")) 0xCC (UT_DF) ArgRef.null,
  Encoding.mk (bs ("Standard2Of5Iata")) 0xCD (UT_DF) ArgRef.null,
  Encoding.mk (bs ("Standard2Of5")) 0xCE (UT_DF) ArgRef.null,
  Encoding.mk (bs ("TransmitStartStop")) 0xD3 (UT_DF) ArgRef.null,
  Encoding.mk (bs ("TriOptic")) 0xD4 (UT_DF) ArgRef.null,
  Encoding.mk (bs ("UccEan128")) 0xD5 (UT_DF) ArgRef.null,
  Encoding.mk (bs ("CheckDigit")) 0xD6 (UT_NARY) ArgRef.null,
  Encoding.mk (bs ("CheckDigitDisable")) 0xD7 (UT_SEL) ArgRef.null,
  Encoding.mk (bs ("CheckDigitEnableInerleaved2Of5Opcc")) 0xD8 (UT_SEL) ArgRef.null,
  Encoding.mk (bs ("CheckDigitEnableInterleaved2Of5Uss")) 0xD9 (UT_SEL) ArgRef.null,
  Encoding.mk (bs ("CheckDigitEnableStandard2Of5Opcc")) 0xDA (UT_SEL) ArgRef.null,
  Encoding.mk (bs ("CheckDigitEnableStandard2Of5Uss")) 0xDB (UT_SEL) ArgRef.null,
  Encoding.mk (bs ("CheckDigitEnableOneMsiPlessey")) 0xDC (UT_SEL) ArgRef.null,
  Encoding.mk (bs ("CheckDigitEnableTwoMsiPlessey")) 0xDD (UT_SEL) ArgRef.null,
  Encoding.mk (bs ("CheckDigitCodabarEnable")) 0xDE (UT_SEL) ArgRef.null,
  Encoding.mk (bs ("CheckDigitCode39Enable")) 0xDF (UT_SEL) ArgRef.null,
  Encoding.mk (bs ("TransmitCheckDigit")) 0xF0 (UT_NARY) ArgRef.null,
  Encoding.mk (bs ("DisableCheckDigitTransmit")) 0xF1 (UT_SEL) ArgRef.null,
  Encoding.mk (bs ("EnableCheckDigitTransmit")) 0xF2 (UT_SEL) ArgRef.null,
  Encoding.mk (bs ("SymbologyIdentifier1")) 0xFB (UT_DV) ArgRef.null,
  Encoding.mk (bs ("SymbologyIdentifier2")) 0xFC (UT_DV) ArgRef.null,
  Encoding.mk (bs ("SymbologyIdentifier3")) 0xFD (UT_DV) ArgRef.null,
  Encoding.mk (bs ("DecodedData")) 0xFE (UT_DV) ArgRef.null,
  Encoding.mk (bs ("DecodedDataContinued")) 0xFF (UT_DF) ArgRef.null,
  Encoding.mk (bs ("BarSpaceData")) 0x100 (UT_DV) ArgRef.null,
  Encoding.mk (bs ("ScannerDataAccuracy")) 0x101 (UT_DV) ArgRef.null,
  Encoding.mk (bs ("RawDataPolarity")) 0x102 (UT_NARY) ArgRef.null,
  Encoding.mk (bs ("PolarityInvertedBarCode")) 0x103 (UT_SEL) ArgRef.null,
  Encoding.mk (bs ("PolarityNormalBarCode")) 0x104 (UT_SEL) ArgRef.null,
  Encoding.mk (bs ("MinimumLengthToDecode")) 0x106 (UT_DV) ArgRef.null,
  Encoding.mk (bs ("MaximumLengthToDecode")) 0x107 (UT_DV) ArgRef.null,
  Encoding.mk (bs ("FirstDiscreteLengthToDecode")) 0x108 (UT_DV) ArgRef.null,
  Encoding.mk (bs ("SecondDiscreteLengthToDecode")) 0x109 (UT_DV) ArgRef.null,
  Encoding.mk (bs ("DataLengthMethod")) 0x10A (UT_NARY) ArgRef.null,
  Encoding.mk (bs ("DlMethodReadAny")) 0x10B (UT_SEL) ArgRef.null,
  Encoding.mk (bs ("DlMethodCheckInRange")) 0x10C (UT_SEL) ArgRef.null,
  Encoding.mk (bs ("DlMethodCheckForDiscrete")) 0x10D (UT_SEL) ArgRef.null,
  Encoding.mk (bs ("AztecCode")) 0x110 (UT_DF) ArgRef.null,
  Encoding.mk (bs ("Bc412")) 0x111 (UT_DF) ArgRef.null,
  Encoding.mk (bs ("ChannelCode")) 0x112 (UT_DF) ArgRef.null,
  Encoding.mk (bs ("Code16")) 0x113 (UT_DF) ArgRef.null,
  Encoding.mk (bs ("Code32")) 0x114 (UT_DF) ArgRef.null,
  Encoding.mk (bs ("Code49")) 0x115 (UT_DF) ArgRef.null,
  Encoding.mk (bs ("CodeOne")) 0x116 (UT_DF) ArgRef.null,
  Encoding.mk (bs ("ColorCode")) 0x117 (UT_DF) ArgRef.null,
  Encoding.mk (bs ("DataMatrix")) 0x118 (UT_DF) ArgRef.null,
  Encoding.mk (bs ("MaxiCode")) 0x119 (UT_DF) ArgRef.null,
  Encoding.mk (bs ("MicroPdf")) 0x11A (UT_DF) ArgRef.null,
  Encoding.mk (bs ("Pdf417")) 0x11B (UT_DF) ArgRef.null,
  Encoding.mk (bs ("PosiCode")) 0x11C (UT_DF) ArgRef.null,
  Encoding.mk (bs ("QrCode")) 0x11D (UT_DF) ArgRef.null,
  Encoding.mk (bs ("SuperCode")) 0x11E (UT_DF) ArgRef.null,
  Encoding.mk (bs ("UltraCode")) 0x11F (UT_DF) ArgRef.null,
  Encoding.mk (bs ("Usd5SlugCode")) 0x120 (UT_DF) ArgRef.null,
  Encoding.mk (bs ("VeriCode")) 0x121 (UT_DF) ArgRef.null
]

def weightDevMap : List Encoding := [
  Encoding.mk (bs ("WeighingDevice")) 0x01 (UT_CA) ArgRef.null,
  Encoding.mk (bs ("ScaleDevice")) 0x20 (UT_CL) ArgRef.null,
  Encoding.mk (bs ("ScaleClass")) 0x21 (UT_CL) ArgRef.null,
  Encoding.mk (bs ("ScaleClassIMetric")) 0x22 (UT_SEL) ArgRef.null,
  Encoding.mk (bs ("ScaleClassIiMetric")) 0x23 (UT_SEL) ArgRef.null,
  Encoding.mk (bs ("ScaleClassIiiMetric")) 0x24 (UT_SEL) ArgRef.null,
  Encoding.mk (bs ("ScaleClassIiilMetric")) 0x25 (UT_SEL) ArgRef.null,
  Encoding.mk (bs ("ScaleClassIvMetric")) 0x26 (UT_SEL) ArgRef.null,
  Encoding.mk (bs ("ScaleClassIiiEnglish")) 0x27 (UT_SEL) ArgRef.null,
  Encoding.mk (bs ("ScaleClassIiilEnglish")) 0x28 (UT_SEL) ArgRef.null,
  Encoding.mk (bs ("ScaleClassIvEnglish")) 0x29 (UT_SEL) ArgRef.null,
  Encoding.mk (bs ("ScaleClassGeneric")) 0x2A (UT_SEL) ArgRef.null,
  Encoding.mk (bs ("ScaleAttributeReport")) 0x30 (UT_CL) ArgRef.null,
  Encoding.mk (bs ("ScaleControlReport")) 0x31 (UT_CL) ArgRef.null,
  Encoding.mk (bs ("ScaleDataReport")) 0x32 (UT_CL) ArgRef.null,
  Encoding.mk (bs ("ScaleStatusReport")) 0x33 (UT_CL) ArgRef.null,
  Encoding.mk (bs ("ScaleWeightLimitReport")) 0x34 (UT_CL) ArgRef.null,
  Encoding.mk (bs ("ScaleStatisticsReport")) 0x35 (UT_CL) ArgRef.null,
  Encoding.mk (bs ("DataWeight")) 0x40 (UT_DV) ArgRef.null,
  Encoding.mk (bs ("DataScaling")) 0x41 (UT_DV) ArgRef.null,
  Encoding.mk (bs ("WeightUnit")) 0x50 (UT_CL) ArgRef.null,
  Encoding.mk (bs ("WeightUnitMilligram")) 0x51 (UT_SEL) ArgRef.null,
  Encoding.mk (bs ("WeightUnitGram")) 0x52 (UT_SEL) ArgRef.null,
  Encoding.mk (bs ("WeightUnitKilogram")) 0x53 (UT_SEL) ArgRef.null,
  Encoding.mk (bs ("WeightUnitCarats")) 0x54 (UT_SEL) ArgRef.null,
  Encoding.mk (bs ("WeightUnitTaels")) 0x55 (UT_SEL) ArgRef.null,
  Encoding.mk (bs ("WeightUnitGrains")) 0x56 (UT_SEL) ArgRef.null,
  Encoding.mk (bs ("WeightUnitPennyweights")) 0x57 (UT_SEL) ArgRef.null,
  Encoding.mk (bs ("WeightUnitMetricTon")) 0x58 (UT_SEL) ArgRef.null,
  Encoding.mk (bs ("WeightUnitAvoirTon")) 0x59 (UT_SEL) ArgRef.null,
  Encoding.mk (bs ("WeightUnitTroyOunce")) 0x5A (UT_SEL) ArgRef.null,
  Encoding.mk (bs ("WeightUnitOunce")) 0x5B (UT_SEL) ArgRef.null,
  Encoding.mk (bs ("WeightUnitPound")) 0x5C (UT_SEL) ArgRef.null,
  Encoding.mk (bs ("CalibrationCount")) 0x60 (UT_DV) ArgRef.null,
  Encoding.mk (bs ("ReZeroCount")) 0x61 (UT_DV) ArgRef.null,
  Encoding.mk (bs ("ScaleStatus")) 0x70 (UT_CL) ArgRef.null,
  Encoding.mk (bs ("ScaleStatusFault")) 0x71 (UT_SEL) ArgRef.null,
  Encoding.mk (bs ("ScaleStatusStableAtCenterOfZero")) 0x72 (UT_SEL) ArgRef.null,
  Encoding.mk (bs ("ScaleStatusInMotion")) 0x73 (UT_SEL) ArgRef.null,
  Encoding.mk (bs ("ScaleStatusWeightStable")) 0x74 (UT_SEL) ArgRef.null,
  Encoding.mk (bs ("ScaleStatusUnderZero")) 0x75 (UT_SEL) ArgRef.null,
  Encoding.mk (bs ("ScaleStatusOverWeightLimit")) 0x76 (UT_SEL) ArgRef.null,
  Encoding.mk (bs ("ScaleStatusRequiresCalibration")) 0x77 (UT_SEL) ArgRef.null,
  Encoding.mk (bs ("ScaleStatusRequiresRezeroing")) 0x78 (UT_SEL) ArgRef.null,
  Encoding.mk (bs ("ZeroScale")) 0x80 (UT_OOC) ArgRef.null,
  Encoding.mk (bs ("EnforcedZeroReturn")) 0x81 (UT_OOC) ArgRef.null
]

def msrMap : List Encoding := [
  Encoding.mk (bs ("MsrDeviceReadOnly")) 0x01 (UT_CA) ArgRef.null,
  Encoding.mk (bs ("Track1Length")) 0x11 (UT_SF ||| UT_DF ||| UT_SEL) ArgRef.null,
  Encoding.mk (bs ("Track2Length")) 0x12 (UT_SF ||| UT_DF ||| UT_SEL) ArgRef.null,
  Encoding.mk (bs ("Track3Length")) 0x13 (UT_SF ||| UT_DF ||| UT_SEL) ArgRef.null,
  Encoding.mk (bs ("TrackJisLength")) 0x14 (UT_SF ||| UT_DF ||| UT_SEL) ArgRef.null,
  Encoding.mk (bs ("TrackData")) 0x20 (UT_SF ||| UT_DF ||| UT_SEL) ArgRef.null,
  Encoding.mk (bs ("Track1Data")) 0x21 (UT_SF ||| UT_DF ||| UT_SEL) ArgRef.null,
  Encoding.mk (bs ("Track2Data")) 0x22 (UT_SF ||| UT_DF ||| UT_SEL) ArgRef.null,
  Encoding.mk (bs ("Track3Data")) 0x23 (UT_SF ||| UT_DF ||| UT_SEL) ArgRef.null,
  Encoding.mk (bs ("TrackJisData")) 0x24 (UT_SF ||| UT_DF ||| UT_SEL) ArgRef.null
]

def cameraCtrlMap : List Encoding := [
  Encoding.mk (bs ("CameraAutoFocus")) 0x20 (UT_OSC) ArgRef.null,
  Encoding.mk (bs ("CameraShutter")) 0x21 (UT_OSC) ArgRef.null
]

def arcadeMap : List Encoding := [
  Encoding.mk (bs ("GeneralPurposeIoCard")) 0x01 (UT_CA) ArgRef.null,
  Encoding.mk (bs ("CoinDoor")) 0x02 (UT_CA) ArgRef.null,
  Encoding.mk (bs ("WatchdogTimer")) 0x03 (UT_CA) ArgRef.null,
  Encoding.mk (bs ("GeneralPurposeAnalogInputState")) 0x30 (UT_DV) ArgRef.null,
  Encoding.mk (bs ("GeneralPurposeDigitalInputState")) 0x31 (UT_DV) ArgRef.null,
  Encoding.mk (bs ("GeneralPurposeOpticalInputState")) 0x32 (UT_DV) ArgRef.null,
  Encoding.mk (bs ("GeneralPurposeDigitalOutputState")) 0x33 (UT_DV) ArgRef.null,
  Encoding.mk (bs ("NumberOfCoinDoors")) 0x34 (UT_DV) ArgRef.null,
  Encoding.mk (bs ("CoinDrawerDropCount")) 0x35 (UT_DV) ArgRef.null,
  Encoding.mk (bs ("CoinDrawerDropStart")) 0x36 (UT_OOC) ArgRef.null,
  Encoding.mk (bs ("CoinDrawerDropService")) 0x37 (UT_OOC) ArgRef.null,
  Encoding.mk (bs ("CoinDrawerDropTilt")) 0x38 (UT_OOC) ArgRef.null,
  Encoding.mk (bs ("CoinDoorTest")) 0x39 (UT_OOC) ArgRef.null,
  Encoding.mk (bs ("CoinDoorLockout")) 0x40 (UT_OOC) ArgRef.null,
  Encoding.mk (bs ("WatchdogTimeout")) 0x41 (UT_DV) ArgRef.null,
  Encoding.mk (bs ("WatchdogAction")) 0x42 (UT_NARY) ArgRef.null,
  Encoding.mk (bs ("WatchdogReboot")) 0x43 (UT_SEL) ArgRef.null,
  Encoding.mk (bs ("WatchdogRestart")) 0x44 (UT_SEL) ArgRef.null,
  Encoding.mk (bs ("AlarmInput")) 0x45 (UT_DV) ArgRef.null,
  Encoding.mk (bs ("CoinDoorCounter")) 0x46 (UT_OOC) ArgRef.null,
  Encoding.mk (bs ("IoDirectionMapping")) 0x47 (UT_DV) ArgRef.null,
  Encoding.mk (bs ("SetIoDirection")) 0x48 (UT_OOC) ArgRef.null,
  Encoding.mk (bs ("ExtendedOpticalInputState")) 0x49 (UT_DV) ArgRef.null,
  Encoding.mk (bs ("PinPadInputState")) 0x4A (UT_DV) ArgRef.null,
  Encoding.mk (bs ("PinPadStatus")) 0x4B (UT_DV) ArgRef.null,
  Encoding.mk (bs ("PinPadOutput")) 0x4C (UT_OOC) ArgRef.null,
  Encoding.mk (bs ("PinPadCommand")) 0x4D (UT_DV) ArgRef.null
]

def fidoMap : List Encoding := [
  Encoding.mk (bs ("U2fAuthenticatorDevice")) 0x01 (UT_CA) ArgRef.null,
  Encoding.mk (bs ("InputReportData")) 0x20 (UT_DV) ArgRef.null,
  Encoding.mk (bs ("OutputReportData")) 0x21 (UT_DV) ArgRef.null
]

def usagePageMap : List Encoding := [
  Encoding.mk (bs ("GenericDesktop")) 0x01 (UT_NONE) ArgRef.genDeskMap,
  Encoding.mk (bs ("SimulationControls")) 0x02 (UT_NONE) ArgRef.simCtrlMap,
  Encoding.mk (bs ("VrControls")) 0x03 (UT_NONE) ArgRef.vrCtrlMap,
  Encoding.mk (bs ("SportControls")) 0x04 (UT_NONE) ArgRef.sportCtrlMap,
  Encoding.mk (bs ("GameControls")) 0x05 (UT_NONE) ArgRef.gameCtrlMap,
  Encoding.mk (bs ("GenericDeviceControls")) 0x06 (UT_NONE) ArgRef.genDevCtrlMap,
  Encoding.mk (bs ("Keyboard")) 0x07 (UT_NONE) ArgRef.keyboardMap,
  Encoding.mk (bs ("Led")) 0x08 (UT_NONE) ArgRef.ledMap,
  Encoding.mk (bs ("Button")) 0x09 (UT_NONE) ArgRef.buttonMap,
  Encoding.mk (bs ("Ordinal")) 0x0A (UT_NONE) ArgRef.ordinalMap,
  Encoding.mk (bs ("TelephonyDevice")) 0x0B (UT_NONE) ArgRef.telDevMap,
  Encoding.mk (bs ("Consumer")) 0x0C (UT_NONE) ArgRef.consumerMap,
  Encoding.mk (bs ("Digitizers")) 0x0D (UT_NONE) ArgRef.digitizersMap,
  Encoding.mk (bs ("Haptics")) 0x0E (UT_NONE) ArgRef.hapticsMap,
  Encoding.mk (bs ("Pid")) 0x0F (UT_NONE) ArgRef.pidMap,
  Encoding.mk (bs ("Unicode")) 0x10 (UT_NONE) ArgRef.unicodeMap,
  Encoding.mk (bs ("EyeAndHeadTrackers")) 0x12 (UT_NONE) ArgRef.eyeHeadMap,
  Encoding.mk (bs ("AuxiliaryDisplay")) 0x14 (UT_NONE) ArgRef.auxDisplayMap,
  Encoding.mk (bs ("Sensors")) 0x20 (UT_NONE) ArgRef.sensorMap,
  Encoding.mk (bs ("MediacalInstrument")) 0x40 (UT_NONE) ArgRef.medInstMap,
  Encoding.mk (bs ("BrailleDisplay")) 0x41 (UT_NONE) ArgRef.brailleMap,
  Encoding.mk (bs ("LightingAndIllumination")) 0x59 (UT_NONE) ArgRef.lightMap,
  Encoding.mk (bs ("Monitor")) 0x80 (UT_NONE) ArgRef.monitorMap,
  Encoding.mk (bs ("MonitorEnumeratedValues")) 0x81 (UT_NONE) ArgRef.monitorEnumMap,
  Encoding.mk (bs ("VesaVirtualControls")) 0x82 (UT_NONE) ArgRef.vesaCtrlMap,
  Encoding.mk (bs ("Power")) 0x84 (UT_NONE) ArgRef.pwrDevMap,
  Encoding.mk (bs ("BarCodeScanner")) 0x8C (UT_NONE) ArgRef.barcodeMap,
  Encoding.mk (bs ("WeighingDevices")) 0x8D (UT_NONE) ArgRef.weightDevMap,
  Encoding.mk (bs ("MagneticStripeReaderDevices")) 0x8E (UT_NONE) ArgRef.msrMap,
  Encoding.mk (bs ("CameraControl")) 0x90 (UT_NONE) ArgRef.cameraCtrlMap,
  Encoding.mk (bs ("Arcade")) 0x91 (UT_NONE) ArgRef.arcadeMap,
  Encoding.mk (bs ("GamingDevice")) 0x92 (UT_NONE) ArgRef.null,
  Encoding.mk (bs ("FidoAlliance")) 0xF1D0 (UT_NONE) ArgRef.fidoMap
]

def itemMap : List Encoding := [
  Encoding.mk (bs ("Input")) 0x80 (UT_NONE) ArgRef.inputArgMap,
  Encoding.mk (bs ("Output")) 0x90 (UT_NONE) ArgRef.outputFeatureArgMap,
  Encoding.mk (bs ("Feature")) 0xB0 (UT_NONE) ArgRef.outputFeatureArgMap,
  Encoding.mk (bs ("Collection")) 0xA0 (UT_NONE) ArgRef.colArgMap,
  Encoding.mk (bs ("EndCollection")) 0xC0 (UT_NONE) ArgRef.endCol,
  Encoding.mk (bs ("UsagePage")) 0x04 (UT_NONE) ArgRef.usagePageMap,
  Encoding.mk (bs ("LogicalMinimum")) 0x14 (UT_NONE) ArgRef.signedNumArg,
  Encoding.mk (bs ("LogicalMaximum")) 0x24 (UT_NONE) ArgRef.signedNumArg,
  Encoding.mk (bs ("PhysicalMinimum")) 0x34 (UT_NONE) ArgRef.signedNumArg,
  Encoding.mk (bs ("PhysicalMaximum")) 0x44 (UT_NONE) ArgRef.signedNumArg,
  Encoding.mk (bs ("UnitExponent")) 0x54 (UT_NONE) ArgRef.unitExpMap,
  Encoding.mk (bs ("Unit")) 0x64 (UT_NONE) ArgRef.unitSystemMap,
  Encoding.mk (bs ("ReportSize")) 0x74 (UT_NONE) ArgRef.numArg,
  Encoding.mk (bs ("ReportId")) 0x84 (UT_NONE) ArgRef.numArg,
  Encoding.mk (bs ("ReportCount")) 0x94 (UT_NONE) ArgRef.numArg,
  Encoding.mk (bs ("Push")) 0xA4 (UT_NONE) ArgRef.null,
  Encoding.mk (bs ("Pop")) 0xB4 (UT_NONE) ArgRef.null,
  Encoding.mk (bs ("Usage")) 0x08 (UT_NONE) ArgRef.usageArg,
  Encoding.mk (bs ("UsageMinimum")) 0x18 (UT_NONE) ArgRef.usageArg,
  Encoding.mk (bs ("UsageMaximum")) 0x28 (UT_NONE) ArgRef.usageArg,
  Encoding.mk (bs ("DesignatorIndex")) 0x38 (UT_NONE) ArgRef.numArg,
  Encoding.mk (bs ("DesignatorMinimum")) 0x48 (UT_NONE) ArgRef.numArg,
  Encoding.mk (bs ("DesignatorMaximum")) 0x58 (UT_NONE) ArgRef.numArg,
  Encoding.mk (bs ("StringIndex")) 0x78 (UT_NONE) ArgRef.numArg,
  Encoding.mk (bs ("StringMinimum")) 0x88 (UT_NONE) ArgRef.numArg,
  Encoding.mk (bs ("StringMaximum")) 0x98 (UT_NONE) ArgRef.numArg,
  Encoding.mk (bs ("Delimiter")) 0xA8 (UT_NONE) ArgRef.delimMap
]

/-- Resolves a child-table reference to its entry list; the five sentinel tables and
the null pointer hold no entries (they consist of the end-of-map marker only). -/
def tableOf : ArgRef → List Encoding
  | .null => []
  | .numArg => []
  | .signedNumArg => []
  | .clearArg => []
  | .usageArg => []
  | .endCol => []
  | .colArgMap => colArgMap
  | .inputArgMap => inputArgMap
  | .outputFeatureArgMap => outputFeatureArgMap
  | .unitExpMap => unitExpMap
  | .unitMap => unitMap
  | .unitSystemMap => unitSystemMap
  | .delimMap => delimMap
  | .genDeskMap => genDeskMap
  | .simCtrlMap => simCtrlMap
  | .vrCtrlMap => vrCtrlMap
  | .sportCtrlMap => sportCtrlMap
  | .gameCtrlMap => gameCtrlMap
  | .genDevCtrlMap => genDevCtrlMap
  | .keyboardMap => keyboardMap
  | .ledMap => ledMap
  | .buttonMap => buttonMap
  | .ordinalMap => ordinalMap
  | .telDevMap => telDevMap
  | .consumerMap => consumerMap
  | .digitizersMap => digitizersMap
  | .hapticsMap => hapticsMap
  | .pidMap => pidMap
  | .unicodeMap => unicodeMap
  | .eyeHeadMap => eyeHeadMap
  | .auxDisplayMap => auxDisplayMap
  | .sensorMap => sensorMap
  | .medInstMap => medInstMap
  | .brailleMap => brailleMap
  | .lightMap => lightMap
  | .monitorMap => monitorMap
  | .monitorEnumMap => monitorEnumMap
  | .vesaCtrlMap => vesaCtrlMap
  | .pwrDevMap => pwrDevMap
  | .barcodeMap => barcodeMap
  | .weightDevMap => weightDevMap
  | .msrMap => msrMap
  | .cameraCtrlMap => cameraCtrlMap
  | .arcadeMap => arcadeMap
  | .fidoMap => fidoMap
  | .usagePageMap => usagePageMap
  | .itemMap => itemMap

/-- `hid::detail::Token`: a borrowed span of the source, stored as start
offset plus byte length. -/
structure Token where
  start : Nat
  length : Nat
  deriving DecidableEq, Repr

/-- The bytes a token denotes. -/
def tokenBytes (src : List Nat) (t : Token) : List Nat :=
  (src.drop t.start).take t.length

/-- `hid::detail::strFindChr`: position of the first occurrence of `c`,
or `none` for the C++ result `-1`. -/
def strFindChr : List Nat → Nat → Option Nat
  | [], _ => none
  | b :: rest, c =>
    if b = c then some 0
    else (strFindChr rest c).map (· + 1)

/-- `hid::detail::equalsI(Token, const char *)` on the token bytes:
case-insensitive, exact and complete match. -/
def equalsI : List Nat → List Nat → Bool
  | [], [] => true
  | [], _ :: _ => false
  | _ :: _, [] => false
  | a :: as_, b :: bs_ => toUpper a = toUpper b && equalsI as_ bs_

/-- Loop of `hid::detail::startWidthIN`: consumes while the prefix has
characters left, at most `rem` characters, and the heads match
case-insensitively; mismatch yields the C++ result `0`. -/
def swinGo : List Nat → List Nat → Nat → Nat → Nat
  | [], _, _, res => res
  | _ :: _, _, 0, res => res
  | pc :: pr, s, rem + 1, res =>
    if toUpper pc = toUpper (s.headD 0) then swinGo pr s.tail rem (res + 1)
    else 0

/-- `hid::detail::startWidthIN` as the boolean the call sites use. -/
def startWidthIN (p : List Nat) (len : Nat) (s : List Nat) : Bool :=
  swinGo p s len 0 ≠ 0

/-- Digit loop of `findEncoding` for an indexed (`Name#`) entry: the
32-bit accumulator `num = num * 10 + digit` with the wrap-around check
`oldNum > num ⇒ Argument_index_out_of_range` and the non-digit check. -/
def findIdxNum : Nat → List Nat → Except EMessage Nat
  | num, [] => .ok num
  | num, c :: rest =>
    if ¬ isDigit c then .error E_Unexpected_argument_name_character
    else
      let num2 := (num * 10 + c - 48) % 2 ^ 32
      if num > num2 then .error E_Argument_index_out_of_range
      else findIdxNum num2 rest

/-- Result of `findEncoding`: an entry pointer, or NULL with the error
variable either updated to `some msg` or left untouched (`none`). -/
inductive FindRes where
  | found (e : Encoding)
  | fail (u : Option EMessage)
  deriving DecidableEq, Repr

/-- Entry loop of `hid::detail::findEncoding`; `i` is the running entry
index, the indexed-name rule is applied only while `i < 3`. A synthesized
entry (`res` in the C++ code) carries the matched name, the parsed value,
and the default `type`/`arg` fields the reused `dynMap` holds. -/
def findEncodingAux (t : List Nat) : Nat → List Encoding → FindRes
  | _, [] => .fail none
  | i, e :: rest =>
    if equalsI t e.name then .found e
    else if i < 3 then
      match strFindChr e.name 35 with
      | some idx =>
        if idx + 1 ≠ e.name.length ∨ (rest.headD default).name ≠ e.name then
          .fail (some E_Internal_error)
        else if t.length ≤ idx ∨ ¬ startWidthIN e.name idx t then
          .fail (some E_Invalid_argument_name)
        else
          match findIdxNum 0 (t.drop idx) with
          | .error m => .fail (some m)
          | .ok num =>
            if num < e.value ∨ num > (rest.headD default).value then
              .fail (some E_Argument_index_out_of_range)
            else if num ≠ 0 ∧ t.getD idx 0 = 48 then
              .fail (some E_Invalid_argument_name)
            else .found (Encoding.mk e.name num UT_NONE ArgRef.null)
      | none => findEncodingAux t (i + 1) rest
    else findEncodingAux t (i + 1) rest

/-- `hid::detail::findEncoding`: empty tokens yield NULL without touching
the error variable. -/
def findEncoding (t : List Nat) (map : List Encoding) : FindRes :=
  if t.length = 0 then .fail none else findEncodingAux t 0 map

/-- `hid::detail::Param`: a named 64-bit parameter. -/
structure Param where
  name : List Nat
  value : Int
  deriving DecidableEq, Repr

/-- `hid::detail::ParamMatch`. -/
structure ParamMatch where
  value : Int
  valid : Bool
  deriving DecidableEq, Repr

/-- `hid::detail::Source::find`: scans the parameter set from the last
entry to the first and returns the first exact (case-sensitive) match. -/
def paramFindRev : List Param → List Nat → ParamMatch
  | [], _ => ParamMatch.mk 0 false
  | p :: rest, t => if t = p.name then ParamMatch.mk p.value true else paramFindRev rest t

/-- Parameter lookup on the parameter set in declaration order. -/
def paramFind (ps : List Param) (t : List Nat) : ParamMatch :=
  paramFindRev ps.reverse t

/-- The eleven `HID_WITHIN_*` state bits of `compile`, one field per bit;
the value with every field `false` is the `HID_START` state. -/
structure Flags where
  comment : Bool := false
  inItem : Bool := false
  argList : Bool := false
  inArg : Bool := false
  inParam : Bool := false
  hexLit : Bool := false
  numLit : Bool := false
  unitSys : Bool := false
  unitDesc : Bool := false
  inUnit : Bool := false
  unitExp : Bool := false
  deriving DecidableEq, Repr

/-- `HID_START`: no state bit set. -/
def Flags.clear : Flags := {}

/-- Ghost record of the structurally relevant actions of a run, used to
state the bookkeeping invariants: one event per completed `UsagePage`
item, opened collection, accepted `EndCollection`, `ReportSize` item and
`ReportCount` item. -/
inductive Event where
  | usagePage
  | collection
  | endCollection
  | reportSize
  | reportCount
  deriving DecidableEq, Repr

/-- The mutable local state of `hid::detail::compile`, plus the written
output bytes (the `Writer`), the ghost event list and the ghost trace of
byte positions the scan loop has dispatched on. -/
structure St where
  n : Nat := 0
  colLevel : Int := 0
  delimLevel : Int := 0
  usageAtLevel : Int := -1
  reportSizes : Nat := 0
  reportCounts : Nat := 0
  tItem : Token := Token.mk 0 0
  tArg : Token := Token.mk 0 0
  hasUsagePage : Bool := false
  hasArg : Bool := false
  multiArg : Bool := false
  negLit : Bool := false
  encMap : Option Encoding := none
  usagePage : Option Encoding := none
  encUnit : Option Encoding := none
  flags : Flags := {}
  item : Nat := 0
  arg : Nat := 0
  lit : Nat := 0
  out : List Nat := []
  events : List Event := []
  trace : List Nat := []
  deriving DecidableEq, Repr

/-- The `encMap->arg` dereference (the current item's child table). -/
def argOfOpt (o : Option Encoding) : ArgRef :=
  match o with
  | some e => e.arg
  | none => ArgRef.null

/-- The `encMap->value` dereference. -/
def valOfOpt (o : Option Encoding) : Nat :=
  match o with
  | some e => e.value
  | none => 0

/-- `encMap->arg` of the current state. -/
def curArg (s : St) : ArgRef := argOfOpt s.encMap

/-- `encMap->value` of the current state. -/
def curVal (s : St) : Nat := valOfOpt s.encMap

/-- `usagePage == NULL || usagePage->arg == NULL`. -/
def upNullOrArgless (o : Option Encoding) : Bool :=
  match o with
  | none => true
  | some up => up.arg == ArgRef.null

/-- 32-bit complement as used by `arg &= ~mask`. -/
def compl32 (x : Nat) : Nat := 0xFFFFFFFF ^^^ x

/-- `int32_t(arg)`: the signed reading of a 32-bit accumulator. -/
def toInt32s (x : Nat) : Int :=
  if x < 2 ^ 31 then (x : Int) else (x : Int) - 2 ^ 32

/-- Value of a hex digit, mirroring the `< 'A'` / `< 'a'` chain. -/
def hexVal (c : Nat) : Nat :=
  if c < 65 then c - 48 else if c < 97 then c - 65 + 10 else c - 97 + 10

/-- The inner `while ((n + 1) < len && isWhitespace(ptr[1])) { n++; ... }`
loop; the counter argument is the structural fuel (`len` always
suffices since `n` grows towards `len`). -/
def skipWs (src : List Nat) (len : Nat) : Nat → Nat → Nat
  | 0, n => n
  | fuel + 1, n =>
    if n + 1 < len ∧ isWhitespace (byteAt src (n + 1)) then
      skipWs src len fuel (n + 1)
    else n

/-- Whitespace skip followed by the optional advance onto a directly
following `(`, as done at the end of an item name and of a unit-system
name. -/
def wsSkipToParen (src : List Nat) (len : Nat) (n : Nat) : Nat :=
  let n1 := skipWs src len len n
  if n1 + 1 < len ∧ byteAt src (n1 + 1) = 40 then n1 + 1 else n1

/-- Result of one iteration of the scan loop: either the successor state
(the `n++` at the loop end is included; `continue` paths leave `n`
untouched), or the early `return errorMsg.at(pos, msg)`. -/
inductive StepRes where
  | next (s : St)
  | err (pos : Nat) (msg : EMessage)
  deriving DecidableEq, Repr

/-- The `HID_START` branch of the scan loop. -/
def stepStart (src : List Nat) (len : Nat) (s : St) : StepRes :=
  let c := byteAt src s.n
  if isItemChar c then
    .next { s with
            flags := { s.flags with inItem := true },
            tItem := Token.mk s.n 1, n := s.n + 1 }
  else if c = 123 then
    .next { s with
            flags := { s.flags with inParam := true },
            tArg := Token.mk (s.n + 1) 0, n := s.n + 1 }
  else if c = 48 ∧ s.n + 1 < len ∧ byteAt src (s.n + 1) = 120 then
    if s.n + 2 ≥ len then .err (s.n + 2) E_Unexpected_end_of_source
    else if ¬ isHexDigit (byteAt src (s.n + 2)) then .err (s.n + 2) E_Invalid_hex_value
    else .next { s with flags := { s.flags with hexLit := true }, lit := 0, n := s.n + 2 }
  else if isDigit c then
    .next { s with flags := { s.flags with numLit := true }, lit := 0 }
  else if c = 45 then .err s.n E_Negative_numbers_are_not_allowed_in_this_context
  else if isComment c then
    .next { s with flags := { s.flags with comment := true }, n := s.n + 1 }
  else if ¬ isWhitespace c then .err s.n E_Unexpected_token
  else .next { s with n := s.n + 1 }

/-- The `HID_WITHIN_COMMENT` branch. -/
def stepComment (src : List Nat) (s : St) : StepRes :=
  let c := byteAt src s.n
  if c = 13 ∨ c = 10 then .next { s with flags := Flags.clear, n := s.n + 1 }
  else .next { s with n := s.n + 1 }

/-- The `HID_WITHIN_PARAM` branch. -/
def stepParam (src : List Nat) (params : List Param) (s : St) : StepRes :=
  let c := byteAt src s.n
  if c = 125 then
    let s1 := { s with flags := { s.flags with inParam := false } }
    let pm := paramFind params (tokenBytes src s.tArg)
    if ¬ pm.valid then .err s.n E_Expected_valid_parameter_name_here
    else if s1.flags.argList then
      if (if curArg s1 = ArgRef.signedNumArg
          then pm.value < -0x80000000 ∨ pm.value > 0x7FFFFFFF
          else pm.value < 0 ∨ pm.value > 0xFFFFFFFF) then
        .err s.n E_Parameter_value_out_of_range
      else .next { s1 with arg := s1.arg ||| toUInt32n pm.value, hasArg := true, n := s.n + 1 }
    else
      if pm.value < 0 then .err s.n E_Negative_numbers_are_not_allowed_in_this_context
      else if pm.value > 0xFFFFFFFF then .err s.n E_Parameter_value_out_of_range
      else .next { s1 with out := s1.out ++ encodeUnsigned (toUInt32n pm.value), n := s.n + 1 }
  else .next { s with tArg := Token.mk s.tArg.start (s.tArg.length + 1), n := s.n + 1 }

/-- Tail of the item-name branch once the encoding entry `e` is resolved
and the structural bookkeeping is done: argument-list opening at a `(`,
or the bare-item emission. `c2`/`n2` are the current byte and position
after the whitespace skip. -/
def itemClose (s : St) (e : Encoding) (c2 n2 : Nat) : StepRes :=
  if c2 = 40 then
    if e.arg = ArgRef.null then .err n2 E_This_item_has_no_arguments
    else
      let f1 := { s.flags with argList := true }
      let f2 := if e.arg = ArgRef.unitSystemMap then { f1 with unitSys := true } else f1
      .next { s with
              flags := f2, item := e.value, arg := 0, hasArg := false,
              multiArg := (e.arg == ArgRef.inputArgMap || e.arg == ArgRef.outputFeatureArgMap),
              n := n2 + 1 }
  else
    if e.arg ≠ ArgRef.null ∧ (tableOf e.arg ≠ [] ∨ e.arg = ArgRef.usageArg) then
      .err n2 E_Missing_argument
    else .next { s with out := s.out ++ encodeUnsigned e.value, n := n2 + 1 }

/-- The `HID_WITHIN_ITEM` branch. -/
def stepItem (src : List Nat) (len : Nat) (s : St) : StepRes :=
  let c := byteAt src s.n
  if isItemChar c then
    .next { s with tItem := Token.mk s.tItem.start (s.tItem.length + 1), n := s.n + 1 }
  else if isWhitespace c ∨ c = 40 then
    let n2 := if isWhitespace c then wsSkipToParen src len s.n else s.n
    let c2 := byteAt src n2
    match findEncoding (tokenBytes src s.tItem) itemMap with
    | .fail u => .err n2 (u.getD E_Invalid_item_name)
    | .found e =>
      let s1 := { s with flags := { s.flags with inItem := false }, n := n2, encMap := some e }
      if e.arg = ArgRef.colArgMap then
        if s1.usageAtLevel ≠ s1.colLevel then .err n2 E_Missing_Usage_for_Collection
        else itemClose { s1 with
               colLevel := s1.colLevel + 1,
               events := s1.events ++ [Event.collection] } e c2 n2
      else if e.arg = ArgRef.endCol then
        if s1.colLevel ≤ 0 then .err n2 E_Unexpected_EndCollection
        else if s1.reportSizes < s1.reportCounts then .err n2 E_Missing_ReportSize
        else if s1.reportCounts < s1.reportSizes then .err n2 E_Missing_ReportCount
        else itemClose { s1 with
               colLevel := s1.colLevel - 1,
               usageAtLevel := s1.usageAtLevel - 1,
               events := s1.events ++ [Event.endCollection] } e c2 n2
      else if equalsI (tokenBytes src s.tItem) (bs ("Usage")) then
        itemClose { s1 with usageAtLevel := s1.colLevel } e c2 n2
      else itemClose s1 e c2 n2
  else .err s.n E_Unexpected_item_name_character

/-- Argument-name resolution at the end of a single argument (the final
part of the `HID_WITHIN_ARG` branch): table lookup, sticky usage page,
set/clear merge into `arg`, `hasArg` update and the reprocess at `)`. -/
def argResolve (src : List Nat) (s1 : St) (c : Nat) : StepRes :=
  match findEncoding (tokenBytes src s1.tArg) (tableOf (curArg s1)) with
  | .fail u => .err s1.n (u.getD E_Invalid_argument_name)
  | .found encItem =>
    let s2 := if curArg s1 = ArgRef.usagePageMap then { s1 with usagePage := some encItem } else s1
    let s3 := if encItem.arg = ArgRef.clearArg
      then { s2 with arg := s2.arg &&& compl32 encItem.value }
      else { s2 with arg := s2.arg ||| encItem.value }
    let s4 := { s3 with hasArg := !s3.multiArg || c != 44 }
    if c = 41 then .next s4 else .next { s4 with n := s4.n + 1 }

/-- The `HID_WITHIN_ARG` branch (with the nested unit description, unit
and unit exponent states). -/
def stepArg (src : List Nat) (len : Nat) (s : St) : StepRes :=
  let c := byteAt src s.n
  if s.flags.unitDesc then
    if s.flags.inUnit then
      if isAlpha c then
        .next { s with tArg := Token.mk s.tArg.start (s.tArg.length + 1), n := s.n + 1 }
      else if isWhitespace c ∨ c = 41 ∨ c = 94 then
        let s1 := { s with flags := { s.flags with inUnit := false } }
        match findEncoding (tokenBytes src s.tArg) (tableOf (curArg s)) with
        | .fail u => .err s.n (u.getD E_Invalid_unit_name)
        | .found u =>
          if c = 94 then
            .next { s1 with
                    flags := { s1.flags with unitExp := true },
                    tArg := Token.mk (s.n + 1) 0, encUnit := some u, n := s.n + 1 }
          else
            let offset := 4 * u.value
            .next { s1 with
                    encUnit := some u,
                    arg := (s1.arg &&& compl32 (0xF <<< offset)) ||| (1 <<< offset) }
      else .err s.n E_Unexpected_unit_name_character
    else if s.flags.unitExp then
      if c = 45 then
        if s.tArg.length > 0 then .err s.n E_Invalid_unit_exponent
        else .next { s with tArg := Token.mk s.tArg.start (s.tArg.length + 1), n := s.n + 1 }
      else if isDigit c then
        .next { s with tArg := Token.mk s.tArg.start (s.tArg.length + 1), n := s.n + 1 }
      else
        let s1 := { s with flags := { s.flags with unitExp := false } }
        match findEncoding (tokenBytes src s.tArg) (tableOf (argOfOpt s.encUnit)) with
        | .fail u => .err s.n (u.getD E_Invalid_unit_exponent)
        | .found ex =>
          let offset := 4 * valOfOpt s.encUnit
          .next { s1 with
                  arg := (s1.arg &&& compl32 (0xF <<< offset)) ||| (ex.value <<< offset),
                  flags := { s1.flags with unitDesc := true } }
    else if isAlpha c then
      .next { s with flags := { s.flags with inUnit := true }, tArg := Token.mk s.n 1, n := s.n + 1 }
    else if c = 41 then
      .next { s with
              flags := { s.flags with inArg := false, unitSys := false, unitDesc := false },
              n := s.n + 1 }
    else if ¬ isWhitespace c then .err s.n E_Unexpected_unit_name_character
    else .next { s with n := s.n + 1 }
  else if isArgChar c then
    .next { s with tArg := Token.mk s.tArg.start (s.tArg.length + 1), n := s.n + 1 }
  else if s.flags.unitSys then
    if s.hasArg then .err s.n E_Internal_error
    else if isWhitespace c ∨ c = 40 then
      let n2 := if isWhitespace c then wsSkipToParen src len s.n else s.n
      match findEncoding (tokenBytes src s.tArg) (tableOf (curArg s)) with
      | .fail u => .err n2 (u.getD E_Invalid_unit_system_name)
      | .found sysE =>
        .next { s with
                flags := { s.flags with unitDesc := true },
                arg := sysE.value, encMap := some sysE, hasArg := true, n := n2 + 1 }
    else if c = 41 then
      .next { s with flags := { s.flags with unitSys := false } }
    else .err s.n E_Unexpected_argument_name_character
  else if isWhitespace c ∨ c = 41 ∨ (s.multiArg ∧ c = 44) then
    let s1 := { s with flags := { s.flags with inArg := false } }
    if curArg s1 = ArgRef.usageArg then
      if upNullOrArgless s1.usagePage then
        .err s.n (if s1.hasUsagePage then E_Missing_named_UsagePage else E_Missing_UsagePage)
      else argResolve src { s1 with encMap := s1.usagePage } c
    else argResolve src s1 c
  else .err s.n E_Unexpected_argument_name_character

/-- The `HID_WITHIN_HEX_LIT` branch. -/
def stepHex (src : List Nat) (s : St) : StepRes :=
  let c := byteAt src s.n
  if isHexDigit c then
    let lit2 := s.lit * 16 % 2 ^ 32
    if lit2 < s.lit then .err s.n E_Number_overflow
    else .next { s with lit := lit2 ||| hexVal c, n := s.n + 1 }
  else if s.flags.argList then
    if isWhitespace c ∨ c = 41 ∨ (s.multiArg ∧ c = 44) then
      let s1 := { s with flags := { s.flags with hexLit := false } }
      if curArg s1 = ArgRef.signedNumArg ∧ s1.lit > 0x7FFFFFFF then .err s.n E_Number_overflow
      else
        let s2 := { s1 with arg := s1.arg ||| s1.lit, hasArg := !s1.multiArg || c != 44 }
        if c = 41 then .next s2 else .next { s2 with n := s2.n + 1 }
    else .err s.n E_Invalid_hex_value
  else if isWhitespace c then
    .next { s with
            flags := { s.flags with hexLit := false },
            out := s.out ++ encodeUnsigned s.lit, n := s.n + 1 }
  else .err s.n E_Invalid_hex_value

/-- The `HID_WITHIN_NUM_LIT` branch. -/
def stepNum (src : List Nat) (s : St) : StepRes :=
  let c := byteAt src s.n
  if isDigit c then
    let l1 := s.lit * 10 % 2 ^ 32
    if l1 < s.lit then .err s.n E_Number_overflow
    else
      let l2 := (l1 + (c - 48)) % 2 ^ 32
      if l2 < s.lit then .err s.n E_Number_overflow
      else .next { s with lit := l2, n := s.n + 1 }
  else if s.flags.argList then
    if isWhitespace c ∨ c = 41 ∨ (s.multiArg ∧ c = 44) then
      let s1 := { s with flags := { s.flags with numLit := false } }
      if s1.negLit then
        if s1.lit > 0x80000000 then .err s.n E_Number_overflow
        else
          let s2 := { s1 with
                      arg := s1.arg ||| ((2 ^ 32 - s1.lit) % 2 ^ 32),
                      negLit := false, hasArg := !s1.multiArg || c != 44 }
          if c = 41 then .next s2 else .next { s2 with n := s2.n + 1 }
      else
        if curArg s1 = ArgRef.signedNumArg ∧ s1.lit > 0x7FFFFFFF then .err s.n E_Number_overflow
        else
          let s2 := { s1 with arg := s1.arg ||| s1.lit, hasArg := !s1.multiArg || c != 44 }
          if c = 41 then .next s2 else .next { s2 with n := s2.n + 1 }
    else .err s.n E_Invalid_numeric_value
  else if isWhitespace c then
    .next { s with
            flags := { s.flags with numLit := false },
            out := s.out ++ encodeUnsigned s.lit, n := s.n + 1 }
  else .err s.n E_Invalid_numeric_value

/-- Emission shared by the general argument-list closing paths:
`item |= encodedSizeValue(encodedSize(arg))`, prefix and payload bytes,
and `multiArg = false`. -/
def finishArgList (s : St) (n : Nat) : StepRes :=
  let item2 := s.item ||| encodedSizeValue (encodedSize s.arg)
  .next { s with
          item := item2,
          out := s.out ++ encodeUnsigned item2 ++ encodeUnsigned s.arg,
          multiArg := false, n := n + 1 }

/-- The `HID_WITHIN_ARG_LIST` branch. -/
def stepArgList (src : List Nat) (len : Nat) (s : St) : StepRes :=
  let c := byteAt src s.n
  if s.hasArg then
    if c = 41 then
      let s1 := { s with flags := { s.flags with argList := false, unitSys := false } }
      if curArg s1 = ArgRef.signedNumArg then
        let sv := toInt32s s1.arg
        let item2 := s1.item ||| encodedSizeValue (encodedSizeS sv)
        .next { s1 with
                item := item2,
                out := s1.out ++ encodeUnsigned item2 ++ encodeSigned sv,
                multiArg := false, n := s.n + 1 }
      else if curArg s1 = ArgRef.unitExpMap then
        let sArg := toInt32s s1.arg
        if sArg > 7 ∨ sArg < -8 then .err s.n E_Argument_value_out_of_range
        else .next { s1 with
                out := s1.out ++ encodeUnsigned (s1.item ||| 1) ++ encodeUnsigned (s1.arg &&& 0xF),
                multiArg := false, n := s.n + 1 }
      else if curArg s1 = ArgRef.delimMap then
        if s1.arg = 0 then
          if s1.delimLevel ≤ 0 then .err s.n E_Unexpected_DelimiterClose
          else finishArgList { s1 with delimLevel := s1.delimLevel - 1 } s.n
        else if s1.arg = 1 then
          finishArgList { s1 with delimLevel := s1.delimLevel + 1 } s.n
        else .err s.n E_Unexpected_Delimiter_value
      else if curArg s1 = ArgRef.usagePageMap ∨ curArg s1 = ArgRef.usageArg then
        if s1.arg > 0xFFFF then .err s.n E_Argument_value_out_of_range
        else if curArg s1 = ArgRef.usagePageMap then
          finishArgList { s1 with
            hasUsagePage := true,
            events := s1.events ++ [Event.usagePage] } s.n
        else finishArgList s1 s.n
      else if curVal s1 = 0x74 then
        finishArgList { s1 with
          reportSizes := s1.reportSizes + 1,
          events := s1.events ++ [Event.reportSize] } s.n
      else if curVal s1 = 0x94 then
        finishArgList { s1 with
          reportCounts := s1.reportCounts + 1,
          events := s1.events ++ [Event.reportCount] } s.n
      else finishArgList s1 s.n
    else if s.multiArg ∧ c = 44 then .next { s with hasArg := false, n := s.n + 1 }
    else if ¬ isWhitespace c then .err s.n E_Unexpected_token
    else .next { s with n := s.n + 1 }
  else
    if isItemChar c then
      .next { s with flags := { s.flags with inArg := true }, tArg := Token.mk s.n 1, n := s.n + 1 }
    else if c = 48 ∧ s.n + 1 < len ∧ byteAt src (s.n + 1) = 120 then
      if s.n + 2 ≥ len then .err (s.n + 2) E_Unexpected_end_of_source
      else if ¬ isHexDigit (byteAt src (s.n + 2)) then .err (s.n + 2) E_Invalid_hex_value
      else .next { s with flags := { s.flags with hexLit := true }, lit := 0, n := s.n + 2 }
    else if c = 45 then
      if curArg s ≠ ArgRef.signedNumArg ∧ curArg s ≠ ArgRef.unitExpMap then
        .err s.n E_Negative_numbers_are_not_allowed_in_this_context
      else .next { s with
                   flags := { s.flags with numLit := true }, lit := 0, negLit := true,
                   n := s.n + 1 }
    else if isDigit c then
      .next { s with flags := { s.flags with numLit := true }, lit := 0 }
    else if c = 123 then
      .next { s with
              flags := { s.flags with inParam := true }, tArg := Token.mk (s.n + 1) 0,
              n := s.n + 1 }
    else if c = 41 then .err s.n E_Missing_argument
    else if ¬ isWhitespace c then .err s.n E_Unexpected_argument_name_character
    else .next { s with n := s.n + 1 }

/-- One iteration of the scan loop of `compile`: the `else if` dispatch
over the state bits in source order; a state-bit combination none of the
branches covers falls through to the loop increment. -/
def body (src : List Nat) (len : Nat) (params : List Param) (s : St) : StepRes :=
  if s.flags = Flags.clear then stepStart src len s
  else if s.flags.comment then stepComment src s
  else if s.flags.inParam then stepParam src params s
  else if s.flags.inItem then stepItem src len s
  else if s.flags.inArg then stepArg src len s
  else if s.flags.hexLit then stepHex src s
  else if s.flags.numLit then stepNum src s
  else if s.flags.argList then stepArgList src len s
  else .next { s with n := s.n + 1 }

/-- Result of running the scan loop to its end. -/
inductive RunRes where
  | exitLoop (s : St)
  | failAt (pos : Nat) (msg : EMessage) (s : St)
  | outOfFuel (s : St)
  deriving DecidableEq, Repr

/-- The scan loop `for (; n < len && *ptr != 0; )` with explicit fuel;
each executed iteration records its byte position in the ghost trace. An
error result carries the state the failing iteration started from. -/
def loopAux (src : List Nat) (len : Nat) (params : List Param) : Nat → St → RunRes
  | 0, s => .outOfFuel s
  | fuel + 1, s =>
    if s.n < len ∧ byteAt src s.n ≠ 0 then
      let sIn := { s with trace := s.trace ++ [s.n] }
      match body src len params sIn with
      | .next s2 => loopAux src len params fuel s2
      | .err p m => .failAt p m sIn
    else .exitLoop s

/-- Result of a whole `compile` call. -/
inductive CompileRes where
  | ok (s : St)
  | failAt (pos : Nat) (msg : EMessage) (s : St)
  | outOfFuel (s : St)
  deriving DecidableEq, Repr

/-- The final structural checks at the end of the source. -/
def epiChecks (s : St) : CompileRes :=
  if s.colLevel > 0 then .failAt s.n E_Missing_EndCollection s
  else if s.delimLevel > 0 then .failAt s.n E_Missing_DelimiterClose s
  else if s.flags ≠ Flags.clear ∧ s.flags ≠ { Flags.clear with comment := true } then
    .failAt s.n E_Unexpected_end_of_source s
  else .ok s

/-- The end-of-source handling of `compile` (after the scan loop): flush
of a pending hex/number literal, flush of a pending item with the same
Collection/EndCollection bookkeeping as inline (but without the
`Usage`-name case), then the depth and state checks. -/
def epiFlush (s0 : St) : St :=
  if s0.flags.hexLit ∨ s0.flags.numLit then
    let s1 := { s0 with flags := { s0.flags with hexLit := false, numLit := false } }
    if s1.flags = Flags.clear then { s1 with out := s1.out ++ encodeUnsigned s1.lit } else s1
  else s0

/-- The end-of-source handling after the literal flush: flush of a
pending item with the Collection/EndCollection bookkeeping, then the
depth and state checks. -/
def epilogue (src : List Nat) (s0 : St) : CompileRes :=
  let s := epiFlush s0
  if s.flags.inItem then
    match findEncoding (tokenBytes src s.tItem) itemMap with
    | .fail u => .failAt s.n (u.getD E_Invalid_item_name) s
    | .found e =>
      let s1 := { s with flags := { s.flags with inItem := false }, encMap := some e }
      if e.arg = ArgRef.colArgMap then
        if s1.usageAtLevel ≠ s1.colLevel then .failAt s.n E_Missing_Usage_for_Collection s
        else epiItemEnd { s1 with
               colLevel := s1.colLevel + 1,
               events := s1.events ++ [Event.collection] } e
      else if e.arg = ArgRef.endCol then
        if s1.colLevel ≤ 0 then .failAt s.n E_Unexpected_EndCollection s
        else if s1.reportSizes < s1.reportCounts then .failAt s.n E_Missing_ReportSize s
        else if s1.reportCounts < s1.reportSizes then .failAt s.n E_Missing_ReportCount s
        else epiItemEnd { s1 with
               colLevel := s1.colLevel - 1,
               usageAtLevel := s1.usageAtLevel - 1,
               events := s1.events ++ [Event.endCollection] } e
      else epiItemEnd s1 e
  else epiChecks s
where
  /-- Missing-argument check and bare emission of the flushed item. -/
  epiItemEnd (s1 : St) (e : Encoding) : CompileRes :=
    if e.arg ≠ ArgRef.null ∧ (tableOf e.arg ≠ [] ∨ e.arg = ArgRef.usageArg) then
      .failAt s1.n E_Missing_argument s1
    else if s1.flags = Flags.clear then
      epiChecks { s1 with out := s1.out ++ encodeUnsigned e.value }
    else epiChecks s1

/-- A whole `compile` call on source bytes, declared size, parameter set
and loop fuel. -/
def compileRun (src : List Nat) (len : Nat) (params : List Param) (fuel : Nat) : CompileRes :=
  match loopAux src len params fuel {} with
  | .exitLoop s => epilogue src s
  | .failAt p m s => .failAt p m s
  | .outOfFuel s => .outOfFuel s

/-- The canonical fuel: proven sufficient for every input (see the
termination theorems below). -/
def stdFuel (len : Nat) : Nat := 3 * len + 2

/-- `compile` with the canonical fuel. -/
def compileC (src : List Nat) (len : Nat) (params : List Param) : CompileRes :=
  compileRun src len params (stdFuel len)

/-- The observable caller interface: the boolean result of `compile`
together with the diagnostic record it leaves behind (`error = Info()` on
success, `errorMsg.at(pos, msg)` on failure). -/
def compileFull (src : List Nat) (len : Nat) (params : List Param) : Bool × Info :=
  match compileC src len params with
  | .ok _ => (true, {})
  | .failAt p m _ => (false, errorAt src p m)
  | .outOfFuel _ => (false, errorAt src 0 E_Internal_error)

/-- Compiling a string literal without parameters (`len` is the string
length; the scan stops at `len` exactly as it would at the appended NUL
of `fromSource`). -/
def compileStr (str : String) : CompileRes :=
  compileC (bs str) (bs str).length []

/-- Output bytes of a successful run. -/
def outOf : CompileRes → Option (List Nat)
  | .ok s => some s.out
  | _ => none

/-- Success flag of a run. -/
def isOk : CompileRes → Bool
  | .ok _ => true
  | _ => false

/-- Position and message of a failed run. -/
def errOf : CompileRes → Option (Nat × EMessage)
  | .failAt p m _ => some (p, m)
  | _ => none

/-- Ghost event list of the final state of a run. -/
def eventsOf : CompileRes → List Event
  | .ok s => s.events
  | .failAt _ _ s => s.events
  | .outOfFuel s => s.events

/-- Ghost trace (dispatched byte positions) of the final state of a run. -/
def traceOf : CompileRes → List Nat
  | .ok s => s.trace
  | .failAt _ _ s => s.trace
  | .outOfFuel s => s.trace

/-- Cursor position of the final state of a run. -/
def nOf : CompileRes → Nat
  | .ok s => s.n
  | .failAt _ _ s => s.n
  | .outOfFuel s => s.n

/-- Collection depth of the final state of a run. -/
def colOf : CompileRes → Int
  | .ok s => s.colLevel
  | .failAt _ _ s => s.colLevel
  | .outOfFuel s => s.colLevel

/-- Delimiter depth of the final state of a run. -/
def delimOf : CompileRes → Int
  | .ok s => s.delimLevel
  | .failAt _ _ s => s.delimLevel
  | .outOfFuel s => s.delimLevel

/-- Whether a run ran out of loop fuel. -/
def fuelOut : CompileRes → Bool
  | .outOfFuel _ => true
  | _ => false

/-- Offset of the first NUL byte below `len` (or `len` when none):
the loop helper. -/
def firstNulAux (src : List Nat) : Nat → Nat → Nat
  | 0, n => n
  | rem + 1, n => if byteAt src n = 0 then n else firstNulAux src rem (n + 1)

/-- Offset of the first NUL byte of the source below `len`, or `len`. -/
def firstNul (src : List Nat) (len : Nat) : Nat := firstNulAux src len 0

/-- Specification-side predicate for a byte that is not a UTF-8
continuation byte (top two bits not `10`). -/
def utf8LeadB (c : Nat) : Bool := c &&& 0xC0 != 0x80

/-- The bytes at offsets `[0, pos)` as read by `ErrorWriter::at`. -/
def preBytes (src : List Nat) (pos : Nat) : List Nat := (List.range pos).map (byteAt src)

/-- The segment of a byte list after its last `\n`. -/
def afterLastNl (l : List Nat) : List Nat := (l.reverse.takeWhile (fun c => c != 10)).reverse

/-- Bytes counted for the column: UTF-8 lead bytes that are not `\r`. -/
def colPred (c : Nat) : Bool := c != 13 && utf8LeadB c

def decimalValFrom (acc : Nat) (ds : List Nat) : Nat :=
  ds.foldl (fun a c => a * 10 + (c - 48)) acc

/-- Decimal value of a digit-byte list. -/
def decimalVal (ds : List Nat) : Nat := decimalValFrom 0 ds

/-- The conditions the claim states for an indexed match against the
`Button#` pair of `buttonMap`: prefix equal case-insensitively, all
remaining bytes decimal digits, parsed number within the declared range
`[1, 0xFFFF]`, and no leading zero unless the number is zero. -/
def indexedMatch (t : List Nat) : Prop :=
  6 < t.length ∧ equalsI (t.take 6) (bs ("Button")) = true ∧
  (∀ c ∈ t.drop 6, isDigit c = true) ∧
  1 ≤ decimalVal (t.drop 6) ∧ decimalVal (t.drop 6) ≤ 0xFFFF ∧
  (decimalVal (t.drop 6) ≠ 0 → t.getD 6 0 ≠ 48)

/-- Plain case-insensitive lookup without the indexed-name rule, used to
state that entries past the first three are never index-matched. -/
def plainFindI (t : List Nat) : List Encoding → FindRes
  | [] => .fail none
  | e :: rest => if equalsI t e.name then .found e else plainFindI t rest

/-- Number of `ReportSize` completions in an event list. -/
def countRS (t : List Event) : Nat := t.count Event.reportSize

/-- Number of `ReportCount` completions in an event list. -/
def countRC (t : List Event) : Nat := t.count Event.reportCount

/-- Every accepted `EndCollection` in the event list is preceded by
equally many `ReportSize` and `ReportCount` completions. -/
def okPrefixes (t : List Event) : Prop :=
  ∀ t1 t2, t = t1 ++ Event.endCollection :: t2 → countRS t1 = countRC t1

/-- Flag combinations that occur in reachable states: a unit name and a
unit exponent are never accumulated at once, a single argument implies an
open argument list without a pending literal, and the two literal states
exclude each other. -/
def FlagsWF (f : Flags) : Prop :=
  (¬ (f.inUnit = true ∧ f.unitExp = true)) ∧
  (f.inArg = true → f.argList = true ∧ f.hexLit = false ∧ f.numLit = false) ∧
  (¬ (f.hexLit = true ∧ f.numLit = true))

/-- Bound on the number of further loop iterations that will dispatch on
the current byte position: every `continue` of the scan loop strictly
decreases this rank, and it never exceeds 2. -/
def rank (src : List Nat) (s : St) : Nat :=
  let c := byteAt src s.n
  if s.flags.comment then 0
  else if s.flags.inParam then 0
  else if s.flags.inItem then 0
  else if s.flags.inArg then
    (if s.flags.unitDesc then (if s.flags.inUnit then 2 else if s.flags.unitExp then 2 else 0)
     else if isArgChar c then 0
     else if s.flags.unitSys then 2
     else 1)
  else if s.flags.hexLit then (if isHexDigit c then 0 else 2)
  else if s.flags.numLit then (if isDigit c then 0 else 2)
  else if s.flags.argList then (if s.hasArg then 0 else 1)
  else 1

/-- How one loop iteration relates the ghost events and the bookkeeping
counters of consecutive states: either nothing happens, or exactly one
event is appended together with its counter/flag update; an accepted
`EndCollection` requires equal counters. -/
def eventsStep (s s2 : St) : Prop :=
  (s2.events = s.events ∧ s2.reportSizes = s.reportSizes ∧ s2.reportCounts = s.reportCounts ∧
    s2.hasUsagePage = s.hasUsagePage) ∨
  (s2.events = s.events ++ [Event.collection] ∧ s2.reportSizes = s.reportSizes ∧
    s2.reportCounts = s.reportCounts ∧ s2.hasUsagePage = s.hasUsagePage) ∨
  (s2.events = s.events ++ [Event.endCollection] ∧ s2.reportSizes = s.reportSizes ∧
    s2.reportCounts = s.reportCounts ∧ s2.hasUsagePage = s.hasUsagePage ∧
    s.reportSizes = s.reportCounts) ∨
  (s2.events = s.events ++ [Event.reportSize] ∧ s2.reportSizes = s.reportSizes + 1 ∧
    s2.reportCounts = s.reportCounts ∧ s2.hasUsagePage = s.hasUsagePage) ∨
  (s2.events = s.events ++ [Event.reportCount] ∧ s2.reportSizes = s.reportSizes ∧
    s2.reportCounts = s.reportCounts + 1 ∧ s2.hasUsagePage = s.hasUsagePage) ∨
  (s2.events = s.events ++ [Event.usagePage] ∧ s2.reportSizes = s.reportSizes ∧
    s2.reportCounts = s.reportCounts ∧ s2.hasUsagePage = true)

/-- How one loop iteration moves the cursor: it either stays (a
`continue`), or lands one past a position `w ≥ n` such that every byte in
`(n, w]` is known to be nonzero (whitespace, `(`, or the `x` of a hex
introducer). -/
def nAdvance (src : List Nat) (s s2 : St) : Prop :=
  s2.n = s.n ∨
  (∃ w, s2.n = w + 1 ∧ s.n ≤ w ∧ ∀ i, s.n < i → i ≤ w → byteAt src i ≠ 0)

/-- All facts proved about a `.next` result of one loop iteration. -/
def nextOk (src : List Nat) (len : Nat) (s s2 : St) : Prop :=
  (FlagsWF s.flags → FlagsWF s2.flags) ∧
  (FlagsWF s.flags → s.n < s2.n ∨ (s2.n = s.n ∧ rank src s2 < rank src s)) ∧
  nAdvance src s s2 ∧
  (0 ≤ s.colLevel → 0 ≤ s2.colLevel) ∧
  (0 ≤ s.delimLevel → 0 ≤ s2.delimLevel) ∧
  eventsStep s s2 ∧
  s2.trace = s.trace

/-- All facts proved about an `.err` result of one loop iteration. -/
def errOk (src : List Nat) (s : St) (p : Nat) (m : EMessage) : Prop :=
  m ≠ E_NO_ERROR ∧
  (byteAt src s.n ≠ 0 → ∀ k, s.n ≤ k → byteAt src k = 0 → p ≤ k) ∧
  (m = E_Missing_UsagePage → s.hasUsagePage = false ∧ p = s.n ∧
    (isWhitespace (byteAt src p) = true ∨ byteAt src p = 41 ∨ byteAt src p = 44)) ∧
  (m = E_Missing_named_UsagePage → s.hasUsagePage = true ∧ p = s.n ∧
    (isWhitespace (byteAt src p) = true ∨ byteAt src p = 41 ∨ byteAt src p = 44)) ∧
  (m = E_Missing_ReportSize → s.reportSizes < s.reportCounts) ∧
  (m = E_Missing_ReportCount → s.reportCounts < s.reportSizes)

/-- The state invariant of the scan loop: well-formed flags, nonnegative
depth counters, the report counters agree with the ghost events, every
accepted `EndCollection` saw equal counters, and `hasUsagePage` records
whether a `UsagePage` item completed. -/
def stInv (s : St) : Prop :=
  FlagsWF s.flags ∧ 0 ≤ s.colLevel ∧ 0 ≤ s.delimLevel ∧
  s.reportSizes = countRS s.events ∧ s.reportCounts = countRC s.events ∧
  okPrefixes s.events ∧ (s.hasUsagePage = true ↔ Event.usagePage ∈ s.events)

/-- The full loop invariant: the state invariant plus the ghost-trace
bookkeeping (per-position dispatch counts and the budget of the current
position) and the fact that every byte before the cursor and every
dispatched byte is nonzero and below `len`. -/
def loopInv (src : List Nat) (len : Nat) (s : St) : Prop :=
  stInv s ∧
  (∀ k, s.trace.count k ≤ 3) ∧
  (s.trace.count s.n + rank src s ≤ 2) ∧
  (∀ k, s.n < k → s.trace.count k = 0) ∧
  (∀ k, k < s.n → byteAt src k ≠ 0) ∧
  (∀ q, q ∈ s.trace → q < len ∧ (∀ j, j ≤ q → byteAt src j ≠ 0))

/-- C1: compiling `Unit(SiLin(Length^2 Mass^3 Time^4 Temp^5 Current^6 Luminous^7))`
with an empty parameter set succeeds with the `No_error` diagnostic and
writes exactly the bytes `67 21 43 65 07`: `SiLin` contributes system
nibble 1 and each unit's 4-bit exponent code lands at nibble offset
`4 * unit.value`, giving the argument `0x07654321` emitted after the
prefix `0x64 ||| 3`. -/
theorem C1_compile_unit_silin :
    outOf (compileStr ("Unit(SiLin(Length^2 Mass^3 Time^4 Temp^5 Current^6 Luminous^7))")) =
      some [0x67, 0x21, 0x43, 0x65, 0x07] ∧
    compileFull (bs ("Unit(SiLin(Length^2 Mass^3 Time^4 Temp^5 Current^6 Luminous^7))"))
      (bs ("Unit(SiLin(Length^2 Mass^3 Time^4 Temp^5 Current^6 Luminous^7))")).length [] =
      (true, {}) := by
  decide

/-- C3, counterexample: `ReportSize(8)` before `Collection(Application)` and
`ReportCount(8)` inside it; the `EndCollection` is accepted (the whole
source compiles without error) although between the `Collection` item and
its matching `EndCollection` there is one `ReportCount` and no
`ReportSize`: the counters compared at `EndCollection` are global, not
per-collection. -/
theorem C3_counterexample_per_collection_pairing :
    isOk (compileStr ("UsagePage(Button) Usage(Button1) ReportSize(8) Collection(Application) ReportCount(8) EndCollection")) = true ∧
    eventsOf (compileStr ("UsagePage(Button) Usage(Button1) ReportSize(8) Collection(Application) ReportCount(8) EndCollection")) =
      [Event.usagePage, Event.reportSize, Event.collection, Event.reportCount,
       Event.endCollection] := by
  decide

/-- C4, counterexample: `UsagePage(GamingDevice)` is a named usage page
(not a numeric literal) whose entry has no usage table, yet the following
`Usage(X)` is reported as `Missing_named_UsagePage`; moreover both
diagnostics are reported at the argument's terminating byte (offset 31,
the `)`, and offset 13 for `Usage(Pointer)`), not at the start of the
offending argument (offsets 30 and 6). -/
theorem C4_counterexample_named_page_and_position :
    errOf (compileStr ("UsagePage(GamingDevice) Usage(X)")) =
      some (31, E_Missing_named_UsagePage) ∧
    errOf (compileStr ("Usage(Pointer)")) = some (13, E_Missing_UsagePage) := by
  decide

/-- C5, counterexample: the token `Button#` (whose suffix after the
literal prefix is `#`, not a decimal digit string) nevertheless matches
the indexed entry `Button#` of `buttonMap`, because `findEncoding` tests
literal case-insensitive equality against the entry name before applying
the indexed-name rule; the returned entry is the range-start entry itself
(value 1), not a synthesized one. -/
theorem C5_counterexample_literal_hash_name :
    findEncoding (bs ("Button#")) buttonMap =
      .found (Encoding.mk (bs ("Button#")) 1 (UT_SEL ||| UT_OOC ||| UT_MC ||| UT_OSC)
        ArgRef.null) ∧
    ¬ (∀ c ∈ (bs ("Button#")).drop 6, isDigit c = true) := by
  decide

/-- C8, counterexample: in `Unit(SiLin)` the byte at offset 10 (the first
closing parenthesis) is dispatched three times by the scan loop — once in
the unit-system state, once as the argument terminator, once as the
argument-list close — so "each source byte is inspected at most twice" is
false. -/
theorem C8_counterexample_triple_inspection :
    (traceOf (compileStr ("Unit(SiLin)"))).count 10 = 3 ∧
    ¬ (traceOf (compileStr ("Unit(SiLin)"))).count 10 ≤ 2 := by
  decide

/-- C10, counterexample: for the source bytes `30 78 00` (`0x` followed by
NUL, size 3) the first NUL is at offset 2, but the run does not perform
the end-of-source handling there: the hex-literal lookahead reads the NUL
and reports `Invalid_hex_value` at offset 2 (the truncated source `0x`
of size 2 reports `Unexpected_end_of_source` instead). -/
theorem C10_counterexample_hex_lookahead_nul :
    errOf (compileC (bs ("0x") ++ [0]) 3 []) = some (2, E_Invalid_hex_value) ∧
    firstNul (bs ("0x") ++ [0]) 3 = 2 ∧
    errOf (compileC (bs ("0x")) 2 []) = some (2, E_Unexpected_end_of_source) := by
  decide

/-- C2: for every 32-bit signed integer `v`, `encodedSize(int32_t)`
returns 1, 2 or 4 bytes according to the sign-folded magnitude
`(v < 0 ? -v - 1 : v)` against `0x7F` and `0x7FFF`, `encodeSigned` writes
exactly that many little-endian bytes, and sign-extending the written
bytes at that width reproduces `v`. -/
theorem C2_encodedSize_encodeSigned_roundtrip (v : Int)
    (h1 : -(2 ^ 31) ≤ v) (h2 : v < 2 ^ 31) :
    (encodedSizeS v = if (if v < 0 then -v - 1 else v) ≤ 0x7F then 1
      else if (if v < 0 then -v - 1 else v) ≤ 0x7FFF then 2 else 4) ∧
    (encodeSigned v).length = encodedSizeS v ∧
    signExtend (8 * encodedSizeS v) (decodeLE (encodeSigned v)) = v := by
  simp only [encodedSizeS, encodeSigned]
  split_ifs <;>
    refine ⟨by omega, by simp [encodeValue], ?_⟩ <;>
    simp only [encodeValue, decodeLE, signExtend, toUInt32n, toInt16w, toInt8w] <;>
    norm_num <;>
    split <;>
    omega

/-- Witness for C2 at the two-byte value `v = -129` (the bytes are
`7F FF` and decode back to `-129`). -/
theorem C2_encodedSize_encodeSigned_roundtrip_witness :
    (-(2 ^ 31) ≤ (-129 : Int)) ∧ ((-129 : Int) < 2 ^ 31) ∧
    ((encodeSigned (-129)).length = encodedSizeS (-129) ∧
      signExtend (8 * encodedSizeS (-129)) (decodeLE (encodeSigned (-129))) = -129) :=
  ⟨by norm_num, by norm_num,
    (C2_encodedSize_encodeSigned_roundtrip (-129) (by norm_num) (by norm_num)).2⟩

/-- `afterLastNl` under appending one byte. -/
theorem afterLastNl_append (l : List Nat) (c : Nat) :
    afterLastNl (l ++ [c]) = if c = 10 then [] else afterLastNl l ++ [c] := by
  by_cases h : c = 10 <;> simp [afterLastNl, h]

/-- The scanning fold of `ErrorWriter::at` computes the three counts. -/
theorem foldl_atStep_spec (msg : EMessage) (l : List Nat) :
    l.foldl atStep (Info.mk 0 1 1 msg) =
      Info.mk (l.countP utf8LeadB) (1 + l.count 10)
        (1 + (afterLastNl l).countP colPred) msg := by
  induction l using List.reverseRecOn with
  | nil => simp [afterLastNl]
  | append_singleton l c ih =>
    rw [List.foldl_append, ih]
    by_cases h10 : c = 10
    · simp [atStep, h10, afterLastNl_append, List.countP_append, List.count_append,
        List.count_cons, List.count_nil, utf8LeadB]
      try omega
    · by_cases h13 : c = 13
      · simp [atStep, h10, h13, afterLastNl_append, List.countP_append, List.count_append,
          List.count_cons, List.count_nil, beq_iff_eq, utf8LeadB, colPred]
        try omega
      · by_cases hl : c &&& 0xC0 = 0x80
        · simp [atStep, h10, h13, hl, afterLastNl_append, List.countP_append, List.count_append,
            List.count_cons, List.count_nil, beq_iff_eq, utf8LeadB, colPred]
          try omega
        · simp [atStep, h10, h13, hl, afterLastNl_append, List.countP_append, List.count_append,
            List.count_cons, List.count_nil, beq_iff_eq, utf8LeadB, colPred]
          try omega

/-- C7: for every source, byte offset and message, `ErrorWriter::at` sets
`character` to the number of bytes in `[0, pos)` whose top two bits are
not `10`, `line` to 1 plus the number of `\n` bytes in `[0, pos)`,
`column` to the 1-based count of UTF-8 lead bytes after the last `\n`
ignoring `\r` bytes, and stores `msg` as the message (the C++ member
then returns `false` to its caller; the returned record is this one). -/
theorem C7_errorAt_character_line_column (src : List Nat) (pos : Nat) (msg : EMessage) :
    errorAt src pos msg =
      Info.mk ((preBytes src pos).countP utf8LeadB)
        (1 + (preBytes src pos).count 10)
        (1 + (afterLastNl (preBytes src pos)).countP colPred) msg := by
  unfold errorAt preBytes
  exact foldl_atStep_spec msg _

/-- The decimal fold never decreases below its accumulator. -/
theorem decimalValFrom_ge (ds : List Nat) : ∀ acc, acc ≤ decimalValFrom acc ds := by
  induction ds with
  | nil => intro acc; simp [decimalValFrom]
  | cons c rest ih =>
    intro acc
    have h := ih (acc * 10 + (c - 48))
    simp only [decimalValFrom, List.foldl_cons] at h ⊢
    omega

/-- The 32-bit digit accumulator of `findEncoding` never reports a value
below its starting accumulator. -/
theorem findIdxNum_mono (ds : List Nat) : ∀ acc m, findIdxNum acc ds = .ok m → acc ≤ m := by
  induction ds with
  | nil => intro acc m h; simp [findIdxNum] at h; omega
  | cons c rest ih =>
    intro acc m h
    simp only [findIdxNum] at h
    split at h
    · exact absurd h (by simp)
    · split at h
      · exact absurd h (by simp)
      · have := ih _ _ h
        omega

/-- When the digit loop succeeds with a value that fits the 16-bit index
ranges of the tables, no wrap-around occurred: the suffix is all digits
and the value is its exact decimal value. -/
theorem findIdxNum_exact (ds : List Nat) :
    ∀ acc m, findIdxNum acc ds = .ok m → m ≤ 65535 →
      (∀ c ∈ ds, isDigit c = true) ∧ decimalValFrom acc ds = m := by
  induction ds with
  | nil => intro acc m h _; simp [findIdxNum] at h; simp [decimalValFrom, h]
  | cons c rest ih =>
    intro acc m h hm
    simp only [findIdxNum] at h
    split at h
    · exact absurd h (by simp)
    · split at h
      · exact absurd h (by simp)
      · rename_i hdig hof
        have hmono := findIdxNum_mono rest _ _ h
        have hih := ih _ _ h hm
        have hsmall : (acc * 10 + c - 48) % 2 ^ 32 = acc * 10 + (c - 48) := by
          simp [isDigit] at hdig
          omega
        refine ⟨?_, ?_⟩
        · intro x hx
          rcases List.mem_cons.mp hx with hx | hx
          · subst hx; simpa using hdig
          · exact hih.1 x hx
        · have heq : acc * 10 + (c - 48) = (acc * 10 + c - 48) % 2 ^ 32 := by
            simp only [isDigit, decide_eq_true_eq] at hdig
            omega
          simp only [decimalValFrom, List.foldl_cons]
          rw [heq]
          exact hih.2

/-- An all-digit suffix whose exact value fits the range is accepted by
the digit loop with that exact value. -/
theorem findIdxNum_complete (ds : List Nat) :
    ∀ acc, (∀ c ∈ ds, isDigit c = true) → decimalValFrom acc ds ≤ 65535 →
      findIdxNum acc ds = .ok (decimalValFrom acc ds) := by
  induction ds with
  | nil => intro acc _ _; simp [findIdxNum, decimalValFrom]
  | cons c rest ih =>
    intro acc hdig hval
    have hc : isDigit c = true := hdig c (List.mem_cons_self c rest)
    have hc' : 48 ≤ c ∧ c ≤ 57 := by simpa [isDigit, decide_eq_true_eq] using hc
    have hstep : decimalValFrom acc (c :: rest) = decimalValFrom (acc * 10 + (c - 48)) rest := by
      simp [decimalValFrom]
    have hge : acc * 10 + (c - 48) ≤ decimalValFrom (acc * 10 + (c - 48)) rest :=
      decimalValFrom_ge rest _
    have hsmall : acc * 10 + (c - 48) ≤ 65535 := by
      rw [hstep] at hval; omega
    have heq : (acc * 10 + c - 48) % 2 ^ 32 = acc * 10 + (c - 48) := by omega
    simp only [findIdxNum]
    rw [if_neg (by simp [hc]), heq, if_neg (by omega)]
    rw [hstep]
    exact ih _ (fun x hx => hdig x (List.mem_cons_of_mem c hx)) (by rw [← hstep]; exact hval)

/-- The digit loop only fails with the non-digit or the out-of-range
category. -/
theorem findIdxNum_err (ds : List Nat) :
    ∀ acc m, findIdxNum acc ds = .error m →
      m = E_Unexpected_argument_name_character ∨ m = E_Argument_index_out_of_range := by
  induction ds with
  | nil => intro acc m h; simp [findIdxNum] at h
  | cons c rest ih =>
    intro acc m h
    simp only [findIdxNum] at h
    split at h
    · left; cases h; rfl
    · split at h
      · right; cases h; rfl
      · exact ih _ _ h

/-- The `startWidthIN` loop succeeds on a positive length bound iff the
first `k` characters agree case-insensitively. -/
theorem swinGo_ne_zero_iff :
    ∀ (k : Nat) (p s : List Nat) (res : Nat), k ≤ p.length → (∀ c ∈ p, toUpper c ≠ 0) →
      (swinGo p s k res ≠ 0 ↔ ((k = 0 ∧ res ≠ 0) ∨ (k ≠ 0 ∧ equalsI (p.take k) (s.take k) = true))) := by
  intro k
  induction k with
  | zero =>
    intro p s res _ _
    cases p <;> simp [swinGo, equalsI]
  | succ k ih =>
    intro p s res hk hp
    match p with
    | [] => simp at hk
    | pc :: pr =>
      match s with
      | [] =>
        have hpc : toUpper pc ≠ 0 := hp pc (List.mem_cons_self pc pr)
        simp only [swinGo, List.headD]
        rw [if_neg (by simpa using hpc)]
        simp [equalsI]
      | sc :: st =>
        simp only [swinGo, List.headD, List.tail_cons]
        by_cases hm : toUpper pc = toUpper sc
        · rw [if_pos hm]
          rw [ih pr st (res + 1) (by simpa using hk) (fun c hc => hp c (List.mem_cons_of_mem pc hc))]
          cases k with
          | zero => simp [equalsI, hm]
          | succ k2 => simp [List.take, equalsI, hm]
        · rw [if_neg hm]
          simp [List.take, equalsI, hm]

/-- Case-insensitive token equality is symmetric. -/
theorem equalsI_comm : ∀ a b : List Nat, equalsI a b = equalsI b a := by
  intro a
  induction a with
  | nil => intro b; cases b <;> simp [equalsI]
  | cons x xs ih =>
    intro b
    cases b with
    | nil => simp [equalsI]
    | cons y ys => simp [equalsI, ih, eq_comm]

/-- The prefix test of the indexed rule on `Button#` is the
case-insensitive equality of the first six token bytes with `Button`. -/
theorem startWidthIN_button (t : List Nat) :
    startWidthIN (bs ("Button#")) 6 t = true ↔ equalsI (t.take 6) (bs ("Button")) = true := by
  have h := swinGo_ne_zero_iff 6 (bs ("Button#")) t 0 (by decide) (by decide)
  have htake : (bs ("Button#")).take 6 = bs ("Button") := by decide
  rw [htake] at h
  unfold startWidthIN
  rw [equalsI_comm]
  simp only [ne_eq] at h
  simp only [ne_eq, decide_eq_true_eq]
  rw [h]
  simp

/-- Closed-form behaviour of `findEncoding` on `buttonMap`. -/
theorem findEncoding_buttonMap (t : List Nat) (ht : t.length ≠ 0) :
    findEncoding t buttonMap =
      if equalsI t (bs ("NoButtonPressed")) then
        .found (Encoding.mk (bs ("NoButtonPressed")) 0 (UT_SEL ||| UT_OOC ||| UT_MC ||| UT_OSC)
          ArgRef.null)
      else if equalsI t (bs ("Button#")) then
        .found (Encoding.mk (bs ("Button#")) 1 (UT_SEL ||| UT_OOC ||| UT_MC ||| UT_OSC)
          ArgRef.null)
      else if t.length ≤ 6 ∨ ¬ startWidthIN (bs ("Button#")) 6 t then
        .fail (some E_Invalid_argument_name)
      else
        match findIdxNum 0 (t.drop 6) with
        | .error m => .fail (some m)
        | .ok num =>
          if num < 1 ∨ num > 65535 then .fail (some E_Argument_index_out_of_range)
          else if num ≠ 0 ∧ t.getD 6 0 = 48 then .fail (some E_Invalid_argument_name)
          else .found (Encoding.mk (bs ("Button#")) num UT_NONE ArgRef.null) := by
  have h1 : strFindChr (bs ("NoButtonPressed")) 35 = none := by decide
  have h2 : strFindChr (bs ("Button#")) 35 = some 6 := by decide
  have h3 : (bs ("Button#")).length = 7 := by decide
  unfold findEncoding buttonMap
  rw [if_neg ht]
  simp only [findEncodingAux, h1, h2]
  norm_num [h3]

/-- Case-insensitive equality is equality of the upper-cased byte lists. -/
theorem equalsI_iff_map : ∀ a b : List Nat, equalsI a b = true ↔ a.map toUpper = b.map toUpper := by
  intro a
  induction a with
  | nil => intro b; cases b <;> simp [equalsI]
  | cons x xs ih =>
    intro b
    cases b with
    | nil => simp [equalsI]
    | cons y ys => simp [equalsI, ih]

/-- Matching against the indexed `Button#` entry happens exactly for the
conditions of the claim, or for a token literally equal to the entry name
including the `#`. -/
theorem buttonMap_indexed_iff (t : List Nat) :
    (∃ e, findEncoding t buttonMap = .found e ∧ e.name = bs ("Button#")) ↔
      (equalsI t (bs ("Button#")) = true ∨ indexedMatch t) := by
  by_cases ht : t.length = 0
  · have ht2 : t = [] := List.length_eq_zero.mp ht
    subst ht2
    simp [findEncoding, indexedMatch, equalsI]
  · rw [findEncoding_buttonMap t ht]
    by_cases h0 : equalsI t (bs ("NoButtonPressed")) = true
    · rw [if_pos h0]
      have hmap := (equalsI_iff_map t _).mp h0
      constructor
      · rintro ⟨e, he, hname⟩
        rw [FindRes.found.injEq] at he
        rw [← he] at hname
        exact absurd hname (by decide)
      · rintro (hlit | hidx)
        · have h := (equalsI_iff_map t _).mp hlit
          rw [hmap] at h
          exact absurd h (by decide)
        · rcases hidx with ⟨h6, hpre, _⟩
          have hp := (equalsI_iff_map _ _).mp hpre
          rw [List.map_take, hmap] at hp
          exact absurd hp (by decide)
    · rw [if_neg h0]
      by_cases h1 : equalsI t (bs ("Button#")) = true
      · rw [if_pos h1]
        constructor
        · intro _; exact Or.inl h1
        · intro _; exact ⟨_, rfl, rfl⟩
      · rw [if_neg h1]
        by_cases h2 : t.length ≤ 6 ∨ ¬ startWidthIN (bs ("Button#")) 6 t
        · rw [if_pos h2]
          constructor
          · rintro ⟨e, he, _⟩; exact absurd he (by simp)
          · rintro (hlit | hidx)
            · exact absurd hlit h1
            · rcases hidx with ⟨h6, hpre, _⟩
              rcases h2 with h2 | h2
              · omega
              · exact absurd ((startWidthIN_button t).mpr hpre) h2
        · rw [if_neg h2]
          push_neg at h2
          rcases h2 with ⟨h6, hsw⟩
          have hpre : equalsI (t.take 6) (bs ("Button")) = true :=
            (startWidthIN_button t).mp (by simpa using hsw)
          rcases hnum : findIdxNum 0 (t.drop 6) with m | num
          · dsimp only
            constructor
            · rintro ⟨e, he, _⟩; exact absurd he (by simp)
            · rintro (hlit | hidx)
              · exact absurd hlit h1
              · rcases hidx with ⟨_, _, hdig, _, hle, _⟩
                have := findIdxNum_complete (t.drop 6) 0 hdig (by simpa [decimalVal] using hle)
                rw [hnum] at this
                exact absurd this (by simp)
          · dsimp only
            have hexact := findIdxNum_exact (t.drop 6) 0 num hnum
            by_cases h3 : num < 1 ∨ num > 65535
            · rw [if_pos h3]
              constructor
              · rintro ⟨e, he, _⟩; exact absurd he (by simp)
              · rintro (hlit | hidx)
                · exact absurd hlit h1
                · rcases hidx with ⟨_, _, hdig, hge, hle, _⟩
                  have hcomp := findIdxNum_complete (t.drop 6) 0 hdig
                    (by simpa [decimalVal] using hle)
                  rw [hnum] at hcomp
                  have : decimalVal (t.drop 6) = num := by
                    simpa [decimalVal] using (Except.ok.inj hcomp).symm
                  omega
            · rw [if_neg h3]
              push_neg at h3
              rcases h3 with ⟨hge, hle⟩
              rcases hexact (by omega) with ⟨hdig, hval⟩
              by_cases h4 : num ≠ 0 ∧ t.getD 6 0 = 48
              · rw [if_pos h4]
                constructor
                · rintro ⟨e, he, _⟩; exact absurd he (by simp)
                · rintro (hlit | hidx)
                  · exact absurd hlit h1
                  · rcases hidx with ⟨_, _, _, _, _, hlz⟩
                    have : decimalVal (t.drop 6) = num := by simpa [decimalVal] using hval
                    exact absurd h4.2 (by rw [← this] at h4; exact hlz (by omega))
              · rw [if_neg h4]
                constructor
                · intro _
                  right
                  have hv : decimalVal (t.drop 6) = num := by simpa [decimalVal] using hval
                  refine ⟨h6, hpre, hdig, by omega, by omega, ?_⟩
                  intro _
                  intro hc
                  exact h4 ⟨by omega, hc⟩
                · intro _
                  exact ⟨_, rfl, rfl⟩

/-- A non-literal indexed match returns the parsed decimal value. -/
theorem buttonMap_indexed_value (t : List Nat) (e : Encoding)
    (hfind : findEncoding t buttonMap = .found e) (hname : e.name = bs ("Button#"))
    (hlit : equalsI t (bs ("Button#")) = false) :
    e.value = decimalVal (t.drop 6) := by
  have ht : t.length ≠ 0 := by
    intro h
    rw [List.length_eq_zero.mp h] at hfind
    simp [findEncoding] at hfind
  rw [findEncoding_buttonMap t ht] at hfind
  by_cases h0 : equalsI t (bs ("NoButtonPressed")) = true
  · rw [if_pos h0, FindRes.found.injEq] at hfind
    rw [← hfind] at hname
    exact absurd hname (by decide)
  · rw [if_neg h0, if_neg (by simp [hlit])] at hfind
    by_cases h2 : t.length ≤ 6 ∨ ¬ startWidthIN (bs ("Button#")) 6 t
    · rw [if_pos h2] at hfind; exact absurd hfind (by simp)
    · rw [if_neg h2] at hfind
      rcases hnum : findIdxNum 0 (t.drop 6) with m | num <;> rw [hnum] at hfind <;>
        dsimp only at hfind
      · exact absurd hfind (by simp)
      · by_cases h3 : num < 1 ∨ num > 65535
        · rw [if_pos h3] at hfind; exact absurd hfind (by simp)
        · rw [if_neg h3] at hfind
          by_cases h4 : num ≠ 0 ∧ t.getD 6 0 = 48
          · rw [if_pos h4] at hfind; exact absurd hfind (by simp)
          · rw [if_neg h4, FindRes.found.injEq] at hfind
            rcases findIdxNum_exact _ 0 num hnum (by omega) with ⟨_, hval⟩
            rw [← hfind]
            simpa [decimalVal] using hval.symm

/-- A failed nonempty lookup in `buttonMap` reports one of the three
argument-name error categories. -/
theorem buttonMap_fail_cases (t : List Nat) (u : Option EMessage) (ht : t ≠ [])
    (hfind : findEncoding t buttonMap = .fail u) :
    u = some E_Invalid_argument_name ∨ u = some E_Unexpected_argument_name_character ∨
      u = some E_Argument_index_out_of_range := by
  have ht0 : t.length ≠ 0 := fun h => ht (List.length_eq_zero.mp h)
  rw [findEncoding_buttonMap t ht0] at hfind
  by_cases h0 : equalsI t (bs ("NoButtonPressed")) = true
  · rw [if_pos h0] at hfind; exact absurd hfind (by simp)
  · rw [if_neg h0] at hfind
    by_cases h1 : equalsI t (bs ("Button#")) = true
    · rw [if_pos h1] at hfind; exact absurd hfind (by simp)
    · rw [if_neg h1] at hfind
      by_cases h2 : t.length ≤ 6 ∨ ¬ startWidthIN (bs ("Button#")) 6 t
      · rw [if_pos h2] at hfind
        left
        rw [FindRes.fail.injEq] at hfind
        exact hfind.symm
      · rw [if_neg h2] at hfind
        rcases hnum : findIdxNum 0 (t.drop 6) with m | num <;> rw [hnum] at hfind <;>
          dsimp only at hfind
        · rw [FindRes.fail.injEq] at hfind
          rcases findIdxNum_err _ 0 m hnum with h | h <;> rw [← hfind, h]
          · right; left; rfl
          · right; right; rfl
        · by_cases h3 : num < 1 ∨ num > 65535
          · rw [if_pos h3, FindRes.fail.injEq] at hfind
            right; right; exact hfind.symm
          · rw [if_neg h3] at hfind
            by_cases h4 : num ≠ 0 ∧ t.getD 6 0 = 48
            · rw [if_pos h4, FindRes.fail.injEq] at hfind
              left; exact hfind.symm
            · rw [if_neg h4] at hfind; exact absurd hfind (by simp)

/-- When the first three entries carry no `#`, `findEncoding` degenerates
to plain case-insensitive lookup: later indexed entries are never
index-matched. -/
theorem findEncodingAux_no_hash (t : List Nat) :
    ∀ (map : List Encoding) (i : Nat),
      (∀ e ∈ map.take (3 - i), strFindChr e.name 35 = none) →
      findEncodingAux t i map = plainFindI t map := by
  intro map
  induction map with
  | nil => intro i _; simp [findEncodingAux, plainFindI]
  | cons e rest ih =>
    intro i hh
    simp only [findEncodingAux, plainFindI]
    by_cases he : equalsI t e.name = true
    · rw [if_pos he, if_pos he]
    · rw [if_neg he, if_neg he]
      by_cases hi : i < 3
      · rw [if_pos hi]
        have hk : ∃ k, 3 - i = k + 1 := ⟨3 - i - 1, by omega⟩
        rcases hk with ⟨k, hk⟩
        have h0 : strFindChr e.name 35 = none := by
          apply hh e
          rw [hk]
          exact List.mem_cons_self e _
        rw [h0]
        exact ih (i + 1) (fun e2 he2 => by
          apply hh e2
          rw [hk]
          apply List.mem_cons_of_mem
          have : 3 - (i + 1) = k := by omega
          rw [this] at he2
          exact he2)
      · rw [if_neg hi]
        exact ih (i + 1) (fun e2 he2 => by
          have : 3 - (i + 1) = 0 := by omega
          rw [this] at he2
          simp at he2)

/-- C5 (amended): `findEncoding` matches a token against the indexed
`Button#` entry pair of `buttonMap` iff the claim's four conditions hold
(prefix equal case-insensitively, all-digit suffix, parsed number in the
declared `[min, max]`, no leading zero unless zero) — or the token is
literally, case-insensitively equal to the full entry name including the
`#`, in which case the range-start entry itself is returned. A
non-literal success synthesizes an entry whose value is the parsed
number; a failed nonempty lookup reports `Invalid_argument_name`,
`Unexpected_argument_name_character` or `Argument_index_out_of_range`
(the latter also on overflow during digit accumulation); and only the
first three entries of a table are ever checked for indexed form: a
table without `#` in its first three entries resolves by plain
case-insensitive lookup no matter what follows. -/
theorem C5_indexed_name_resolution :
    (∀ t : List Nat,
      (∃ e, findEncoding t buttonMap = .found e ∧ e.name = bs ("Button#")) ↔
        (equalsI t (bs ("Button#")) = true ∨ indexedMatch t)) ∧
    (∀ (t : List Nat) (e : Encoding), findEncoding t buttonMap = .found e →
      e.name = bs ("Button#") → equalsI t (bs ("Button#")) = false →
      e.value = decimalVal (t.drop 6)) ∧
    (∀ (t : List Nat) (u : Option EMessage), t ≠ [] →
      findEncoding t buttonMap = .fail u →
      u = some E_Invalid_argument_name ∨ u = some E_Unexpected_argument_name_character ∨
        u = some E_Argument_index_out_of_range) ∧
    (∀ (map : List Encoding) (t : List Nat),
      (∀ e ∈ map.take 3, strFindChr e.name 35 = none) →
      findEncodingAux t 0 map = plainFindI t map) :=
  ⟨buttonMap_indexed_iff, buttonMap_indexed_value, buttonMap_fail_cases,
    fun map t hh => findEncodingAux_no_hash t map 0 (by simpa using hh)⟩

/-- Witness for C5: `Button20` index-matches (via the iff, right-hand
side discharged concretely) and resolves to the synthesized entry with
value 20. -/
theorem C5_indexed_name_resolution_witness :
    (∃ e, findEncoding (bs ("Button20")) buttonMap = .found e ∧ e.name = bs ("Button#")) ∧
    findEncoding (bs ("Button20")) buttonMap =
      .found (Encoding.mk (bs ("Button#")) 20 UT_NONE ArgRef.null) :=
  ⟨(C5_indexed_name_resolution.1 (bs ("Button20"))).mpr
      (Or.inr (by unfold indexedMatch decimalVal decimalValFrom; decide)),
    by decide⟩

/-- The rank never exceeds 2. -/
theorem rank_le_two (src : List Nat) (s : St) : rank src s ≤ 2 := by
  simp only [rank]
  split_ifs <;> omega

/-- The whitespace-skip loop never moves backwards. -/
theorem skipWs_ge (src : List Nat) (len : Nat) :
    ∀ fuel n, n ≤ skipWs src len fuel n := by
  intro fuel
  induction fuel with
  | zero => intro n; simp [skipWs]
  | succ f ih =>
    intro n
    unfold skipWs
    split
    · exact le_trans (by omega) (ih (n + 1))
    · exact le_refl n

/-- The whitespace-skip loop stays below `len`. -/
theorem skipWs_lt (src : List Nat) (len : Nat) :
    ∀ fuel n, n < len → skipWs src len fuel n < len := by
  intro fuel
  induction fuel with
  | zero => intro n h; simpa [skipWs] using h
  | succ f ih =>
    intro n h
    unfold skipWs
    split
    · rename_i hc
      exact ih (n + 1) hc.1
    · exact h

/-- Every byte the whitespace-skip loop moved past is whitespace. -/
theorem skipWs_mid (src : List Nat) (len : Nat) :
    ∀ fuel n i, n < i → i ≤ skipWs src len fuel n → isWhitespace (byteAt src i) = true := by
  intro fuel
  induction fuel with
  | zero => intro n i h1 h2; simp [skipWs] at h2; omega
  | succ f ih =>
    intro n i h1 h2
    unfold skipWs at h2
    split at h2
    · rename_i hc
      rcases Nat.lt_or_ge n.succ i with h3 | h3
      · exact ih (n + 1) i h3 h2
      · have : i = n + 1 := by omega
        subst this
        exact hc.2
    · omega

/-- `wsSkipToParen` never moves backwards. -/
theorem wsSkipToParen_ge (src : List Nat) (len : Nat) (n : Nat) :
    n ≤ wsSkipToParen src len n := by
  simp only [wsSkipToParen]
  have := skipWs_ge src len len n
  split <;> omega

/-- `wsSkipToParen` stays below `len`. -/
theorem wsSkipToParen_lt (src : List Nat) (len : Nat) (n : Nat) (h : n < len) :
    wsSkipToParen src len n < len := by
  simp only [wsSkipToParen]
  have := skipWs_lt src len len n h
  split <;> rename_i hc
  · omega
  · exact this

/-- Every byte `wsSkipToParen` moved past is whitespace or `(`. -/
theorem wsSkipToParen_mid (src : List Nat) (len : Nat) (n : Nat) :
    ∀ i, n < i → i ≤ wsSkipToParen src len n → byteAt src i ≠ 0 := by
  intro i h1 h2
  simp only [wsSkipToParen] at h2
  split at h2 <;> rename_i hc
  · rcases Nat.lt_or_ge (skipWs src len len n) i with h3 | h3
    · have : i = skipWs src len len n + 1 := by omega
      subst this
      rw [hc.2]
      omega
    · have := skipWs_mid src len len n i h1 h3
      simp only [isWhitespace, decide_eq_true_eq] at this
      omega
  · have := skipWs_mid src len len n i h1 h2
    simp only [isWhitespace, decide_eq_true_eq] at this
    omega

/-- The cursor-move fact bounds the new position by any NUL at or after
the old one. -/
theorem nAdvance_bound (src : List Nat) (s s2 : St) (h : nAdvance src s s2)
    (h0 : byteAt src s.n ≠ 0) :
    ∀ k, s.n ≤ k → byteAt src k = 0 → s2.n ≤ k := by
  intro k hk hz
  rcases h with h | ⟨w, hw, hnw, hmid⟩
  · omega
  · rcases Nat.lt_or_ge k (w + 1) with h3 | h3
    · have hkn : k ≠ s.n := fun e => h0 (e ▸ hz)
      exact absurd hz (hmid k (by omega) (by omega))
    · omega

theorem stepStart_next (src : List Nat) (len : Nat) (params : List Param) (s s2 : St)
    (hf : s.flags = Flags.clear) (h : stepStart src len s = .next s2) :
    nextOk src len s s2 := by
  simp only [stepStart] at h
  split_ifs at h <;> cases h <;>
    refine ⟨fun _ => ?_, fun _ => ?_, ?_, fun hx => hx, fun hx => hx,
      Or.inl ⟨rfl, rfl, rfl, rfl⟩, rfl⟩ <;>
    first
    | (unfold nAdvance; left; rfl)
    | (unfold nAdvance; right;
        first
        | exact ⟨s.n, rfl, le_refl _, fun i h1 h2 => absurd h1 (by omega)⟩
        | exact ⟨s.n + 1, rfl, by omega, fun i h1 h2 => by
            have hi : i = s.n + 1 := by omega
            subst hi
            simp_all⟩)
    | (simp [FlagsWF, hf, Flags.clear]; done)
    | (left; dsimp only; omega)
    | (right; exact ⟨rfl, by simp_all [rank, Flags.clear]⟩)

theorem stepComment_next (src : List Nat) (len : Nat) (s s2 : St)
    (h : stepComment src s = .next s2) : nextOk src len s s2 := by
  simp only [stepComment] at h
  split_ifs at h <;> cases h <;>
    exact ⟨fun hwf => by simp_all [FlagsWF, Flags.clear],
      fun _ => by left; dsimp only; omega,
      Or.inr ⟨s.n, rfl, le_refl _, fun i h1 h2 => absurd h1 (by omega)⟩,
      fun hx => hx, fun hx => hx, Or.inl ⟨rfl, rfl, rfl, rfl⟩, rfl⟩

theorem stepParam_next (src : List Nat) (len : Nat) (params : List Param) (s s2 : St)
    (h : stepParam src params s = .next s2) : nextOk src len s s2 := by
  simp only [stepParam] at h
  split_ifs at h <;> cases h <;>
    exact ⟨fun hwf => by simp_all [FlagsWF],
      fun _ => by left; dsimp only; omega,
      Or.inr ⟨s.n, rfl, le_refl _, fun i h1 h2 => absurd h1 (by omega)⟩,
      fun hx => hx, fun hx => hx, Or.inl ⟨rfl, rfl, rfl, rfl⟩, rfl⟩

/-- Messages a failed `findEncoding` can set. -/
theorem findEncoding_fail_msg (t : List Nat) (map : List Encoding) (m : EMessage)
    (h : findEncoding t map = .fail (some m)) :
    m = E_Internal_error ∨ m = E_Invalid_argument_name ∨
      m = E_Unexpected_argument_name_character ∨ m = E_Argument_index_out_of_range := by
  unfold findEncoding at h
  split_ifs at h
  · simp at h
  · rename_i ht
    revert h
    generalize 0 = i
    induction map generalizing i with
    | nil => intro h; simp [findEncodingAux] at h
    | cons e rest ih =>
      intro h
      simp only [findEncodingAux] at h
      split_ifs at h
      case neg => exact ih (i + 1) h
      case pos =>
        cases hs : strFindChr e.name 35 with
        | none =>
          rw [hs] at h
          dsimp only at h
          exact ih (i + 1) h
        | some idx =>
          rw [hs] at h
          dsimp only at h
          split_ifs at h
          · simp at h
            subst h
            tauto
          · simp at h
            subst h
            tauto
          · cases hnum : findIdxNum 0 (t.drop idx) with
            | error m2 =>
              rw [hnum] at h
              dsimp only at h
              simp at h
              subst h
              rcases findIdxNum_err _ 0 m2 hnum with h2 | h2 <;> rw [h2] <;> tauto
            | ok num =>
              rw [hnum] at h
              dsimp only at h
              split_ifs at h
              · simp at h
                subst h
                tauto
              · simp at h
                subst h
                tauto

theorem itemClose_next (S : St) (e : Encoding) (c2 n2 : Nat) (s2 : St)
    (h : itemClose S e c2 n2 = .next s2) :
    s2.n = n2 + 1 ∧ s2.trace = S.trace ∧ s2.events = S.events ∧
    s2.reportSizes = S.reportSizes ∧ s2.reportCounts = S.reportCounts ∧
    s2.hasUsagePage = S.hasUsagePage ∧ s2.colLevel = S.colLevel ∧
    s2.delimLevel = S.delimLevel ∧
    s2.flags.comment = S.flags.comment ∧ s2.flags.inItem = S.flags.inItem ∧
    s2.flags.inParam = S.flags.inParam ∧ s2.flags.inArg = S.flags.inArg ∧
    s2.flags.hexLit = S.flags.hexLit ∧ s2.flags.numLit = S.flags.numLit ∧
    s2.flags.inUnit = S.flags.inUnit ∧ s2.flags.unitExp = S.flags.unitExp ∧
    (s2.flags.argList = S.flags.argList ∨ s2.flags.argList = true) := by
  simp only [itemClose] at h
  split_ifs at h <;> cases h <;> simp_all

theorem eventsStep_carry (s S s2 : St) (h : eventsStep s S)
    (hev : s2.events = S.events) (hrs : s2.reportSizes = S.reportSizes)
    (hrc : s2.reportCounts = S.reportCounts) (hup : s2.hasUsagePage = S.hasUsagePage) :
    eventsStep s s2 := by
  unfold eventsStep at *
  rw [hev, hrs, hrc, hup]
  exact h

theorem stepItem_finish (src : List Nat) (len : Nat) (s : St) (e : Encoding) (n2 : Nat)
    (S s2 : St) (h : itemClose S e (byteAt src n2) n2 = .next s2)
    (hge : s.n ≤ n2) (hmid : ∀ i, s.n < i → i ≤ n2 → byteAt src i ≠ 0)
    (hfl : S.flags = { s.flags with inItem := false })
    (hcol : 0 ≤ s.colLevel → 0 ≤ S.colLevel)
    (hdel : S.delimLevel = s.delimLevel)
    (hev : eventsStep s S)
    (htr : S.trace = s.trace) :
    nextOk src len s s2 := by
  rcases itemClose_next S e _ n2 s2 h with
    ⟨hn, htr2, hev2, hrs2, hrc2, hup2, hcol2, hdel2, hf1, hf2, hf3, hf4, hf5, hf6, hf7, hf8, hf9⟩
  refine ⟨?_, fun _ => by left; omega, Or.inr ⟨n2, by omega, hge, hmid⟩,
    fun hx => by rw [hcol2]; exact hcol hx, fun hx => by rw [hdel2, hdel]; exact hx,
    eventsStep_carry s S s2 hev hev2 hrs2 hrc2 hup2, by rw [htr2, htr]⟩
  intro hwf
  rw [hfl] at hf1 hf2 hf3 hf4 hf5 hf6 hf7 hf8 hf9
  simp only at hf1 hf2 hf3 hf4 hf5 hf6 hf7 hf8 hf9
  unfold FlagsWF at hwf ⊢
  refine ⟨?_, ?_, ?_⟩
  · rw [hf7, hf8]; exact hwf.1
  · intro ha
    rw [hf4] at ha
    rcases hwf.2.1 ha with ⟨hal, hhx, hnm⟩
    refine ⟨?_, by rw [hf5]; exact hhx, by rw [hf6]; exact hnm⟩
    rcases hf9 with h9 | h9
    · rw [h9]; exact hal
    · exact h9
  · rw [hf5, hf6]; exact hwf.2.2

theorem stepItem_next (src : List Nat) (len : Nat) (s s2 : St)
    (h : stepItem src len s = .next s2) : nextOk src len s s2 := by
  simp only [stepItem] at h
  by_cases h1 : isItemChar (byteAt src s.n) = true
  · rw [if_pos h1] at h
    cases h
    exact ⟨fun hwf => by simp_all [FlagsWF], fun _ => by left; dsimp only; omega,
      Or.inr ⟨s.n, rfl, le_refl _, fun i hi1 hi2 => absurd hi1 (by omega)⟩,
      fun hx => hx, fun hx => hx, Or.inl ⟨rfl, rfl, rfl, rfl⟩, rfl⟩
  · rw [if_neg h1] at h
    by_cases h2 : isWhitespace (byteAt src s.n) = true ∨ byteAt src s.n = 40
    · rw [if_pos h2] at h
      set n2 := (if isWhitespace (byteAt src s.n) = true then wsSkipToParen src len s.n
        else s.n) with hn2
      have hge : s.n ≤ n2 := by
        rw [hn2]; split
        · exact wsSkipToParen_ge src len s.n
        · exact le_refl s.n
      have hmid : ∀ i, s.n < i → i ≤ n2 → byteAt src i ≠ 0 := by
        rw [hn2]; split
        · exact wsSkipToParen_mid src len s.n
        · intro i hi1 hi2; exact absurd hi1 (by omega)
      cases hfe : findEncoding (tokenBytes src s.tItem) itemMap with
      | fail u => rw [hfe] at h; dsimp only at h; simp at h
      | found e =>
        rw [hfe] at h
        dsimp only at h
        split_ifs at h <;> dsimp only at * <;>
          first
          | exact stepItem_finish src len s e n2 _ s2 h hge hmid rfl
              (fun hx => by dsimp only; omega) rfl (Or.inl ⟨rfl, rfl, rfl, rfl⟩) rfl
          | exact stepItem_finish src len s e n2 _ s2 h hge hmid rfl
              (fun hx => by dsimp only; omega) rfl
              (Or.inr (Or.inl ⟨rfl, rfl, rfl, rfl⟩)) rfl
          | exact stepItem_finish src len s e n2 _ s2 h hge hmid rfl
              (fun hx => by dsimp only; omega) rfl
              (Or.inr (Or.inr (Or.inl ⟨rfl, rfl, rfl, rfl, by omega⟩))) rfl
    · rw [if_neg h2] at h
      simp at h

theorem argResolve_next (src : List Nat) (s1 : St) (c : Nat) (s2 : St)
    (h : argResolve src s1 c = .next s2) :
    s2.flags = s1.flags ∧ s2.trace = s1.trace ∧ s2.events = s1.events ∧
    s2.reportSizes = s1.reportSizes ∧ s2.reportCounts = s1.reportCounts ∧
    s2.hasUsagePage = s1.hasUsagePage ∧ s2.colLevel = s1.colLevel ∧
    s2.delimLevel = s1.delimLevel ∧
    ((c = 41 ∧ s2.n = s1.n ∧ s2.hasArg = true) ∨ s2.n = s1.n + 1) := by
  simp only [argResolve] at h
  cases hfe : findEncoding (tokenBytes src s1.tArg) (tableOf (curArg s1)) with
  | fail u => rw [hfe] at h; simp at h
  | found encItem =>
    rw [hfe] at h
    dsimp only at h
    by_cases hc : c = 41
    · rw [if_pos hc] at h
      split_ifs at h <;> cases h <;>
        exact ⟨rfl, rfl, rfl, rfl, rfl, rfl, rfl, rfl, Or.inl ⟨hc, rfl, by subst hc; simp⟩⟩
    · rw [if_neg hc] at h
      split_ifs at h <;> cases h <;>
        exact ⟨rfl, rfl, rfl, rfl, rfl, rfl, rfl, rfl, Or.inr rfl⟩

theorem argResolve_finish (src : List Nat) (len : Nat) (s s1v s2 : St)
    (hfc : s.flags.comment = false) (hfp : s.flags.inParam = false)
    (hfi : s.flags.inItem = false) (hfa : s.flags.inArg = true)
    (hUD : s.flags.unitDesc = false) (hUS : s.flags.unitSys = false)
    (hAC : isArgChar (byteAt src s.n) = false)
    (h : argResolve src s1v (byteAt src s.n) = .next s2)
    (hfl1 : s1v.flags = { s.flags with inArg := false })
    (hn1 : s1v.n = s.n) (htr1 : s1v.trace = s.trace) (hev1 : s1v.events = s.events)
    (hrs1 : s1v.reportSizes = s.reportSizes) (hrc1 : s1v.reportCounts = s.reportCounts)
    (hup1 : s1v.hasUsagePage = s.hasUsagePage) (hcol1 : s1v.colLevel = s.colLevel)
    (hdel1 : s1v.delimLevel = s.delimLevel) :
    nextOk src len s s2 := by
  rcases argResolve_next src s1v _ s2 h with
    ⟨hfl2, htr2, hev2, hrs2, hrc2, hup2, hcol2, hdel2, hn2⟩
  refine ⟨?_, ?_, ?_, fun hx => by rw [hcol2, hcol1]; exact hx,
    fun hx => by rw [hdel2, hdel1]; exact hx,
    Or.inl ⟨by rw [hev2, hev1], by rw [hrs2, hrs1], by rw [hrc2, hrc1], by rw [hup2, hup1]⟩,
    by rw [htr2, htr1]⟩
  · intro hwf
    rw [hfl2, hfl1]
    unfold FlagsWF at hwf ⊢
    exact ⟨hwf.1, fun ha => absurd ha (by simp), hwf.2.2⟩
  · intro hwf
    rcases hn2 with ⟨hc41, hnn, hha⟩ | hnn
    · right
      refine ⟨by rw [hnn, hn1], ?_⟩
      obtain ⟨hal, hhx, hnm⟩ := hwf.2.1 hfa
      simp [rank, hfl2, hfl1, hfc, hfp, hfi, hfa, hUD, hUS, hAC, hal, hhx, hnm, hha]
    · left
      rw [hnn, hn1]
      omega
  · unfold nAdvance
    rcases hn2 with ⟨hc41, hnn, hha⟩ | hnn
    · left; rw [hnn, hn1]
    · right
      exact ⟨s.n, by rw [hnn, hn1], le_refl _, fun i h1 h2 => absurd h1 (by omega)⟩

theorem stepArg_next (src : List Nat) (len : Nat) (s s2 : St)
    (hfc : s.flags.comment = false) (hfp : s.flags.inParam = false)
    (hfi : s.flags.inItem = false) (hfa : s.flags.inArg = true)
    (h : stepArg src len s = .next s2) : nextOk src len s s2 := by
  simp only [stepArg] at h
  by_cases hUD : s.flags.unitDesc = true
  · rw [if_pos hUD] at h
    by_cases hIU : s.flags.inUnit = true
    · rw [if_pos hIU] at h
      by_cases hA : isAlpha (byteAt src s.n) = true
      · rw [if_pos hA] at h
        cases h
        exact ⟨fun hwf => hwf, fun _ => by left; dsimp only; omega,
          Or.inr ⟨s.n, rfl, le_refl _, fun i h1 h2 => absurd h1 (by omega)⟩,
          fun hx => hx, fun hx => hx, Or.inl ⟨rfl, rfl, rfl, rfl⟩, rfl⟩
      · rw [if_neg hA] at h
        by_cases hT : isWhitespace (byteAt src s.n) = true ∨ byteAt src s.n = 41 ∨
            byteAt src s.n = 94
        · rw [if_pos hT] at h
          cases hfe : findEncoding (tokenBytes src s.tArg) (tableOf (curArg s)) with
          | fail u => rw [hfe] at h; simp at h
          | found u =>
            rw [hfe] at h
            dsimp only at h
            by_cases h94 : byteAt src s.n = 94
            · rw [if_pos h94] at h
              cases h
              exact ⟨fun hwf => by simp_all [FlagsWF], fun _ => by left; dsimp only; omega,
                Or.inr ⟨s.n, rfl, le_refl _, fun i h1 h2 => absurd h1 (by omega)⟩,
                fun hx => hx, fun hx => hx, Or.inl ⟨rfl, rfl, rfl, rfl⟩, rfl⟩
            · rw [if_neg h94] at h
              cases h
              refine ⟨fun hwf => by simp_all [FlagsWF], fun hwf => ?_,
                Or.inl rfl, fun hx => hx, fun hx => hx, Or.inl ⟨rfl, rfl, rfl, rfl⟩, rfl⟩
              right
              refine ⟨rfl, ?_⟩
              have hUE : s.flags.unitExp = false := by
                cases hxx : s.flags.unitExp
                · rfl
                · exact absurd ⟨hIU, hxx⟩ hwf.1
              simp [rank, hfc, hfp, hfi, hfa, hUD, hIU, hUE]
        · rw [if_neg hT] at h
          simp at h
    · rw [if_neg hIU] at h
      by_cases hUE : s.flags.unitExp = true
      · rw [if_pos hUE] at h
        by_cases h45 : byteAt src s.n = 45
        · rw [if_pos h45] at h
          by_cases hlen : s.tArg.length > 0
          · rw [if_pos hlen] at h; simp at h
          · rw [if_neg hlen] at h
            cases h
            exact ⟨fun hwf => hwf, fun _ => by left; dsimp only; omega,
              Or.inr ⟨s.n, rfl, le_refl _, fun i h1 h2 => absurd h1 (by omega)⟩,
              fun hx => hx, fun hx => hx, Or.inl ⟨rfl, rfl, rfl, rfl⟩, rfl⟩
        · rw [if_neg h45] at h
          by_cases hD : isDigit (byteAt src s.n) = true
          · rw [if_pos hD] at h
            cases h
            exact ⟨fun hwf => hwf, fun _ => by left; dsimp only; omega,
              Or.inr ⟨s.n, rfl, le_refl _, fun i h1 h2 => absurd h1 (by omega)⟩,
              fun hx => hx, fun hx => hx, Or.inl ⟨rfl, rfl, rfl, rfl⟩, rfl⟩
          · rw [if_neg hD] at h
            cases hfe : findEncoding (tokenBytes src s.tArg)
                (tableOf (argOfOpt s.encUnit)) with
            | fail u => rw [hfe] at h; simp at h
            | found ex =>
              rw [hfe] at h
              dsimp only at h
              cases h
              refine ⟨fun hwf => by simp_all [FlagsWF], fun hwf => ?_,
                Or.inl rfl, fun hx => hx, fun hx => hx, Or.inl ⟨rfl, rfl, rfl, rfl⟩, rfl⟩
              right
              refine ⟨rfl, ?_⟩
              have hIU2 : s.flags.inUnit = false := by
                cases hxx : s.flags.inUnit
                · rfl
                · exact absurd hxx hIU
              simp [rank, hfc, hfp, hfi, hfa, hUD, hIU2, hUE]
      · rw [if_neg hUE] at h
        by_cases hA : isAlpha (byteAt src s.n) = true
        · rw [if_pos hA] at h
          cases h
          exact ⟨fun hwf => by simp_all [FlagsWF], fun _ => by left; dsimp only; omega,
            Or.inr ⟨s.n, rfl, le_refl _, fun i h1 h2 => absurd h1 (by omega)⟩,
            fun hx => hx, fun hx => hx, Or.inl ⟨rfl, rfl, rfl, rfl⟩, rfl⟩
        · rw [if_neg hA] at h
          by_cases h41 : byteAt src s.n = 41
          · rw [if_pos h41] at h
            cases h
            exact ⟨fun hwf => by simp_all [FlagsWF], fun _ => by left; dsimp only; omega,
              Or.inr ⟨s.n, rfl, le_refl _, fun i h1 h2 => absurd h1 (by omega)⟩,
              fun hx => hx, fun hx => hx, Or.inl ⟨rfl, rfl, rfl, rfl⟩, rfl⟩
          · rw [if_neg h41] at h
            by_cases hW : ¬ isWhitespace (byteAt src s.n) = true
            · rw [if_pos hW] at h; simp at h
            · rw [if_neg hW] at h
              cases h
              exact ⟨fun hwf => hwf, fun _ => by left; dsimp only; omega,
                Or.inr ⟨s.n, rfl, le_refl _, fun i h1 h2 => absurd h1 (by omega)⟩,
                fun hx => hx, fun hx => hx, Or.inl ⟨rfl, rfl, rfl, rfl⟩, rfl⟩
  · rw [if_neg hUD] at h
    have hUD2 : s.flags.unitDesc = false := by
      cases hxx : s.flags.unitDesc
      · rfl
      · exact absurd hxx hUD
    by_cases hAC : isArgChar (byteAt src s.n) = true
    · rw [if_pos hAC] at h
      cases h
      exact ⟨fun hwf => hwf, fun _ => by left; dsimp only; omega,
        Or.inr ⟨s.n, rfl, le_refl _, fun i h1 h2 => absurd h1 (by omega)⟩,
        fun hx => hx, fun hx => hx, Or.inl ⟨rfl, rfl, rfl, rfl⟩, rfl⟩
    · rw [if_neg hAC] at h
      have hAC2 : isArgChar (byteAt src s.n) = false := by
        cases hxx : isArgChar (byteAt src s.n)
        · rfl
        · exact absurd hxx hAC
      by_cases hUS : s.flags.unitSys = true
      · rw [if_pos hUS] at h
        by_cases hHA : s.hasArg = true
        · rw [if_pos hHA] at h; simp at h
        · rw [if_neg hHA] at h
          by_cases hWP : isWhitespace (byteAt src s.n) = true ∨ byteAt src s.n = 40
          · rw [if_pos hWP] at h
            set n2 := (if isWhitespace (byteAt src s.n) = true then wsSkipToParen src len s.n
              else s.n) with hn2
            have hge : s.n ≤ n2 := by
              rw [hn2]; split
              · exact wsSkipToParen_ge src len s.n
              · exact le_refl s.n
            have hmid : ∀ i, s.n < i → i ≤ n2 → byteAt src i ≠ 0 := by
              rw [hn2]; split
              · exact wsSkipToParen_mid src len s.n
              · intro i hi1 hi2; exact absurd hi1 (by omega)
            cases hfe : findEncoding (tokenBytes src s.tArg) (tableOf (curArg s)) with
            | fail u => rw [hfe] at h; simp at h
            | found sysE =>
              rw [hfe] at h
              dsimp only at h
              cases h
              exact ⟨fun hwf => by simp_all [FlagsWF], fun _ => by left; dsimp only; omega,
                Or.inr ⟨n2, rfl, hge, hmid⟩,
                fun hx => hx, fun hx => hx, Or.inl ⟨rfl, rfl, rfl, rfl⟩, rfl⟩
          · rw [if_neg hWP] at h
            by_cases h41b : byteAt src s.n = 41
            · rw [if_pos h41b] at h
              cases h
              refine ⟨fun hwf => by simp_all [FlagsWF], fun hwf => ?_,
                Or.inl rfl, fun hx => hx, fun hx => hx, Or.inl ⟨rfl, rfl, rfl, rfl⟩, rfl⟩
              right
              exact ⟨rfl, by simp [rank, hfc, hfp, hfi, hfa, hUD2, hAC2, hUS]⟩
            · rw [if_neg h41b] at h
              simp at h
      · rw [if_neg hUS] at h
        have hUS2 : s.flags.unitSys = false := by
          cases hxx : s.flags.unitSys
          · rfl
          · exact absurd hxx hUS
        by_cases hTE : isWhitespace (byteAt src s.n) = true ∨ byteAt src s.n = 41 ∨
            (s.multiArg = true ∧ byteAt src s.n = 44)
        · rw [if_pos hTE] at h
          dsimp only at h
          have hcur : curArg { s with flags := { s.flags with inArg := false } } = curArg s :=
            rfl
          rw [hcur] at h
          by_cases hUA : curArg s = ArgRef.usageArg
          · rw [if_pos hUA] at h
            by_cases hNull : upNullOrArgless s.usagePage = true
            · rw [if_pos hNull] at h
              simp at h
            · rw [if_neg hNull] at h
              exact argResolve_finish src len s _ s2 hfc hfp hfi hfa hUD2 hUS2 hAC2
                h rfl rfl rfl rfl rfl rfl rfl rfl rfl
          · rw [if_neg hUA] at h
            exact argResolve_finish src len s _ s2 hfc hfp hfi hfa hUD2 hUS2 hAC2
              h rfl rfl rfl rfl rfl rfl rfl rfl rfl
        · rw [if_neg hTE] at h
          simp at h

theorem stepHex_next (src : List Nat) (len : Nat) (s s2 : St)
    (hfc : s.flags.comment = false) (hfp : s.flags.inParam = false)
    (hfi : s.flags.inItem = false) (hfa : s.flags.inArg = false)
    (hfh : s.flags.hexLit = true)
    (h : stepHex src s = .next s2) : nextOk src len s s2 := by
  simp only [stepHex] at h
  by_cases hHD : isHexDigit (byteAt src s.n) = true
  · rw [if_pos hHD] at h
    split_ifs at h
    cases h
    exact ⟨fun hwf => hwf, fun _ => by left; dsimp only; omega,
      Or.inr ⟨s.n, rfl, le_refl _, fun i h1 h2 => absurd h1 (by omega)⟩,
      fun hx => hx, fun hx => hx, Or.inl ⟨rfl, rfl, rfl, rfl⟩, rfl⟩
  · rw [if_neg hHD] at h
    have hHD2 : isHexDigit (byteAt src s.n) = false := by
      cases hxx : isHexDigit (byteAt src s.n)
      · rfl
      · exact absurd hxx hHD
    by_cases hAL : s.flags.argList = true
    · rw [if_pos hAL] at h
      by_cases hT : isWhitespace (byteAt src s.n) = true ∨ byteAt src s.n = 41 ∨
          (s.multiArg = true ∧ byteAt src s.n = 44)
      · rw [if_pos hT] at h
        by_cases h41 : byteAt src s.n = 41
        · rw [if_pos h41] at h
          split_ifs at h
          cases h
          refine ⟨fun hwf => by simp_all [FlagsWF], fun hwf => ?_, Or.inl rfl,
            fun hx => hx, fun hx => hx, Or.inl ⟨rfl, rfl, rfl, rfl⟩, rfl⟩
          right
          refine ⟨rfl, ?_⟩
          have hnm : s.flags.numLit = false := by
            cases hxx : s.flags.numLit
            · rfl
            · exact absurd ⟨hfh, hxx⟩ hwf.2.2
          simp [rank, hfc, hfp, hfi, hfa, hfh, hHD2, hAL, hnm, h41, isHexDigit, isDigit]
        · rw [if_neg h41] at h
          split_ifs at h
          cases h
          exact ⟨fun hwf => by simp_all [FlagsWF], fun _ => by left; dsimp only; omega,
            Or.inr ⟨s.n, rfl, le_refl _, fun i h1 h2 => absurd h1 (by omega)⟩,
            fun hx => hx, fun hx => hx, Or.inl ⟨rfl, rfl, rfl, rfl⟩, rfl⟩
      · rw [if_neg hT] at h
        simp at h
    · rw [if_neg hAL] at h
      by_cases hW : isWhitespace (byteAt src s.n) = true
      · rw [if_pos hW] at h
        cases h
        exact ⟨fun hwf => by simp_all [FlagsWF], fun _ => by left; dsimp only; omega,
          Or.inr ⟨s.n, rfl, le_refl _, fun i h1 h2 => absurd h1 (by omega)⟩,
          fun hx => hx, fun hx => hx, Or.inl ⟨rfl, rfl, rfl, rfl⟩, rfl⟩
      · rw [if_neg hW] at h
        simp at h

theorem stepNum_next (src : List Nat) (len : Nat) (s s2 : St)
    (hfc : s.flags.comment = false) (hfp : s.flags.inParam = false)
    (hfi : s.flags.inItem = false) (hfa : s.flags.inArg = false)
    (hfh : s.flags.hexLit = false) (hfn : s.flags.numLit = true)
    (h : stepNum src s = .next s2) : nextOk src len s s2 := by
  simp only [stepNum] at h
  by_cases hD : isDigit (byteAt src s.n) = true
  · rw [if_pos hD] at h
    split_ifs at h
    cases h
    exact ⟨fun hwf => hwf, fun _ => by left; dsimp only; omega,
      Or.inr ⟨s.n, rfl, le_refl _, fun i h1 h2 => absurd h1 (by omega)⟩,
      fun hx => hx, fun hx => hx, Or.inl ⟨rfl, rfl, rfl, rfl⟩, rfl⟩
  · rw [if_neg hD] at h
    have hD2 : isDigit (byteAt src s.n) = false := by
      cases hxx : isDigit (byteAt src s.n)
      · rfl
      · exact absurd hxx hD
    by_cases hAL : s.flags.argList = true
    · rw [if_pos hAL] at h
      by_cases hT : isWhitespace (byteAt src s.n) = true ∨ byteAt src s.n = 41 ∨
          (s.multiArg = true ∧ byteAt src s.n = 44)
      · rw [if_pos hT] at h
        by_cases h41 : byteAt src s.n = 41
        · rw [if_pos h41] at h
          split_ifs at h <;> cases h <;>
            refine ⟨fun hwf => by simp_all [FlagsWF], fun hwf => ?_, Or.inl rfl,
              fun hx => hx, fun hx => hx, Or.inl ⟨rfl, rfl, rfl, rfl⟩, rfl⟩ <;>
            exact Or.inr ⟨rfl, by
              simp [rank, hfc, hfp, hfi, hfa, hfh, hfn, hD2, hAL, h41, isDigit]⟩
        · rw [if_neg h41] at h
          split_ifs at h <;> cases h <;>
            exact ⟨fun hwf => by simp_all [FlagsWF], fun _ => by left; dsimp only; omega,
              Or.inr ⟨s.n, rfl, le_refl _, fun i h1 h2 => absurd h1 (by omega)⟩,
              fun hx => hx, fun hx => hx, Or.inl ⟨rfl, rfl, rfl, rfl⟩, rfl⟩
      · rw [if_neg hT] at h
        simp at h
    · rw [if_neg hAL] at h
      by_cases hW : isWhitespace (byteAt src s.n) = true
      · rw [if_pos hW] at h
        cases h
        exact ⟨fun hwf => by simp_all [FlagsWF], fun _ => by left; dsimp only; omega,
          Or.inr ⟨s.n, rfl, le_refl _, fun i h1 h2 => absurd h1 (by omega)⟩,
          fun hx => hx, fun hx => hx, Or.inl ⟨rfl, rfl, rfl, rfl⟩, rfl⟩
      · rw [if_neg hW] at h
        simp at h

theorem stepArgList_next (src : List Nat) (len : Nat) (s s2 : St)
    (hfc : s.flags.comment = false) (hfp : s.flags.inParam = false)
    (hfi : s.flags.inItem = false) (hfa : s.flags.inArg = false)
    (hfh : s.flags.hexLit = false) (hfn : s.flags.numLit = false)
    (hAL : s.flags.argList = true)
    (h : stepArgList src len s = .next s2) : nextOk src len s s2 := by
  simp only [stepArgList, finishArgList] at h
  by_cases hHA : s.hasArg = true
  · rw [if_pos hHA] at h
    by_cases h41 : byteAt src s.n = 41
    · rw [if_pos h41] at h
      split_ifs at h <;> cases h <;>
        refine ⟨fun hwf => by simp_all [FlagsWF], fun _ => by left; dsimp only; omega,
          Or.inr ⟨s.n, rfl, le_refl _, fun i h1 h2 => absurd h1 (by omega)⟩,
          fun hx => by dsimp only; omega, fun hx => by dsimp only; omega, ?_, rfl⟩ <;>
        first
        | exact Or.inl ⟨rfl, rfl, rfl, rfl⟩
        | exact Or.inr (Or.inr (Or.inr (Or.inl ⟨rfl, rfl, rfl, rfl⟩)))
        | exact Or.inr (Or.inr (Or.inr (Or.inr (Or.inl ⟨rfl, rfl, rfl, rfl⟩))))
        | exact Or.inr (Or.inr (Or.inr (Or.inr (Or.inr ⟨rfl, rfl, rfl, rfl⟩))))
    · rw [if_neg h41] at h
      by_cases hMA : s.multiArg = true ∧ byteAt src s.n = 44
      · rw [if_pos hMA] at h
        cases h
        exact ⟨fun hwf => hwf, fun _ => by left; dsimp only; omega,
          Or.inr ⟨s.n, rfl, le_refl _, fun i h1 h2 => absurd h1 (by omega)⟩,
          fun hx => hx, fun hx => hx, Or.inl ⟨rfl, rfl, rfl, rfl⟩, rfl⟩
      · rw [if_neg hMA] at h
        by_cases hW : ¬ isWhitespace (byteAt src s.n) = true
        · rw [if_pos hW] at h
          simp at h
        · rw [if_neg hW] at h
          cases h
          exact ⟨fun hwf => hwf, fun _ => by left; dsimp only; omega,
            Or.inr ⟨s.n, rfl, le_refl _, fun i h1 h2 => absurd h1 (by omega)⟩,
            fun hx => hx, fun hx => hx, Or.inl ⟨rfl, rfl, rfl, rfl⟩, rfl⟩
  · rw [if_neg hHA] at h
    have hHA2 : s.hasArg = false := by
      cases hxx : s.hasArg
      · rfl
      · exact absurd hxx hHA
    by_cases hIC : isItemChar (byteAt src s.n) = true
    · rw [if_pos hIC] at h
      cases h
      exact ⟨fun hwf => by simp_all [FlagsWF], fun _ => by left; dsimp only; omega,
        Or.inr ⟨s.n, rfl, le_refl _, fun i h1 h2 => absurd h1 (by omega)⟩,
        fun hx => hx, fun hx => hx, Or.inl ⟨rfl, rfl, rfl, rfl⟩, rfl⟩
    · rw [if_neg hIC] at h
      by_cases hHX : byteAt src s.n = 48 ∧ s.n + 1 < len ∧ byteAt src (s.n + 1) = 120
      · rw [if_pos hHX] at h
        split_ifs at h
        cases h
        refine ⟨fun hwf => by simp_all [FlagsWF], fun _ => by left; dsimp only; omega,
          Or.inr ⟨s.n + 1, rfl, by omega, fun i h1 h2 => by
            have hi : i = s.n + 1 := by omega
            subst hi
            simp_all⟩,
          fun hx => hx, fun hx => hx, Or.inl ⟨rfl, rfl, rfl, rfl⟩, rfl⟩
      · rw [if_neg hHX] at h
        by_cases h45 : byteAt src s.n = 45
        · rw [if_pos h45] at h
          split_ifs at h
          cases h
          exact ⟨fun hwf => by simp_all [FlagsWF], fun _ => by left; dsimp only; omega,
            Or.inr ⟨s.n, rfl, le_refl _, fun i h1 h2 => absurd h1 (by omega)⟩,
            fun hx => hx, fun hx => hx, Or.inl ⟨rfl, rfl, rfl, rfl⟩, rfl⟩
        · rw [if_neg h45] at h
          by_cases hD : isDigit (byteAt src s.n) = true
          · rw [if_pos hD] at h
            cases h
            refine ⟨fun hwf => by simp_all [FlagsWF], fun hwf => ?_, Or.inl rfl,
              fun hx => hx, fun hx => hx, Or.inl ⟨rfl, rfl, rfl, rfl⟩, rfl⟩
            right
            exact ⟨rfl, by simp [rank, hfc, hfp, hfi, hfa, hfh, hfn, hAL, hHA2, hD]⟩
          · rw [if_neg hD] at h
            by_cases h123 : byteAt src s.n = 123
            · rw [if_pos h123] at h
              cases h
              exact ⟨fun hwf => by simp_all [FlagsWF], fun _ => by left; dsimp only; omega,
                Or.inr ⟨s.n, rfl, le_refl _, fun i h1 h2 => absurd h1 (by omega)⟩,
                fun hx => hx, fun hx => hx, Or.inl ⟨rfl, rfl, rfl, rfl⟩, rfl⟩
            · rw [if_neg h123] at h
              by_cases h41e : byteAt src s.n = 41
              · rw [if_pos h41e] at h
                simp at h
              · rw [if_neg h41e] at h
                by_cases hW : ¬ isWhitespace (byteAt src s.n) = true
                · rw [if_pos hW] at h
                  simp at h
                · rw [if_neg hW] at h
                  cases h
                  exact ⟨fun hwf => hwf, fun _ => by left; dsimp only; omega,
                    Or.inr ⟨s.n, rfl, le_refl _, fun i h1 h2 => absurd h1 (by omega)⟩,
                    fun hx => hx, fun hx => hx, Or.inl ⟨rfl, rfl, rfl, rfl⟩, rfl⟩

theorem eqFalseOfNeTrue (b : Bool) (h : ¬ b = true) : b = false := by
  cases b
  · rfl
  · exact absurd rfl h

theorem errOk_plain (src : List Nat) (s : St) (p : Nat) (m : EMessage)
    (hm : m ≠ E_NO_ERROR) (h1 : m ≠ E_Missing_UsagePage)
    (h2 : m ≠ E_Missing_named_UsagePage) (h3 : m ≠ E_Missing_ReportSize)
    (h4 : m ≠ E_Missing_ReportCount)
    (hp : byteAt src s.n ≠ 0 → ∀ k, s.n ≤ k → byteAt src k = 0 → p ≤ k) :
    errOk src s p m :=
  ⟨hm, hp, fun hx => absurd hx h1, fun hx => absurd hx h2, fun hx => absurd hx h3,
    fun hx => absurd hx h4⟩

theorem errPos_of_mid (src : List Nat) (n p : Nat) (hge : n ≤ p)
    (hmid : ∀ i, n < i → i ≤ p → byteAt src i ≠ 0) :
    byteAt src n ≠ 0 → ∀ k, n ≤ k → byteAt src k = 0 → p ≤ k := by
  intro h0 k hk hz
  by_contra hlt
  push_neg at hlt
  have hkn : k ≠ n := fun e => h0 (e ▸ hz)
  exact hmid k (by omega) (by omega) hz

theorem errOk_findFail (src : List Nat) (s : St) (p : Nat) (t : List Nat)
    (map : List Encoding) (u : Option EMessage) (d : EMessage)
    (hfe : findEncoding t map = .fail u)
    (hd : d ≠ E_NO_ERROR ∧ d ≠ E_Missing_UsagePage ∧ d ≠ E_Missing_named_UsagePage ∧
      d ≠ E_Missing_ReportSize ∧ d ≠ E_Missing_ReportCount)
    (hp : byteAt src s.n ≠ 0 → ∀ k, s.n ≤ k → byteAt src k = 0 → p ≤ k) :
    errOk src s p (u.getD d) := by
  cases u with
  | none => exact errOk_plain src s p d hd.1 hd.2.1 hd.2.2.1 hd.2.2.2.1 hd.2.2.2.2 hp
  | some m =>
    have hgd : (some m).getD d = m := rfl
    rw [hgd]
    rcases findEncoding_fail_msg t map m hfe with h | h | h | h <;> subst h <;>
      exact errOk_plain src s p _ (by decide) (by decide) (by decide) (by decide)
        (by decide) hp

theorem itemClose_err (S : St) (e : Encoding) (c2 n2 : Nat) (p : Nat) (m : EMessage)
    (h : itemClose S e c2 n2 = .err p m) :
    p = n2 ∧ (m = E_This_item_has_no_arguments ∨ m = E_Missing_argument) := by
  simp only [itemClose] at h
  split_ifs at h <;> cases h <;> simp

theorem argResolve_err (src : List Nat) (s1 : St) (c : Nat) (p : Nat) (m : EMessage)
    (h : argResolve src s1 c = .err p m) :
    p = s1.n ∧ ∃ u, findEncoding (tokenBytes src s1.tArg) (tableOf (curArg s1)) = .fail u ∧
      m = u.getD E_Invalid_argument_name := by
  simp only [argResolve] at h
  cases hfe : findEncoding (tokenBytes src s1.tArg) (tableOf (curArg s1)) with
  | fail u =>
    rw [hfe] at h
    cases h
    exact ⟨rfl, u, rfl, rfl⟩
  | found encItem =>
    rw [hfe] at h
    dsimp only at h
    split_ifs at h

theorem stepStart_err (src : List Nat) (len : Nat) (s : St) (p : Nat) (m : EMessage)
    (h : stepStart src len s = .err p m) : errOk src s p m := by
  simp only [stepStart] at h
  split_ifs at h <;> cases h <;>
    first
    | exact errOk_plain src s _ _ (by decide) (by decide) (by decide) (by decide)
        (by decide) (fun _ k hk _ => hk)
    | exact errOk_plain src s _ _ (by decide) (by decide) (by decide) (by decide)
        (by decide) (by
          intro h0 k hk hz
          by_contra hlt
          push_neg at hlt
          have hk1 : k = s.n ∨ k = s.n + 1 := by omega
          rcases hk1 with e | e <;> subst e <;> simp_all)

theorem stepParam_err (src : List Nat) (len : Nat) (params : List Param) (s : St)
    (p : Nat) (m : EMessage) (h : stepParam src params s = .err p m) : errOk src s p m := by
  simp only [stepParam] at h
  split_ifs at h <;> cases h <;>
    exact errOk_plain src s _ _ (by decide) (by decide) (by decide) (by decide)
      (by decide) (fun _ k hk _ => hk)

theorem stepItem_err (src : List Nat) (len : Nat) (s : St) (p : Nat) (m : EMessage)
    (h : stepItem src len s = .err p m) : errOk src s p m := by
  simp only [stepItem] at h
  by_cases h1 : isItemChar (byteAt src s.n) = true
  · rw [if_pos h1] at h
    simp at h
  · rw [if_neg h1] at h
    by_cases h2 : isWhitespace (byteAt src s.n) = true ∨ byteAt src s.n = 40
    · rw [if_pos h2] at h
      set n2 := (if isWhitespace (byteAt src s.n) = true then wsSkipToParen src len s.n
        else s.n) with hn2
      have hge : s.n ≤ n2 := by
        rw [hn2]; split
        · exact wsSkipToParen_ge src len s.n
        · exact le_refl s.n
      have hmid : ∀ i, s.n < i → i ≤ n2 → byteAt src i ≠ 0 := by
        rw [hn2]; split
        · exact wsSkipToParen_mid src len s.n
        · intro i hi1 hi2; exact absurd hi1 (by omega)
      have hpos := errPos_of_mid src s.n n2 hge hmid
      cases hfe : findEncoding (tokenBytes src s.tItem) itemMap with
      | fail u =>
        rw [hfe] at h
        dsimp only at h
        injection h with hA hB
        subst hA
        subst hB
        exact errOk_findFail src s n2 _ itemMap u E_Invalid_item_name hfe
          ⟨by decide, by decide, by decide, by decide, by decide⟩ hpos
      | found e =>
        rw [hfe] at h
        dsimp only at h
        by_cases hg1 : e.arg = ArgRef.colArgMap
        · rw [if_pos hg1] at h
          by_cases hg2 : s.usageAtLevel ≠ s.colLevel
          · rw [if_pos hg2] at h
            injection h with hA hB
            subst hA
            subst hB
            exact errOk_plain src s n2 _ (by decide) (by decide) (by decide) (by decide)
              (by decide) hpos
          · rw [if_neg hg2] at h
            rcases itemClose_err _ _ _ _ _ _ h with ⟨hp2, hm⟩
            rw [hp2]
            rcases hm with rfl | rfl <;>
              exact errOk_plain src s n2 _ (by decide) (by decide) (by decide) (by decide)
                (by decide) hpos
        · rw [if_neg hg1] at h
          by_cases hg3 : e.arg = ArgRef.endCol
          · rw [if_pos hg3] at h
            by_cases hg4 : s.colLevel ≤ 0
            · rw [if_pos hg4] at h
              injection h with hA hB
              subst hA
              subst hB
              exact errOk_plain src s n2 _ (by decide) (by decide) (by decide) (by decide)
                (by decide) hpos
            · rw [if_neg hg4] at h
              by_cases hg5 : s.reportSizes < s.reportCounts
              · rw [if_pos hg5] at h
                injection h with hA hB
                subst hA
                subst hB
                exact ⟨by decide, hpos, fun hx => absurd hx (by decide),
                  fun hx => absurd hx (by decide), fun _ => hg5,
                  fun hx => absurd hx (by decide)⟩
              · rw [if_neg hg5] at h
                by_cases hg6 : s.reportCounts < s.reportSizes
                · rw [if_pos hg6] at h
                  injection h with hA hB
                  subst hA
                  subst hB
                  exact ⟨by decide, hpos, fun hx => absurd hx (by decide),
                    fun hx => absurd hx (by decide), fun hx => absurd hx (by decide),
                    fun _ => hg6⟩
                · rw [if_neg hg6] at h
                  rcases itemClose_err _ _ _ _ _ _ h with ⟨hp2, hm⟩
                  rw [hp2]
                  rcases hm with rfl | rfl <;>
                    exact errOk_plain src s n2 _ (by decide) (by decide) (by decide)
                      (by decide) (by decide) hpos
          · rw [if_neg hg3] at h
            by_cases hg7 : equalsI (tokenBytes src s.tItem) (bs ("Usage")) = true
            · rw [if_pos hg7] at h
              rcases itemClose_err _ _ _ _ _ _ h with ⟨hp2, hm⟩
              rw [hp2]
              rcases hm with rfl | rfl <;>
                exact errOk_plain src s n2 _ (by decide) (by decide) (by decide)
                  (by decide) (by decide) hpos
            · rw [if_neg hg7] at h
              rcases itemClose_err _ _ _ _ _ _ h with ⟨hp2, hm⟩
              rw [hp2]
              rcases hm with rfl | rfl <;>
                exact errOk_plain src s n2 _ (by decide) (by decide) (by decide)
                  (by decide) (by decide) hpos
    · rw [if_neg h2] at h
      cases h
      exact errOk_plain src s _ _ (by decide) (by decide) (by decide) (by decide)
        (by decide) (fun _ k hk _ => hk)

theorem stepArg_err (src : List Nat) (len : Nat) (s : St) (p : Nat) (m : EMessage)
    (h : stepArg src len s = .err p m) : errOk src s p m := by
  simp only [stepArg] at h
  by_cases hUD : s.flags.unitDesc = true
  · rw [if_pos hUD] at h
    by_cases hIU : s.flags.inUnit = true
    · rw [if_pos hIU] at h
      by_cases hA : isAlpha (byteAt src s.n) = true
      · rw [if_pos hA] at h
        simp at h
      · rw [if_neg hA] at h
        by_cases hT : isWhitespace (byteAt src s.n) = true ∨ byteAt src s.n = 41 ∨
            byteAt src s.n = 94
        · rw [if_pos hT] at h
          cases hfe : findEncoding (tokenBytes src s.tArg) (tableOf (curArg s)) with
          | fail u =>
            rw [hfe] at h
            dsimp only at h
            cases h
            exact errOk_findFail src s s.n _ _ u E_Invalid_unit_name hfe
              ⟨by decide, by decide, by decide, by decide, by decide⟩ (fun _ k hk _ => hk)
          | found u =>
            rw [hfe] at h
            dsimp only at h
            split_ifs at h
        · rw [if_neg hT] at h
          cases h
          exact errOk_plain src s _ _ (by decide) (by decide) (by decide) (by decide)
            (by decide) (fun _ k hk _ => hk)
    · rw [if_neg hIU] at h
      by_cases hUE : s.flags.unitExp = true
      · rw [if_pos hUE] at h
        by_cases h45 : byteAt src s.n = 45
        · rw [if_pos h45] at h
          split_ifs at h <;> cases h <;>
            exact errOk_plain src s _ _ (by decide) (by decide) (by decide) (by decide)
              (by decide) (fun _ k hk _ => hk)
        · rw [if_neg h45] at h
          by_cases hD : isDigit (byteAt src s.n) = true
          · rw [if_pos hD] at h
            simp at h
          · rw [if_neg hD] at h
            cases hfe : findEncoding (tokenBytes src s.tArg)
                (tableOf (argOfOpt s.encUnit)) with
            | fail u =>
              rw [hfe] at h
              dsimp only at h
              cases h
              exact errOk_findFail src s s.n _ _ u E_Invalid_unit_exponent hfe
                ⟨by decide, by decide, by decide, by decide, by decide⟩
                (fun _ k hk _ => hk)
            | found ex =>
              rw [hfe] at h
              dsimp only at h
              simp at h
      · rw [if_neg hUE] at h
        split_ifs at h <;> cases h <;>
          exact errOk_plain src s _ _ (by decide) (by decide) (by decide) (by decide)
            (by decide) (fun _ k hk _ => hk)
  · rw [if_neg hUD] at h
    by_cases hAC : isArgChar (byteAt src s.n) = true
    · rw [if_pos hAC] at h
      simp at h
    · rw [if_neg hAC] at h
      by_cases hUS : s.flags.unitSys = true
      · rw [if_pos hUS] at h
        by_cases hHA : s.hasArg = true
        · rw [if_pos hHA] at h
          cases h
          exact errOk_plain src s _ _ (by decide) (by decide) (by decide) (by decide)
            (by decide) (fun _ k hk _ => hk)
        · rw [if_neg hHA] at h
          by_cases hWP : isWhitespace (byteAt src s.n) = true ∨ byteAt src s.n = 40
          · rw [if_pos hWP] at h
            set n2 := (if isWhitespace (byteAt src s.n) = true then wsSkipToParen src len s.n
              else s.n) with hn2
            have hge : s.n ≤ n2 := by
              rw [hn2]; split
              · exact wsSkipToParen_ge src len s.n
              · exact le_refl s.n
            have hmid : ∀ i, s.n < i → i ≤ n2 → byteAt src i ≠ 0 := by
              rw [hn2]; split
              · exact wsSkipToParen_mid src len s.n
              · intro i hi1 hi2; exact absurd hi1 (by omega)
            cases hfe : findEncoding (tokenBytes src s.tArg) (tableOf (curArg s)) with
            | fail u =>
              rw [hfe] at h
              dsimp only at h
              injection h with hA hB
              subst hA
              subst hB
              exact errOk_findFail src s n2 _ _ u E_Invalid_unit_system_name hfe
                ⟨by decide, by decide, by decide, by decide, by decide⟩
                (errPos_of_mid src s.n n2 hge hmid)
            | found sysE =>
              rw [hfe] at h
              dsimp only at h
              simp at h
          · rw [if_neg hWP] at h
            split_ifs at h <;> cases h <;>
              exact errOk_plain src s _ _ (by decide) (by decide) (by decide) (by decide)
                (by decide) (fun _ k hk _ => hk)
      · rw [if_neg hUS] at h
        by_cases hTE : isWhitespace (byteAt src s.n) = true ∨ byteAt src s.n = 41 ∨
            (s.multiArg = true ∧ byteAt src s.n = 44)
        · rw [if_pos hTE] at h
          dsimp only at h
          have hcur : curArg { s with flags := { s.flags with inArg := false } } = curArg s :=
            rfl
          rw [hcur] at h
          have hterm : isWhitespace (byteAt src s.n) = true ∨ byteAt src s.n = 41 ∨
              byteAt src s.n = 44 := by
            rcases hTE with w | w | w
            · exact Or.inl w
            · exact Or.inr (Or.inl w)
            · exact Or.inr (Or.inr w.2)
          by_cases hUA : curArg s = ArgRef.usageArg
          · rw [if_pos hUA] at h
            by_cases hNull : upNullOrArgless s.usagePage = true
            · rw [if_pos hNull] at h
              by_cases hUP : s.hasUsagePage = true
              · rw [if_pos hUP] at h
                cases h
                exact ⟨by decide, fun _ k hk _ => hk, fun hx => absurd hx (by decide),
                  fun _ => ⟨hUP, rfl, hterm⟩, fun hx => absurd hx (by decide),
                  fun hx => absurd hx (by decide)⟩
              · rw [if_neg hUP] at h
                cases h
                exact ⟨by decide, fun _ k hk _ => hk,
                  fun _ => ⟨eqFalseOfNeTrue _ hUP, rfl, hterm⟩,
                  fun hx => absurd hx (by decide), fun hx => absurd hx (by decide),
                  fun hx => absurd hx (by decide)⟩
            · rw [if_neg hNull] at h
              rcases argResolve_err src _ _ _ _ h with ⟨hp2, u, hfe, hm⟩
              rw [hp2]
              subst hm
              exact errOk_findFail src s _ _ _ u E_Invalid_argument_name hfe
                ⟨by decide, by decide, by decide, by decide, by decide⟩
                (fun _ k hk _ => hk)
          · rw [if_neg hUA] at h
            rcases argResolve_err src _ _ _ _ h with ⟨hp2, u, hfe, hm⟩
            rw [hp2]
            subst hm
            exact errOk_findFail src s _ _ _ u E_Invalid_argument_name hfe
              ⟨by decide, by decide, by decide, by decide, by decide⟩
              (fun _ k hk _ => hk)
        · rw [if_neg hTE] at h
          cases h
          exact errOk_plain src s _ _ (by decide) (by decide) (by decide) (by decide)
            (by decide) (fun _ k hk _ => hk)

theorem stepHex_err (src : List Nat) (len : Nat) (s : St) (p : Nat) (m : EMessage)
    (h : stepHex src s = .err p m) : errOk src s p m := by
  simp only [stepHex] at h
  split_ifs at h <;> cases h <;>
    exact errOk_plain src s _ _ (by decide) (by decide) (by decide) (by decide)
      (by decide) (fun _ k hk _ => hk)

theorem stepNum_err (src : List Nat) (len : Nat) (s : St) (p : Nat) (m : EMessage)
    (h : stepNum src s = .err p m) : errOk src s p m := by
  simp only [stepNum] at h
  split_ifs at h <;> cases h <;>
    exact errOk_plain src s _ _ (by decide) (by decide) (by decide) (by decide)
      (by decide) (fun _ k hk _ => hk)

theorem stepArgList_err (src : List Nat) (len : Nat) (s : St) (p : Nat) (m : EMessage)
    (h : stepArgList src len s = .err p m) : errOk src s p m := by
  simp only [stepArgList] at h
  by_cases hHA : s.hasArg = true
  · rw [if_pos hHA] at h
    by_cases h41 : byteAt src s.n = 41
    · rw [if_pos h41] at h
      split_ifs at h <;>
        first
        | (simp only [finishArgList] at h; exact absurd h (by simp))
        | (cases h
           exact errOk_plain src s _ _ (by decide) (by decide) (by decide) (by decide)
             (by decide) (fun _ k hk _ => hk))
    · rw [if_neg h41] at h
      split_ifs at h
      cases h
      exact errOk_plain src s _ _ (by decide) (by decide) (by decide) (by decide)
        (by decide) (fun _ k hk _ => hk)
  · rw [if_neg hHA] at h
    by_cases hIC : isItemChar (byteAt src s.n) = true
    · rw [if_pos hIC] at h
      simp at h
    · rw [if_neg hIC] at h
      by_cases hHX : byteAt src s.n = 48 ∧ s.n + 1 < len ∧ byteAt src (s.n + 1) = 120
      · rw [if_pos hHX] at h
        split_ifs at h <;> cases h <;>
          exact errOk_plain src s _ _ (by decide) (by decide) (by decide) (by decide)
            (by decide) (by
              intro h0 k hk hz
              by_contra hlt
              push_neg at hlt
              have hk1 : k = s.n ∨ k = s.n + 1 := by omega
              rcases hk1 with e | e <;> subst e <;> simp_all)
      · rw [if_neg hHX] at h
        split_ifs at h <;> cases h <;>
          exact errOk_plain src s _ _ (by decide) (by decide) (by decide) (by decide)
            (by decide) (fun _ k hk _ => hk)

theorem body_next (src : List Nat) (len : Nat) (params : List Param) (s s2 : St)
    (h : body src len params s = .next s2) : nextOk src len s s2 := by
  unfold body at h
  split_ifs at h with b1 b2 b3 b4 b5 b6 b7 b8
  · exact stepStart_next src len params s s2 b1 h
  · exact stepComment_next src len s s2 h
  · exact stepParam_next src len params s s2 h
  · exact stepItem_next src len s s2 h
  · exact stepArg_next src len s s2 (eqFalseOfNeTrue _ b2) (eqFalseOfNeTrue _ b3)
      (eqFalseOfNeTrue _ b4) b5 h
  · exact stepHex_next src len s s2 (eqFalseOfNeTrue _ b2) (eqFalseOfNeTrue _ b3)
      (eqFalseOfNeTrue _ b4) (eqFalseOfNeTrue _ b5) b6 h
  · exact stepNum_next src len s s2 (eqFalseOfNeTrue _ b2) (eqFalseOfNeTrue _ b3)
      (eqFalseOfNeTrue _ b4) (eqFalseOfNeTrue _ b5) (eqFalseOfNeTrue _ b6) b7 h
  · exact stepArgList_next src len s s2 (eqFalseOfNeTrue _ b2) (eqFalseOfNeTrue _ b3)
      (eqFalseOfNeTrue _ b4) (eqFalseOfNeTrue _ b5) (eqFalseOfNeTrue _ b6)
      (eqFalseOfNeTrue _ b7) b8 h
  · cases h
    exact ⟨fun hwf => hwf, fun _ => by left; dsimp only; omega,
      Or.inr ⟨s.n, rfl, le_refl _, fun i h1 h2 => absurd h1 (by omega)⟩,
      fun hx => hx, fun hx => hx, Or.inl ⟨rfl, rfl, rfl, rfl⟩, rfl⟩

theorem body_err (src : List Nat) (len : Nat) (params : List Param) (s : St)
    (p : Nat) (m : EMessage) (h : body src len params s = .err p m) : errOk src s p m := by
  unfold body at h
  split_ifs at h with b1 b2 b3 b4 b5 b6 b7 b8
  · exact stepStart_err src len s p m h
  · exfalso
    simp only [stepComment] at h
    split_ifs at h
  · exact stepParam_err src len params s p m h
  · exact stepItem_err src len s p m h
  · exact stepArg_err src len s p m h
  · exact stepHex_err src len s p m h
  · exact stepNum_err src len s p m h
  · exact stepArgList_err src len s p m h

theorem count_append_one (tr : List Nat) (x k : Nat) :
    (tr ++ [x]).count k = tr.count k + (if k = x then 1 else 0) := by
  simp only [List.count_append, List.count_cons, List.count_nil]
  split_ifs with h1 h2 <;> simp_all

theorem countRS_append (t : List Event) (ev : Event) :
    countRS (t ++ [ev]) = countRS t + (if ev = Event.reportSize then 1 else 0) := by
  simp only [countRS, List.count_append, List.count_cons, List.count_nil]
  cases ev <;> simp

theorem countRC_append (t : List Event) (ev : Event) :
    countRC (t ++ [ev]) = countRC t + (if ev = Event.reportCount then 1 else 0) := by
  simp only [countRC, List.count_append, List.count_cons, List.count_nil]
  cases ev <;> simp

theorem okPrefixes_append (t : List Event) (ev : Event) (h : okPrefixes t)
    (he : ev = Event.endCollection → countRS t = countRC t) :
    okPrefixes (t ++ [ev]) := by
  intro t1 t2 hsplit
  rcases List.eq_nil_or_concat t2 with rfl | ⟨t2p, x, rfl⟩
  · obtain ⟨rfl, hev⟩ := List.append_inj' hsplit (by simp)
    have hx : ev = Event.endCollection := by
      have := hev
      simp at this
      exact this
    exact he hx
  · rw [List.concat_eq_append,
      show t1 ++ Event.endCollection :: (t2p ++ [x]) =
        (t1 ++ Event.endCollection :: t2p) ++ [x] by simp] at hsplit
    obtain ⟨h3, _⟩ := List.append_inj' hsplit (by simp)
    exact h t1 t2p h3

theorem stInv_step (src : List Nat) (len : Nat) (s s2 : St)
    (hn : nextOk src len s s2) (hs : stInv s) : stInv s2 := by
  obtain ⟨hwf, hcol, hdel, hrs, hrc, hok, hup⟩ := hs
  obtain ⟨f1, _, _, f4, f5, f6, _⟩ := hn
  refine ⟨f1 hwf, f4 hcol, f5 hdel, ?_⟩
  rcases f6 with ⟨he, hr1, hr2, hu⟩ | ⟨he, hr1, hr2, hu⟩ | ⟨he, hr1, hr2, hu, heq⟩ |
    ⟨he, hr1, hr2, hu⟩ | ⟨he, hr1, hr2, hu⟩ | ⟨he, hr1, hr2, hu⟩
  · rw [he, hr1, hr2, hu]
    exact ⟨hrs, hrc, hok, hup⟩
  · rw [he, hr1, hr2, hu, countRS_append, countRC_append]
    refine ⟨by simp [hrs], by simp [hrc], okPrefixes_append _ _ hok (by simp), by simp [hup]⟩
  · rw [he, hr1, hr2, hu, countRS_append, countRC_append]
    refine ⟨by simp [hrs], by simp [hrc],
      okPrefixes_append _ _ hok (fun _ => by rw [← hrs, ← hrc]; exact heq), by simp [hup]⟩
  · rw [he, hr1, hr2, hu, countRS_append, countRC_append]
    refine ⟨by simp [hrs], by simp [hrc], okPrefixes_append _ _ hok (by simp), by simp [hup]⟩
  · rw [he, hr1, hr2, hu, countRS_append, countRC_append]
    refine ⟨by simp [hrs], by simp [hrc], okPrefixes_append _ _ hok (by simp), by simp [hup]⟩
  · rw [he, hr1, hr2, countRS_append, countRC_append]
    refine ⟨by simp [hrs], by simp [hrc], okPrefixes_append _ _ hok (by simp),
      ⟨fun _ => by simp, fun _ => hu⟩⟩

theorem loopAux_run (src : List Nat) (len : Nat) (params : List Param) :
    ∀ fuel s, loopInv src len s →
      (∀ s', loopAux src len params fuel s = .exitLoop s' →
        loopInv src len s' ∧ (s'.n < len → byteAt src s'.n = 0)) ∧
      (∀ p m s', loopAux src len params fuel s = .failAt p m s' →
        stInv s' ∧ errOk src s' p m ∧ (∀ k, s'.trace.count k ≤ 3) ∧
        (∀ q, q ∈ s'.trace → q < len ∧ (∀ j, j ≤ q → byteAt src j ≠ 0)) ∧
        (∀ k, k < s'.n → byteAt src k ≠ 0) ∧
        (s'.n < len ∧ byteAt src s'.n ≠ 0)) ∧
      (3 * (len - s.n) + rank src s < fuel →
        ∀ s', loopAux src len params fuel s ≠ .outOfFuel s') := by
  intro fuel
  induction fuel with
  | zero =>
    intro s hinv
    refine ⟨fun s' h => ?_, fun p m s' h => ?_, fun hlt s' => ?_⟩
    · simp [loopAux] at h
    · simp [loopAux] at h
    · exact absurd hlt (by omega)
  | succ fuel ih =>
    intro s hinv
    obtain ⟨hsi, hc3, hbud, habove, hnul, htr⟩ := hinv
    by_cases hg : s.n < len ∧ byteAt src s.n ≠ 0
    · cases hb : body src len params { s with trace := s.trace ++ [s.n] } with
      | next s2 =>
        have heq : loopAux src len params (fuel + 1) s = loopAux src len params fuel s2 := by
          simp only [loopAux]
          rw [if_pos hg, hb]
        have hnx : nextOk src len { s with trace := s.trace ++ [s.n] } s2 :=
          body_next src len params _ s2 hb
        have hsi' : stInv { s with trace := s.trace ++ [s.n] } := hsi
        have htr2 : s2.trace = s.trace ++ [s.n] := hnx.2.2.2.2.2.2
        have hprog : s.n < s2.n ∨ (s2.n = s.n ∧ rank src s2 < rank src s) :=
          hnx.2.1 hsi.1
        have hadv : s2.n = s.n ∨
            (∃ w, s2.n = w + 1 ∧ s.n ≤ w ∧ ∀ i, s.n < i → i ≤ w → byteAt src i ≠ 0) :=
          hnx.2.2.1
        have hrank2 := rank_le_two src s2
        have hinv2 : loopInv src len s2 := by
          refine ⟨stInv_step src len _ s2 hnx hsi', ?_, ?_, ?_, ?_, ?_⟩
          · intro k
            rw [htr2, count_append_one]
            by_cases hk : k = s.n
            · subst hk
              rw [if_pos rfl]
              have := hbud
              omega
            · rw [if_neg hk]
              have := hc3 k
              omega
          · rw [htr2, count_append_one]
            rcases hprog with hlt | ⟨heqn, hdec⟩
            · rw [if_neg (by omega : ¬ s2.n = s.n)]
              have h0 := habove s2.n hlt
              omega
            · rw [heqn, if_pos rfl]
              omega
          · intro k hk2
            rw [htr2, count_append_one]
            have hksn : s.n < k := by
              rcases hprog with hlt | ⟨heqn, _⟩ <;> omega
            rw [if_neg (by omega)]
            have := habove k hksn
            omega
          · intro k hk2
            rcases hadv with h0 | ⟨w, hw, hnw, hmid⟩
            · exact hnul k (by omega)
            · by_cases hks : k < s.n
              · exact hnul k hks
              · by_cases hke : k = s.n
                · subst hke
                  exact hg.2
                · exact hmid k (by omega) (by omega)
          · intro q hq
            rw [htr2] at hq
            rcases List.mem_append.mp hq with hq | hq
            · exact htr q hq
            · have hqe : q = s.n := by simpa using hq
              subst hqe
              refine ⟨hg.1, fun j hj => ?_⟩
              rcases Nat.lt_or_ge j s.n with hj2 | hj2
              · exact hnul j hj2
              · have hje : j = s.n := by omega
                subst hje
                exact hg.2
        obtain ⟨c1, c2, c3⟩ := ih s2 hinv2
        refine ⟨fun s' h => ?_, fun p m s' h => ?_, fun hlt s' h => ?_⟩
        · rw [heq] at h
          exact c1 s' h
        · rw [heq] at h
          exact c2 p m s' h
        · rw [heq] at h
          refine c3 ?_ s' h
          rcases hprog with hlt2 | ⟨heqn, hdec⟩
          · have h1 : s.n < len := hg.1
            omega
          · omega
      | err p0 m0 =>
        have heq : loopAux src len params (fuel + 1) s =
            .failAt p0 m0 { s with trace := s.trace ++ [s.n] } := by
          simp only [loopAux]
          rw [if_pos hg, hb]
        have herr : errOk src { s with trace := s.trace ++ [s.n] } p0 m0 :=
          body_err src len params _ p0 m0 hb
        refine ⟨fun s' h => ?_, fun p m s' h => ?_, fun hlt s' h => ?_⟩
        · rw [heq] at h
          simp at h
        · rw [heq] at h
          injection h with h1 h2 h3
          subst h1
          subst h2
          subst h3
          refine ⟨hsi, herr, ?_, ?_, ?_, hg⟩
          · intro k
            show (s.trace ++ [s.n]).count k ≤ 3
            rw [count_append_one]
            by_cases hk : k = s.n
            · subst hk
              rw [if_pos rfl]
              have := hbud
              omega
            · rw [if_neg hk]
              have := hc3 k
              omega
          · intro q hq
            have hq2 : q ∈ s.trace ++ [s.n] := hq
            rcases List.mem_append.mp hq2 with hq3 | hq3
            · exact htr q hq3
            · have hqe : q = s.n := by simpa using hq3
              subst hqe
              refine ⟨hg.1, fun j hj => ?_⟩
              rcases Nat.lt_or_ge j s.n with hj2 | hj2
              · exact hnul j hj2
              · have hje : j = s.n := by omega
                subst hje
                exact hg.2
          · intro k hk
            have hk2 : k < s.n := hk
            exact hnul k hk2
        · rw [heq] at h
          simp at h
    · have heq : loopAux src len params (fuel + 1) s = .exitLoop s := by
        simp only [loopAux]
        rw [if_neg hg]
      refine ⟨fun s' h => ?_, fun p m s' h => ?_, fun hlt s' h => ?_⟩
      · rw [heq] at h
        injection h with h1
        subst h1
        refine ⟨⟨hsi, hc3, hbud, habove, hnul, htr⟩, fun hlen => ?_⟩
        by_contra hz
        exact hg ⟨hlen, hz⟩
      · rw [heq] at h
        simp at h
      · rw [heq] at h
        simp at h

theorem epiFlush_same (s : St) :
    (epiFlush s).colLevel = s.colLevel ∧ (epiFlush s).delimLevel = s.delimLevel ∧
    (epiFlush s).n = s.n ∧ (epiFlush s).trace = s.trace ∧
    (epiFlush s).events = s.events ∧ (epiFlush s).reportSizes = s.reportSizes ∧
    (epiFlush s).reportCounts = s.reportCounts ∧
    (epiFlush s).usageAtLevel = s.usageAtLevel ∧
    (epiFlush s).hasUsagePage = s.hasUsagePage := by
  simp only [epiFlush]
  split_ifs <;> exact ⟨rfl, rfl, rfl, rfl, rfl, rfl, rfl, rfl, rfl⟩

theorem firstNulAux_eq (src : List Nat) :
    ∀ rem n q, n ≤ q → q ≤ n + rem →
      (∀ k, n ≤ k → k < q → byteAt src k ≠ 0) →
      (q < n + rem → byteAt src q = 0) →
      firstNulAux src rem n = q := by
  intro rem
  induction rem with
  | zero =>
    intro n q h1 h2 _ _
    simp only [firstNulAux]
    omega
  | succ rem ih =>
    intro n q h1 h2 hmid hq
    unfold firstNulAux
    split_ifs with h0
    · by_contra hne
      exact hmid n (le_refl n) (by omega) h0
    · have hq1 : n + 1 ≤ q := by
        rcases Nat.eq_or_lt_of_le h1 with he | hl
        · exact absurd (hq (by omega)) (he ▸ h0)
        · omega
      exact ih (n + 1) q hq1 (by omega) (fun k hk1 hk2 => hmid k (by omega) hk2)
        (fun hlt => hq (by omega))

theorem firstNul_eq (src : List Nat) (len q : Nat) (h1 : q ≤ len)
    (hmid : ∀ k, k < q → byteAt src k ≠ 0) (hq : q < len → byteAt src q = 0) :
    firstNul src len = q :=
  firstNulAux_eq src len 0 q (by omega) (by omega) (fun k _ hk2 => hmid k hk2)
    (fun hlt => hq (by omega))

theorem firstNulAux_le (src : List Nat) :
    ∀ rem n, firstNulAux src rem n ≤ n + rem := by
  intro rem
  induction rem with
  | zero => intro n; simp [firstNulAux]
  | succ rem ih =>
    intro n
    unfold firstNulAux
    split_ifs
    · omega
    · have := ih (n + 1)
      omega

theorem firstNulAux_zero (src : List Nat) :
    ∀ rem n, firstNulAux src rem n < n + rem → byteAt src (firstNulAux src rem n) = 0 := by
  intro rem
  induction rem with
  | zero => intro n h; simp [firstNulAux] at h
  | succ rem ih =>
    intro n h
    unfold firstNulAux at h ⊢
    split_ifs at h ⊢ with h0
    · exact h0
    · exact ih (n + 1) (by omega)

theorem firstNulAux_mid (src : List Nat) :
    ∀ rem n k, n ≤ k → k < firstNulAux src rem n → byteAt src k ≠ 0 := by
  intro rem
  induction rem with
  | zero =>
    intro n k h1 h2
    simp only [firstNulAux] at h2
    omega
  | succ rem ih =>
    intro n k h1 h2
    unfold firstNulAux at h2
    split_ifs at h2 with h0
    · omega
    · rcases Nat.eq_or_lt_of_le h1 with he | hl
      · subst he
        exact h0
      · exact ih (n + 1) k hl h2

theorem firstNul_zero (src : List Nat) (len : Nat) (h : firstNul src len < len) :
    byteAt src (firstNul src len) = 0 :=
  firstNulAux_zero src len 0 (by simpa [firstNul] using h)

theorem firstNul_le (src : List Nat) (len : Nat) : firstNul src len ≤ len := by
  have := firstNulAux_le src len 0
  simpa [firstNul] using this

theorem firstNul_mid (src : List Nat) (len k : Nat) (h : k < firstNul src len) :
    byteAt src k ≠ 0 :=
  firstNulAux_mid src len 0 k (by omega) h

theorem firstNul_gt (src : List Nat) (len p : Nat) (hlen : p < len)
    (h : ∀ j, j ≤ p → byteAt src j ≠ 0) : p < firstNul src len := by
  by_contra hle
  push_neg at hle
  have h0 : byteAt src (firstNul src len) = 0 := firstNul_zero src len (by omega)
  exact h (firstNul src len) hle h0

theorem findFail_not_special (t : List Nat) (map : List Encoding) (u : Option EMessage)
    (h : findEncoding t map = .fail u) :
    u.getD E_Invalid_item_name ≠ E_NO_ERROR ∧
    u.getD E_Invalid_item_name ≠ E_Missing_UsagePage ∧
    u.getD E_Invalid_item_name ≠ E_Missing_named_UsagePage ∧
    u.getD E_Invalid_item_name ≠ E_Missing_ReportSize ∧
    u.getD E_Invalid_item_name ≠ E_Missing_ReportCount := by
  cases u with
  | none => exact ⟨by decide, by decide, by decide, by decide, by decide⟩
  | some m2 =>
    have hgd : (some m2).getD E_Invalid_item_name = m2 := rfl
    rw [hgd]
    rcases findEncoding_fail_msg t map m2 h with h2 | h2 | h2 | h2 <;> subst h2 <;>
      exact ⟨by decide, by decide, by decide, by decide, by decide⟩

theorem epiChecks_facts (s : St) (hcol : 0 ≤ s.colLevel) (hdel : 0 ≤ s.delimLevel) :
    (∀ s', epiChecks s = .ok s' → s' = s ∧ s.colLevel = 0 ∧ s.delimLevel = 0) ∧
    (∀ p m s', epiChecks s = .failAt p m s' →
      s' = s ∧ p = s.n ∧ m ≠ E_NO_ERROR ∧ m ≠ E_Missing_UsagePage ∧
      m ≠ E_Missing_named_UsagePage ∧ m ≠ E_Missing_ReportSize ∧
      m ≠ E_Missing_ReportCount) ∧
    (∀ s', epiChecks s ≠ .outOfFuel s') := by
  unfold epiChecks
  split_ifs with h1 h2 h3
  · refine ⟨fun s' h => by simp at h, fun p m s' h => ?_, fun s' h => by simp at h⟩
    injection h with hA hB hC
    subst hA
    subst hB
    subst hC
    exact ⟨rfl, rfl, by decide, by decide, by decide, by decide, by decide⟩
  · refine ⟨fun s' h => by simp at h, fun p m s' h => ?_, fun s' h => by simp at h⟩
    injection h with hA hB hC
    subst hA
    subst hB
    subst hC
    exact ⟨rfl, rfl, by decide, by decide, by decide, by decide, by decide⟩
  · refine ⟨fun s' h => by simp at h, fun p m s' h => ?_, fun s' h => by simp at h⟩
    injection h with hA hB hC
    subst hA
    subst hB
    subst hC
    exact ⟨rfl, rfl, by decide, by decide, by decide, by decide, by decide⟩
  · refine ⟨fun s' h => ?_, fun p m s' h => by simp at h, fun s' h => by simp at h⟩
    injection h with hA
    subst hA
    exact ⟨rfl, by omega, by omega⟩

theorem epiChecks_ne_fuel (s : St) : ∀ s', epiChecks s ≠ .outOfFuel s' := by
  intro s' h
  unfold epiChecks at h
  split_ifs at h

theorem epiItemEnd_ne_fuel (S : St) (e : Encoding) :
    ∀ s', epilogue.epiItemEnd S e ≠ .outOfFuel s' := by
  intro s' h
  unfold epilogue.epiItemEnd at h
  split_ifs at h
  · exact epiChecks_ne_fuel _ s' h
  · exact epiChecks_ne_fuel _ s' h

theorem epiItemEnd_facts (S : St) (e : Encoding)
    (hcolS : 0 ≤ S.colLevel) (hdelS : 0 ≤ S.delimLevel) :
    (∀ s', epilogue.epiItemEnd S e = .ok s' →
      s'.colLevel = 0 ∧ s'.delimLevel = 0 ∧ s'.n = S.n ∧ s'.trace = S.trace ∧
      s'.events = S.events) ∧
    (∀ p m s', epilogue.epiItemEnd S e = .failAt p m s' →
      m ≠ E_NO_ERROR ∧ m ≠ E_Missing_UsagePage ∧ m ≠ E_Missing_named_UsagePage ∧
      m ≠ E_Missing_ReportSize ∧ m ≠ E_Missing_ReportCount ∧
      p = S.n ∧ s'.n = S.n ∧ s'.trace = S.trace ∧ 0 ≤ s'.colLevel ∧ 0 ≤ s'.delimLevel ∧
      s'.events = S.events) := by
  unfold epilogue.epiItemEnd
  split_ifs with h1 h2
  · refine ⟨fun s' h => by simp at h, fun p m s' h => ?_⟩
    injection h with hA hB hC
    subst hA
    subst hB
    subst hC
    exact ⟨by decide, by decide, by decide, by decide, by decide, rfl, rfl, rfl,
      hcolS, hdelS, rfl⟩
  · obtain ⟨k1, k2, _⟩ := epiChecks_facts { S with out := S.out ++ encodeUnsigned e.value }
      hcolS hdelS
    refine ⟨fun s' h => ?_, fun p m s' h => ?_⟩
    · obtain ⟨hs', hc0, hd0⟩ := k1 s' h
      subst hs'
      exact ⟨hc0, hd0, rfl, rfl, rfl⟩
    · obtain ⟨hs', hp, hm1, hm2, hm3, hm4, hm5⟩ := k2 p m s' h
      subst hs'
      subst hp
      exact ⟨hm1, hm2, hm3, hm4, hm5, rfl, rfl, rfl, hcolS, hdelS, rfl⟩
  · obtain ⟨k1, k2, _⟩ := epiChecks_facts S hcolS hdelS
    refine ⟨fun s' h => ?_, fun p m s' h => ?_⟩
    · obtain ⟨hs', hc0, hd0⟩ := k1 s' h
      subst hs'
      exact ⟨hc0, hd0, rfl, rfl, rfl⟩
    · obtain ⟨hs', hp, hm1, hm2, hm3, hm4, hm5⟩ := k2 p m s' h
      subst hs'
      subst hp
      exact ⟨hm1, hm2, hm3, hm4, hm5, rfl, rfl, rfl, hcolS, hdelS, rfl⟩

theorem epilogue_facts (src : List Nat) (s : St) (hs : stInv s) :
    (∀ s', epilogue src s = .ok s' →
      s'.colLevel = 0 ∧ s'.delimLevel = 0 ∧ s'.n = s.n ∧ s'.trace = s.trace ∧
      okPrefixes s'.events) ∧
    (∀ p m s', epilogue src s = .failAt p m s' →
      m ≠ E_NO_ERROR ∧ m ≠ E_Missing_UsagePage ∧ m ≠ E_Missing_named_UsagePage ∧
      p = s.n ∧ s'.n = s.n ∧ s'.trace = s.trace ∧ 0 ≤ s'.colLevel ∧ 0 ≤ s'.delimLevel ∧
      okPrefixes s'.events ∧
      (m = E_Missing_ReportSize → countRS s'.events < countRC s'.events) ∧
      (m = E_Missing_ReportCount → countRC s'.events < countRS s'.events)) ∧
    (∀ s', epilogue src s ≠ .outOfFuel s') := by
  obtain ⟨hwf, hcol, hdel, hrs, hrc, hok, hup⟩ := hs
  obtain ⟨e1, e2, e3, e4, e5, e6, e7, e8, e9⟩ := epiFlush_same s
  have hcolF : 0 ≤ (epiFlush s).colLevel := by rw [e1]; exact hcol
  have hdelF : 0 ≤ (epiFlush s).delimLevel := by rw [e2]; exact hdel
  have hokF : okPrefixes (epiFlush s).events := by rw [e5]; exact hok
  refine ⟨?_, ?_, ?_⟩
  · intro s' h
    simp only [epilogue] at h
    by_cases hIt : (epiFlush s).flags.inItem = true
    · rw [if_pos hIt] at h
      cases hfe : findEncoding (tokenBytes src (epiFlush s).tItem) itemMap with
      | fail u =>
        rw [hfe] at h
        dsimp only at h
        simp at h
      | found e =>
        rw [hfe] at h
        dsimp only at h
        split_ifs at h with g1 g2 g3 g4 g5 g6
        · obtain ⟨hc0, hd0, hn0, htr0, hev0⟩ :=
            (epiItemEnd_facts _ e (by dsimp only; omega) (by dsimp only; exact hdelF)).1 s' h
          refine ⟨hc0, hd0, by rw [hn0]; exact e3, by rw [htr0]; exact e4, ?_⟩
          rw [hev0]
          show okPrefixes ((epiFlush s).events ++ [Event.collection])
          exact okPrefixes_append _ _ hokF (by simp)
        · obtain ⟨hc0, hd0, hn0, htr0, hev0⟩ :=
            (epiItemEnd_facts _ e (by dsimp only; omega) (by dsimp only; exact hdelF)).1 s' h
          refine ⟨hc0, hd0, by rw [hn0]; exact e3, by rw [htr0]; exact e4, ?_⟩
          rw [hev0]
          show okPrefixes ((epiFlush s).events ++ [Event.endCollection])
          refine okPrefixes_append _ _ hokF (fun _ => ?_)
          have hx1 : (epiFlush s).reportSizes = (epiFlush s).reportCounts := by omega
          rw [e6, e7] at hx1
          rw [e5, ← hrs, ← hrc]
          exact hx1
        · obtain ⟨hc0, hd0, hn0, htr0, hev0⟩ :=
            (epiItemEnd_facts _ e (by dsimp only; exact hcolF)
              (by dsimp only; exact hdelF)).1 s' h
          refine ⟨hc0, hd0, by rw [hn0]; exact e3, by rw [htr0]; exact e4, ?_⟩
          rw [hev0]
          show okPrefixes (epiFlush s).events
          exact hokF
    · rw [if_neg hIt] at h
      obtain ⟨hs', hc0, hd0⟩ := (epiChecks_facts _ hcolF hdelF).1 s' h
      subst hs'
      exact ⟨hc0, hd0, e3, e4, hokF⟩
  · intro p m s' h
    simp only [epilogue] at h
    by_cases hIt : (epiFlush s).flags.inItem = true
    · rw [if_pos hIt] at h
      cases hfe : findEncoding (tokenBytes src (epiFlush s).tItem) itemMap with
      | fail u =>
        rw [hfe] at h
        dsimp only at h
        injection h with hA hB hC
        subst hA
        subst hB
        subst hC
        obtain ⟨q1, q2, q3, q4, q5⟩ := findFail_not_special _ _ u hfe
        exact ⟨q1, q2, q3, e3, e3, e4, hcolF, hdelF, hokF,
          fun hx => absurd hx q4, fun hx => absurd hx q5⟩
      | found e =>
        rw [hfe] at h
        dsimp only at h
        split_ifs at h with g1 g2 g3 g4 g5 g6
        · injection h with hA hB hC
          subst hA
          subst hB
          subst hC
          exact ⟨by decide, by decide, by decide, e3, e3, e4, hcolF, hdelF, hokF,
            fun hx => absurd hx (by decide), fun hx => absurd hx (by decide)⟩
        · obtain ⟨m1, m2, m3, m4, m5, hp, hn0, htr0, hc0, hd0, hev0⟩ :=
            (epiItemEnd_facts _ e (by dsimp only; omega) (by dsimp only; exact hdelF)).2
              p m s' h
          refine ⟨m1, m2, m3, by rw [hp]; exact e3, by rw [hn0]; exact e3,
            by rw [htr0]; exact e4, hc0, hd0, ?_,
            fun hx => absurd hx m4, fun hx => absurd hx m5⟩
          rw [hev0]
          show okPrefixes ((epiFlush s).events ++ [Event.collection])
          exact okPrefixes_append _ _ hokF (by simp)
        · injection h with hA hB hC
          subst hA
          subst hB
          subst hC
          exact ⟨by decide, by decide, by decide, e3, e3, e4, hcolF, hdelF, hokF,
            fun hx => absurd hx (by decide), fun hx => absurd hx (by decide)⟩
        · injection h with hA hB hC
          subst hA
          subst hB
          subst hC
          refine ⟨by decide, by decide, by decide, e3, e3, e4, hcolF, hdelF, hokF,
            fun _ => ?_, fun hx => absurd hx (by decide)⟩
          rw [e5, ← hrs, ← hrc]
          rw [e6, e7] at g5
          exact g5
        · injection h with hA hB hC
          subst hA
          subst hB
          subst hC
          refine ⟨by decide, by decide, by decide, e3, e3, e4, hcolF, hdelF, hokF,
            fun hx => absurd hx (by decide), fun _ => ?_⟩
          rw [e5, ← hrs, ← hrc]
          rw [e6, e7] at g6
          exact g6
        · obtain ⟨m1, m2, m3, m4, m5, hp, hn0, htr0, hc0, hd0, hev0⟩ :=
            (epiItemEnd_facts _ e (by dsimp only; omega) (by dsimp only; exact hdelF)).2
              p m s' h
          refine ⟨m1, m2, m3, by rw [hp]; exact e3, by rw [hn0]; exact e3,
            by rw [htr0]; exact e4, hc0, hd0, ?_,
            fun hx => absurd hx m4, fun hx => absurd hx m5⟩
          rw [hev0]
          show okPrefixes ((epiFlush s).events ++ [Event.endCollection])
          refine okPrefixes_append _ _ hokF (fun _ => ?_)
          have hx1 : (epiFlush s).reportSizes = (epiFlush s).reportCounts := by omega
          rw [e6, e7] at hx1
          rw [e5, ← hrs, ← hrc]
          exact hx1
        · obtain ⟨m1, m2, m3, m4, m5, hp, hn0, htr0, hc0, hd0, hev0⟩ :=
            (epiItemEnd_facts _ e (by dsimp only; exact hcolF)
              (by dsimp only; exact hdelF)).2 p m s' h
          refine ⟨m1, m2, m3, by rw [hp]; exact e3, by rw [hn0]; exact e3,
            by rw [htr0]; exact e4, hc0, hd0, ?_,
            fun hx => absurd hx m4, fun hx => absurd hx m5⟩
          rw [hev0]
          show okPrefixes (epiFlush s).events
          exact hokF
    · rw [if_neg hIt] at h
      obtain ⟨hs', hp, hm1, hm2, hm3, hm4, hm5⟩ :=
        (epiChecks_facts _ hcolF hdelF).2.1 p m s' h
      subst hs'
      subst hp
      exact ⟨hm1, hm2, hm3, e3, e3, e4, hcolF, hdelF, hokF,
        fun hx => absurd hx hm4, fun hx => absurd hx hm5⟩
  · intro s' h
    simp only [epilogue] at h
    by_cases hIt : (epiFlush s).flags.inItem = true
    · rw [if_pos hIt] at h
      cases hfe : findEncoding (tokenBytes src (epiFlush s).tItem) itemMap with
      | fail u =>
        rw [hfe] at h
        dsimp only at h
        simp at h
      | found e =>
        rw [hfe] at h
        dsimp only at h
        split_ifs at h
        all_goals exact epiItemEnd_ne_fuel _ e s' h
    · rw [if_neg hIt] at h
      exact epiChecks_ne_fuel _ s' h

theorem rank_init (src : List Nat) : rank src {} = 1 := rfl

theorem loopInv_init (src : List Nat) (len : Nat) : loopInv src len {} := by
  refine ⟨⟨⟨?_, ?_, ?_⟩, ?_, ?_, ?_, ?_, ?_, ?_⟩, ?_, ?_, ?_, ?_, ?_⟩
  · simp
  · simp
  · simp
  · exact le_refl 0
  · exact le_refl 0
  · rfl
  · rfl
  · intro t1 t2 hsplit
    exact absurd hsplit (by simp)
  · simp
  · intro k
    simp
  · rw [rank_init]
    simp
  · intro k hk
    simp
  · intro k hk
    have hk0 : k < 0 := hk
    exact absurd hk0 (by omega)
  · intro q hq
    exact absurd hq (by simp)

theorem compileC_facts (src : List Nat) (len : Nat) (params : List Param) :
    (∀ s', compileC src len params = .ok s' →
      s'.colLevel = 0 ∧ s'.delimLevel = 0 ∧ okPrefixes s'.events ∧
      (∀ k, s'.trace.count k ≤ 3) ∧
      (∀ q, q ∈ s'.trace → q < firstNul src len) ∧
      min s'.n len = firstNul src len) ∧
    (∀ p m s', compileC src len params = .failAt p m s' →
      m ≠ E_NO_ERROR ∧
      (m = E_Missing_UsagePage → Event.usagePage ∉ s'.events ∧ p = s'.n ∧
        (isWhitespace (byteAt src p) = true ∨ byteAt src p = 41 ∨ byteAt src p = 44)) ∧
      (m = E_Missing_named_UsagePage → Event.usagePage ∈ s'.events ∧ p = s'.n ∧
        (isWhitespace (byteAt src p) = true ∨ byteAt src p = 41 ∨ byteAt src p = 44)) ∧
      (m = E_Missing_ReportSize → countRS s'.events < countRC s'.events) ∧
      (m = E_Missing_ReportCount → countRC s'.events < countRS s'.events) ∧
      okPrefixes s'.events ∧
      (∀ k, s'.trace.count k ≤ 3) ∧
      (∀ q, q ∈ s'.trace → q < firstNul src len) ∧
      (firstNul src len < len → p ≤ firstNul src len) ∧
      0 ≤ s'.colLevel ∧ 0 ≤ s'.delimLevel) ∧
    (∀ s', compileC src len params ≠ .outOfFuel s') := by
  have hinit := loopInv_init src len
  obtain ⟨L1, L2, L3⟩ := loopAux_run src len params (stdFuel len) {} hinit
  refine ⟨?_, ?_, ?_⟩
  · intro s' h
    unfold compileC compileRun at h
    cases hl : loopAux src len params (stdFuel len) {} with
    | exitLoop sx =>
      rw [hl] at h
      dsimp only at h
      obtain ⟨⟨hsi, hc3, hbud, hab, hnul, htr⟩, hz⟩ := L1 sx hl
      obtain ⟨E1, E2, E3⟩ := epilogue_facts src sx hsi
      obtain ⟨hc0, hd0, hn0, htr0, hokv⟩ := E1 s' h
      refine ⟨hc0, hd0, hokv, ?_, ?_, ?_⟩
      · intro k
        rw [htr0]
        exact hc3 k
      · intro q hq
        rw [htr0] at hq
        obtain ⟨hqlen, hqnz⟩ := htr q hq
        exact firstNul_gt src len q hqlen hqnz
      · rw [hn0]
        rcases Nat.lt_or_ge sx.n len with hlt | hge
        · have h0 := hz hlt
          have hfn : firstNul src len = sx.n := firstNul_eq src len sx.n (by omega)
            (fun k hk => hnul k hk) (fun _ => h0)
          omega
        · have hfn : firstNul src len = len := firstNul_eq src len len (le_refl _)
            (fun k hk => hnul k (by omega)) (fun hlt2 => absurd hlt2 (by omega))
          omega
    | failAt p0 m0 sx =>
      rw [hl] at h
      dsimp only at h
      simp at h
    | outOfFuel sx =>
      rw [hl] at h
      dsimp only at h
      simp at h
  · intro p m s' h
    unfold compileC compileRun at h
    cases hl : loopAux src len params (stdFuel len) {} with
    | exitLoop sx =>
      rw [hl] at h
      dsimp only at h
      obtain ⟨⟨hsi, hc3, hbud, hab, hnul, htr⟩, hz⟩ := L1 sx hl
      obtain ⟨E1, E2, E3⟩ := epilogue_facts src sx hsi
      obtain ⟨m1, m2, m3, hp, hn0, htr0, hc0, hd0, hokv, hx1, hx2⟩ := E2 p m s' h
      refine ⟨m1, fun hx => absurd hx m2, fun hx => absurd hx m3, hx1, hx2, hokv,
        ?_, ?_, ?_, hc0, hd0⟩
      · intro k
        rw [htr0]
        exact hc3 k
      · intro q hq
        rw [htr0] at hq
        obtain ⟨hqlen, hqnz⟩ := htr q hq
        exact firstNul_gt src len q hqlen hqnz
      · intro hfl
        have h0 := firstNul_zero src len hfl
        have hge : sx.n ≤ firstNul src len := by
          by_contra hcon
          push_neg at hcon
          exact hnul _ hcon h0
        omega
    | failAt p0 m0 sx =>
      rw [hl] at h
      dsimp only at h
      injection h with hA hB hC
      subst hA
      subst hB
      subst hC
      obtain ⟨hsi, herr, hcnt, htrm, hnul, hgrd⟩ := L2 p0 m0 sx hl
      obtain ⟨o1, o2, o3, o4, o5, o6⟩ := herr
      obtain ⟨w1, w2, w3, w4, w5, w6, w7⟩ := hsi
      refine ⟨o1, ?_, ?_, ?_, ?_, w6, hcnt, ?_, ?_, w2, w3⟩
      · intro hx
        obtain ⟨hu, hpp, hterm2⟩ := o3 hx
        refine ⟨fun hmem => ?_, hpp, hterm2⟩
        have hcontra := w7.mpr hmem
        rw [hu] at hcontra
        exact absurd hcontra (by decide)
      · intro hx
        obtain ⟨hu, hpp, hterm2⟩ := o4 hx
        exact ⟨w7.mp hu, hpp, hterm2⟩
      · intro hx
        rw [← w4, ← w5]
        exact o5 hx
      · intro hx
        rw [← w4, ← w5]
        exact o6 hx
      · intro q hq
        obtain ⟨hqlen, hqnz⟩ := htrm q hq
        exact firstNul_gt src len q hqlen hqnz
      · intro hfl
        have h0 := firstNul_zero src len hfl
        have hge : sx.n ≤ firstNul src len := by
          by_contra hcon
          push_neg at hcon
          exact hnul _ hcon h0
        exact o2 hgrd.2 (firstNul src len) hge h0
    | outOfFuel sx =>
      rw [hl] at h
      dsimp only at h
      simp at h
  · intro s' h
    unfold compileC compileRun at h
    cases hl : loopAux src len params (stdFuel len) {} with
    | exitLoop sx =>
      rw [hl] at h
      dsimp only at h
      obtain ⟨⟨hsi, _, _, _, _, _⟩, _⟩ := L1 sx hl
      exact (epilogue_facts src sx hsi).2.2 s' h
    | failAt p0 m0 sx =>
      rw [hl] at h
      dsimp only at h
      simp at h
    | outOfFuel sx =>
      refine absurd hl (L3 ?_ sx)
      have h1 : rank src ({} : St) = 1 := rfl
      have h2 : ({} : St).n = 0 := rfl
      rw [h1, h2]
      simp [stdFuel]

theorem atStep_message (i : Info) (c : Nat) : (atStep i c).message = i.message := by
  simp only [atStep]
  split_ifs <;> rfl

theorem foldlAt_message : ∀ (l : List Nat) (i : Info),
    (l.foldl atStep i).message = i.message := by
  intro l
  induction l with
  | nil => intro i; rfl
  | cons c rest ih =>
    intro i
    rw [List.foldl_cons, ih, atStep_message]

theorem errorAt_message (src : List Nat) (p : Nat) (m : EMessage) :
    (errorAt src p m).message = m := by
  simp only [errorAt]
  rw [foldlAt_message]

/-- C3 (corrected): the `ReportSize`/`ReportCount` counters of `compile`
are global, never reset at `Collection`: every accepted `EndCollection`
has seen equally many `ReportSize` and `ReportCount` completions counted
from the start of the source (not from its own `Collection`), and a
`Missing_ReportSize` (resp. `Missing_ReportCount`) diagnostic is raised
exactly when the global `ReportSize` count is below (resp. above) the
global `ReportCount` count at that moment. -/
theorem C3_report_counters_are_global (src : List Nat) (len : Nat) (params : List Param) :
    okPrefixes (eventsOf (compileC src len params)) ∧
    (∀ p, errOf (compileC src len params) = some (p, E_Missing_ReportSize) →
      countRS (eventsOf (compileC src len params)) <
        countRC (eventsOf (compileC src len params))) ∧
    (∀ p, errOf (compileC src len params) = some (p, E_Missing_ReportCount) →
      countRC (eventsOf (compileC src len params)) <
        countRS (eventsOf (compileC src len params))) := by
  obtain ⟨F1, F2, F3⟩ := compileC_facts src len params
  cases hr : compileC src len params with
  | ok s' =>
    obtain ⟨_, _, hok, _, _, _⟩ := F1 s' hr
    refine ⟨hok, fun p hp => ?_, fun p hp => ?_⟩ <;> simp [errOf] at hp
  | failAt p0 m0 s' =>
    obtain ⟨_, _, _, h4, h5, hok, _⟩ := F2 p0 m0 s' hr
    refine ⟨hok, fun p hp => ?_, fun p hp => ?_⟩
    · simp [errOf] at hp
      exact h4 hp.2
    · simp [errOf] at hp
      exact h5 hp.2
  | outOfFuel s' => exact absurd hr (F3 s')

theorem C3_report_counters_are_global_witness :
    countRS (eventsOf (compileC
      (bs ("UsagePage(Button)Usage(1)Collection(Physical)ReportCount(1)EndCollection"))
      72 [])) <
    countRC (eventsOf (compileC
      (bs ("UsagePage(Button)Usage(1)Collection(Physical)ReportCount(1)EndCollection"))
      72 [])) :=
  (C3_report_counters_are_global
    (bs ("UsagePage(Button)Usage(1)Collection(Physical)ReportCount(1)EndCollection"))
    72 []).2.1 72 (by decide)

/-- C4 (corrected): when a named `Usage`-class argument cannot be
resolved, `Missing_UsagePage` is reported exactly when no `UsagePage`
item of any kind completed before (no `usagePage` ghost event), and
`Missing_named_UsagePage` exactly when some `UsagePage` item completed
but the sticky usage-page entry offers no usage-name table (a numeric
literal page, or a named page without a child map); both are reported at
the terminator character (whitespace, `)` or `,`) that ends the
argument, not at its start. -/
theorem C4_missing_usage_page_variants (src : List Nat) (len : Nat) (params : List Param)
    (p : Nat) :
    (errOf (compileC src len params) = some (p, E_Missing_UsagePage) →
      Event.usagePage ∉ eventsOf (compileC src len params) ∧
      (isWhitespace (byteAt src p) = true ∨ byteAt src p = 41 ∨ byteAt src p = 44)) ∧
    (errOf (compileC src len params) = some (p, E_Missing_named_UsagePage) →
      Event.usagePage ∈ eventsOf (compileC src len params) ∧
      (isWhitespace (byteAt src p) = true ∨ byteAt src p = 41 ∨ byteAt src p = 44)) := by
  obtain ⟨F1, F2, F3⟩ := compileC_facts src len params
  cases hr : compileC src len params with
  | ok s' =>
    refine ⟨fun hp => ?_, fun hp => ?_⟩ <;> simp [errOf] at hp
  | failAt p0 m0 s' =>
    obtain ⟨_, h2, h3, _⟩ := F2 p0 m0 s' hr
    refine ⟨fun hp => ?_, fun hp => ?_⟩
    · simp [errOf] at hp
      obtain ⟨hpe, hme⟩ := hp
      subst hpe
      obtain ⟨hmem, _, hterm⟩ := h2 hme
      exact ⟨hmem, hterm⟩
    · simp [errOf] at hp
      obtain ⟨hpe, hme⟩ := hp
      subst hpe
      obtain ⟨hmem, _, hterm⟩ := h3 hme
      exact ⟨hmem, hterm⟩
  | outOfFuel s' => exact absurd hr (F3 s')

theorem C4_missing_usage_page_variants_witness :
    Event.usagePage ∉ eventsOf (compileC (bs ("Usage(X)")) 8 []) ∧
    Event.usagePage ∈ eventsOf (compileC (bs ("UsagePage(0x01)Usage(X)")) 23 []) :=
  ⟨((C4_missing_usage_page_variants (bs ("Usage(X)")) 8 [] 7).1 (by decide)).1,
   ((C4_missing_usage_page_variants (bs ("UsagePage(0x01)Usage(X)")) 23 [] 22).2
     (by decide)).1⟩

/-- C6 (confirmed): the collection and delimiter depth counters stay
nonnegative on every run (a decrement at depth 0 is rejected before it
happens), both are zero in the final state of every successful run, and
at the end-of-source checks a positive collection depth yields
`Missing_EndCollection` while a zero collection depth with positive
delimiter depth yields `Missing_DelimiterClose`. -/
theorem C6_depth_counters (src : List Nat) (len : Nat) (params : List Param) :
    (isOk (compileC src len params) = true →
      colOf (compileC src len params) = 0 ∧ delimOf (compileC src len params) = 0) ∧
    (0 ≤ colOf (compileC src len params) ∧ 0 ≤ delimOf (compileC src len params)) ∧
    (∀ s : St, 0 ≤ s.colLevel → 0 ≤ s.delimLevel →
      ((epiChecks s = .failAt s.n E_Missing_EndCollection s ↔ 0 < s.colLevel) ∧
       (epiChecks s = .failAt s.n E_Missing_DelimiterClose s ↔
         s.colLevel = 0 ∧ 0 < s.delimLevel))) := by
  obtain ⟨F1, F2, F3⟩ := compileC_facts src len params
  refine ⟨?_, ?_, ?_⟩
  · intro hok
    cases hr : compileC src len params with
    | ok s' =>
      obtain ⟨hc, hd, _⟩ := F1 s' hr
      exact ⟨hc, hd⟩
    | failAt p m s' =>
      rw [hr] at hok
      simp [isOk] at hok
    | outOfFuel s' => exact absurd hr (F3 s')
  · cases hr : compileC src len params with
    | ok s' =>
      obtain ⟨hc, hd, _⟩ := F1 s' hr
      exact ⟨by show (0:Int) ≤ s'.colLevel; omega, by show (0:Int) ≤ s'.delimLevel; omega⟩
    | failAt p m s' =>
      obtain ⟨_, _, _, _, _, _, _, _, _, hc0, hd0⟩ := F2 p m s' hr
      exact ⟨hc0, hd0⟩
    | outOfFuel s' => exact absurd hr (F3 s')
  · intro t hcolt hdelt
    unfold epiChecks
    split_ifs with h1 h2 h3
    · exact ⟨⟨fun _ => h1, fun _ => rfl⟩,
        ⟨fun hx => by simp at hx, fun hx => absurd h1 (by omega)⟩⟩
    · exact ⟨⟨fun hx => by simp at hx, fun hx => absurd hx h1⟩,
        ⟨fun _ => by omega, fun _ => rfl⟩⟩
    · exact ⟨⟨fun hx => by simp at hx, fun hx => absurd hx h1⟩,
        ⟨fun hx => by simp at hx, fun hx => absurd hx (by omega)⟩⟩
    · exact ⟨⟨fun hx => by simp at hx, fun hx => absurd hx h1⟩,
        ⟨fun hx => by simp at hx, fun hx => absurd hx (by omega)⟩⟩

theorem C6_depth_counters_witness :
    (colOf (compileC (bs (" ")) 1 []) = 0 ∧ delimOf (compileC (bs (" ")) 1 []) = 0) ∧
    epiChecks { colLevel := 1 } =
      CompileRes.failAt ({ colLevel := 1 } : St).n E_Missing_EndCollection
        { colLevel := 1 } :=
  ⟨(C6_depth_counters (bs (" ")) 1 []).1 (by decide),
   ((C6_depth_counters (bs (" ")) 1 []).2.2 { colLevel := 1 } (by decide)
     (by decide)).1.mpr (by decide)⟩

/-- C8 (corrected): with the canonical fuel `3*len + 2` the scan loop of
`compile` always terminates before exhausting its fuel, and every source
byte position is dispatched on at most three times - the reprocessing
`continue` transitions can revisit the same byte twice after its first
inspection, so the bound of the original claim is three, not two. -/
theorem C8_termination_and_inspection_bound (src : List Nat) (len : Nat)
    (params : List Param) :
    fuelOut (compileC src len params) = false ∧
    (∀ k, (traceOf (compileC src len params)).count k ≤ 3) := by
  obtain ⟨F1, F2, F3⟩ := compileC_facts src len params
  cases hr : compileC src len params with
  | ok s' =>
    obtain ⟨_, _, _, hc3, _, _⟩ := F1 s' hr
    exact ⟨rfl, fun k => hc3 k⟩
  | failAt p m s' =>
    obtain ⟨_, _, _, _, _, _, hc3, _⟩ := F2 p m s' hr
    exact ⟨rfl, fun k => hc3 k⟩
  | outOfFuel s' => exact absurd hr (F3 s')

/-- C9 (confirmed): `compile` returns true exactly when the resulting
diagnostic message is `No_error`; on success the caller's diagnostic is
the default record, and every failure is the result of a single
`ErrorWriter::at` call on the recorded position and message of the one
error that stopped the scan. -/
theorem C9_result_iff_no_error (src : List Nat) (len : Nat) (params : List Param) :
    ((compileFull src len params).1 = true ↔
      (compileFull src len params).2.message = E_NO_ERROR) ∧
    ((compileFull src len params).1 = true → (compileFull src len params).2 = {}) ∧
    ((compileFull src len params).1 = false →
      ∃ p m, m ≠ E_NO_ERROR ∧ (compileFull src len params).2 = errorAt src p m ∧
        errOf (compileC src len params) = some (p, m)) := by
  obtain ⟨F1, F2, F3⟩ := compileC_facts src len params
  unfold compileFull
  cases hr : compileC src len params with
  | ok s' =>
    dsimp only
    exact ⟨⟨fun _ => rfl, fun _ => rfl⟩, fun _ => rfl, fun hx => by simp at hx⟩
  | failAt p0 m0 s' =>
    obtain ⟨hm, _⟩ := F2 p0 m0 s' hr
    dsimp only
    refine ⟨⟨fun hx => by simp at hx, fun hx => ?_⟩, fun hx => by simp at hx,
      fun _ => ⟨p0, m0, hm, rfl, rfl⟩⟩
    rw [errorAt_message] at hx
    exact absurd hx hm
  | outOfFuel s' => exact absurd hr (F3 s')

theorem C9_result_iff_no_error_witness :
    (compileFull (bs (" ")) 1 []).2 = {} ∧
    (∃ p m, m ≠ E_NO_ERROR ∧ (compileFull (bs ("(")) 1 []).2 = errorAt (bs ("(")) p m ∧
      errOf (compileC (bs ("(")) 1 []) = some (p, m)) :=
  ⟨(C9_result_iff_no_error (bs (" ")) 1 []).2.1 (by decide),
   (C9_result_iff_no_error (bs ("(")) 1 []).2.2 (by decide)⟩

/-- C10 (corrected): the scan loop dispatches only on byte positions
strictly before the first NUL of the source, a successful run leaves the
cursor exactly at the first NUL (or at `len` when there is none), and an
error position never lies beyond the first NUL - but it can lie AT the
first NUL: the two-byte `0x` lookahead reads the byte at the NUL offset
and can classify it (e.g. `Invalid_hex_value`) instead of reaching the
end-of-source handling. -/
theorem C10_stops_at_first_nul (src : List Nat) (len : Nat) (params : List Param) :
    (∀ q, q ∈ traceOf (compileC src len params) → q < firstNul src len) ∧
    (isOk (compileC src len params) = true →
      min (nOf (compileC src len params)) len = firstNul src len) ∧
    (∀ p m, errOf (compileC src len params) = some (p, m) →
      firstNul src len < len → p ≤ firstNul src len) := by
  obtain ⟨F1, F2, F3⟩ := compileC_facts src len params
  cases hr : compileC src len params with
  | ok s' =>
    obtain ⟨_, _, _, _, htr, hmin⟩ := F1 s' hr
    refine ⟨fun q hq => ?_, fun _ => ?_, fun p m hp => ?_⟩
    · exact htr q hq
    · exact hmin
    · simp [errOf] at hp
  | failAt p0 m0 s' =>
    obtain ⟨_, _, _, _, _, _, _, htr, hple, _, _⟩ := F2 p0 m0 s' hr
    refine ⟨fun q hq => ?_, fun hok => ?_, fun p m hp => ?_⟩
    · exact htr q hq
    · simp [isOk] at hok
    · simp [errOf] at hp
      obtain ⟨hpe, hme⟩ := hp
      subst hpe
      exact hple
  | outOfFuel s' => exact absurd hr (F3 s')

theorem C10_stops_at_first_nul_witness :
    min (nOf (compileC (bs ("Push") ++ [0, 65]) 6 [])) 6 =
      firstNul (bs ("Push") ++ [0, 65]) 6 ∧
    (2 ≤ firstNul (bs ("0x") ++ [0]) 3) ∧
    (0 < firstNul (bs ("Push") ++ [0, 65]) 6) :=
  ⟨(C10_stops_at_first_nul (bs ("Push") ++ [0, 65]) 6 []).2.1 (by decide),
   (C10_stops_at_first_nul (bs ("0x") ++ [0]) 3 []).2.2 2 E_Invalid_hex_value
     (by decide) (by decide),
   (C10_stops_at_first_nul (bs ("Push") ++ [0, 65]) 6 []).1 0 (by decide)⟩

end HidDesc

